import Mathlib

/-!
# RP15 disk pack controller (PDP18B/pdp18b_rp.c): the disk address

The disk address register `rp_da` packs the cylinder, the surface and the sector of a disk
address; `rp_svc` writes the address of the sector after the transfer back to it.
-/

namespace RP15

/-! ## Constants and macros of pdp18b_rp.c -/

def RP_NUMWD : Nat := 256
def RP_NUMSC : Nat := 10
def RP_NUMSF : Nat := 20
def RP_NUMCY : Nat := 203

def DA_V_SECT : Nat := 0
def DA_M_SECT : Nat := 0o17
def DA_V_SURF : Nat := 5
def DA_M_SURF : Nat := 0o37
def DA_V_CYL : Nat := 10
def DA_M_CYL : Nat := 0o377

/-- The macro `GET_SECT(x)`. -/
def GET_SECT (x : Nat) : Nat := (x >>> DA_V_SECT) &&& DA_M_SECT
/-- The macro `GET_SURF(x)`. -/
def GET_SURF (x : Nat) : Nat := (x >>> DA_V_SURF) &&& DA_M_SURF
/-- The macro `GET_CYL(x)`. -/
def GET_CYL (x : Nat) : Nat := (x >>> DA_V_CYL) &&& DA_M_CYL
/-- The macro `GET_DA(x)`: the sector number of a disk address. -/
def GET_DA (x : Nat) : Nat := ((GET_CYL x * RP_NUMSF) + GET_SURF x) * RP_NUMSC + GET_SECT x

/-- The disk address that `rp_svc` writes back to `rp_da` at the end of a data transfer,
from the final sector number `da` (not negative): the statements from `cyl = da / ...` to
`rp_da = ...`. -/
def rp_svc_rp_da (da : Nat) : Nat :=
  let cyl := da / (RP_NUMSC * RP_NUMSF)
  let cyl := if cyl ≥ RP_NUMCY then RP_NUMCY - 1 else cyl
  let surf := (da % (RP_NUMSC * RP_NUMSF)) / RP_NUMSC
  let sect := (da % (RP_NUMSC * RP_NUMSF)) % RP_NUMSC
  (cyl <<< DA_V_CYL) ||| (surf <<< DA_V_SURF) ||| (sect <<< DA_V_SECT)

end RP15

/-!
# WD179X floppy-disk controller (AltairZ80/wd179x.c): shallow embedding

The controller state `WD179X_INFO`, the sector buffer `sdata.raw`, the interrupt bus and the
drives are one explicit record that every operation takes and returns.  Machine integers are
natural numbers reduced modulo `2^w` where the C code can overflow; `step_dir` is an `Int`.
The ImageDisk library, the simulator's file primitives and the constants of headers that are
not part of this module are gathered in the record `Env`, over an abstract type `Img` of disk
images, so every theorem holds for every behaviour of these collaborators.
-/

namespace WD179X

/-! ## Constants of wd179x.c -/

def CROMFDC_SIM_100US : Nat := 291
def CROMFDC_8IN_ROT : Nat := 167 * CROMFDC_SIM_100US
def CROMFDC_5IN_ROT : Nat := 200 * CROMFDC_SIM_100US

def WD179X_MAX_DRIVES : Nat := 4
def WD179X_SECTOR_LEN : Nat := 8192
def WD179X_MAX_SEC_LEN : Nat := 6
def WD179X_MAX_SECTOR : Nat := 26

def WD179X_STAT_NOT_READY : Nat := 0x80
def WD179X_STAT_WPROT : Nat := 0x40
def WD179X_STAT_HLD : Nat := 0x20
def WD179X_STAT_SEEK_ERROR : Nat := 0x10
def WD179X_STAT_CRC_ERROR : Nat := 0x08
def WD179X_STAT_TRACK0 : Nat := 0x04
def WD179X_STAT_INDEX : Nat := 0x02
def WD179X_STAT_BUSY : Nat := 0x01
def WD179X_STAT_REC_TYPE : Nat := 0x20
def WD179X_STAT_NOT_FOUND : Nat := 0x10
def WD179X_STAT_LOST_DATA : Nat := 0x04
def WD179X_STAT_DRQ : Nat := 0x02

def FMT_GAP1 : Nat := 1
def FMT_GAP2 : Nat := 2
def FMT_GAP3 : Nat := 3
def FMT_GAP4 : Nat := 4
def FMT_HEADER : Nat := 5
def FMT_DATA : Nat := 6

def WD179X_RESTORE : Nat := 0x00
def WD179X_SEEK : Nat := 0x10
def WD179X_STEP : Nat := 0x20
def WD179X_STEP_U : Nat := 0x30
def WD179X_STEP_IN : Nat := 0x40
def WD179X_STEP_IN_U : Nat := 0x50
def WD179X_STEP_OUT : Nat := 0x60
def WD179X_STEP_OUT_U : Nat := 0x70
def WD179X_READ_REC : Nat := 0x80
def WD179X_READ_RECS : Nat := 0x90
def WD179X_WRITE_REC : Nat := 0xA0
def WD179X_WRITE_RECS : Nat := 0xB0
def WD179X_READ_ADDR : Nat := 0xC0
def WD179X_FORCE_INTR : Nat := 0xD0
def WD179X_READ_TRACK : Nat := 0xE0
def WD179X_WRITE_TRACK : Nat := 0xF0

def TRUE : Nat := 1
def FALSE : Nat := 0

/-- Modelled from the spec: the port offsets of wd179x.h, which is not part of the sources
at hand; the register port map gives offset 0 to Status/Command. -/
def WD179X_STATUS : Nat := 0
/-- Modelled from the spec: port offset 1 is the Track register (wd179x.h is missing). -/
def WD179X_TRACK : Nat := 1
/-- Modelled from the spec: port offset 2 is the Sector register (wd179x.h is missing). -/
def WD179X_SECTOR : Nat := 2
/-- Modelled from the spec: port offset 3 is the Data register (wd179x.h is missing). -/
def WD179X_DATA : Nat := 3

/-- Table of the maximum number of sectors per track for format, `[density][N]`. -/
def max_sectors_per_track (d n : Nat) : Nat :=
  (([[26, 15, 8, 4, 2, 1, 0], [26, 26, 15, 8, 4, 2, 1]] : List (List Nat)).getD d []).getD n 0

/-! ## Data model -/

/-- Value of `uptr->u3`: the kind of image behind a unit. -/
inductive ImageType where
  | IMD
  | DSK
  | OTHER
  deriving DecidableEq, Repr

/-- One drive (`WD179X_DRIVE_INFO`).  `uptr` and `fileref` record whether the pointers
`uptr` and `uptr->fileref` are non-NULL; `u3` and `capac` are the fields of the unit; `imd`
is the disk image (the `DISK_INFO` and the file behind it), owned by the collaborators. -/
structure WD179X_DRIVE_INFO (Img : Type) where
  uptr : Bool
  fileref : Bool
  u3 : ImageType
  capac : Nat
  imd : Img
  ntracks : Nat
  nheads : Nat
  sectsize : Nat
  track : Nat
  ready : Nat

/-- Calls of the three storage routines `wd179x_sectRead`, `wd179x_sectWrite` and
`wd179x_trackWrite` and of `sim_activate`, in the order they are made (a ghost record).  An
event is recorded when the routine is entered, with the arguments it is called with (for
`trackWrite` together with the sector count, the sector length and the sector map it reads from
the controller); it does not say that the routine got past its own tests to the image library
or the file.  What reaches the image is the field `imd` of the drive. -/
inductive Event where
  | sectRead (Cyl Head Sector buflen : Nat)
  | sectWrite (Cyl Head Sector : Nat) (buf : List Nat)
  | trackWrite (Cyl Head fillbyte numSectors sectorLen : Nat) (sectormap : List Nat)
  | sim_activate (ticks : Nat)
  deriving DecidableEq, Repr

/-- The controller (`WD179X_INFO`), together with the globals the module works on: the
sector buffer `sdata.raw` (field `raw`), `vectorInterrupt` and `dataBus`, and two ghost
fields: the record `trace` of the calls made so far, and the flag `overrun`, set once a
statement has stored at `sdata.raw[i]` with `i >= WD179X_SECTOR_LEN`, outside the array
`uint8 raw[WD179X_SECTOR_LEN]`.  The field `raw` is indexed by all of `Nat`; the C program has
no defined behaviour after such a store, so a state with `overrun = true` says nothing about
it. -/
structure WD179X_INFO (Img : Type) where
  fdctype : Nat
  intenable : Nat
  intvector : Nat
  intrq : Nat
  hld : Nat
  drq : Nat
  ddens : Nat
  fdc_head : Nat
  sel_drive : Nat
  drivetype : Nat
  fdc_status : Nat
  verify : Nat
  fdc_data : Nat
  fdc_read : Nat
  fdc_write : Nat
  fdc_write_track : Nat
  fdc_fmt_state : Nat
  fdc_gap : Nat → Nat
  fdc_fmt_sector_count : Nat
  fdc_sectormap : Nat → Nat
  fdc_header_index : Nat
  fdc_read_addr : Nat
  fdc_multiple : Nat
  fdc_datacount : Nat
  fdc_dataindex : Nat
  index_pulse_wait : Nat
  fdc_sector : Nat
  fdc_sec_len : Nat
  step_dir : Int
  cmdtype : Nat
  external_fifo_len : Nat
  external_fifo : Nat → Nat
  fdc_fifo_index : Nat
  drive : Nat → WD179X_DRIVE_INFO Img
  raw : Nat → Nat
  vectorInterrupt : Nat
  dataBus : Nat → Nat
  trace : List Event
  overrun : Bool

/-- The collaborators of the controller.  `MAX_CYL` and `IMD_MODE_MFM` come from sim_imd.h;
`imd_sectsize img t h` and `imd_mode img t h` read `imd->track[t][h]`; `sectSeek` is true when
the library answers `SCPE_OK`; `sectRead` gives the status (true for `SCPE_OK`) and the bytes
it stored at the start of the buffer; `sectWrite` and `trackWrite` give the image afterwards;
`sim_fseek`, `sim_fread`, `sim_fwrite` and `sim_fsize` are the file primitives on the file of
the image, addressed by the offset sought. -/
structure Env (Img : Type) where
  MAX_CYL : Nat
  IMD_MODE_MFM : Nat → Nat
  imd_sectsize : Img → Nat → Nat → Nat
  imd_mode : Img → Nat → Nat → Nat
  imd_ntracks : Img → Nat
  sectSeek : Img → Nat → Nat → Bool
  sectRead : Img → Nat → Nat → Nat → Nat → Bool × List Nat
  sectWrite : Img → Nat → Nat → Nat → List Nat → Img
  trackWrite : Img → Nat → Nat → Nat → Nat → (Nat → Nat) → Nat → Nat → Img
  sim_fseek : Img → Nat → Bool
  sim_fread : Img → Nat → Nat → List Nat
  sim_fwrite : Img → Nat → List Nat → Nat → Img
  sim_fsize : Img → Nat

variable {Img : Type}

/-- The macro `WD179X_SECTOR_LEN_BYTES`: `(unsigned)(128 << fdc_sec_len)`. -/
def WD179X_SECTOR_LEN_BYTES (s : WD179X_INFO Img) : Nat :=
  (128 <<< s.fdc_sec_len) % 2 ^ 32

/-- The selected drive, `pDrive = &wd179x_info->drive[wd179x_info->sel_drive]`. -/
def pDrive (s : WD179X_INFO Img) : WD179X_DRIVE_INFO Img :=
  s.drive s.sel_drive

/-- Store through `pDrive`: replace the selected drive. -/
def setDrive (s : WD179X_INFO Img) (d : WD179X_DRIVE_INFO Img) : WD179X_INFO Img :=
  { s with drive := fun i => if i = s.sel_drive then d else s.drive i }

/-- The assignment `pDrive->track = t`. -/
def setTrack (s : WD179X_INFO Img) (t : Nat) : WD179X_INFO Img :=
  setDrive s { pDrive s with track := t }

/-- The statements `vectorInterrupt |= (1 << intvector); dataBus[intvector] = intvector * 2;`
under `if (wd179x_info->intenable)`, for an interrupt vector below 32, the width of
`vectorInterrupt`: for `intvector >= 32` the shift has no defined value in C, and the value
given here (the bit is dropped) is not that of the program. -/
def raiseInterrupt (s : WD179X_INFO Img) : WD179X_INFO Img :=
  if s.intenable ≠ 0 then
    { s with
      vectorInterrupt := (s.vectorInterrupt ||| (1 <<< s.intvector)) % 2 ^ 32
      dataBus := fun i => if i = s.intvector then (s.intvector * 2) % 256 else s.dataBus i }
  else s

/-- Computes log2(n) of a 32-bit unsigned `n`; 0xFF is the error return value.  The pairs
`n1, r1`, ... are the values of `n` and `r` after each `if` of the source. -/
def floorlog2 (n : Nat) : Nat :=
  let n1 := if n ≥ 1 <<< 16 then n >>> 16 else n
  let r1 := if n ≥ 1 <<< 16 then 0 + 16 else 0
  let n2 := if n1 ≥ 1 <<< 8 then n1 >>> 8 else n1
  let r2 := if n1 ≥ 1 <<< 8 then r1 + 8 else r1
  let n3 := if n2 ≥ 1 <<< 4 then n2 >>> 4 else n2
  let r3 := if n2 ≥ 1 <<< 4 then r2 + 4 else r2
  let n4 := if n3 ≥ 1 <<< 2 then n3 >>> 2 else n3
  let r4 := if n3 ≥ 1 <<< 2 then r3 + 2 else r3
  let r5 := if n4 ≥ 1 <<< 1 then r4 + 1 else r4
  if n4 = 0 then 0xFF else r5

/-- Sector length code of the track under the head; the `uint8` result of
`floorlog2(sectsize) - 7` wraps modulo 256. -/
def computeSectorSize (E : Env Img) (s : WD179X_INFO Img) : Nat :=
  if (pDrive s).u3 = ImageType.IMD then
    if (pDrive s).track < E.MAX_CYL then
      (floorlog2 (E.imd_sectsize (pDrive s).imd (pDrive s).track s.fdc_head) + 256 - 7) % 256
    else 0xF8
  else 0

/-- Density check: non-zero when the mode of the track differs from the density input. -/
def testMode (E : Env Img) (s : WD179X_INFO Img) : Nat :=
  if (pDrive s).u3 = ImageType.IMD then
    if (pDrive s).track < E.MAX_CYL then
      if E.IMD_MODE_MFM (E.imd_mode (pDrive s).imd (pDrive s).track s.fdc_head) ≠ s.ddens
      then 1 else 0
    else 0
  else 0

/-- The bytes `buf[0 .. len-1]` of the sector buffer. -/
def bufBytes (raw : Nat → Nat) (len : Nat) : List Nat :=
  (List.range len).map raw

/-- Bytes stored at the start of the sector buffer by a read of the image. -/
def storeBytes (raw : Nat → Nat) (data : List Nat) : Nat → Nat :=
  fun i => data.getD i (raw i)

/-- The `uint32` value of `(26 * 128 * Cyl) + ((Sector - 1) * 128)`. -/
def sec_offset (Cyl Sector : Nat) : Nat :=
  (26 * 128 * Cyl + Sector * 128 + (2 ^ 32 - 128)) % 2 ^ 32

/-- The read of one sector into `sdata.raw`.  The first component of `r` is
`status == SCPE_OK`, the second the buffer after the read. -/
def wd179x_sectRead (E : Env Img) (s0 : WD179X_INFO Img) (Cyl Head Sector buflen : Nat) :
    WD179X_INFO Img :=
  let s := { s0 with trace := s0.trace ++ [Event.sectRead Cyl Head Sector buflen] }
  let d := pDrive s
  let len := WD179X_SECTOR_LEN_BYTES s
  let r : Bool × (Nat → Nat) :=
    if d.fileref = false then (false, s.raw)
    else if buflen < len then (false, s.raw)
    else match d.u3 with
      | ImageType.IMD =>
        ((E.sectRead d.imd Cyl Head Sector len).1,
          storeBytes s.raw (E.sectRead d.imd Cyl Head Sector len).2)
      | ImageType.DSK =>
        if s.ddens = 1 ∧ s.fdc_sec_len = 0 then (false, s.raw)
        else if E.sim_fseek d.imd (sec_offset Cyl Sector) = true then
          (decide ((E.sim_fread d.imd (sec_offset Cyl Sector) len).length = len),
            storeBytes s.raw (E.sim_fread d.imd (sec_offset Cyl Sector) len))
        else (false, s.raw)
      | ImageType.OTHER => (true, s.raw)
  let s := { s with raw := r.2 }
  if r.1 = true then
    let s := { s with
      fdc_status := WD179X_STAT_DRQ ||| WD179X_STAT_BUSY
      drq := 1
      intrq := 0
      fdc_datacount := WD179X_SECTOR_LEN_BYTES s % 65536
      fdc_dataindex := 0
      fdc_read := TRUE
      fdc_read_addr := FALSE }
    if s.external_fifo_len ≠ 0 then
      { s with
        external_fifo := fun i =>
          if s.fdc_fifo_index ≤ i ∧ i < s.fdc_fifo_index + (128 <<< s.fdc_sec_len)
          then s.raw (i - s.fdc_fifo_index) else s.external_fifo i
        fdc_fifo_index :=
          ((s.fdc_fifo_index + (128 <<< s.fdc_sec_len)) % 65536) &&& (s.external_fifo_len - 1) }
    else s
  else
    { s with
      fdc_status := 0 ||| WD179X_STAT_NOT_FOUND
      drq := 0
      intrq := 1
      fdc_read := FALSE
      fdc_read_addr := FALSE }

/-- The write of `sdata.raw` to one sector; the callers discard the status returned.  The
entry is recorded in `trace`; the image changes only when the routine gets past its tests: a
file is attached, the buffer is long enough, and the image is an ImageDisk image (library
`sectWrite`) or a DSK image not addressed in double density with 128-byte sectors (`sim_fseek`,
`sim_fwrite`). -/
def wd179x_sectWrite (E : Env Img) (s0 : WD179X_INFO Img) (Cyl Head Sector buflen : Nat) :
    WD179X_INFO Img :=
  let s := { s0 with
    trace := s0.trace ++ [Event.sectWrite Cyl Head Sector (bufBytes s0.raw buflen)] }
  let d := pDrive s
  let len := WD179X_SECTOR_LEN_BYTES s
  if d.fileref = false then s
  else if buflen < len then s
  else match d.u3 with
    | ImageType.IMD =>
      setDrive s { d with imd := E.sectWrite d.imd Cyl Head Sector (bufBytes s.raw len) }
    | ImageType.DSK =>
      if s.ddens = 1 ∧ s.fdc_sec_len = 0 then s
      else if E.sim_fseek d.imd (sec_offset Cyl Sector) = true then
        setDrive s { d with
          imd := E.sim_fwrite d.imd (sec_offset Cyl Sector) (bufBytes s.raw len) len }
      else s
    | ImageType.OTHER => s

/-- The format of one track; for a DSK image every sector `0 .. count-1` is filled from the
128-byte `Fillbuf`.  The callers discard the status returned.  The entry is recorded in
`trace`; the image changes only when a file is attached: for an ImageDisk image the library
`trackWrite` gets the sector count, the sector length, the sector map, the mode and the fill
byte, for a DSK image the sector map is not used. -/
def wd179x_trackWrite (E : Env Img) (s0 : WD179X_INFO Img) (Cyl Head fillbyte : Nat) :
    WD179X_INFO Img :=
  let s := { s0 with
    trace := s0.trace ++ [Event.trackWrite Cyl Head fillbyte s0.fdc_fmt_sector_count
      (WD179X_SECTOR_LEN_BYTES s0) (bufBytes s0.fdc_sectormap s0.fdc_fmt_sector_count)] }
  let d := pDrive s
  let len := WD179X_SECTOR_LEN_BYTES s
  if d.fileref = false then s
  else match d.u3 with
    | ImageType.IMD =>
      setDrive s { d with
        imd := E.trackWrite d.imd Cyl Head s.fdc_fmt_sector_count len s.fdc_sectormap
          (if s.ddens ≠ 0 then 3 else 0) fillbyte }
    | ImageType.DSK =>
      if s.ddens = 1 ∧ s.fdc_sec_len = 0 then s
      else
        setDrive s { d with
          imd := (List.range s.fdc_fmt_sector_count).foldl
            (fun img Sector =>
              if E.sim_fseek img ((26 * 128 * Cyl + 128 * Sector) % 2 ^ 32) = true then
                E.sim_fwrite img ((26 * 128 * Cyl + 128 * Sector) % 2 ^ 32)
                  (List.replicate 128 fillbyte) len
              else img)
            d.imd }
    | ImageType.OTHER => s

/-! ## Command processing (`Do1793Command`) -/

/-- The case labels of the Type I commands in the `switch` statements on
`cCommand & 0xF0`. -/
def isTypeI (cCommand : Nat) : Prop :=
  cCommand &&& 0xF0 = WD179X_RESTORE ∨ cCommand &&& 0xF0 = WD179X_SEEK
    ∨ cCommand &&& 0xF0 = WD179X_STEP ∨ cCommand &&& 0xF0 = WD179X_STEP_U
    ∨ cCommand &&& 0xF0 = WD179X_STEP_IN ∨ cCommand &&& 0xF0 = WD179X_STEP_IN_U
    ∨ cCommand &&& 0xF0 = WD179X_STEP_OUT ∨ cCommand &&& 0xF0 = WD179X_STEP_OUT_U

/-- The case labels of the Type II commands. -/
def isTypeII (cCommand : Nat) : Prop :=
  cCommand &&& 0xF0 = WD179X_READ_REC ∨ cCommand &&& 0xF0 = WD179X_READ_RECS
    ∨ cCommand &&& 0xF0 = WD179X_WRITE_REC ∨ cCommand &&& 0xF0 = WD179X_WRITE_RECS

/-- The case labels of the Type III commands. -/
def isTypeIII (cCommand : Nat) : Prop :=
  cCommand &&& 0xF0 = WD179X_READ_ADDR ∨ cCommand &&& 0xF0 = WD179X_READ_TRACK
    ∨ cCommand &&& 0xF0 = WD179X_WRITE_TRACK

instance (c : Nat) : Decidable (isTypeI c) := by
  unfold isTypeI; exact inferInstance

instance (c : Nat) : Decidable (isTypeII c) := by
  unfold isTypeII; exact inferInstance

instance (c : Nat) : Decidable (isTypeIII c) := by
  unfold isTypeIII; exact inferInstance

/-- Stage 1 of `Do1793Command`: the first `switch`, which extracts the type-specific command
flags and sets the initial conditions. -/
def Do1793Command_setup (cCommand : Nat) (s : WD179X_INFO Img) : WD179X_INFO Img :=
  if isTypeI cCommand then
    let s := { s with cmdtype := 1 }
    let s := { s with fdc_status := s.fdc_status ||| WD179X_STAT_BUSY }
    let s := { s with fdc_status := s.fdc_status &&&
      (0xFF - (WD179X_STAT_CRC_ERROR ||| WD179X_STAT_SEEK_ERROR ||| WD179X_STAT_DRQ)) }
    let s := { s with intrq := 0, hld := cCommand &&& 0x08, verify := cCommand &&& 0x04 }
    if s.fdctype = 1795 then { s with fdc_head := (cCommand &&& 0x02) >>> 1 } else s
  else if isTypeII cCommand then
    let s := { s with cmdtype := 2, fdc_status := WD179X_STAT_BUSY, intrq := 0, hld := 1 }
    if s.fdctype = 1795 then { s with fdc_head := (cCommand &&& 0x02) >>> 1 } else s
  else if isTypeIII cCommand then
    { s with cmdtype := 3 }
  else if cCommand &&& 0xF0 = WD179X_FORCE_INTR then
    { s with cmdtype := 4 }
  else
    { s with cmdtype := 0 }

/-- The test `(fdc_sec_len == 0xF8) || (fdc_sec_len > WD179X_MAX_SEC_LEN)`. -/
def invalidSecLen (n : Nat) : Prop :=
  n = 0xF8 ∨ n > WD179X_MAX_SEC_LEN

instance (n : Nat) : Decidable (invalidSecLen n) := by
  unfold invalidSecLen; exact inferInstance

/-- The case `WD179X_READ_REC`/`WD179X_READ_RECS` of the second `switch`.  The first
component is `some 0xFF` when the function returns early. -/
def Do1793Command_read (E : Env Img) (cCommand : Nat) (s : WD179X_INFO Img) :
    Option Nat × WD179X_INFO Img :=
  let s := { s with fdc_sec_len := computeSectorSize E s }
  if invalidSecLen s.fdc_sec_len then
    (some 0xFF, { s with
      fdc_status := (s.fdc_status ||| WD179X_STAT_NOT_FOUND) &&& (0xFF - WD179X_STAT_BUSY)
      intrq := 1
      drq := 0
      fdc_sec_len := 0 })
  else
    let s := { s with fdc_multiple := if cCommand &&& 0x10 ≠ 0 then TRUE else FALSE }
    if testMode E s ≠ 0 then
      (none, { s with
        fdc_status := (s.fdc_status ||| WD179X_STAT_NOT_FOUND) &&& (0xFF - WD179X_STAT_BUSY)
        intrq := 1
        drq := 0 })
    else
      (none, wd179x_sectRead E s (pDrive s).track s.fdc_head s.fdc_sector
        (WD179X_SECTOR_LEN_BYTES s))

/-- The case `WD179X_WRITE_REC` of the second `switch`. -/
def Do1793Command_write (E : Env Img) (s : WD179X_INFO Img) : WD179X_INFO Img :=
  let s := { s with fdc_sec_len := computeSectorSize E s }
  let s := if invalidSecLen s.fdc_sec_len then { s with fdc_sec_len := 0 } else s
  let s := { s with
    fdc_status := s.fdc_status ||| WD179X_STAT_DRQ
    drq := 1
    fdc_datacount := WD179X_SECTOR_LEN_BYTES s % 65536
    fdc_dataindex := 0
    fdc_write := TRUE
    fdc_write_track := FALSE
    fdc_read := FALSE
    fdc_read_addr := FALSE }
  let s := { s with raw := fun i => if i = s.fdc_dataindex then s.fdc_data else s.raw i }
  if s.external_fifo_len ≠ 0 then
    let s := { s with
      fdc_status := s.fdc_status &&& (0xFF - (WD179X_STAT_DRQ ||| WD179X_STAT_BUSY))
      drq := 0
      intrq := 1 }
    let s := raiseInterrupt s
    let s := { s with
      raw := fun i =>
        if i < 128 <<< s.fdc_sec_len then s.external_fifo (s.fdc_fifo_index + i) else s.raw i }
    let s := { s with
      fdc_fifo_index :=
        ((s.fdc_fifo_index + (128 <<< s.fdc_sec_len)) % 65536) &&& (s.external_fifo_len - 1) }
    let s := wd179x_sectWrite E s (pDrive s).track s.fdc_head s.fdc_sector
      (128 <<< s.fdc_sec_len)
    { s with fdc_write := FALSE }
  else s

/-- The case `WD179X_READ_ADDR` of the second `switch`. -/
def Do1793Command_readAddr (E : Env Img) (s : WD179X_INFO Img) : WD179X_INFO Img :=
  let s := if (pDrive s).track = 0xFF then setTrack s 0 else s
  let s := { s with fdc_sec_len := computeSectorSize E s }
  let s := if invalidSecLen s.fdc_sec_len then { s with fdc_sec_len := 0 } else s
  if testMode E s ≠ 0 then
    { s with fdc_status := WD179X_STAT_NOT_FOUND, intrq := 1 }
  else if (pDrive s).u3 = ImageType.DSK ∧ s.ddens = 1 ∧ s.fdc_sec_len = 0 then
    { s with fdc_status := WD179X_STAT_NOT_FOUND, intrq := 1 }
  else
    let s := { s with
      fdc_status := WD179X_STAT_DRQ ||| WD179X_STAT_BUSY
      drq := 1
      fdc_datacount := 6
      fdc_dataindex := 0
      fdc_read := TRUE
      fdc_read_addr := TRUE }
    let s := { s with
      raw := fun i =>
        if i = 0 then (pDrive s).track
        else if i = 1 then s.fdc_head
        else if i = 2 then s.fdc_sector
        else if i = 3 then s.fdc_sec_len
        else if i = 4 then 0xAA
        else if i = 5 then 0x55
        else s.raw i }
    { s with
      fdc_sector := (pDrive s).track
      fdc_status := s.fdc_status &&& (0xFF - WD179X_STAT_BUSY)
      intrq := 1 }

/-- The case `WD179X_WRITE_TRACK` of the second `switch`. -/
def Do1793Command_writeTrack (s : WD179X_INFO Img) : WD179X_INFO Img :=
  { s with
    fdc_status := s.fdc_status ||| WD179X_STAT_DRQ
    drq := 1
    fdc_datacount := WD179X_SECTOR_LEN_BYTES s % 65536
    fdc_dataindex := 0
    fdc_write := FALSE
    fdc_write_track := TRUE
    fdc_read := FALSE
    fdc_read_addr := FALSE
    fdc_fmt_state := FMT_GAP1
    fdc_fmt_sector_count := 0 }

/-- The case `WD179X_FORCE_INTR` of the second `switch`. -/
def Do1793Command_forceIntr (E : Env Img) (cCommand : Nat) (s : WD179X_INFO Img) :
    WD179X_INFO Img :=
  if cCommand &&& 0x0F = 0 then
    { s with
      fdc_status := s.fdc_status &&& (0xFF - (WD179X_STAT_DRQ ||| WD179X_STAT_BUSY))
      drq := 0
      fdc_write := FALSE
      fdc_read := FALSE
      fdc_write_track := FALSE
      fdc_read_addr := FALSE
      fdc_datacount := 0
      fdc_dataindex := 0 }
  else
    let s := if s.fdc_status &&& WD179X_STAT_BUSY ≠ 0 then s else { s with fdc_status := 0 }
    let s :=
      if cCommand &&& 0x04 ≠ 0 then
        let s := { s with index_pulse_wait := TRUE }
        if s.sel_drive < WD179X_MAX_DRIVES then
          if (pDrive s).u3 = ImageType.IMD then
            { s with trace := s.trace ++ [Event.sim_activate
                (if E.imd_ntracks (pDrive s).imd % 77 = 0 then CROMFDC_8IN_ROT
                 else CROMFDC_5IN_ROT)] }
          else
            { s with trace := s.trace ++ [Event.sim_activate CROMFDC_8IN_ROT] }
        else s
      else
        raiseInterrupt { s with intrq := 1 }
    { s with fdc_status := s.fdc_status &&& (0xFF - WD179X_STAT_BUSY) }

/-- Stage 2 of `Do1793Command`: the second `switch`, the execution phase.  The first
component is `some r` when the function returns `r` from inside the `switch`. -/
def Do1793Command_exec (E : Env Img) (cCommand : Nat) (s : WD179X_INFO Img) :
    Option Nat × WD179X_INFO Img :=
  if cCommand &&& 0xF0 = WD179X_RESTORE then
    (none, { setTrack s 0 with intrq := 1 })
  else if cCommand &&& 0xF0 = WD179X_SEEK then
    (none, setTrack s s.fdc_data)
  else if cCommand &&& 0xF0 = WD179X_STEP then
    (none, s)
  else if cCommand &&& 0xF0 = WD179X_STEP_U then
    if s.step_dir = 1 then
      if (pDrive s).track < E.MAX_CYL - 1 then (none, setTrack s (((pDrive s).track + 1) % 256))
      else (none, s)
    else if s.step_dir = -1 then
      if (pDrive s).track > 0 then (none, setTrack s ((pDrive s).track - 1))
      else (none, s)
    else (none, s)
  else if cCommand &&& 0xF0 = WD179X_STEP_IN then
    (none, s)
  else if cCommand &&& 0xF0 = WD179X_STEP_IN_U then
    let s :=
      if (pDrive s).track < E.MAX_CYL - 1 then setTrack s (((pDrive s).track + 1) % 256) else s
    (none, { s with step_dir := 1 })
  else if cCommand &&& 0xF0 = WD179X_STEP_OUT then
    (none, s)
  else if cCommand &&& 0xF0 = WD179X_STEP_OUT_U then
    let s := if (pDrive s).track > 0 then setTrack s ((pDrive s).track - 1) else s
    (none, { s with step_dir := -1 })
  else if cCommand &&& 0xF0 = WD179X_READ_REC ∨ cCommand &&& 0xF0 = WD179X_READ_RECS then
    Do1793Command_read E cCommand s
  else if cCommand &&& 0xF0 = WD179X_WRITE_RECS then
    (none, s)
  else if cCommand &&& 0xF0 = WD179X_WRITE_REC then
    (none, Do1793Command_write E s)
  else if cCommand &&& 0xF0 = WD179X_READ_ADDR then
    (none, Do1793Command_readAddr E s)
  else if cCommand &&& 0xF0 = WD179X_READ_TRACK then
    (none, s)
  else if cCommand &&& 0xF0 = WD179X_WRITE_TRACK then
    (none, Do1793Command_writeTrack s)
  else if cCommand &&& 0xF0 = WD179X_FORCE_INTR then
    (none, Do1793Command_forceIntr E cCommand s)
  else
    (none, s)

/-- Stage 3 of `Do1793Command`: the third `switch`, the post processing of the command. -/
def Do1793Command_post (E : Env Img) (cCommand : Nat) (s : WD179X_INFO Img) :
    WD179X_INFO Img :=
  if isTypeI cCommand then
    let s :=
      if s.verify ≠ 0 then
        if (pDrive s).u3 = ImageType.IMD then
          if E.sectSeek (pDrive s).imd (pDrive s).track s.fdc_head = false then
            { s with fdc_status := s.fdc_status ||| WD179X_STAT_NOT_FOUND }
          else if testMode E s ≠ 0 then
            { s with fdc_status := s.fdc_status ||| WD179X_STAT_NOT_FOUND }
          else s
        else s
      else s
    let s :=
      if (pDrive s).track = 0 then
        { s with fdc_status := s.fdc_status ||| WD179X_STAT_TRACK0 }
      else
        { s with fdc_status := s.fdc_status &&& (0xFF - WD179X_STAT_TRACK0) }
    let s := { s with fdc_status := s.fdc_status &&& (0xFF - WD179X_STAT_BUSY), intrq := 1 }
    let s := raiseInterrupt s
    { s with drq := 1 }
  else if isTypeII cCommand ∨ isTypeIII cCommand then
    let s := { s with fdc_status := s.fdc_status &&& (0xFF - WD179X_STAT_BUSY) }
    let s := if s.intenable ≠ 0 then raiseInterrupt { s with intrq := 1 } else s
    { s with drq := 1 }
  else s

/-- The command handler: the result byte and the state afterwards. -/
def Do1793Command (E : Env Img) (cCommand : Nat) (s : WD179X_INFO Img) :
    Nat × WD179X_INFO Img :=
  if s.sel_drive ≥ WD179X_MAX_DRIVES then (0xFF, s)
  else if (pDrive s).uptr = false then (0xFF, s)
  else if s.fdc_status &&& WD179X_STAT_BUSY ≠ 0 then (0xFF, s)
  else
    let s := { s with fdc_status := s.fdc_status &&& (0xFF - WD179X_STAT_NOT_READY) }
    let s := Do1793Command_setup cCommand s
    match Do1793Command_exec E cCommand s with
    | (some r, s) => (r, s)
    | (none, s) => (0, Do1793Command_post E cCommand s)

/-! ## Port interface (`WD179X_Read`, `WD179X_Write`) -/

/-- The case `WD179X_DATA` of `WD179X_Read`: the byte returned and the state afterwards. -/
def WD179X_Read_data (E : Env Img) (s : WD179X_INFO Img) : Nat × WD179X_INFO Img :=
  if s.fdc_read = TRUE then
    if s.fdc_dataindex < s.fdc_datacount then
      let s := { s with fdc_status := s.fdc_status &&& (0xFF - WD179X_STAT_BUSY) }
      let cData := s.raw s.fdc_dataindex
      let s := { s with fdc_dataindex := (s.fdc_dataindex + 1) % 65536 }
      if s.fdc_dataindex = s.fdc_datacount then
        if s.fdc_multiple = FALSE then
          (cData, { s with
            fdc_status := s.fdc_status &&& (0xFF - (WD179X_STAT_DRQ ||| WD179X_STAT_BUSY))
            drq := 0
            intrq := 1
            fdc_read := FALSE
            fdc_read_addr := FALSE })
        else
          let s := { s with fdc_sec_len := computeSectorSize E s }
          if invalidSecLen s.fdc_sec_len then
            (cData, { s with fdc_sec_len := 0 })
          else
            let s := { s with fdc_sector := (s.fdc_sector + 1) % 256 }
            if (pDrive s).fileref = false then (cData, s)
            else
              (cData, wd179x_sectRead E s (pDrive s).track s.fdc_head s.fdc_sector
                (WD179X_SECTOR_LEN_BYTES s))
      else (cData, s)
    else (0xFF, s)
  else (0xFF, s)

/-- Read of a port: the byte returned and the state afterwards. -/
def WD179X_Read (E : Env Img) (Addr : Nat) (s : WD179X_INFO Img) : Nat × WD179X_INFO Img :=
  if s.sel_drive ≥ WD179X_MAX_DRIVES then (0xFF, s)
  else if Addr &&& 0x3 = WD179X_STATUS then
    let s :=
      if s.cmdtype = 0 ∨ s.cmdtype = 1 ∨ s.cmdtype = 4 then
        let s := { s with fdc_status := s.fdc_status ^^^ WD179X_STAT_INDEX }
        let s := { s with fdc_status := s.fdc_status &&& (0xFF - WD179X_STAT_TRACK0) }
        { s with fdc_status :=
            s.fdc_status ||| (if (pDrive s).track = 0 then WD179X_STAT_TRACK0 else 0) }
      else if s.cmdtype = 4 then s
      else
        let s := { s with fdc_status := s.fdc_status &&& (0xFF - WD179X_STAT_INDEX) }
        { s with fdc_status := s.fdc_status ||| (if s.drq ≠ 0 then WD179X_STAT_DRQ else 0) }
    let cData := (if (pDrive s).ready = 0 then WD179X_STAT_NOT_READY else 0) ||| s.fdc_status
    let s := { s with intrq := 0 }
    let s :=
      if s.intenable ≠ 0 then
        { s with vectorInterrupt :=
            s.vectorInterrupt &&& (2 ^ 32 - 1 - (1 <<< s.intvector) % 2 ^ 32) }
      else s
    (cData, s)
  else if Addr &&& 0x3 = WD179X_TRACK then ((pDrive s).track, s)
  else if Addr &&& 0x3 = WD179X_SECTOR then (s.fdc_sector, s)
  else if Addr &&& 0x3 = WD179X_DATA then WD179X_Read_data E s
  else (0x00, s)

/-- The block `if (wd179x_info->fdc_write == TRUE)` of the case `WD179X_DATA` of
`WD179X_Write`. -/
def WD179X_Write_sector (E : Env Img) (cData : Nat) (s : WD179X_INFO Img) : WD179X_INFO Img :=
  if s.fdc_write = TRUE then
    if s.fdc_dataindex < s.fdc_datacount then
      let s := { s with raw := fun i => if i = s.fdc_dataindex then cData else s.raw i }
      let s := { s with fdc_dataindex := (s.fdc_dataindex + 1) % 65536 }
      if s.fdc_dataindex = s.fdc_datacount then
        let s := { s with
          fdc_status := s.fdc_status &&& (0xFF - (WD179X_STAT_DRQ ||| WD179X_STAT_BUSY))
          drq := 0
          intrq := 1 }
        let s := raiseInterrupt s
        let s := wd179x_sectWrite E s (pDrive s).track s.fdc_head s.fdc_sector
          (WD179X_SECTOR_LEN_BYTES s)
        { s with fdc_write := FALSE }
      else s
    else s
  else s

/-- The `uint8` increment `fdc_gap[k]++`. -/
def incGap (s : WD179X_INFO Img) (k : Nat) : WD179X_INFO Img :=
  { s with fdc_gap := fun i => if i = k then (s.fdc_gap k + 1) % 256 else s.fdc_gap i }

/-- The assignment `fdc_gap[k] = 0`. -/
def clearGap (s : WD179X_INFO Img) (k : Nat) : WD179X_INFO Img :=
  { s with fdc_gap := fun i => if i = k then 0 else s.fdc_gap i }

/-- The end of a sector in the format data state: the branch taken when the byte 0xF7
arrives while `fdc_fmt_state == FMT_DATA`. -/
def WD179X_Write_endSector (E : Env Img) (s : WD179X_INFO Img) : WD179X_INFO Img :=
  let s := { s with fdc_sec_len := (floorlog2 s.fdc_dataindex + 256 - 7) % 256 }
  let s := if invalidSecLen s.fdc_sec_len then { s with fdc_sec_len := 0 } else s
  let s :=
    if s.fdc_fmt_sector_count ≥ WD179X_MAX_SECTOR then { s with fdc_fmt_sector_count := 0 }
    else s
  let s := { s with
    fdc_sectormap := fun i => if i = s.fdc_fmt_sector_count then s.fdc_sector
      else s.fdc_sectormap i }
  let s := { s with fdc_fmt_sector_count := (s.fdc_fmt_sector_count + 1) % 256 }
  let s := { clearGap s 1 with fdc_fmt_state := FMT_GAP2 }
  if s.fdc_fmt_sector_count = max_sectors_per_track (s.ddens &&& 1) s.fdc_sec_len then
    let s := wd179x_trackWrite E s (pDrive s).track s.fdc_head (s.raw 0)
    let s := { s with
      fdc_status := s.fdc_status &&& (0xFF - (WD179X_STAT_BUSY ||| WD179X_STAT_LOST_DATA))
      drq := 0
      intrq := 1 }
    let s := raiseInterrupt s
    setDrive s { pDrive s with capac := E.sim_fsize (pDrive s).imd }
  else s

/-- The block `if (wd179x_info->fdc_write_track == TRUE)` of the case `WD179X_DATA` of
`WD179X_Write`: the format state machine, one byte per call.  In the state DATA the source
stores the byte at `sdata.raw[fdc_dataindex]` without a test of the index; a store at an index
of `WD179X_SECTOR_LEN` or more lies outside the array and sets the ghost flag `overrun`. -/
def WD179X_Write_track (E : Env Img) (cData : Nat) (s : WD179X_INFO Img) : WD179X_INFO Img :=
  if s.fdc_write_track = TRUE then
    if s.fdc_fmt_state = FMT_GAP1 then
      if cData ≠ 0xFC then incGap s 0
      else { clearGap s 1 with fdc_fmt_state := FMT_GAP2 }
    else if s.fdc_fmt_state = FMT_GAP2 then
      if cData ≠ 0xFE then incGap s 1
      else { clearGap s 2 with fdc_fmt_state := FMT_HEADER, fdc_header_index := 0 }
    else if s.fdc_fmt_state = FMT_HEADER then
      if s.fdc_header_index = 5 then
        { clearGap s 2 with fdc_fmt_state := FMT_GAP3 }
      else
        let s1 :=
          if s.fdc_header_index = 0 then setTrack s cData
          else if s.fdc_header_index = 1 then { s with fdc_head := cData }
          else if s.fdc_header_index = 2 then { s with fdc_sector := cData }
          else s
        { s1 with fdc_header_index := (s1.fdc_header_index + 1) % 256 }
    else if s.fdc_fmt_state = FMT_GAP3 then
      if cData ≠ 0xFB then incGap s 2
      else { s with fdc_fmt_state := FMT_DATA, fdc_dataindex := 0 }
    else if s.fdc_fmt_state = FMT_DATA then
      if cData ≠ 0xF7 then
        { s with
          raw := fun i => if i = s.fdc_dataindex then cData else s.raw i
          fdc_dataindex := (s.fdc_dataindex + 1) % 65536
          overrun := s.overrun || decide (WD179X_SECTOR_LEN ≤ s.fdc_dataindex) }
      else WD179X_Write_endSector E s
    else s
  else s

/-- The statements of the case `WD179X_STATUS` of `WD179X_Write` that precede the call
of `Do1793Command`: the transfer flags and the cursor are cleared and the interrupt is
raised when enabled. -/
def WD179X_Write_clear (s : WD179X_INFO Img) : WD179X_INFO Img :=
  raiseInterrupt { s with
    fdc_read := FALSE
    fdc_write := FALSE
    fdc_write_track := FALSE
    fdc_datacount := 0
    fdc_dataindex := 0 }

/-- Write of a port: the byte returned and the state afterwards. -/
def WD179X_Write (E : Env Img) (Addr cData : Nat) (s : WD179X_INFO Img) :
    Nat × WD179X_INFO Img :=
  if s.sel_drive ≥ WD179X_MAX_DRIVES then (0xFF, s)
  else if (pDrive s).uptr = false then (0xFF, s)
  else if Addr &&& 0x3 = WD179X_STATUS then
    (0, (Do1793Command E cData (WD179X_Write_clear s)).2)
  else if Addr &&& 0x3 = WD179X_TRACK then (0, setTrack s cData)
  else if Addr &&& 0x3 = WD179X_SECTOR then (0, { s with fdc_sector := cData })
  else if Addr &&& 0x3 = WD179X_DATA then
    let s := WD179X_Write_sector E cData s
    let s := WD179X_Write_track E cData s
    (0, { s with fdc_data := cData })
  else (0, s)

/-- Unit service routine `wd179x_svc`, which generates the INDEX pulse asked for by a
FORCE_INTR command (called with a non-NULL unit). -/
def wd179x_svc (s : WD179X_INFO Img) : WD179X_INFO Img :=
  if s.index_pulse_wait = TRUE then { s with index_pulse_wait := FALSE, intrq := 1 } else s

/-! ## A concrete machine

An ImageDisk image of 77 cylinders, one side, 26 sectors of 128 bytes recorded in FM, in drive 0
of a freshly attached controller, with the library answering as it does for such an image.
`MAX_CYL` is 80 there. -/

/-- The collaborators for the 77-cylinder single-sided FM image. -/
def demoEnv : Env Unit where
  MAX_CYL := 80
  IMD_MODE_MFM := fun x => if x ≥ 3 then 1 else 0
  imd_sectsize := fun _ _ _ => 128
  imd_mode := fun _ _ _ => 0
  imd_ntracks := fun _ => 77
  sectSeek := fun _ Cyl Head => decide (Cyl < 77 ∧ Head < 1)
  sectRead := fun _ Cyl Head Sector len =>
    (decide (Cyl < 77 ∧ Head < 1 ∧ 1 ≤ Sector ∧ Sector ≤ 26), List.replicate len 0xE5)
  sectWrite := fun img _ _ _ _ => img
  trackWrite := fun img _ _ _ _ _ _ _ => img
  sim_fseek := fun _ _ => true
  sim_fread := fun _ _ len => List.replicate len 0xE5
  sim_fwrite := fun img _ _ _ => img
  sim_fsize := fun _ => 77 * 26 * 128

/-- Drive 0 once the image is attached. -/
def demoDrive : WD179X_DRIVE_INFO Unit :=
  { uptr := true, fileref := true, u3 := ImageType.IMD, capac := 256256, imd := (),
    ntracks := 0, nheads := 1, sectsize := 0, track := 0, ready := 1 }

/-- A drive without an image. -/
def noDrive : WD179X_DRIVE_INFO Unit :=
  { uptr := false, fileref := false, u3 := ImageType.OTHER, capac := 0, imd := (),
    ntracks := 0, nheads := 0, sectsize := 0, track := 0, ready := 0 }

/-- The controller after the attach of the image to drive 0: every register is zero. -/
def demoState : WD179X_INFO Unit :=
  { fdctype := 1793, intenable := 0, intvector := 0, intrq := 0, hld := 0, drq := 0, ddens := 0,
    fdc_head := 0, sel_drive := 0, drivetype := 0, fdc_status := 0, verify := 0, fdc_data := 0,
    fdc_read := 0, fdc_write := 0, fdc_write_track := 0, fdc_fmt_state := 0,
    fdc_gap := fun _ => 0, fdc_fmt_sector_count := 0, fdc_sectormap := fun _ => 0,
    fdc_header_index := 0, fdc_read_addr := 0, fdc_multiple := 0, fdc_datacount := 0,
    fdc_dataindex := 0, index_pulse_wait := 0, fdc_sector := 0, fdc_sec_len := 0, step_dir := 0,
    cmdtype := 0, external_fifo_len := 0, external_fifo := fun _ => 0, fdc_fifo_index := 0,
    drive := fun i => if i = 0 then demoDrive else noDrive, raw := fun _ => 0,
    vectorInterrupt := 0, dataBus := fun _ => 0, trace := [], overrun := false }

/-- The state after `n` successive reads of the Data port. -/
def readData (n : Nat) (s : WD179X_INFO Unit) : WD179X_INFO Unit :=
  Nat.iterate (fun s => (WD179X_Read demoEnv WD179X_DATA s).2) n s

/-- The state in the middle of a multi-sector read: READ_RECS is issued for sector 1 of track 0
and the 128 bytes of the sector are read, so that the controller has fetched sector 2. -/
def busyState : WD179X_INFO Unit :=
  readData 128 (WD179X_Write demoEnv WD179X_STATUS 0x90
    (WD179X_Write demoEnv WD179X_SECTOR 1 demoState).2).2

/-! ## Predicates on states -/

/-- A valid attached drive is selected. -/
def validDrive (s : WD179X_INFO Img) : Prop :=
  s.sel_drive < WD179X_MAX_DRIVES ∧ (pDrive s).uptr = true

/-- The controller accepts a command: a valid attached drive is selected and BUSY is clear. -/
def idle (s : WD179X_INFO Img) : Prop :=
  validDrive s ∧ s.fdc_status &&& WD179X_STAT_BUSY = 0

/-- The verification of a Type I command fails: the Verify flag is latched, the image is an
ImageDisk image, and the track under the head cannot be sought or has the other density. -/
def verifyFails (E : Env Img) (s : WD179X_INFO Img) : Prop :=
  s.verify ≠ 0 ∧ (pDrive s).u3 = ImageType.IMD ∧
    (E.sectSeek (pDrive s).imd (pDrive s).track s.fdc_head = false ∨ testMode E s ≠ 0)

instance (s : WD179X_INFO Img) : Decidable (validDrive s) := by
  unfold validDrive; exact inferInstance

instance (s : WD179X_INFO Img) : Decidable (idle s) := by
  unfold idle; exact inferInstance

instance (E : Env Img) (s : WD179X_INFO Img) : Decidable (verifyFails E s) := by
  unfold verifyFails; exact inferInstance

/-- The controller as the module initialises it (`wd179x_info_data`): controller type 1793, all
else zero, no unit behind any drive. -/
def wd179x_info_data : WD179X_INFO Unit :=
  { demoState with drive := fun _ => noDrive }


/-- No image is attached to the selected drive: the drive is not ready.  `wd179x_attach` sets
`ready = 1` as its last step and `wd179x_detach` sets `ready = 0`.  The unit pointer is NULL
on a drive that never saw an attach; `wd179x_detach`, and an attach that fails on the length of
a DSK image, leave the unit pointer set. -/
def noImage (s : WD179X_INFO Img) : Prop :=
  s.sel_drive < WD179X_MAX_DRIVES ∧ (pDrive s).ready = 0

instance (s : WD179X_INFO Img) : Decidable (noImage s) := by
  unfold noImage; exact inferInstance

/-- Drive 0 of the demo machine after `wd179x_detach`: the unit pointer stays, the file is
closed and the drive is not ready. -/
def detachedDrive : WD179X_DRIVE_INFO Unit :=
  { demoDrive with fileref := false, ready := 0 }

/-- The demo machine after the detach of the image of drive 0. -/
def detachedState : WD179X_INFO Unit :=
  { demoState with drive := fun i => if i = 0 then detachedDrive else noDrive }

/-- The bytes returned by `n` successive reads of the Data port, and the state afterwards. -/
def dataReads (E : Env Img) : Nat → WD179X_INFO Img → List Nat × WD179X_INFO Img
  | 0, s => ([], s)
  | n + 1, s =>
    ((WD179X_Read E WD179X_DATA s).1 :: (dataReads E n (WD179X_Read E WD179X_DATA s).2).1,
      (dataReads E n (WD179X_Read E WD179X_DATA s).2).2)

/-- A density mismatch for READ_ADDR: the mode of the addressed track differs from the density
input (`testMode`), or a DSK image, whose 128-byte sectors are taken as single density, is
addressed in double density. -/
def densityMismatch (E : Env Img) (s : WD179X_INFO Img) : Prop :=
  testMode E s ≠ 0 ∨
    ((pDrive s).u3 = ImageType.DSK ∧ s.ddens = 1 ∧ computeSectorSize E s = 0)

instance (E : Env Img) (s : WD179X_INFO Img) : Decidable (densityMismatch E s) := by
  unfold densityMismatch; exact inferInstance

/-- The collaborators for an image like that of `demoEnv` but with 256-byte sectors. -/
def demoEnv256 : Env Unit :=
  { demoEnv with imd_sectsize := fun _ _ _ => 256 }

/-- The states `s'` that differ from `s` at most in the status register, `intrq`, `drq` and
the interrupt bus. -/
def statusFrame (s s' : WD179X_INFO Img) : Prop :=
  ∃ st iq dq v db, s' = { s with
    fdc_status := st, intrq := iq, drq := dq, vectorInterrupt := v, dataBus := db }

/-- A multi-sector read transfer is in progress on the open image of a valid drive: the
state that an accepted READ_RECS command leaves behind and that the reads of the Data port
keep while the transfer lasts (`fdc_datacount` is a `uint16`). -/
def multiRead (s : WD179X_INFO Img) : Prop :=
  s.sel_drive < WD179X_MAX_DRIVES ∧ (pDrive s).fileref = true ∧ s.fdc_read = TRUE ∧
    s.fdc_multiple = TRUE ∧ s.fdc_datacount < 65536

instance (s : WD179X_INFO Img) : Decidable (multiRead s) := by
  unfold multiRead; exact inferInstance

/-- The state after READ_RECS for sector 1 of track 0 and 127 reads of the Data port: the next
read delivers the last byte of the sector. -/
def lastByteState : WD179X_INFO Unit :=
  readData 127 (WD179X_Write demoEnv WD179X_STATUS 0x90
    (WD179X_Write demoEnv WD179X_SECTOR 1 demoState).2).2

/-- The state after the bytes of a list are written to the Data port one after the other. -/
def dataWrites (E : Env Img) (bytes : List Nat) (s : WD179X_INFO Img) : WD179X_INFO Img :=
  bytes.foldl (fun s b => (WD179X_Write E WD179X_DATA b s).2) s

/-- The sector buffer after the bytes of a list are stored from index `idx` on, one per
statement `sdata.raw[fdc_dataindex] = cData`. -/
def storeFrom (raw : Nat → Nat) : Nat → List Nat → Nat → Nat
  | _, [] => raw
  | idx, b :: l => storeFrom (fun i => if i = idx then b else raw i) (idx + 1) l

/-- One sector of a format stream as the format state machine parses it: the byte 0xFC, gap
bytes, the ID address mark 0xFE, the five header bytes (`sec` is header[2]), one more byte
that the header state consumes, gap bytes, the data address mark 0xFB, the data bytes and the
closing 0xF7. -/
structure FmtSector where
  gap2 : List Nat
  cyl : Nat
  head : Nat
  sec : Nat
  len : Nat
  crc : Nat
  pad : Nat
  gap3 : List Nat
  data : List Nat

/-- The bytes of a sector of a format stream up to, but without, the closing 0xF7. -/
def FmtSector.body (r : FmtSector) : List Nat :=
  0xFC :: (r.gap2 ++ 0xFE :: r.cyl :: r.head :: r.sec :: r.len :: r.crc :: r.pad ::
    (r.gap3 ++ 0xFB :: r.data))

/-- The bytes of a sector of a format stream. -/
def FmtSector.bytes (r : FmtSector) : List Nat :=
  r.body ++ [0xF7]

/-- Well-formed sector for the length code `N`: the first gap is free of 0xFE, the second gap
is free of 0xFB, and there are `128 << N` data bytes, free of 0xF7. -/
def FmtSector.wf (N : Nat) (r : FmtSector) : Prop :=
  (∀ b ∈ r.gap2, b ≠ 0xFE) ∧ (∀ b ∈ r.gap3, b ≠ 0xFB) ∧
    r.data.length = 128 <<< N ∧ (∀ b ∈ r.data, b ≠ 0xF7)

/-- The bytes of a whole format stream. -/
def fmtStream (recs : List FmtSector) : List Nat :=
  (recs.map FmtSector.bytes).flatten

/-- The controller is in format mode: a valid attached drive is selected, the track write
flag is set and the sector write flag is clear. -/
def fmtMode (s : WD179X_INFO Img) : Prop :=
  validDrive s ∧ s.fdc_write = FALSE ∧ s.fdc_write_track = TRUE
/-- The format state machine waits for a sector: format mode, the state GAP1 or GAP2, the
sectors counted so far have the numbers `m` in the sector map, the trace is `tr` and the
density input is `dd`. -/
def fmtReady (dd : Nat) (tr : List Event) (m : List Nat) (s : WD179X_INFO Img) : Prop :=
  fmtMode s ∧ (s.fdc_fmt_state = FMT_GAP1 ∨ s.fdc_fmt_state = FMT_GAP2) ∧
    s.fdc_fmt_sector_count = m.length ∧ bufBytes s.fdc_sectormap m.length = m ∧
    s.trace = tr ∧ s.ddens = dd

/-- A sector of a format stream laid out as the specification words it: 0xFC, gap1 bytes,
0xFE, gap2 bytes, the header bytes, gap3 bytes, 0xFB, the data bytes, 0xF7. -/
def specFmtRecord (gap1 gap2 header gap3 data : List Nat) : List Nat :=
  [0xFC] ++ gap1 ++ [0xFE] ++ gap2 ++ header ++ gap3 ++ [0xFB] ++ data ++ [0xF7]
/-- A sector of 2048 data bytes 0xE5 for cylinder 3, side 0, with the number `n`. -/
def demoSector (n : Nat) : FmtSector :=
  { gap2 := [0x4E], cyl := 3, head := 0, sec := n, len := 4, crc := 0xF7, pad := 0x4E,
    gap3 := [0x00], data := List.replicate 2048 0xE5 }

/-- The sector that the format state machine sees in the stream
`specFmtRecord [] [0x4E] [0, 0, 1, 5, 0] [0x4E] d`: the gap byte 0x4E and the first four header
bytes are taken as the header, the last header byte as the byte after it. -/
def misparsedSector (d : List Nat) : FmtSector :=
  { gap2 := [], cyl := 0x4E, head := 0, sec := 0, len := 1, crc := 5, pad := 0,
    gap3 := [0x4E], data := d }

/-- The track of the demo image lies beyond `MAX_CYL`: the sector size cannot be computed. -/
def offTrackState : WD179X_INFO Unit :=
  setTrack demoState 80

/-- The demo machine with an external FIFO of 1024 bytes whose index stands at 1000. -/
def fifoState : WD179X_INFO Unit :=
  { demoState with external_fifo_len := 1024, fdc_fifo_index := 1000 }

/-- The collaborators of the demo image when every track is recorded in MFM, so that the
density input 0 of the demo machine does not match. -/
def mfmEnv : Env Unit :=
  { demoEnv with imd_mode := fun _ _ _ => 3 }

/-- The demo machine after a RESTORE command and a write of 1 to the Sector register: the
command has completed and its interrupt request is pending. -/
def pendingState : WD179X_INFO Unit :=
  (WD179X_Write demoEnv WD179X_SECTOR 1 (Do1793Command demoEnv 0x00 demoState).2).2

/-- A port operation of the host: the read of a port, or the write of a byte to a port. -/
inductive PortOp where
  | read (Addr : Nat)
  | write (Addr cData : Nat)

/-- The state after one port operation. -/
def portStep (E : Env Img) (op : PortOp) (s : WD179X_INFO Img) : WD179X_INFO Img :=
  match op with
  | PortOp.read Addr => (WD179X_Read E Addr s).2
  | PortOp.write Addr cData => (WD179X_Write E Addr cData s).2

/-- The state after a sequence of port operations, the first of the list first. -/
def runPorts (E : Env Img) (ops : List PortOp) (s : WD179X_INFO Img) : WD179X_INFO Img :=
  ops.foldl (fun s op => portStep E op s) s

/-- The cursor invariant in the words of the specification:
`0 <= data_index <= data_count <= 128 << N`. -/
def specCursorInv (s : WD179X_INFO Img) : Prop :=
  s.fdc_dataindex ≤ s.fdc_datacount ∧ s.fdc_datacount ≤ 128 <<< s.fdc_sec_len

/-- The cursor invariant that the port operations keep: the size code is at most 6, the
count is at most the size of the sector buffer, and outside format mode the index is at most
the count. -/
def cursorInv (s : WD179X_INFO Img) : Prop :=
  s.fdc_sec_len ≤ WD179X_MAX_SEC_LEN ∧ s.fdc_datacount ≤ 128 <<< WD179X_MAX_SEC_LEN ∧
    (s.fdc_write_track ≠ TRUE → s.fdc_dataindex ≤ s.fdc_datacount)

instance (s : WD179X_INFO Img) : Decidable (specCursorInv s) := by
  unfold specCursorInv; exact inferInstance

instance (s : WD179X_INFO Img) : Decidable (cursorInv s) := by
  unfold cursorInv; exact inferInstance

/-- The port writes that format one sector of 256 bytes: WRITE_TRACK, the index mark 0xFC,
the ID address mark 0xFE, the ID field and the byte after it, the data address mark 0xFB,
256 data bytes and the end mark 0xF7. -/
def formatOps : List PortOp :=
  [PortOp.write WD179X_STATUS 0xF0, PortOp.write WD179X_DATA 0xFC,
    PortOp.write WD179X_DATA 0xFE, PortOp.write WD179X_DATA 0, PortOp.write WD179X_DATA 0,
    PortOp.write WD179X_DATA 1, PortOp.write WD179X_DATA 1, PortOp.write WD179X_DATA 0xF7,
    PortOp.write WD179X_DATA 0x4E, PortOp.write WD179X_DATA 0xFB] ++
  List.replicate 256 (PortOp.write WD179X_DATA 0xE5) ++ [PortOp.write WD179X_DATA 0xF7]

/-- The demo machine in the format state HEADER, before the first byte of the ID field: the
command WRITE_TRACK, the index mark 0xFC and the ID address mark 0xFE have been written. -/
def headerState : WD179X_INFO Unit :=
  runPorts demoEnv [PortOp.write WD179X_STATUS 0xF0, PortOp.write WD179X_DATA 0xFC,
    PortOp.write WD179X_DATA 0xFE] demoState

/-- The demo machine in the format state DATA with `n` data bytes 0xE5 accumulated: after
`headerState` the ID field 0, 0, 1, 1, 0xF7, one gap byte 0x4E and the data address mark
0xFB have been written, then the data bytes. -/
def fmtDataState (n : Nat) : WD179X_INFO Unit :=
  dataWrites demoEnv ([0, 0, 1, 1, 0xF7, 0x4E, 0xFB] ++ List.replicate n 0xE5) headerState

instance (s : WD179X_INFO Img) : Decidable (fmtMode s) := by
  unfold fmtMode; exact inferInstance

/-- The demo machine configured as a WD1797. -/
def demoState1797 : WD179X_INFO Unit :=
  { demoState with fdctype := 1797 }

/-- The demo machine configured as a WD1795. -/
def demoState1795 : WD179X_INFO Unit :=
  { demoState with fdctype := 1795 }

/-- The demo machine after READ_RECS (0x90) for the missing sector 0, which ends with
NOT_FOUND, then READ_ADDR (0xC0) and five reads of the Data port: one byte of the ID field is
left. -/
def staleMultiState : WD179X_INFO Unit :=
  runPorts demoEnv [PortOp.write WD179X_STATUS 0x90, PortOp.write WD179X_STATUS 0xC0,
    PortOp.read WD179X_DATA, PortOp.read WD179X_DATA, PortOp.read WD179X_DATA,
    PortOp.read WD179X_DATA, PortOp.read WD179X_DATA] demoState

/-- The status bits that no statement of the controller sets: NOT_READY, WPROT, HLD (also
REC_TYPE) and CRC_ERROR. -/
def statusUnused : Nat :=
  WD179X_STAT_NOT_READY ||| WD179X_STAT_WPROT ||| WD179X_STAT_HLD ||| WD179X_STAT_CRC_ERROR

/-- What an operation keeps from the state `s` before it to the state `t` after it: a
sector-length code of at most 6, a status register without the unused bits, and the selected
drive. -/
def portKeeps (s t : WD179X_INFO Img) : Prop :=
  (s.fdc_sec_len ≤ WD179X_MAX_SEC_LEN → t.fdc_sec_len ≤ WD179X_MAX_SEC_LEN) ∧
  (s.fdc_status &&& statusUnused = 0 → t.fdc_status &&& statusUnused = 0) ∧
  t.sel_drive = s.sel_drive

instance (s t : WD179X_INFO Img) : Decidable (portKeeps s t) := by
  unfold portKeeps; exact inferInstance

/-- The collaborators of a store that keeps a record of what is written to it: the image is
the list of the buffers handed to `sectWrite` or `sim_fwrite` and of the sector maps handed to
`trackWrite`, in the order of the calls; every read answers 0xE5 bytes. -/
def logEnv : Env (List (List Nat)) where
  MAX_CYL := 80
  IMD_MODE_MFM := fun x => if x ≥ 3 then 1 else 0
  imd_sectsize := fun _ _ _ => 128
  imd_mode := fun _ _ _ => 0
  imd_ntracks := fun _ => 77
  sectSeek := fun _ _ _ => true
  sectRead := fun _ _ _ _ len => (true, List.replicate len 0xE5)
  sectWrite := fun img _ _ _ buf => img ++ [buf]
  trackWrite := fun img _ _ numSectors _ sectormap _ _ => img ++ [bufBytes sectormap numSectors]
  sim_fseek := fun _ _ => true
  sim_fread := fun _ _ len => List.replicate len 0xE5
  sim_fwrite := fun img _ buf _ => img ++ [buf]
  sim_fsize := fun _ => 77 * 26 * 128

/-- The controller after the attach of an image of the kind `kind` to drive 0, with the
density input `dd`, over the recording store: nothing has been written, every register is
zero. -/
def logState (kind : ImageType) (dd : Nat) : WD179X_INFO (List (List Nat)) :=
  { fdctype := 1793, intenable := 0, intvector := 0, intrq := 0, hld := 0, drq := 0, ddens := dd,
    fdc_head := 0, sel_drive := 0, drivetype := 0, fdc_status := 0, verify := 0, fdc_data := 0,
    fdc_read := 0, fdc_write := 0, fdc_write_track := 0, fdc_fmt_state := 0,
    fdc_gap := fun _ => 0, fdc_fmt_sector_count := 0, fdc_sectormap := fun _ => 0,
    fdc_header_index := 0, fdc_read_addr := 0, fdc_multiple := 0, fdc_datacount := 0,
    fdc_dataindex := 0, index_pulse_wait := 0, fdc_sector := 0, fdc_sec_len := 0, step_dir := 0,
    cmdtype := 0, external_fifo_len := 0, external_fifo := fun _ => 0, fdc_fifo_index := 0,
    drive := fun i =>
      if i = 0 then
        { uptr := true, fileref := true, u3 := kind, capac := 256256, imd := [],
          ntracks := 0, nheads := 1, sectsize := 0, track := 0, ready := 1 }
      else
        { uptr := false, fileref := false, u3 := ImageType.OTHER, capac := 0, imd := [],
          ntracks := 0, nheads := 0, sectsize := 0, track := 0, ready := 0 },
    raw := fun _ => 0, vectorInterrupt := 0, dataBus := fun _ => 0, trace := [],
    overrun := false }

/-- What a write to the Data port keeps of the drives from the state `s` before it to the
state `t` after it: the record of calls only grows, the selected drive, the files and the
kinds of the images are the same, and as long as no call is recorded the images are the
same. -/
def drivesKept (s t : WD179X_INFO Img) : Prop :=
  s.trace <+: t.trace ∧ t.sel_drive = s.sel_drive ∧
    (∀ i, (t.drive i).fileref = (s.drive i).fileref ∧ (t.drive i).u3 = (s.drive i).u3) ∧
    (t.trace = s.trace → ∀ i, (t.drive i).imd = (s.drive i).imd)

/-- The conditions under which the statements of the port handlers stay inside the sector
buffer and shift by less than the width of their operand: the cursor invariant (size code at
most 6, count at most 8192, index at most the count outside format mode), an index of at most
`WD179X_SECTOR_LEN` in every mode, and an interrupt vector below 31, so that
`1 << intvector` is a value of `int`. -/
def safeInv (s : WD179X_INFO Img) : Prop :=
  cursorInv s ∧ s.fdc_dataindex ≤ WD179X_SECTOR_LEN ∧ s.intvector < 31

instance (s : WD179X_INFO Img) : Decidable (safeInv s) := by
  unfold safeInv; exact inferInstance

/-- What an operation keeps from the state `s` before it to the state `t` after it: a store
past the end of the sector buffer, once made, stays recorded; and unless such a store is
recorded in `t`, the invariant `safeInv`. -/
def safeKeeps (s t : WD179X_INFO Img) : Prop :=
  (s.overrun = true → t.overrun = true) ∧ (t.overrun = false → safeInv s → safeInv t)

/-! ## Bitwise facts on status bytes -/

theorem and_and_disjoint (x a b : Nat) (h : a &&& b = 0) : (x &&& a) &&& b = 0 := by
  rw [Nat.and_assoc, h, Nat.and_zero]

theorem or_and_self_mask (x m : Nat) : (x ||| m) &&& m = m := by
  apply Nat.eq_of_testBit_eq; intro i
  simp only [Nat.testBit_and, Nat.testBit_or]
  cases x.testBit i <;> cases m.testBit i <;> rfl

theorem and_two_pow_eq_zero (x k : Nat) : x &&& 2 ^ k = 0 ↔ x.testBit k = false := by
  constructor
  · intro h
    have := congrArg (fun y => Nat.testBit y k) h
    simpa [Nat.testBit_two_pow_self] using this
  · intro h
    apply Nat.eq_of_testBit_eq; intro i
    by_cases hi : k = i
    · subst hi; simp [h]
    · simp [Nat.testBit_two_pow_of_ne hi]

theorem and_two_pow_ne_zero (x k : Nat) : x &&& 2 ^ k ≠ 0 ↔ x.testBit k = true := by
  rw [Ne, and_two_pow_eq_zero]; simp

theorem and_BUSY_eq_zero (x : Nat) : x &&& WD179X_STAT_BUSY = 0 ↔ x.testBit 0 = false :=
  and_two_pow_eq_zero x 0

theorem and_BUSY_ne_zero (x : Nat) : x &&& WD179X_STAT_BUSY ≠ 0 ↔ x.testBit 0 = true :=
  and_two_pow_ne_zero x 0

theorem and_DRQ_eq_zero (x : Nat) : x &&& WD179X_STAT_DRQ = 0 ↔ x.testBit 1 = false :=
  and_two_pow_eq_zero x 1

theorem and_DRQ_ne_zero (x : Nat) : x &&& WD179X_STAT_DRQ ≠ 0 ↔ x.testBit 1 = true :=
  and_two_pow_ne_zero x 1

theorem and_TRACK0_eq_zero (x : Nat) : x &&& WD179X_STAT_TRACK0 = 0 ↔ x.testBit 2 = false :=
  and_two_pow_eq_zero x 2

theorem and_TRACK0_ne_zero (x : Nat) : x &&& WD179X_STAT_TRACK0 ≠ 0 ↔ x.testBit 2 = true :=
  and_two_pow_ne_zero x 2

theorem and_NOT_FOUND_eq_zero (x : Nat) :
    x &&& WD179X_STAT_NOT_FOUND = 0 ↔ x.testBit 4 = false :=
  and_two_pow_eq_zero x 4

theorem and_NOT_FOUND_ne_zero (x : Nat) :
    x &&& WD179X_STAT_NOT_FOUND ≠ 0 ↔ x.testBit 4 = true :=
  and_two_pow_ne_zero x 4

/-! ## The selected drive -/

@[simp] theorem pDrive_setDrive (s : WD179X_INFO Img) (d : WD179X_DRIVE_INFO Img) :
    pDrive (setDrive s d) = d := by
  simp [pDrive, setDrive]

@[simp] theorem pDrive_setTrack_track (s : WD179X_INFO Img) (t : Nat) :
    (pDrive (setTrack s t)).track = t := by
  simp [setTrack]

theorem exec_typeI_fst (E : Env Img) (c : Nat) (s : WD179X_INFO Img) (hc : isTypeI c) :
    (Do1793Command_exec E c s).1 = none := by
  unfold isTypeI at hc
  simp only [WD179X_RESTORE, WD179X_SEEK, WD179X_STEP, WD179X_STEP_U, WD179X_STEP_IN,
    WD179X_STEP_IN_U, WD179X_STEP_OUT, WD179X_STEP_OUT_U] at hc
  unfold Do1793Command_exec
  rcases hc with h | h | h | h | h | h | h | h <;>
    simp only [h, WD179X_RESTORE, WD179X_SEEK, WD179X_STEP, WD179X_STEP_U, WD179X_STEP_IN,
      WD179X_STEP_IN_U, WD179X_STEP_OUT, WD179X_STEP_OUT_U] <;>
    (simp; all_goals (split_ifs <;> rfl))

theorem Do1793Command_typeI (E : Env Img) (c : Nat) (s : WD179X_INFO Img)
    (hs : idle s) (hc : isTypeI c) :
    Do1793Command E c s = (0, Do1793Command_post E c (Do1793Command_exec E c
      (Do1793Command_setup c
        { s with fdc_status := s.fdc_status &&& (0xFF - WD179X_STAT_NOT_READY) })).2) := by
  obtain ⟨⟨h1, h2⟩, h3⟩ := hs
  unfold Do1793Command
  rw [if_neg (by omega), if_neg (by simp [h2]), if_neg (by simp [h3])]
  dsimp only
  generalize hx : Do1793Command_exec E c _ = x
  have hfst := congrArg Prod.fst hx
  rw [exec_typeI_fst E c _ hc] at hfst
  obtain ⟨r, s'⟩ := x
  dsimp only at hfst
  subst hfst
  rfl

@[simp] theorem raiseInterrupt_fdctype (s : WD179X_INFO Img) :
    (raiseInterrupt s).fdctype = s.fdctype := by
  unfold raiseInterrupt; split <;> rfl

@[simp] theorem raiseInterrupt_intenable (s : WD179X_INFO Img) :
    (raiseInterrupt s).intenable = s.intenable := by
  unfold raiseInterrupt; split <;> rfl

@[simp] theorem raiseInterrupt_intvector (s : WD179X_INFO Img) :
    (raiseInterrupt s).intvector = s.intvector := by
  unfold raiseInterrupt; split <;> rfl

@[simp] theorem raiseInterrupt_intrq (s : WD179X_INFO Img) :
    (raiseInterrupt s).intrq = s.intrq := by
  unfold raiseInterrupt; split <;> rfl

@[simp] theorem raiseInterrupt_hld (s : WD179X_INFO Img) :
    (raiseInterrupt s).hld = s.hld := by
  unfold raiseInterrupt; split <;> rfl

@[simp] theorem raiseInterrupt_drq (s : WD179X_INFO Img) :
    (raiseInterrupt s).drq = s.drq := by
  unfold raiseInterrupt; split <;> rfl

@[simp] theorem raiseInterrupt_ddens (s : WD179X_INFO Img) :
    (raiseInterrupt s).ddens = s.ddens := by
  unfold raiseInterrupt; split <;> rfl

@[simp] theorem raiseInterrupt_fdc_head (s : WD179X_INFO Img) :
    (raiseInterrupt s).fdc_head = s.fdc_head := by
  unfold raiseInterrupt; split <;> rfl

@[simp] theorem raiseInterrupt_sel_drive (s : WD179X_INFO Img) :
    (raiseInterrupt s).sel_drive = s.sel_drive := by
  unfold raiseInterrupt; split <;> rfl

@[simp] theorem raiseInterrupt_drivetype (s : WD179X_INFO Img) :
    (raiseInterrupt s).drivetype = s.drivetype := by
  unfold raiseInterrupt; split <;> rfl

@[simp] theorem raiseInterrupt_fdc_status (s : WD179X_INFO Img) :
    (raiseInterrupt s).fdc_status = s.fdc_status := by
  unfold raiseInterrupt; split <;> rfl

@[simp] theorem raiseInterrupt_verify (s : WD179X_INFO Img) :
    (raiseInterrupt s).verify = s.verify := by
  unfold raiseInterrupt; split <;> rfl

@[simp] theorem raiseInterrupt_fdc_data (s : WD179X_INFO Img) :
    (raiseInterrupt s).fdc_data = s.fdc_data := by
  unfold raiseInterrupt; split <;> rfl

@[simp] theorem raiseInterrupt_fdc_read (s : WD179X_INFO Img) :
    (raiseInterrupt s).fdc_read = s.fdc_read := by
  unfold raiseInterrupt; split <;> rfl

@[simp] theorem raiseInterrupt_fdc_write (s : WD179X_INFO Img) :
    (raiseInterrupt s).fdc_write = s.fdc_write := by
  unfold raiseInterrupt; split <;> rfl

@[simp] theorem raiseInterrupt_fdc_write_track (s : WD179X_INFO Img) :
    (raiseInterrupt s).fdc_write_track = s.fdc_write_track := by
  unfold raiseInterrupt; split <;> rfl

@[simp] theorem raiseInterrupt_fdc_fmt_state (s : WD179X_INFO Img) :
    (raiseInterrupt s).fdc_fmt_state = s.fdc_fmt_state := by
  unfold raiseInterrupt; split <;> rfl

@[simp] theorem raiseInterrupt_fdc_gap (s : WD179X_INFO Img) :
    (raiseInterrupt s).fdc_gap = s.fdc_gap := by
  unfold raiseInterrupt; split <;> rfl

@[simp] theorem raiseInterrupt_fdc_fmt_sector_count (s : WD179X_INFO Img) :
    (raiseInterrupt s).fdc_fmt_sector_count = s.fdc_fmt_sector_count := by
  unfold raiseInterrupt; split <;> rfl

@[simp] theorem raiseInterrupt_fdc_sectormap (s : WD179X_INFO Img) :
    (raiseInterrupt s).fdc_sectormap = s.fdc_sectormap := by
  unfold raiseInterrupt; split <;> rfl

@[simp] theorem raiseInterrupt_fdc_header_index (s : WD179X_INFO Img) :
    (raiseInterrupt s).fdc_header_index = s.fdc_header_index := by
  unfold raiseInterrupt; split <;> rfl

@[simp] theorem raiseInterrupt_fdc_read_addr (s : WD179X_INFO Img) :
    (raiseInterrupt s).fdc_read_addr = s.fdc_read_addr := by
  unfold raiseInterrupt; split <;> rfl

@[simp] theorem raiseInterrupt_fdc_multiple (s : WD179X_INFO Img) :
    (raiseInterrupt s).fdc_multiple = s.fdc_multiple := by
  unfold raiseInterrupt; split <;> rfl

@[simp] theorem raiseInterrupt_fdc_datacount (s : WD179X_INFO Img) :
    (raiseInterrupt s).fdc_datacount = s.fdc_datacount := by
  unfold raiseInterrupt; split <;> rfl

@[simp] theorem raiseInterrupt_fdc_dataindex (s : WD179X_INFO Img) :
    (raiseInterrupt s).fdc_dataindex = s.fdc_dataindex := by
  unfold raiseInterrupt; split <;> rfl

@[simp] theorem raiseInterrupt_index_pulse_wait (s : WD179X_INFO Img) :
    (raiseInterrupt s).index_pulse_wait = s.index_pulse_wait := by
  unfold raiseInterrupt; split <;> rfl

@[simp] theorem raiseInterrupt_fdc_sector (s : WD179X_INFO Img) :
    (raiseInterrupt s).fdc_sector = s.fdc_sector := by
  unfold raiseInterrupt; split <;> rfl

@[simp] theorem raiseInterrupt_fdc_sec_len (s : WD179X_INFO Img) :
    (raiseInterrupt s).fdc_sec_len = s.fdc_sec_len := by
  unfold raiseInterrupt; split <;> rfl

@[simp] theorem raiseInterrupt_step_dir (s : WD179X_INFO Img) :
    (raiseInterrupt s).step_dir = s.step_dir := by
  unfold raiseInterrupt; split <;> rfl

@[simp] theorem raiseInterrupt_cmdtype (s : WD179X_INFO Img) :
    (raiseInterrupt s).cmdtype = s.cmdtype := by
  unfold raiseInterrupt; split <;> rfl

@[simp] theorem raiseInterrupt_external_fifo_len (s : WD179X_INFO Img) :
    (raiseInterrupt s).external_fifo_len = s.external_fifo_len := by
  unfold raiseInterrupt; split <;> rfl

@[simp] theorem raiseInterrupt_external_fifo (s : WD179X_INFO Img) :
    (raiseInterrupt s).external_fifo = s.external_fifo := by
  unfold raiseInterrupt; split <;> rfl

@[simp] theorem raiseInterrupt_fdc_fifo_index (s : WD179X_INFO Img) :
    (raiseInterrupt s).fdc_fifo_index = s.fdc_fifo_index := by
  unfold raiseInterrupt; split <;> rfl

@[simp] theorem raiseInterrupt_drive (s : WD179X_INFO Img) :
    (raiseInterrupt s).drive = s.drive := by
  unfold raiseInterrupt; split <;> rfl

@[simp] theorem raiseInterrupt_raw (s : WD179X_INFO Img) :
    (raiseInterrupt s).raw = s.raw := by
  unfold raiseInterrupt; split <;> rfl

@[simp] theorem raiseInterrupt_trace (s : WD179X_INFO Img) :
    (raiseInterrupt s).trace = s.trace := by
  unfold raiseInterrupt; split <;> rfl

/-! ## Frame of the three stages -/

theorem setup_sel_drive (c : Nat) (s : WD179X_INFO Img) :
    (Do1793Command_setup c s).sel_drive = s.sel_drive := by
  unfold Do1793Command_setup; dsimp only; split_ifs <;> rfl

theorem setup_drive (c : Nat) (s : WD179X_INFO Img) :
    (Do1793Command_setup c s).drive = s.drive := by
  unfold Do1793Command_setup; dsimp only; split_ifs <;> rfl

theorem setup_step_dir (c : Nat) (s : WD179X_INFO Img) :
    (Do1793Command_setup c s).step_dir = s.step_dir := by
  unfold Do1793Command_setup; dsimp only; split_ifs <;> rfl

theorem setup_fdc_data (c : Nat) (s : WD179X_INFO Img) :
    (Do1793Command_setup c s).fdc_data = s.fdc_data := by
  unfold Do1793Command_setup; dsimp only; split_ifs <;> rfl

theorem pDrive_setup (c : Nat) (s : WD179X_INFO Img) :
    pDrive (Do1793Command_setup c s) = pDrive s := by
  unfold pDrive; rw [setup_sel_drive, setup_drive]

theorem setup_typeI_status (c : Nat) (s : WD179X_INFO Img) (hc : isTypeI c) :
    (Do1793Command_setup c s).fdc_status = (s.fdc_status ||| 0x01) &&& 0xE5 := by
  unfold Do1793Command_setup; rw [if_pos hc]; dsimp only; split_ifs <;> rfl

theorem setup_typeI_verify (c : Nat) (s : WD179X_INFO Img) (hc : isTypeI c) :
    (Do1793Command_setup c s).verify = c &&& 0x04 := by
  unfold Do1793Command_setup; rw [if_pos hc]; dsimp only; split_ifs <;> rfl

theorem post_sel_drive (E : Env Img) (c : Nat) (s : WD179X_INFO Img) :
    (Do1793Command_post E c s).sel_drive = s.sel_drive := by
  unfold Do1793Command_post; dsimp only; split_ifs <;> simp

theorem post_drive (E : Env Img) (c : Nat) (s : WD179X_INFO Img) :
    (Do1793Command_post E c s).drive = s.drive := by
  unfold Do1793Command_post; dsimp only; split_ifs <;> simp

theorem post_step_dir (E : Env Img) (c : Nat) (s : WD179X_INFO Img) :
    (Do1793Command_post E c s).step_dir = s.step_dir := by
  unfold Do1793Command_post; dsimp only; split_ifs <;> simp

theorem post_verify (E : Env Img) (c : Nat) (s : WD179X_INFO Img) :
    (Do1793Command_post E c s).verify = s.verify := by
  unfold Do1793Command_post; dsimp only; split_ifs <;> simp

theorem post_fdc_head (E : Env Img) (c : Nat) (s : WD179X_INFO Img) :
    (Do1793Command_post E c s).fdc_head = s.fdc_head := by
  unfold Do1793Command_post; dsimp only; split_ifs <;> simp

theorem post_ddens (E : Env Img) (c : Nat) (s : WD179X_INFO Img) :
    (Do1793Command_post E c s).ddens = s.ddens := by
  unfold Do1793Command_post; dsimp only; split_ifs <;> simp

theorem pDrive_post (E : Env Img) (c : Nat) (s : WD179X_INFO Img) :
    pDrive (Do1793Command_post E c s) = pDrive s := by
  unfold pDrive; rw [post_sel_drive, post_drive]

theorem post_typeI_busy (E : Env Img) (c : Nat) (s : WD179X_INFO Img) (hc : isTypeI c) :
    (Do1793Command_post E c s).fdc_status &&& WD179X_STAT_BUSY = 0 := by
  unfold Do1793Command_post; rw [if_pos hc]
  simp only [raiseInterrupt_fdc_status, WD179X_STAT_BUSY]
  exact and_and_disjoint _ _ _ (by decide)

theorem post_typeI_track0 (E : Env Img) (c : Nat) (s : WD179X_INFO Img) (hc : isTypeI c) :
    ((Do1793Command_post E c s).fdc_status &&& WD179X_STAT_TRACK0 ≠ 0 ↔ (pDrive s).track = 0) := by
  unfold Do1793Command_post; rw [if_pos hc]
  dsimp only
  simp only [raiseInterrupt_fdc_status, WD179X_STAT_BUSY, WD179X_STAT_TRACK0,
    WD179X_STAT_NOT_FOUND]
  have e1 : ∀ x : Nat, ((x ||| 4) &&& (255 - 1)) &&& 4 = 4 := by
    intro x; rw [Nat.and_assoc]; exact or_and_self_mask x 4
  have e2 : ∀ x : Nat, ((x &&& (255 - 4)) &&& (255 - 1)) &&& 4 = 0 := by
    intro x; rw [Nat.and_assoc, Nat.and_assoc]; exact Nat.and_zero x
  split_ifs <;> simp_all [pDrive]


theorem post_typeI_not_found (E : Env Img) (c : Nat) (s : WD179X_INFO Img) (hc : isTypeI c) :
    ((Do1793Command_post E c s).fdc_status &&& WD179X_STAT_NOT_FOUND ≠ 0 ↔
      (s.fdc_status &&& WD179X_STAT_NOT_FOUND ≠ 0 ∨ verifyFails E s)) := by
  unfold Do1793Command_post verifyFails; rw [if_pos hc]
  dsimp only
  simp only [raiseInterrupt_fdc_status, and_NOT_FOUND_ne_zero]
  split_ifs <;>
    simp_all +decide [pDrive, WD179X_STAT_BUSY, WD179X_STAT_TRACK0, WD179X_STAT_NOT_FOUND]

theorem exec_restore (E : Env Img) (c : Nat) (s : WD179X_INFO Img)
    (h : c &&& 0xF0 = WD179X_RESTORE) :
    Do1793Command_exec E c s = (none, { setTrack s 0 with intrq := 1 }) := by
  unfold Do1793Command_exec; rw [if_pos h]

theorem exec_seek (E : Env Img) (c : Nat) (s : WD179X_INFO Img)
    (h : c &&& 0xF0 = WD179X_SEEK) :
    Do1793Command_exec E c s = (none, setTrack s s.fdc_data) := by
  unfold Do1793Command_exec; rw [h]; simp [WD179X_RESTORE, WD179X_SEEK]

/-! ## The execution stage of the Type I commands -/

theorem isTypeI_of_lt (c : Nat) (h : c < 0x80) : isTypeI c := by
  have key : ∀ c < 0x80, isTypeI c := by decide
  exact key c h

theorem exec_typeI_sel_drive (E : Env Img) (c : Nat) (s : WD179X_INFO Img) (hc : isTypeI c) :
    (Do1793Command_exec E c s).2.sel_drive = s.sel_drive := by
  unfold isTypeI at hc
  unfold Do1793Command_exec
  rcases hc with h | h | h | h | h | h | h | h <;>
    (rw [h]; simp [WD179X_RESTORE, WD179X_SEEK, WD179X_STEP, WD179X_STEP_U, WD179X_STEP_IN,
      WD179X_STEP_IN_U, WD179X_STEP_OUT, WD179X_STEP_OUT_U, setTrack, setDrive];
     all_goals (split_ifs <;> rfl))

theorem exec_typeI_fdc_status (E : Env Img) (c : Nat) (s : WD179X_INFO Img) (hc : isTypeI c) :
    (Do1793Command_exec E c s).2.fdc_status = s.fdc_status := by
  unfold isTypeI at hc
  unfold Do1793Command_exec
  rcases hc with h | h | h | h | h | h | h | h <;>
    (rw [h]; simp [WD179X_RESTORE, WD179X_SEEK, WD179X_STEP, WD179X_STEP_U, WD179X_STEP_IN,
      WD179X_STEP_IN_U, WD179X_STEP_OUT, WD179X_STEP_OUT_U, setTrack, setDrive];
     all_goals (split_ifs <;> rfl))

theorem exec_typeI_uptr (E : Env Img) (c : Nat) (s : WD179X_INFO Img) (hc : isTypeI c) :
    (pDrive (Do1793Command_exec E c s).2).uptr = (pDrive s).uptr := by
  unfold isTypeI at hc
  unfold Do1793Command_exec
  rcases hc with h | h | h | h | h | h | h | h <;>
    (rw [h]; simp [WD179X_RESTORE, WD179X_SEEK, WD179X_STEP, WD179X_STEP_U, WD179X_STEP_IN,
      WD179X_STEP_IN_U, WD179X_STEP_OUT, WD179X_STEP_OUT_U, setTrack, setDrive, pDrive];
     all_goals (split_ifs <;> simp))

theorem exec_restore_track (E : Env Img) (c : Nat) (s : WD179X_INFO Img)
    (h : c &&& 0xF0 = WD179X_RESTORE) :
    (pDrive (Do1793Command_exec E c s).2).track = 0 := by
  rw [exec_restore E c s h]; simp [pDrive, setTrack, setDrive]

theorem exec_seek_track (E : Env Img) (c : Nat) (s : WD179X_INFO Img)
    (h : c &&& 0xF0 = WD179X_SEEK) :
    (pDrive (Do1793Command_exec E c s).2).track = s.fdc_data := by
  rw [exec_seek E c s h]; simp

theorem exec_step_in_u (E : Env Img) (c : Nat) (s : WD179X_INFO Img)
    (h : c &&& 0xF0 = WD179X_STEP_IN_U) :
    (pDrive (Do1793Command_exec E c s).2).track =
        (if (pDrive s).track < E.MAX_CYL - 1 then ((pDrive s).track + 1) % 256
         else (pDrive s).track) ∧
      (Do1793Command_exec E c s).2.step_dir = 1 := by
  unfold Do1793Command_exec; rw [h]
  simp [WD179X_RESTORE, WD179X_SEEK, WD179X_STEP, WD179X_STEP_U, WD179X_STEP_IN,
      WD179X_STEP_IN_U]
  split_ifs <;> simp [pDrive, setTrack, setDrive]

theorem exec_step_out_u (E : Env Img) (c : Nat) (s : WD179X_INFO Img)
    (h : c &&& 0xF0 = WD179X_STEP_OUT_U) :
    (pDrive (Do1793Command_exec E c s).2).track = (pDrive s).track - 1 ∧
      (Do1793Command_exec E c s).2.step_dir = -1 := by
  unfold Do1793Command_exec; rw [h]
  simp [WD179X_RESTORE, WD179X_SEEK, WD179X_STEP, WD179X_STEP_U, WD179X_STEP_IN,
      WD179X_STEP_IN_U, WD179X_STEP_OUT, WD179X_STEP_OUT_U]
  split_ifs with h0
  · simp [pDrive, setTrack, setDrive]
  · simp [pDrive] at h0 ⊢; simp [h0]

theorem exec_step_u (E : Env Img) (c : Nat) (s : WD179X_INFO Img)
    (h : c &&& 0xF0 = WD179X_STEP_U) :
    (pDrive (Do1793Command_exec E c s).2).track =
        (if s.step_dir = 1 then
          (if (pDrive s).track < E.MAX_CYL - 1 then ((pDrive s).track + 1) % 256
           else (pDrive s).track)
         else if s.step_dir = -1 then (pDrive s).track - 1
         else (pDrive s).track) ∧
      (Do1793Command_exec E c s).2.step_dir = s.step_dir := by
  unfold Do1793Command_exec; rw [h]
  simp [WD179X_RESTORE, WD179X_SEEK, WD179X_STEP, WD179X_STEP_U]
  split_ifs with h1 h2 h3 h4 <;> simp [pDrive, setTrack, setDrive]
  simp at h4; simp [pDrive] at h4; simp [h4]

/-! ## The claims on the command handler -/

set_option maxRecDepth 100000

theorem typeI_result (E : Env Img) (c : Nat) (s : WD179X_INFO Img)
    (hs : idle s) (hc : isTypeI c) : (Do1793Command E c s).1 = 0 := by
  rw [Do1793Command_typeI E c s hs hc]

theorem typeI_pDrive (E : Env Img) (c : Nat) (s : WD179X_INFO Img)
    (hs : idle s) (hc : isTypeI c) :
    pDrive (Do1793Command E c s).2 = pDrive (Do1793Command_exec E c (Do1793Command_setup c
      { s with fdc_status := s.fdc_status &&& (0xFF - WD179X_STAT_NOT_READY) })).2 := by
  rw [Do1793Command_typeI E c s hs hc]; exact pDrive_post _ _ _

theorem typeI_step_dir (E : Env Img) (c : Nat) (s : WD179X_INFO Img)
    (hs : idle s) (hc : isTypeI c) :
    (Do1793Command E c s).2.step_dir = (Do1793Command_exec E c (Do1793Command_setup c
      { s with fdc_status := s.fdc_status &&& (0xFF - WD179X_STAT_NOT_READY) })).2.step_dir := by
  rw [Do1793Command_typeI E c s hs hc]; exact post_step_dir _ _ _

/-- C4: after every accepted Type I command (command byte below 0x80, valid attached drive, BUSY
clear) the TRACK0 status bit is set exactly when the selected drive is on track 0, and BUSY is
clear. -/
theorem C4_typeI_track0_iff_and_not_busy (E : Env Img) (s : WD179X_INFO Img) (cCommand : Nat)
    (hs : idle s) (hc : cCommand < 0x80) :
    ((Do1793Command E cCommand s).2.fdc_status &&& WD179X_STAT_TRACK0 ≠ 0 ↔
        (pDrive (Do1793Command E cCommand s).2).track = 0) ∧
      (Do1793Command E cCommand s).2.fdc_status &&& WD179X_STAT_BUSY = 0 := by
  have hI := isTypeI_of_lt cCommand hc
  rw [Do1793Command_typeI E cCommand s hs hI]
  dsimp only
  rw [pDrive_post]
  exact ⟨post_typeI_track0 E cCommand _ hI, post_typeI_busy E cCommand _ hI⟩

/-- Instance of C4: SEEK with Verify and head load (0x1C) on the freshly attached controller. -/
theorem C4_witness :
    ((Do1793Command demoEnv 0x1C demoState).2.fdc_status &&& WD179X_STAT_TRACK0 ≠ 0 ↔
        (pDrive (Do1793Command demoEnv 0x1C demoState).2).track = 0) ∧
      (Do1793Command demoEnv 0x1C demoState).2.fdc_status &&& WD179X_STAT_BUSY = 0 :=
  C4_typeI_track0_iff_and_not_busy demoEnv demoState 0x1C ⟨⟨by decide, rfl⟩, by decide⟩
    (by decide)

/-- C5: an accepted RESTORE command (high nibble 0, any flag bits) leaves the selected drive on
track 0, whatever the track before. -/
theorem C5_restore_track_zero (E : Env Img) (s : WD179X_INFO Img) (cCommand : Nat)
    (hs : idle s) (hc : cCommand &&& 0xF0 = WD179X_RESTORE) :
    (pDrive (Do1793Command E cCommand s).2).track = 0 := by
  rw [typeI_pDrive E cCommand s hs (Or.inl hc)]
  exact exec_restore_track E cCommand _ hc

/-- Instance of C5: RESTORE (0x0B) from track 200. -/
theorem C5_witness :
    (pDrive (Do1793Command demoEnv 0x0B (setTrack demoState 200)).2).track = 0 :=
  C5_restore_track_zero demoEnv (setTrack demoState 200) 0x0B ⟨⟨by decide, rfl⟩, by decide⟩
    (by decide)

theorem verifyFails_post (E : Env Img) (c : Nat) (s : WD179X_INFO Img) :
    verifyFails E (Do1793Command_post E c s) ↔ verifyFails E s := by
  unfold verifyFails testMode
  rw [pDrive_post, post_verify, post_fdc_head, post_ddens]

theorem typeI_idle (E : Env Img) (c : Nat) (s : WD179X_INFO Img)
    (hs : idle s) (hc : isTypeI c) : idle (Do1793Command E c s).2 := by
  have hp := typeI_pDrive E c s hs hc
  refine ⟨⟨?_, ?_⟩, ?_⟩
  · rw [Do1793Command_typeI E c s hs hc]
    dsimp only
    rw [post_sel_drive, exec_typeI_sel_drive E c _ hc, setup_sel_drive]
    exact hs.1.1
  · rw [hp, exec_typeI_uptr E c _ hc, pDrive_setup]
    exact hs.1.2
  · rw [Do1793Command_typeI E c s hs hc]
    exact post_typeI_busy E c _ hc

/-- C6 (amended): an accepted SEEK command returns 0 and sets the track of the selected drive
to the value of the Data register, without clamping.  Bit 4 of the status (SEEK_ERROR, the bit
of NOT_FOUND) is set afterwards exactly when the verification fails: the Verify flag (bit 2 of
the command) is set, the image is an ImageDisk image, and the new track cannot be sought or
has the other density.  With the Verify flag clear the bit is clear. -/
theorem C6_seek_sets_track_error_only_on_verify (E : Env Img) (s : WD179X_INFO Img)
    (cCommand : Nat) (hs : idle s) (hc : cCommand &&& 0xF0 = WD179X_SEEK) :
    (Do1793Command E cCommand s).1 = 0 ∧
      (pDrive (Do1793Command E cCommand s).2).track = s.fdc_data ∧
      (Do1793Command E cCommand s).2.verify = cCommand &&& 0x04 ∧
      ((Do1793Command E cCommand s).2.fdc_status &&& WD179X_STAT_NOT_FOUND ≠ 0 ↔
        verifyFails E (Do1793Command E cCommand s).2) ∧
      (cCommand &&& 0x04 = 0 →
        (Do1793Command E cCommand s).2.fdc_status &&& WD179X_STAT_NOT_FOUND = 0) := by
  have hI : isTypeI cCommand := Or.inr (Or.inl hc)
  have htrack := typeI_pDrive E cCommand s hs hI
  have hv : (Do1793Command E cCommand s).2.verify = cCommand &&& 0x04 := by
    rw [Do1793Command_typeI E cCommand s hs hI]
    dsimp only
    rw [post_verify, exec_seek E cCommand _ hc]
    simp only [setTrack, setDrive]
    exact setup_typeI_verify cCommand _ hI
  have hbit : ((Do1793Command E cCommand s).2.fdc_status &&& WD179X_STAT_NOT_FOUND ≠ 0 ↔
      verifyFails E (Do1793Command E cCommand s).2) := by
    rw [Do1793Command_typeI E cCommand s hs hI]
    dsimp only
    rw [verifyFails_post, post_typeI_not_found E cCommand _ hI,
      exec_typeI_fdc_status E cCommand _ hI, setup_typeI_status cCommand _ hI]
    have h0 : ¬ ((s.fdc_status &&& (0xFF - WD179X_STAT_NOT_READY) ||| 0x01) &&& 0xE5
        &&& WD179X_STAT_NOT_FOUND ≠ 0) := by
      rw [and_NOT_FOUND_ne_zero]; simp +decide
    simp only [h0, false_or]
  refine ⟨typeI_result E cCommand s hs hI, ?_, hv, hbit, ?_⟩
  · rw [htrack, exec_seek_track E cCommand _ hc, setup_fdc_data]
  · intro hflag
    by_contra hne
    have hf := hbit.mp hne
    exact hf.1 (by rw [hv, hflag])

/-- Instance of C6: SEEK (0x10) to the Data register value 200, beyond `MAX_CYL`. -/
theorem C6_witness :
    (Do1793Command demoEnv 0x10 (WD179X_Write demoEnv WD179X_DATA 200 demoState).2).1 = 0 ∧
      (pDrive (Do1793Command demoEnv 0x10
        (WD179X_Write demoEnv WD179X_DATA 200 demoState).2).2).track = 200 :=
  have h := C6_seek_sets_track_error_only_on_verify demoEnv
    (WD179X_Write demoEnv WD179X_DATA 200 demoState).2 0x10
    ⟨⟨by decide, by decide⟩, by decide⟩ (by decide)
  ⟨h.1, h.2.1⟩

/-- C6, as stated, fails: SEEK with the Verify flag (0x14) to cylinder 200 of the 77-cylinder
image is accepted and leaves bit 4 (SEEK_ERROR / NOT_FOUND) set. -/
theorem C6_counterexample :
    idle (WD179X_Write demoEnv WD179X_DATA 200 demoState).2 ∧
      0x14 &&& 0xF0 = WD179X_SEEK ∧
      (Do1793Command demoEnv 0x14
        (WD179X_Write demoEnv WD179X_DATA 200 demoState).2).2.fdc_status
          &&& WD179X_STAT_NOT_FOUND ≠ 0 :=
  ⟨⟨⟨by decide, by decide⟩, by decide⟩, by decide, by decide⟩

theorem exec_typeI_track_le (E : Env Img) (c : Nat) (s : WD179X_INFO Img) (hc : isTypeI c)
    (hseek : c &&& 0xF0 ≠ WD179X_SEEK) (ht : (pDrive s).track ≤ E.MAX_CYL - 1) :
    (pDrive (Do1793Command_exec E c s).2).track ≤ E.MAX_CYL - 1 := by
  rcases hc with h | h | h | h | h | h | h | h
  · rw [exec_restore_track E c s h]; exact Nat.zero_le _
  · exact absurd h hseek
  · unfold Do1793Command_exec; rw [h]
    simpa [WD179X_RESTORE, WD179X_SEEK, WD179X_STEP] using ht
  · rw [(exec_step_u E c s h).1]
    have := Nat.mod_le ((pDrive s).track + 1) 256
    split_ifs <;> omega
  · unfold Do1793Command_exec; rw [h]
    simpa [WD179X_RESTORE, WD179X_SEEK, WD179X_STEP, WD179X_STEP_U, WD179X_STEP_IN] using ht
  · rw [(exec_step_in_u E c s h).1]
    have := Nat.mod_le ((pDrive s).track + 1) 256
    split_ifs <;> omega
  · unfold Do1793Command_exec; rw [h]
    simpa [WD179X_RESTORE, WD179X_SEEK, WD179X_STEP, WD179X_STEP_U, WD179X_STEP_IN,
      WD179X_STEP_IN_U, WD179X_STEP_OUT] using ht
  · rw [(exec_step_out_u E c s h).1]; omega

/-- C7 (amended): after an accepted Type I command the track of the selected drive lies in
`[0, MAX_CYL-1]` provided it lay there before the command and, for SEEK, the Data register
holds a value in that range. -/
theorem C7_typeI_track_stays_in_range (E : Env Img) (s : WD179X_INFO Img) (cCommand : Nat)
    (hs : idle s) (hc : cCommand < 0x80)
    (ht : (pDrive s).track ≤ E.MAX_CYL - 1)
    (hd : cCommand &&& 0xF0 = WD179X_SEEK → s.fdc_data ≤ E.MAX_CYL - 1) :
    (pDrive (Do1793Command E cCommand s).2).track ≤ E.MAX_CYL - 1 := by
  have hI := isTypeI_of_lt cCommand hc
  rw [typeI_pDrive E cCommand s hs hI]
  by_cases hseek : cCommand &&& 0xF0 = WD179X_SEEK
  · rw [exec_seek_track E cCommand _ hseek, setup_fdc_data]
    exact hd hseek
  · apply exec_typeI_track_le E cCommand _ hI hseek
    rw [pDrive_setup]; exact ht

/-- Instance of C7: SEEK (0x10) to the Data register value 40. -/
theorem C7_witness :
    (pDrive (Do1793Command demoEnv 0x10
      (WD179X_Write demoEnv WD179X_DATA 40 demoState).2).2).track ≤ demoEnv.MAX_CYL - 1 :=
  C7_typeI_track_stays_in_range demoEnv (WD179X_Write demoEnv WD179X_DATA 40 demoState).2 0x10
    ⟨⟨by decide, by decide⟩, by decide⟩ (by decide) (by decide) (fun _ => by decide)

/-- C7, as stated, fails: SEEK to the Data register value 255 is accepted and leaves the
drive on track 255, outside `[0, MAX_CYL-1]` for `MAX_CYL = 80`; and a plain STEP (0x20) from
track 200 (written through the Track port) leaves the drive on track 200. -/
theorem C7_counterexample :
    idle (WD179X_Write demoEnv WD179X_DATA 255 demoState).2 ∧
      0x10 &&& 0xF0 = WD179X_SEEK ∧
      (pDrive (Do1793Command demoEnv 0x10
        (WD179X_Write demoEnv WD179X_DATA 255 demoState).2).2).track = 255 ∧
      ¬ (pDrive (Do1793Command demoEnv 0x10
        (WD179X_Write demoEnv WD179X_DATA 255 demoState).2).2).track ≤ demoEnv.MAX_CYL - 1 ∧
      idle (WD179X_Write demoEnv WD179X_TRACK 200 demoState).2 ∧
      0x20 &&& 0xF0 = WD179X_STEP ∧
      ¬ (pDrive (Do1793Command demoEnv 0x20
        (WD179X_Write demoEnv WD179X_TRACK 200 demoState).2).2).track ≤ demoEnv.MAX_CYL - 1 :=
  ⟨by decide, by decide, by decide, by decide, by decide, by decide, by decide⟩

/-- C8 (amended): an accepted STEP_IN_U command sets `step_dir` to +1; from a track
`t ≤ MAX_CYL-1` it leaves the track `min(t+1, MAX_CYL-1)`, and from a track above `MAX_CYL-1`
it leaves the track unchanged (`MAX_CYL` being at most 256, so that `t+1` fits a byte). -/
theorem C8_step_in_u (E : Env Img) (s : WD179X_INFO Img) (cCommand : Nat)
    (hs : idle s) (hc : cCommand &&& 0xF0 = WD179X_STEP_IN_U) (hmax : E.MAX_CYL ≤ 256) :
    ((pDrive s).track ≤ E.MAX_CYL - 1 →
        (pDrive (Do1793Command E cCommand s).2).track
          = min ((pDrive s).track + 1) (E.MAX_CYL - 1)) ∧
      (E.MAX_CYL - 1 < (pDrive s).track →
        (pDrive (Do1793Command E cCommand s).2).track = (pDrive s).track) ∧
      (Do1793Command E cCommand s).2.step_dir = 1 := by
  have hI : isTypeI cCommand := by unfold isTypeI; simp [hc]
  rw [typeI_pDrive E cCommand s hs hI, typeI_step_dir E cCommand s hs hI,
    (exec_step_in_u E cCommand _ hc).1, (exec_step_in_u E cCommand _ hc).2, pDrive_setup]
  have hp : pDrive { s with fdc_status := s.fdc_status &&& (0xFF - WD179X_STAT_NOT_READY) }
      = pDrive s := rfl
  rw [hp]
  refine ⟨?_, ?_, rfl⟩
  · intro ht
    split_ifs with h1
    · rw [Nat.mod_eq_of_lt (by omega)]; omega
    · omega
  · intro ht
    rw [if_neg (by omega)]

/-- Instance of C8: STEP_IN_U (0x50) from track 0. -/
theorem C8_witness :
    (pDrive (Do1793Command demoEnv 0x50 demoState).2).track = 1 ∧
      (Do1793Command demoEnv 0x50 demoState).2.step_dir = 1 :=
  have h := C8_step_in_u demoEnv demoState 0x50 ⟨⟨by decide, rfl⟩, by decide⟩ (by decide)
    (by decide)
  ⟨h.1 (by decide), h.2.2⟩

/-- C8, as stated, fails: from track 200 (written through the Track port) an accepted
STEP_IN_U leaves the track at 200, which is not `min(200+1, MAX_CYL-1) = 79`. -/
theorem C8_counterexample :
    idle (WD179X_Write demoEnv WD179X_TRACK 200 demoState).2 ∧
      0x50 &&& 0xF0 = WD179X_STEP_IN_U ∧
      (pDrive (WD179X_Write demoEnv WD179X_TRACK 200 demoState).2).track = 200 ∧
      (pDrive (Do1793Command demoEnv 0x50
        (WD179X_Write demoEnv WD179X_TRACK 200 demoState).2).2).track = 200 ∧
      (pDrive (Do1793Command demoEnv 0x50
        (WD179X_Write demoEnv WD179X_TRACK 200 demoState).2).2).track
        ≠ min ((pDrive (WD179X_Write demoEnv WD179X_TRACK 200 demoState).2).track + 1)
            (demoEnv.MAX_CYL - 1) :=
  ⟨⟨⟨by decide, by decide⟩, by decide⟩, by decide, by decide, by decide, by decide⟩

/-- C9: an accepted STEP_OUT_U command leaves the track `max(t-1, 0)` where `t` is the track
before (a decrement that stops at 0, without wrap-around), and sets `step_dir` to -1. -/
theorem C9_step_out_u (E : Env Img) (s : WD179X_INFO Img) (cCommand : Nat)
    (hs : idle s) (hc : cCommand &&& 0xF0 = WD179X_STEP_OUT_U) :
    ((pDrive (Do1793Command E cCommand s).2).track : Int)
        = max (((pDrive s).track : Int) - 1) 0 ∧
      (Do1793Command E cCommand s).2.step_dir = -1 := by
  have hI : isTypeI cCommand := by unfold isTypeI; simp [hc]
  rw [typeI_pDrive E cCommand s hs hI, typeI_step_dir E cCommand s hs hI,
    (exec_step_out_u E cCommand _ hc).1, (exec_step_out_u E cCommand _ hc).2, pDrive_setup]
  have hp : pDrive { s with fdc_status := s.fdc_status &&& (0xFF - WD179X_STAT_NOT_READY) }
      = pDrive s := rfl
  rw [hp]
  refine ⟨?_, rfl⟩
  omega

/-- Instance of C9: STEP_OUT_U (0x70) from track 5. -/
theorem C9_witness :
    ((pDrive (Do1793Command demoEnv 0x70 (setTrack demoState 5)).2).track : Int)
        = max (((pDrive (setTrack demoState 5)).track : Int) - 1) 0 ∧
      (Do1793Command demoEnv 0x70 (setTrack demoState 5)).2.step_dir = -1 :=
  C9_step_out_u demoEnv (setTrack demoState 5) 0x70 (by decide) (by decide)

/-- C10: an accepted STEP_U command reuses the latched direction.  With `step_dir = +1` (as
STEP_IN_U leaves it) the track becomes what STEP_IN_U gives, with `step_dir = -1` (as STEP_OUT_U
leaves it) what STEP_OUT_U gives, otherwise it is unchanged; `step_dir` itself is unchanged.  In
particular a STEP_U that follows a STEP_IN_U (or a STEP_OUT_U) moves the track as a second
STEP_IN_U (STEP_OUT_U) would. -/
theorem C10_step_u_reuses_direction (E : Env Img) (s : WD179X_INFO Img)
    (cCommand cIn cOut : Nat) (hs : idle s)
    (hc : cCommand &&& 0xF0 = WD179X_STEP_U)
    (hin : cIn &&& 0xF0 = WD179X_STEP_IN_U) (hout : cOut &&& 0xF0 = WD179X_STEP_OUT_U) :
    (s.step_dir = 1 →
        (pDrive (Do1793Command E cCommand s).2).track
          = (pDrive (Do1793Command E cIn s).2).track) ∧
      (s.step_dir = -1 →
        (pDrive (Do1793Command E cCommand s).2).track
          = (pDrive (Do1793Command E cOut s).2).track) ∧
      (s.step_dir ≠ 1 → s.step_dir ≠ -1 →
        (pDrive (Do1793Command E cCommand s).2).track = (pDrive s).track) ∧
      (Do1793Command E cCommand s).2.step_dir = s.step_dir ∧
      (pDrive (Do1793Command E cCommand (Do1793Command E cIn s).2).2).track
        = (pDrive (Do1793Command E cIn (Do1793Command E cIn s).2).2).track ∧
      (pDrive (Do1793Command E cCommand (Do1793Command E cOut s).2).2).track
        = (pDrive (Do1793Command E cOut (Do1793Command E cOut s).2).2).track := by
  have hI : isTypeI cCommand := by unfold isTypeI; simp [hc]
  have hIin : isTypeI cIn := by unfold isTypeI; simp [hin]
  have hIout : isTypeI cOut := by unfold isTypeI; simp [hout]
  have key : ∀ s : WD179X_INFO Img, idle s →
      (s.step_dir = 1 →
        (pDrive (Do1793Command E cCommand s).2).track
          = (pDrive (Do1793Command E cIn s).2).track) ∧
      (s.step_dir = -1 →
        (pDrive (Do1793Command E cCommand s).2).track
          = (pDrive (Do1793Command E cOut s).2).track) ∧
      (s.step_dir ≠ 1 → s.step_dir ≠ -1 →
        (pDrive (Do1793Command E cCommand s).2).track = (pDrive s).track) ∧
      (Do1793Command E cCommand s).2.step_dir = s.step_dir := by
    intro s hs
    have hp : pDrive { s with fdc_status := s.fdc_status &&& (0xFF - WD179X_STAT_NOT_READY) }
        = pDrive s := rfl
    rw [typeI_pDrive E cCommand s hs hI, typeI_pDrive E cIn s hs hIin,
      typeI_pDrive E cOut s hs hIout, typeI_step_dir E cCommand s hs hI,
      (exec_step_u E cCommand _ hc).1, (exec_step_u E cCommand _ hc).2,
      (exec_step_in_u E cIn _ hin).1, (exec_step_out_u E cOut _ hout).1]
    simp only [pDrive_setup, setup_step_dir, hp]
    refine ⟨?_, ?_, ?_, trivial⟩
    · intro h1; rw [if_pos h1]
    · intro h1; rw [if_neg (by omega), if_pos h1]
    · intro h1 h2; rw [if_neg h1, if_neg h2]
  obtain ⟨k1, k2, k3, k4⟩ := key s hs
  have hsin : (Do1793Command E cIn s).2.step_dir = 1 := by
    rw [typeI_step_dir E cIn s hs hIin]; exact (exec_step_in_u E cIn _ hin).2
  have hsout : (Do1793Command E cOut s).2.step_dir = -1 := by
    rw [typeI_step_dir E cOut s hs hIout]; exact (exec_step_out_u E cOut _ hout).2
  exact ⟨k1, k2, k3, k4,
    (key _ (typeI_idle E cIn s hs hIin)).1 hsin,
    (key _ (typeI_idle E cOut s hs hIout)).2.1 hsout⟩

/-- Instance of C10: STEP_U (0x30) after STEP_IN_U (0x50) moves as a second STEP_IN_U. -/
theorem C10_witness :
    (pDrive (Do1793Command demoEnv 0x30 (Do1793Command demoEnv 0x50 demoState).2).2).track
      = (pDrive (Do1793Command demoEnv 0x50 (Do1793Command demoEnv 0x50 demoState).2).2).track :=
  (C10_step_u_reuses_direction demoEnv demoState 0x30 0x50 0x70 ⟨⟨by decide, rfl⟩, by decide⟩
    (by decide) (by decide) (by decide)).2.2.2.2.1

theorem Do1793Command_busy (E : Env Img) (c : Nat) (s : WD179X_INFO Img)
    (hd : validDrive s) (hbusy : s.fdc_status &&& WD179X_STAT_BUSY ≠ 0) :
    Do1793Command E c s = (0xFF, s) := by
  obtain ⟨h1, h2⟩ := hd
  unfold Do1793Command
  rw [if_neg (by omega), if_neg (by simp [h2]), if_pos hbusy]

theorem validDrive_Write_clear (s : WD179X_INFO Img) (hd : validDrive s) :
    validDrive (WD179X_Write_clear s) := by
  unfold validDrive pDrive WD179X_Write_clear at *
  simpa using hd

/-- C1: with a valid attached drive selected and BUSY set, a command byte other than FORCE_INTR
written to the command port leaves the Status register (hence every status bit), the Track
register (the selected drive), the Sector register and the Data register as they were, and the
call of `Do1793Command` made by the port write returns 0xFF; called directly, `Do1793Command`
returns 0xFF and changes nothing at all. -/
theorem C1_busy_command_rejected (E : Env Img) (s : WD179X_INFO Img) (Addr cCommand : Nat)
    (hd : validDrive s) (hbusy : s.fdc_status &&& WD179X_STAT_BUSY ≠ 0)
    (hcmd : cCommand &&& 0xF0 ≠ WD179X_FORCE_INTR)
    (hport : Addr &&& 0x3 = WD179X_STATUS) :
    (Do1793Command E cCommand (WD179X_Write_clear s)).1 = 0xFF ∧
      Do1793Command E cCommand s = (0xFF, s) ∧
      (WD179X_Write E Addr cCommand s).2.fdc_status = s.fdc_status ∧
      pDrive (WD179X_Write E Addr cCommand s).2 = pDrive s ∧
      (WD179X_Write E Addr cCommand s).2.fdc_sector = s.fdc_sector ∧
      (WD179X_Write E Addr cCommand s).2.fdc_data = s.fdc_data := by
  have _ := hcmd
  have hd' := validDrive_Write_clear s hd
  have hb' : (WD179X_Write_clear s).fdc_status &&& WD179X_STAT_BUSY ≠ 0 := by
    simpa [WD179X_Write_clear] using hbusy
  have hcall := Do1793Command_busy E cCommand (WD179X_Write_clear s) hd' hb'
  have hw : (WD179X_Write E Addr cCommand s).2 = WD179X_Write_clear s := by
    obtain ⟨h1, h2⟩ := hd
    unfold WD179X_Write
    rw [if_neg (by omega), if_neg (by simp [h2]), if_pos hport, hcall]
  refine ⟨by rw [hcall], Do1793Command_busy E cCommand s hd hbusy, ?_, ?_, ?_, ?_⟩ <;>
    rw [hw] <;> simp [WD179X_Write_clear, pDrive]

/-- Instance of C1: SEEK (0x10) written to the command port in the middle of the
multi-sector read. -/
theorem C1_witness :
    (Do1793Command demoEnv 0x10 (WD179X_Write_clear busyState)).1 = 0xFF ∧
      Do1793Command demoEnv 0x10 busyState = (0xFF, busyState) ∧
      (WD179X_Write demoEnv WD179X_STATUS 0x10 busyState).2.fdc_status = busyState.fdc_status ∧
      pDrive (WD179X_Write demoEnv WD179X_STATUS 0x10 busyState).2 = pDrive busyState ∧
      (WD179X_Write demoEnv WD179X_STATUS 0x10 busyState).2.fdc_sector
        = busyState.fdc_sector ∧
      (WD179X_Write demoEnv WD179X_STATUS 0x10 busyState).2.fdc_data = busyState.fdc_data :=
  C1_busy_command_rejected demoEnv busyState WD179X_STATUS 0x10
    ⟨by decide, by decide⟩ (by decide) (by decide) (by decide)

/-- C2 (defect of the code): FORCE_INTR with low nibble 0 (0xD0) written to the command port
while BUSY is set, here in the middle of a multi-sector read, is rejected like any other
command: `Do1793Command` returns 0xFF, and BUSY and DRQ stay set in the status register, the
`drq` line stays 1. -/
theorem C2_force_intr_zero_rejected_while_busy :
    validDrive busyState ∧ busyState.fdc_status = WD179X_STAT_DRQ ||| WD179X_STAT_BUSY ∧
      0xD0 &&& 0xF0 = WD179X_FORCE_INTR ∧
      (Do1793Command demoEnv 0xD0 (WD179X_Write_clear busyState)).1 = 0xFF ∧
      (WD179X_Write demoEnv WD179X_STATUS 0xD0 busyState).2.fdc_status
        &&& WD179X_STAT_BUSY ≠ 0 ∧
      (WD179X_Write demoEnv WD179X_STATUS 0xD0 busyState).2.fdc_status
        &&& WD179X_STAT_DRQ ≠ 0 ∧
      (WD179X_Write demoEnv WD179X_STATUS 0xD0 busyState).2.drq = 1 := by
  refine ⟨⟨by decide, by decide⟩, by decide, by decide, by decide, by decide, by decide,
    by decide⟩

/-- C3 (defect of the code): FORCE_INTR with a non-zero low nibble written to the command
port while BUSY is set is rejected: after 0xD8 (immediate interrupt) the status still has BUSY
set and `intrq` is still 0, after 0xD4 (wait for the index pulse) BUSY is still set and
`index_pulse_wait` is still 0. -/
theorem C3_force_intr_nonzero_rejected_while_busy :
    validDrive busyState ∧ busyState.fdc_status = WD179X_STAT_DRQ ||| WD179X_STAT_BUSY ∧
      busyState.intrq = 0 ∧ busyState.index_pulse_wait = 0 ∧
      (Do1793Command demoEnv 0xD8 (WD179X_Write_clear busyState)).1 = 0xFF ∧
      (WD179X_Write demoEnv WD179X_STATUS 0xD8 busyState).2.fdc_status
        = WD179X_STAT_DRQ ||| WD179X_STAT_BUSY ∧
      (WD179X_Write demoEnv WD179X_STATUS 0xD8 busyState).2.intrq = 0 ∧
      (Do1793Command demoEnv 0xD4 (WD179X_Write_clear busyState)).1 = 0xFF ∧
      (WD179X_Write demoEnv WD179X_STATUS 0xD4 busyState).2.fdc_status
        = WD179X_STAT_DRQ ||| WD179X_STAT_BUSY ∧
      (WD179X_Write demoEnv WD179X_STATUS 0xD4 busyState).2.index_pulse_wait = 0 := by
  refine ⟨⟨by decide, by decide⟩, by decide, by decide, by decide, by decide, by decide,
    by decide, by decide, by decide, by decide⟩

theorem not_typeI_of_forceIntr (c : Nat) (hc : c &&& 0xF0 = WD179X_FORCE_INTR) :
    ¬ isTypeI c ∧ ¬ isTypeII c ∧ ¬ isTypeIII c := by
  unfold isTypeI isTypeII isTypeIII; rw [hc]; decide

theorem setup_forceIntr (c : Nat) (s : WD179X_INFO Img)
    (hc : c &&& 0xF0 = WD179X_FORCE_INTR) :
    Do1793Command_setup c s = { s with cmdtype := 4 } := by
  obtain ⟨n1, n2, n3⟩ := not_typeI_of_forceIntr c hc
  unfold Do1793Command_setup
  rw [if_neg n1, if_neg n2, if_neg n3, if_pos hc]

theorem exec_forceIntr (E : Env Img) (c : Nat) (s : WD179X_INFO Img)
    (hc : c &&& 0xF0 = WD179X_FORCE_INTR) :
    Do1793Command_exec E c s = (none, Do1793Command_forceIntr E c s) := by
  unfold Do1793Command_exec; rw [hc]
  simp [WD179X_RESTORE, WD179X_SEEK, WD179X_STEP, WD179X_STEP_U, WD179X_STEP_IN,
    WD179X_STEP_IN_U, WD179X_STEP_OUT, WD179X_STEP_OUT_U, WD179X_READ_REC, WD179X_READ_RECS,
    WD179X_WRITE_REC, WD179X_WRITE_RECS, WD179X_READ_ADDR, WD179X_READ_TRACK,
    WD179X_WRITE_TRACK, WD179X_FORCE_INTR]

theorem post_forceIntr (E : Env Img) (c : Nat) (s : WD179X_INFO Img)
    (hc : c &&& 0xF0 = WD179X_FORCE_INTR) :
    Do1793Command_post E c s = s := by
  obtain ⟨n1, n2, n3⟩ := not_typeI_of_forceIntr c hc
  unfold Do1793Command_post
  rw [if_neg n1, if_neg (by tauto)]

theorem Do1793Command_forceIntr_eq (E : Env Img) (c : Nat) (s : WD179X_INFO Img)
    (hs : idle s) (hc : c &&& 0xF0 = WD179X_FORCE_INTR) :
    Do1793Command E c s = (0, Do1793Command_forceIntr E c
      { s with fdc_status := s.fdc_status &&& (0xFF - WD179X_STAT_NOT_READY), cmdtype := 4 }) := by
  obtain ⟨⟨h1, h2⟩, h3⟩ := hs
  unfold Do1793Command
  rw [if_neg (by omega), if_neg (by simp [h2]), if_neg (by simp [h3])]
  dsimp only
  rw [setup_forceIntr c _ hc, exec_forceIntr E c _ hc]
  dsimp only
  rw [post_forceIntr E c _ hc]

/-- FORCE_INTR with low nibble 0 on a controller that is not BUSY: the part of C2 that the
code does fulfil. -/
theorem forceIntr_zero_idle (E : Env Img) (c : Nat) (s : WD179X_INFO Img)
    (hs : idle s) (hc : c &&& 0xF0 = WD179X_FORCE_INTR) (h0 : c &&& 0x0F = 0) :
    (Do1793Command E c s).1 = 0 ∧
      (Do1793Command E c s).2.fdc_status &&& WD179X_STAT_BUSY = 0 ∧
      (Do1793Command E c s).2.fdc_status &&& WD179X_STAT_DRQ = 0 ∧
      (Do1793Command E c s).2.drq = 0 ∧
      (Do1793Command E c s).2.fdc_read = FALSE ∧
      (Do1793Command E c s).2.fdc_write = FALSE ∧
      (Do1793Command E c s).2.fdc_write_track = FALSE ∧
      (Do1793Command E c s).2.fdc_read_addr = FALSE ∧
      (Do1793Command E c s).2.fdc_datacount = 0 ∧
      (Do1793Command E c s).2.fdc_dataindex = 0 ∧
      (Do1793Command E c s).2.intrq = s.intrq := by
  rw [Do1793Command_forceIntr_eq E c s hs hc]
  unfold Do1793Command_forceIntr
  rw [if_pos h0]
  refine ⟨rfl, ?_, ?_, rfl, rfl, rfl, rfl, rfl, rfl, rfl, rfl⟩
  · rw [and_BUSY_eq_zero]; simp +decide [WD179X_STAT_DRQ, WD179X_STAT_BUSY]
  · rw [and_DRQ_eq_zero]; simp +decide [WD179X_STAT_DRQ, WD179X_STAT_BUSY]

/-- FORCE_INTR with a non-zero low nibble on a controller that is not BUSY: the part of C3
that the code does fulfil. -/
theorem forceIntr_nonzero_idle (E : Env Img) (c : Nat) (s : WD179X_INFO Img)
    (hs : idle s) (hc : c &&& 0xF0 = WD179X_FORCE_INTR) (h0 : c &&& 0x0F ≠ 0) :
    (Do1793Command E c s).1 = 0 ∧
      (Do1793Command E c s).2.fdc_status = 0 ∧
      (c &&& 0x04 ≠ 0 → (Do1793Command E c s).2.index_pulse_wait = TRUE ∧
        (Do1793Command E c s).2.intrq = s.intrq) ∧
      (c &&& 0x04 = 0 → (Do1793Command E c s).2.intrq = 1) := by
  rw [Do1793Command_forceIntr_eq E c s hs hc]
  unfold Do1793Command_forceIntr
  rw [if_neg h0]
  have hb : ¬ (s.fdc_status &&& (0xFF - WD179X_STAT_NOT_READY) &&& WD179X_STAT_BUSY ≠ 0) := by
    have := hs.2
    rw [and_BUSY_eq_zero] at this
    rw [and_BUSY_ne_zero, Nat.testBit_and, this]; simp
  dsimp only
  rw [if_neg hb]
  refine ⟨rfl, ?_, ?_, ?_⟩
  · split_ifs <;> simp
  · intro h4
    rw [if_pos h4]
    split_ifs <;> simp
  · intro h4
    rw [if_neg (by simp [h4])]
    simp

/-! ## The claims on the port interface -/

theorem exec_plain_step (E : Env Img) (c : Nat) (s : WD179X_INFO Img)
    (h : c &&& 0xF0 = WD179X_STEP ∨ c &&& 0xF0 = WD179X_STEP_IN ∨ c &&& 0xF0 = WD179X_STEP_OUT) :
    Do1793Command_exec E c s = (none, s) := by
  unfold Do1793Command_exec
  rcases h with h | h | h <;> rw [h] <;>
    simp [WD179X_RESTORE, WD179X_SEEK, WD179X_STEP, WD179X_STEP_U, WD179X_STEP_IN,
      WD179X_STEP_IN_U, WD179X_STEP_OUT]

/-- C11: the plain commands STEP (0x2x), STEP_IN (0x4x) and STEP_OUT (0x6x), when accepted,
leave the track of the selected drive and `step_dir` as they were. -/
theorem C11_plain_step_no_move (E : Env Img) (s : WD179X_INFO Img) (cCommand : Nat)
    (hs : idle s)
    (hc : cCommand &&& 0xF0 = WD179X_STEP ∨ cCommand &&& 0xF0 = WD179X_STEP_IN
      ∨ cCommand &&& 0xF0 = WD179X_STEP_OUT) :
    (pDrive (Do1793Command E cCommand s).2).track = (pDrive s).track ∧
      (Do1793Command E cCommand s).2.step_dir = s.step_dir := by
  have hI : isTypeI cCommand := by
    unfold isTypeI; rcases hc with h | h | h <;> simp [h]
  rw [typeI_pDrive E cCommand s hs hI, typeI_step_dir E cCommand s hs hI,
    exec_plain_step E cCommand _ hc]
  dsimp only
  rw [pDrive_setup, setup_step_dir]
  exact ⟨rfl, rfl⟩

/-- Instance of C11: STEP_IN with head load (0x48) from track 5. -/
theorem C11_witness :
    (pDrive (Do1793Command demoEnv 0x48 (setTrack demoState 5)).2).track
        = (pDrive (setTrack demoState 5)).track ∧
      (Do1793Command demoEnv 0x48 (setTrack demoState 5)).2.step_dir
        = (setTrack demoState 5).step_dir :=
  C11_plain_step_no_move demoEnv (setTrack demoState 5) 0x48 (by decide)
    (Or.inr (Or.inl (by decide)))

/-- C18: with a selected drive below 4, a read of the Track port returns the track of the
selected drive, a read of the Sector port returns the sector register, and neither changes
the state. -/
theorem C18_track_sector_reads_pure (E : Env Img) (s : WD179X_INFO Img) (Addr : Nat)
    (hsel : s.sel_drive < WD179X_MAX_DRIVES) :
    (Addr &&& 0x3 = WD179X_TRACK → WD179X_Read E Addr s = ((pDrive s).track, s)) ∧
      (Addr &&& 0x3 = WD179X_SECTOR → WD179X_Read E Addr s = (s.fdc_sector, s)) := by
  constructor
  · intro h
    unfold WD179X_Read
    rw [if_neg (by omega), h]
    simp [WD179X_STATUS, WD179X_TRACK]
  · intro h
    unfold WD179X_Read
    rw [if_neg (by omega), h]
    simp [WD179X_STATUS, WD179X_TRACK, WD179X_SECTOR]

/-- Instance of C18: reads of ports 1 and 2 in the middle of the multi-sector read. -/
theorem C18_witness :
    WD179X_Read demoEnv 1 busyState = ((pDrive busyState).track, busyState) ∧
      WD179X_Read demoEnv 2 busyState = (busyState.fdc_sector, busyState) :=
  ⟨(C18_track_sector_reads_pure demoEnv busyState 1 (by decide)).1 (by decide),
    (C18_track_sector_reads_pure demoEnv busyState 2 (by decide)).2 (by decide)⟩

/-- C19: with a selected-drive index of 4 or more, every port read, every port write and the
command handler return 0xFF and leave the whole state as it was. -/
theorem C19_illegal_drive_no_op (E : Env Img) (s : WD179X_INFO Img) (Addr cData : Nat)
    (hsel : s.sel_drive ≥ WD179X_MAX_DRIVES) :
    WD179X_Read E Addr s = (0xFF, s) ∧ WD179X_Write E Addr cData s = (0xFF, s) ∧
      Do1793Command E cData s = (0xFF, s) := by
  refine ⟨?_, ?_, ?_⟩
  · unfold WD179X_Read; rw [if_pos hsel]
  · unfold WD179X_Write; rw [if_pos hsel]
  · unfold Do1793Command; rw [if_pos hsel]

/-- Instance of C19: drive index 4 selected, Data port 3, byte 0x90. -/
theorem C19_witness :
    WD179X_Read demoEnv 3 { busyState with sel_drive := 4 }
        = (0xFF, { busyState with sel_drive := 4 }) ∧
      WD179X_Write demoEnv 3 0x90 { busyState with sel_drive := 4 }
        = (0xFF, { busyState with sel_drive := 4 }) ∧
      Do1793Command demoEnv 0x90 { busyState with sel_drive := 4 }
        = (0xFF, { busyState with sel_drive := 4 }) :=
  C19_illegal_drive_no_op demoEnv { busyState with sel_drive := 4 } 3 0x90 (by decide)


theorem and_NOT_READY_ne_zero (x : Nat) :
    x &&& WD179X_STAT_NOT_READY ≠ 0 ↔ x.testBit 7 = true :=
  and_two_pow_ne_zero x 7

theorem Read_status_eq (E : Env Img) (s : WD179X_INFO Img) (Addr : Nat)
    (hsel : s.sel_drive < WD179X_MAX_DRIVES) (h : Addr &&& 0x3 = WD179X_STATUS) :
    ∃ st v, WD179X_Read E Addr s
        = ((if (pDrive s).ready = 0 then WD179X_STAT_NOT_READY else 0) ||| st,
            { s with fdc_status := st, intrq := 0, vectorInterrupt := v }) ∧
      (∀ i, i < 8 → i ≠ 1 → i ≠ 2 → st.testBit i = s.fdc_status.testBit i) := by
  unfold WD179X_Read
  rw [if_neg (by omega), if_pos h]
  dsimp only
  by_cases hc : s.cmdtype = 0 ∨ s.cmdtype = 1 ∨ s.cmdtype = 4
  · rw [if_pos hc]
    refine ⟨((s.fdc_status ^^^ WD179X_STAT_INDEX) &&& (0xFF - WD179X_STAT_TRACK0))
        ||| (if (pDrive s).track = 0 then WD179X_STAT_TRACK0 else 0),
      if s.intenable ≠ 0 then
        s.vectorInterrupt &&& (2 ^ 32 - 1 - (1 <<< s.intvector) % 2 ^ 32)
      else s.vectorInterrupt, ?_, ?_⟩
    · dsimp only [pDrive]; split_ifs <;> rfl
    · intro i hi h1 h2
      simp only [WD179X_STAT_INDEX, WD179X_STAT_TRACK0]
      interval_cases i <;> first | contradiction |
        (split_ifs <;> simp only [Nat.testBit_and, Nat.testBit_or, Nat.testBit_xor] <;>
          generalize s.fdc_status.testBit _ = b <;> cases b <;> decide)
  · rw [if_neg hc]
    by_cases h4 : s.cmdtype = 4
    · exact absurd (Or.inr (Or.inr h4)) hc
    · rw [if_neg h4]
      refine ⟨(s.fdc_status &&& (0xFF - WD179X_STAT_INDEX))
          ||| (if s.drq ≠ 0 then WD179X_STAT_DRQ else 0),
        if s.intenable ≠ 0 then
          s.vectorInterrupt &&& (2 ^ 32 - 1 - (1 <<< s.intvector) % 2 ^ 32)
        else s.vectorInterrupt, ?_, ?_⟩
      · dsimp only [pDrive]; split_ifs <;> rfl
      · intro i hi h1 h2
        simp only [WD179X_STAT_INDEX, WD179X_STAT_DRQ]
        interval_cases i <;> first | contradiction |
        (split_ifs <;> simp only [Nat.testBit_and, Nat.testBit_or, Nat.testBit_xor] <;>
          generalize s.fdc_status.testBit _ = b <;> cases b <;> decide)

/-- C17: with a selected drive below 4, a read of the Status port sets `intrq` to 0 and leaves
every part of the state as it was except `intrq`, the interrupt-vector word and the status
register, whose BUSY bit and every bit other than bit 1 (INDEX/DRQ) and bit 2 (TRACK0) keep
their value. -/
theorem C17_status_read_frame (E : Env Img) (s : WD179X_INFO Img) (Addr : Nat)
    (hsel : s.sel_drive < WD179X_MAX_DRIVES) (h : Addr &&& 0x3 = WD179X_STATUS) :
    (WD179X_Read E Addr s).2.intrq = 0 ∧
      (WD179X_Read E Addr s).2.fdc_status &&& WD179X_STAT_BUSY
        = s.fdc_status &&& WD179X_STAT_BUSY ∧
      (∀ i, i < 8 → i ≠ 1 → i ≠ 2 →
        (WD179X_Read E Addr s).2.fdc_status.testBit i = s.fdc_status.testBit i) ∧
      (WD179X_Read E Addr s).2 = { s with
        fdc_status := (WD179X_Read E Addr s).2.fdc_status
        intrq := (WD179X_Read E Addr s).2.intrq
        vectorInterrupt := (WD179X_Read E Addr s).2.vectorInterrupt } := by
  obtain ⟨st, v, heq, hbits⟩ := Read_status_eq E s Addr hsel h
  rw [heq]
  refine ⟨rfl, ?_, hbits, rfl⟩
  have h0 := hbits 0 (by omega) (by omega) (by omega)
  simp only [WD179X_STAT_BUSY, Nat.and_one_is_mod]
  simp only [Nat.testBit_zero] at h0
  rcases Nat.mod_two_eq_zero_or_one st with a | a <;>
    rcases Nat.mod_two_eq_zero_or_one s.fdc_status with b | b <;> simp_all

/-- Instance of C17: a Status read in the middle of the multi-sector read. -/
theorem C17_witness :
    (WD179X_Read demoEnv 0 busyState).2.intrq = 0 ∧
      (WD179X_Read demoEnv 0 busyState).2.fdc_status &&& WD179X_STAT_BUSY
        = busyState.fdc_status &&& WD179X_STAT_BUSY :=
  have h := C17_status_read_frame demoEnv busyState 0 (by decide) (by decide)
  ⟨h.1, h.2.1⟩

theorem Read_data_eq (E : Env Img) (s : WD179X_INFO Img) (Addr : Nat)
    (hsel : s.sel_drive < WD179X_MAX_DRIVES) (h : Addr &&& 0x3 = WD179X_DATA) :
    WD179X_Read E Addr s = WD179X_Read_data E s := by
  unfold WD179X_Read
  rw [if_neg (by omega), h]
  simp [WD179X_STATUS, WD179X_TRACK, WD179X_SECTOR, WD179X_DATA]

/-- A read of the Data port that does not deliver the last byte of the transfer. -/
theorem Read_data_mid (E : Env Img) (s : WD179X_INFO Img)
    (hr : s.fdc_read = TRUE) (hlt : s.fdc_dataindex + 1 < s.fdc_datacount)
    (hc : s.fdc_datacount < 65536) :
    WD179X_Read_data E s = (s.raw s.fdc_dataindex,
      { s with fdc_status := s.fdc_status &&& (0xFF - WD179X_STAT_BUSY)
               fdc_dataindex := s.fdc_dataindex + 1 }) := by
  unfold WD179X_Read_data
  rw [if_pos hr, if_pos (by omega)]
  dsimp only
  rw [Nat.mod_eq_of_lt (by omega), if_neg (by omega)]

/-- The read of the Data port that delivers the last byte of a single-sector transfer. -/
theorem Read_data_last_single (E : Env Img) (s : WD179X_INFO Img)
    (hr : s.fdc_read = TRUE) (hm : s.fdc_multiple = FALSE)
    (hlt : s.fdc_dataindex + 1 = s.fdc_datacount) (hc : s.fdc_datacount < 65536) :
    WD179X_Read_data E s = (s.raw s.fdc_dataindex,
      { s with fdc_status := s.fdc_status &&& (0xFF - WD179X_STAT_BUSY)
                 &&& (0xFF - (WD179X_STAT_DRQ ||| WD179X_STAT_BUSY))
               drq := 0
               intrq := 1
               fdc_read := FALSE
               fdc_read_addr := FALSE
               fdc_dataindex := s.fdc_dataindex + 1 }) := by
  unfold WD179X_Read_data
  rw [if_pos hr, if_pos (by omega)]
  dsimp only
  rw [Nat.mod_eq_of_lt (by omega), if_pos hlt, if_pos hm]

/-- A read of the Data port when no read transfer is active returns 0xFF. -/
theorem Read_data_idle (E : Env Img) (s : WD179X_INFO Img) (hr : s.fdc_read ≠ TRUE) :
    WD179X_Read_data E s = (0xFF, s) := by
  unfold WD179X_Read_data
  rw [if_neg hr]

theorem dataReads_idle (E : Env Img) (s : WD179X_INFO Img)
    (hsel : s.sel_drive < WD179X_MAX_DRIVES) (hr : s.fdc_read ≠ TRUE) (m : Nat) :
    dataReads E m s = (List.replicate m 0xFF, s) := by
  induction m with
  | zero => rfl
  | succ m ih =>
    have h1 : WD179X_Read E WD179X_DATA s = (0xFF, s) := by
      rw [Read_data_eq E s _ hsel (by decide), Read_data_idle E s hr]
    simp only [dataReads, h1, ih, List.replicate_succ]

theorem mask_busy_drq (x : Nat) :
    x &&& (0xFF - WD179X_STAT_BUSY) &&& (0xFF - (WD179X_STAT_DRQ ||| WD179X_STAT_BUSY))
      = x &&& 0xFC := by
  rw [Nat.and_assoc]; rfl

theorem mask_busy_twice (x : Nat) :
    x &&& (0xFF - WD179X_STAT_BUSY) &&& 0xFC = x &&& 0xFC := by
  rw [Nat.and_assoc]; rfl

theorem dataReads_single (E : Env Img) (m : Nat) :
    ∀ s : WD179X_INFO Img, s.sel_drive < WD179X_MAX_DRIVES → s.fdc_read = TRUE →
      s.fdc_multiple = FALSE → s.fdc_dataindex + (m + 1) = s.fdc_datacount →
      s.fdc_datacount < 65536 →
      dataReads E (m + 1) s
        = ((List.range (m + 1)).map (fun i => s.raw (s.fdc_dataindex + i)),
          { s with fdc_status := s.fdc_status &&& 0xFC
                   drq := 0
                   intrq := 1
                   fdc_read := FALSE
                   fdc_read_addr := FALSE
                   fdc_dataindex := s.fdc_datacount }) := by
  induction m with
  | zero =>
    intro s hsel hr hm hidx hc
    have h1 := Read_data_last_single E s hr hm (by omega) hc
    rw [← Read_data_eq E s WD179X_DATA hsel (by decide)] at h1
    simp only [dataReads, h1, mask_busy_drq]
    simp [← hidx, List.range_succ]
  | succ m ih =>
    intro s hsel hr hm hidx hc
    have h1 := Read_data_mid E s hr (by omega) hc
    rw [← Read_data_eq E s WD179X_DATA hsel (by decide)] at h1
    have h2 := ih { s with fdc_status := s.fdc_status &&& (0xFF - WD179X_STAT_BUSY)
                           fdc_dataindex := s.fdc_dataindex + 1 } hsel hr hm
      (by dsimp only; omega) hc
    rw [dataReads, h1]
    dsimp only
    rw [h2]
    dsimp only
    rw [mask_busy_twice]
    congr 1
    rw [List.range_succ_eq_map (m + 1), List.map_cons, List.map_map]
    simp only [Nat.add_zero, List.cons.injEq, true_and]
    apply List.map_congr_left
    intro i _
    simp only [Function.comp, Nat.succ_eq_add_one]
    congr 1; omega

/-- C16: in a single-sector read transfer (`fdc_read` set, `fdc_multiple` clear) with
`fdc_dataindex = 0` and `fdc_datacount = n ≥ 1`, `n` successive reads of the Data port return
the buffer bytes `0 .. n-1` in order; afterwards DRQ and BUSY are clear, `drq = 0`,
`intrq = 1`, `fdc_read` and `fdc_read_addr` are cleared, and every later read of the Data port
returns 0xFF and leaves the state as it is. -/
theorem C16_single_sector_read (E : Env Img) (s : WD179X_INFO Img) (n : Nat)
    (hsel : s.sel_drive < WD179X_MAX_DRIVES) (hr : s.fdc_read = TRUE)
    (hm : s.fdc_multiple = FALSE) (hi : s.fdc_dataindex = 0) (hc : s.fdc_datacount = n)
    (hn : 1 ≤ n) (h16 : n < 65536) :
    (dataReads E n s).1 = bufBytes s.raw n ∧
      (dataReads E n s).2.fdc_status &&& WD179X_STAT_DRQ = 0 ∧
      (dataReads E n s).2.fdc_status &&& WD179X_STAT_BUSY = 0 ∧
      (dataReads E n s).2.drq = 0 ∧
      (dataReads E n s).2.intrq = 1 ∧
      (dataReads E n s).2.fdc_read = FALSE ∧
      (dataReads E n s).2.fdc_read_addr = FALSE ∧
      (∀ m, dataReads E m (dataReads E n s).2 = (List.replicate m 0xFF, (dataReads E n s).2)) := by
  obtain ⟨m, rfl⟩ : ∃ m, n = m + 1 := ⟨n - 1, by omega⟩
  have key := dataReads_single E m s hsel hr hm (by omega) (by omega)
  rw [key]
  dsimp only
  refine ⟨?_, ?_, ?_, rfl, rfl, rfl, rfl, ?_⟩
  · simp [bufBytes, hi]
  · rw [and_DRQ_eq_zero]; simp +decide
  · rw [and_BUSY_eq_zero]; simp +decide
  · intro k
    apply dataReads_idle
    · exact hsel
    · show FALSE ≠ TRUE
      decide

/-- Instance of C16: READ_REC (0x80) of sector 1 of track 0, then the 128 reads. -/
theorem C16_witness :
    (dataReads demoEnv 128 (WD179X_Write demoEnv WD179X_STATUS 0x80
        (WD179X_Write demoEnv WD179X_SECTOR 1 demoState).2).2).1
      = bufBytes (WD179X_Write demoEnv WD179X_STATUS 0x80
        (WD179X_Write demoEnv WD179X_SECTOR 1 demoState).2).2.raw 128 ∧
    (dataReads demoEnv 128 (WD179X_Write demoEnv WD179X_STATUS 0x80
        (WD179X_Write demoEnv WD179X_SECTOR 1 demoState).2).2).2.intrq = 1 :=
  have h := C16_single_sector_read demoEnv (WD179X_Write demoEnv WD179X_STATUS 0x80
      (WD179X_Write demoEnv WD179X_SECTOR 1 demoState).2).2 128
    (by decide) (by decide) (by decide) (by decide) (by decide) (by decide) (by decide)
  ⟨h.1, h.2.2.2.2.1⟩

/-! ## Frame of the post-processing stage -/

theorem statusFrame_refl (s : WD179X_INFO Img) : statusFrame s s :=
  ⟨_, _, _, _, _, rfl⟩

theorem statusFrame_trans {a b c : WD179X_INFO Img} (h1 : statusFrame a b)
    (h2 : statusFrame b c) : statusFrame a c := by
  obtain ⟨_, _, _, _, _, rfl⟩ := h1
  obtain ⟨_, _, _, _, _, rfl⟩ := h2
  exact ⟨_, _, _, _, _, rfl⟩

theorem statusFrame_ite {a b c : WD179X_INFO Img} (p : Prop) [Decidable p]
    (h1 : statusFrame a b) (h2 : statusFrame a c) : statusFrame a (if p then b else c) := by
  split_ifs <;> assumption

theorem statusFrame_raise (s : WD179X_INFO Img) : statusFrame s (raiseInterrupt s) := by
  unfold raiseInterrupt; split_ifs <;> exact ⟨_, _, _, _, _, rfl⟩

theorem post_frame_ex (E : Env Img) (c : Nat) (s : WD179X_INFO Img) :
    statusFrame s (Do1793Command_post E c s) := by
  unfold Do1793Command_post
  have hst : ∀ (x : WD179X_INFO Img) (v : Nat), statusFrame x { x with fdc_status := v } :=
    fun x v => ⟨_, _, _, _, _, rfl⟩
  refine statusFrame_ite _ ?_ (statusFrame_ite _ ?_ (statusFrame_refl s))
  · have h1 : statusFrame s
        (if s.verify ≠ 0 then
          if (pDrive s).u3 = ImageType.IMD then
            if E.sectSeek (pDrive s).imd (pDrive s).track s.fdc_head = false then
              { s with fdc_status := s.fdc_status ||| WD179X_STAT_NOT_FOUND }
            else if testMode E s ≠ 0 then
              { s with fdc_status := s.fdc_status ||| WD179X_STAT_NOT_FOUND }
            else s
          else s
        else s) :=
      statusFrame_ite _ (statusFrame_ite _ (statusFrame_ite _ (hst _ _)
        (statusFrame_ite _ (hst _ _) (statusFrame_refl s))) (statusFrame_refl s))
        (statusFrame_refl s)
    refine statusFrame_trans h1 (statusFrame_trans (statusFrame_ite _ (hst _ _) (hst _ _))
      (statusFrame_trans ⟨_, _, _, _, _, rfl⟩
        (statusFrame_trans (statusFrame_raise _) ⟨_, _, _, _, _, rfl⟩)))
  · refine statusFrame_trans (hst s _) (statusFrame_trans
      (statusFrame_ite _ (statusFrame_trans ⟨_, _, _, _, _, rfl⟩
        (statusFrame_raise _)) (statusFrame_refl _)) ⟨_, _, _, _, _, rfl⟩)

/-- Post-processing assigns only the status register, `intrq`, `drq` and the interrupt bus. -/
theorem post_frame (E : Env Img) (c : Nat) (s : WD179X_INFO Img) :
    Do1793Command_post E c s = { s with
      fdc_status := (Do1793Command_post E c s).fdc_status
      intrq := (Do1793Command_post E c s).intrq
      drq := (Do1793Command_post E c s).drq
      vectorInterrupt := (Do1793Command_post E c s).vectorInterrupt
      dataBus := (Do1793Command_post E c s).dataBus } := by
  obtain ⟨st, iq, dq, v, db, h⟩ := post_frame_ex E c s
  rw [h]

theorem post_fdctype (E : Env Img) (c : Nat) (s : WD179X_INFO Img) :
    (Do1793Command_post E c s).fdctype = s.fdctype := by
  obtain ⟨_, _, _, _, _, h⟩ := post_frame_ex E c s; rw [h]

theorem post_intenable (E : Env Img) (c : Nat) (s : WD179X_INFO Img) :
    (Do1793Command_post E c s).intenable = s.intenable := by
  obtain ⟨_, _, _, _, _, h⟩ := post_frame_ex E c s; rw [h]

theorem post_intvector (E : Env Img) (c : Nat) (s : WD179X_INFO Img) :
    (Do1793Command_post E c s).intvector = s.intvector := by
  obtain ⟨_, _, _, _, _, h⟩ := post_frame_ex E c s; rw [h]

theorem post_hld (E : Env Img) (c : Nat) (s : WD179X_INFO Img) :
    (Do1793Command_post E c s).hld = s.hld := by
  obtain ⟨_, _, _, _, _, h⟩ := post_frame_ex E c s; rw [h]

theorem post_drivetype (E : Env Img) (c : Nat) (s : WD179X_INFO Img) :
    (Do1793Command_post E c s).drivetype = s.drivetype := by
  obtain ⟨_, _, _, _, _, h⟩ := post_frame_ex E c s; rw [h]

theorem post_fdc_data (E : Env Img) (c : Nat) (s : WD179X_INFO Img) :
    (Do1793Command_post E c s).fdc_data = s.fdc_data := by
  obtain ⟨_, _, _, _, _, h⟩ := post_frame_ex E c s; rw [h]

theorem post_fdc_read (E : Env Img) (c : Nat) (s : WD179X_INFO Img) :
    (Do1793Command_post E c s).fdc_read = s.fdc_read := by
  obtain ⟨_, _, _, _, _, h⟩ := post_frame_ex E c s; rw [h]

theorem post_fdc_write (E : Env Img) (c : Nat) (s : WD179X_INFO Img) :
    (Do1793Command_post E c s).fdc_write = s.fdc_write := by
  obtain ⟨_, _, _, _, _, h⟩ := post_frame_ex E c s; rw [h]

theorem post_fdc_write_track (E : Env Img) (c : Nat) (s : WD179X_INFO Img) :
    (Do1793Command_post E c s).fdc_write_track = s.fdc_write_track := by
  obtain ⟨_, _, _, _, _, h⟩ := post_frame_ex E c s; rw [h]

theorem post_fdc_fmt_state (E : Env Img) (c : Nat) (s : WD179X_INFO Img) :
    (Do1793Command_post E c s).fdc_fmt_state = s.fdc_fmt_state := by
  obtain ⟨_, _, _, _, _, h⟩ := post_frame_ex E c s; rw [h]

theorem post_fdc_gap (E : Env Img) (c : Nat) (s : WD179X_INFO Img) :
    (Do1793Command_post E c s).fdc_gap = s.fdc_gap := by
  obtain ⟨_, _, _, _, _, h⟩ := post_frame_ex E c s; rw [h]

theorem post_fdc_fmt_sector_count (E : Env Img) (c : Nat) (s : WD179X_INFO Img) :
    (Do1793Command_post E c s).fdc_fmt_sector_count = s.fdc_fmt_sector_count := by
  obtain ⟨_, _, _, _, _, h⟩ := post_frame_ex E c s; rw [h]

theorem post_fdc_sectormap (E : Env Img) (c : Nat) (s : WD179X_INFO Img) :
    (Do1793Command_post E c s).fdc_sectormap = s.fdc_sectormap := by
  obtain ⟨_, _, _, _, _, h⟩ := post_frame_ex E c s; rw [h]

theorem post_fdc_header_index (E : Env Img) (c : Nat) (s : WD179X_INFO Img) :
    (Do1793Command_post E c s).fdc_header_index = s.fdc_header_index := by
  obtain ⟨_, _, _, _, _, h⟩ := post_frame_ex E c s; rw [h]

theorem post_fdc_read_addr (E : Env Img) (c : Nat) (s : WD179X_INFO Img) :
    (Do1793Command_post E c s).fdc_read_addr = s.fdc_read_addr := by
  obtain ⟨_, _, _, _, _, h⟩ := post_frame_ex E c s; rw [h]

theorem post_fdc_multiple (E : Env Img) (c : Nat) (s : WD179X_INFO Img) :
    (Do1793Command_post E c s).fdc_multiple = s.fdc_multiple := by
  obtain ⟨_, _, _, _, _, h⟩ := post_frame_ex E c s; rw [h]

theorem post_fdc_datacount (E : Env Img) (c : Nat) (s : WD179X_INFO Img) :
    (Do1793Command_post E c s).fdc_datacount = s.fdc_datacount := by
  obtain ⟨_, _, _, _, _, h⟩ := post_frame_ex E c s; rw [h]

theorem post_fdc_dataindex (E : Env Img) (c : Nat) (s : WD179X_INFO Img) :
    (Do1793Command_post E c s).fdc_dataindex = s.fdc_dataindex := by
  obtain ⟨_, _, _, _, _, h⟩ := post_frame_ex E c s; rw [h]

theorem post_index_pulse_wait (E : Env Img) (c : Nat) (s : WD179X_INFO Img) :
    (Do1793Command_post E c s).index_pulse_wait = s.index_pulse_wait := by
  obtain ⟨_, _, _, _, _, h⟩ := post_frame_ex E c s; rw [h]

theorem post_fdc_sector (E : Env Img) (c : Nat) (s : WD179X_INFO Img) :
    (Do1793Command_post E c s).fdc_sector = s.fdc_sector := by
  obtain ⟨_, _, _, _, _, h⟩ := post_frame_ex E c s; rw [h]

theorem post_fdc_sec_len (E : Env Img) (c : Nat) (s : WD179X_INFO Img) :
    (Do1793Command_post E c s).fdc_sec_len = s.fdc_sec_len := by
  obtain ⟨_, _, _, _, _, h⟩ := post_frame_ex E c s; rw [h]

theorem post_cmdtype (E : Env Img) (c : Nat) (s : WD179X_INFO Img) :
    (Do1793Command_post E c s).cmdtype = s.cmdtype := by
  obtain ⟨_, _, _, _, _, h⟩ := post_frame_ex E c s; rw [h]

theorem post_external_fifo_len (E : Env Img) (c : Nat) (s : WD179X_INFO Img) :
    (Do1793Command_post E c s).external_fifo_len = s.external_fifo_len := by
  obtain ⟨_, _, _, _, _, h⟩ := post_frame_ex E c s; rw [h]

theorem post_external_fifo (E : Env Img) (c : Nat) (s : WD179X_INFO Img) :
    (Do1793Command_post E c s).external_fifo = s.external_fifo := by
  obtain ⟨_, _, _, _, _, h⟩ := post_frame_ex E c s; rw [h]

theorem post_fdc_fifo_index (E : Env Img) (c : Nat) (s : WD179X_INFO Img) :
    (Do1793Command_post E c s).fdc_fifo_index = s.fdc_fifo_index := by
  obtain ⟨_, _, _, _, _, h⟩ := post_frame_ex E c s; rw [h]

theorem post_raw (E : Env Img) (c : Nat) (s : WD179X_INFO Img) :
    (Do1793Command_post E c s).raw = s.raw := by
  obtain ⟨_, _, _, _, _, h⟩ := post_frame_ex E c s; rw [h]

theorem post_trace (E : Env Img) (c : Nat) (s : WD179X_INFO Img) :
    (Do1793Command_post E c s).trace = s.trace := by
  obtain ⟨_, _, _, _, _, h⟩ := post_frame_ex E c s; rw [h]

/-! ## READ_ADDR -/

theorem typeIII_of_readAddr (c : Nat) (hc : c &&& 0xF0 = WD179X_READ_ADDR) :
    ¬ isTypeI c ∧ ¬ isTypeII c ∧ isTypeIII c := by
  unfold isTypeI isTypeII isTypeIII; rw [hc]; decide

theorem exec_readAddr (E : Env Img) (c : Nat) (s : WD179X_INFO Img)
    (hc : c &&& 0xF0 = WD179X_READ_ADDR) :
    Do1793Command_exec E c s = (none, Do1793Command_readAddr E s) := by
  unfold Do1793Command_exec; rw [hc]
  simp [WD179X_RESTORE, WD179X_SEEK, WD179X_STEP, WD179X_STEP_U, WD179X_STEP_IN,
    WD179X_STEP_IN_U, WD179X_STEP_OUT, WD179X_STEP_OUT_U, WD179X_READ_REC, WD179X_READ_RECS,
    WD179X_WRITE_REC, WD179X_WRITE_RECS, WD179X_READ_ADDR]

theorem Do1793Command_readAddr_eq (E : Env Img) (c : Nat) (s : WD179X_INFO Img)
    (hs : idle s) (hc : c &&& 0xF0 = WD179X_READ_ADDR) :
    Do1793Command E c s = (0, Do1793Command_post E c (Do1793Command_readAddr E
      { s with fdc_status := s.fdc_status &&& (0xFF - WD179X_STAT_NOT_READY), cmdtype := 3 })) := by
  obtain ⟨⟨h1, h2⟩, h3⟩ := hs
  obtain ⟨n1, n2, n3⟩ := typeIII_of_readAddr c hc
  unfold Do1793Command
  rw [if_neg (by omega), if_neg (by simp [h2]), if_neg (by simp [h3])]
  dsimp only
  have hsetup : ∀ s : WD179X_INFO Img, Do1793Command_setup c s = { s with cmdtype := 3 } := by
    intro s; unfold Do1793Command_setup; rw [if_neg n1, if_neg n2, if_pos n3]
  rw [hsetup, exec_readAddr E c _ hc]

/-- The case READ_ADDR when the ID field is staged. -/
theorem readAddr_staged (E : Env Img) (s : WD179X_INFO Img)
    (ht : (pDrive s).track ≠ 0xFF) (hn : ¬ invalidSecLen (computeSectorSize E s))
    (hd : ¬ densityMismatch E s) :
    Do1793Command_readAddr E s = { s with
      fdc_sec_len := computeSectorSize E s
      fdc_status := (WD179X_STAT_DRQ ||| WD179X_STAT_BUSY) &&& (0xFF - WD179X_STAT_BUSY)
      drq := 1
      fdc_datacount := 6
      fdc_dataindex := 0
      fdc_read := TRUE
      fdc_read_addr := TRUE
      raw := fun i =>
        if i = 0 then (pDrive s).track
        else if i = 1 then s.fdc_head
        else if i = 2 then s.fdc_sector
        else if i = 3 then computeSectorSize E s
        else if i = 4 then 0xAA
        else if i = 5 then 0x55
        else s.raw i
      fdc_sector := (pDrive s).track
      intrq := 1 } := by
  unfold densityMismatch at hd
  push_neg at hd
  obtain ⟨hd1, hd2⟩ := hd
  unfold Do1793Command_readAddr
  rw [if_neg ht]
  dsimp only
  have e1 : computeSectorSize E { s with fdc_sec_len := computeSectorSize E s }
      = computeSectorSize E s := rfl
  rw [if_neg hn]
  have e2 : testMode E { s with fdc_sec_len := computeSectorSize E s } = testMode E s := rfl
  rw [e2, if_neg (by simpa using hd1)]
  rw [if_neg (by
    intro ⟨a, b, c⟩
    exact hd2 a b c)]
  rfl

/-- Every read of the Data port inside an active read transfer returns the byte under the
cursor. -/
theorem Read_data_fst (E : Env Img) (s : WD179X_INFO Img)
    (hr : s.fdc_read = TRUE) (hlt : s.fdc_dataindex < s.fdc_datacount) :
    (WD179X_Read_data E s).1 = s.raw s.fdc_dataindex := by
  unfold WD179X_Read_data
  rw [if_pos hr, if_pos hlt]
  dsimp only
  split_ifs <;> rfl

theorem dataReads_fst (E : Env Img) (m : Nat) :
    ∀ s : WD179X_INFO Img, s.sel_drive < WD179X_MAX_DRIVES → s.fdc_read = TRUE →
      s.fdc_dataindex + m ≤ s.fdc_datacount → s.fdc_datacount < 65536 →
      (dataReads E m s).1 = (List.range m).map (fun i => s.raw (s.fdc_dataindex + i)) := by
  induction m with
  | zero => intro s _ _ _ _; rfl
  | succ m ih =>
    intro s hsel hr hidx hc
    rw [List.range_succ_eq_map, List.map_cons, List.map_map]
    simp only [dataReads, Nat.add_zero, List.cons.injEq]
    rw [Read_data_eq E s _ hsel (by decide)]
    refine ⟨Read_data_fst E s hr (by omega), ?_⟩
    by_cases hlast : s.fdc_dataindex + 1 = s.fdc_datacount
    · have hm : m = 0 := by omega
      subst hm
      rfl
    · rw [Read_data_mid E s hr (by omega) hc]
      dsimp only
      refine (ih { s with fdc_status := s.fdc_status &&& (0xFF - WD179X_STAT_BUSY)
                          fdc_dataindex := s.fdc_dataindex + 1 } hsel hr
        (show s.fdc_dataindex + 1 + m ≤ s.fdc_datacount by omega) hc).trans ?_
      apply List.map_congr_left
      intro i _
      simp only [Function.comp, Nat.succ_eq_add_one]
      congr 1; omega

/-- C15: an accepted READ_ADDR on a track `t < MAX_CYL` (`MAX_CYL` at most 255, so that `t` is
not the value 0xFF that the command maps to 0), with a valid sector-length code `n` and no
density mismatch, stages the six bytes `[t, h, s, n, 0xAA, 0x55]` (head `h`, sector register
`s` before the command) with `fdc_datacount = 6` and `fdc_dataindex = 0`, leaves the sector
register equal to `t`, and the next six reads of the Data port return these six bytes. -/
theorem C15_read_addr_id_field (E : Env Img) (s : WD179X_INFO Img) (cCommand : Nat)
    (hs : idle s) (hc : cCommand &&& 0xF0 = WD179X_READ_ADDR)
    (ht : (pDrive s).track < E.MAX_CYL) (hmax : E.MAX_CYL ≤ 255)
    (hn : ¬ invalidSecLen (computeSectorSize E s)) (hd : ¬ densityMismatch E s) :
    bufBytes (Do1793Command E cCommand s).2.raw 6
        = [(pDrive s).track, s.fdc_head, s.fdc_sector, computeSectorSize E s, 0xAA, 0x55] ∧
      (Do1793Command E cCommand s).2.fdc_datacount = 6 ∧
      (Do1793Command E cCommand s).2.fdc_dataindex = 0 ∧
      (Do1793Command E cCommand s).2.fdc_sector = (pDrive s).track ∧
      (dataReads E 6 (Do1793Command E cCommand s).2).1
        = [(pDrive s).track, s.fdc_head, s.fdc_sector, computeSectorSize E s, 0xAA, 0x55] := by
  have hst := readAddr_staged E
    { s with fdc_status := s.fdc_status &&& (0xFF - WD179X_STAT_NOT_READY), cmdtype := 3 }
    (show (pDrive s).track ≠ 0xFF by omega) hn hd
  have hraw : bufBytes (Do1793Command E cCommand s).2.raw 6
      = [(pDrive s).track, s.fdc_head, s.fdc_sector, computeSectorSize E s, 0xAA, 0x55] := by
    rw [Do1793Command_readAddr_eq E cCommand s hs hc]
    dsimp only
    rw [post_raw, hst]
    rfl
  have hcnt : (Do1793Command E cCommand s).2.fdc_datacount = 6 := by
    rw [Do1793Command_readAddr_eq E cCommand s hs hc]
    dsimp only
    rw [post_fdc_datacount, hst]
  have hidx : (Do1793Command E cCommand s).2.fdc_dataindex = 0 := by
    rw [Do1793Command_readAddr_eq E cCommand s hs hc]
    dsimp only
    rw [post_fdc_dataindex, hst]
  have hrd : (Do1793Command E cCommand s).2.fdc_read = TRUE := by
    rw [Do1793Command_readAddr_eq E cCommand s hs hc]
    dsimp only
    rw [post_fdc_read, hst]
  have hsel : (Do1793Command E cCommand s).2.sel_drive < WD179X_MAX_DRIVES := by
    rw [Do1793Command_readAddr_eq E cCommand s hs hc]
    dsimp only
    rw [post_sel_drive, hst]
    exact hs.1.1
  refine ⟨hraw, hcnt, hidx, ?_, ?_⟩
  · rw [Do1793Command_readAddr_eq E cCommand s hs hc]
    dsimp only
    rw [post_fdc_sector, hst]
    rfl
  · rw [dataReads_fst E 6 _ hsel hrd (by omega) (by omega), hidx, ← hraw]
    simp [bufBytes]

/-- Instance of C15, the example of the specification: track 5, head 0, 256-byte sectors
(code 1) and sector register 7 give the bytes `[5, 0, 7, 1, 0xAA, 0x55]` and leave the sector
register equal to 5. -/
theorem C15_witness :
    bufBytes (Do1793Command demoEnv256 0xC0
        (WD179X_Write demoEnv256 WD179X_SECTOR 7 (setTrack demoState 5)).2).2.raw 6
      = [5, 0, 7, 1, 0xAA, 0x55] ∧
    (Do1793Command demoEnv256 0xC0
        (WD179X_Write demoEnv256 WD179X_SECTOR 7 (setTrack demoState 5)).2).2.fdc_sector = 5 ∧
    (dataReads demoEnv256 6 (Do1793Command demoEnv256 0xC0
        (WD179X_Write demoEnv256 WD179X_SECTOR 7 (setTrack demoState 5)).2).2).1
      = [5, 0, 7, 1, 0xAA, 0x55] :=
  have h := C15_read_addr_id_field demoEnv256
    (WD179X_Write demoEnv256 WD179X_SECTOR 7 (setTrack demoState 5)).2 0xC0
    (by decide) (by decide) (by decide) (by decide) (by decide) (by decide)
  ⟨h.1, h.2.2.2.1, h.2.2.2.2⟩

/-! ## Multi-sector reads -/

/-- What `wd179x_sectRead` leaves untouched, what it logs, and what a successful read sets. -/
theorem sectRead_facts (E : Env Img) (s : WD179X_INFO Img) (Cyl Head Sector buflen : Nat) :
    (wd179x_sectRead E s Cyl Head Sector buflen).sel_drive = s.sel_drive ∧
    (wd179x_sectRead E s Cyl Head Sector buflen).drive = s.drive ∧
    (wd179x_sectRead E s Cyl Head Sector buflen).fdc_sector = s.fdc_sector ∧
    (wd179x_sectRead E s Cyl Head Sector buflen).fdc_multiple = s.fdc_multiple ∧
    (wd179x_sectRead E s Cyl Head Sector buflen).trace
      = s.trace ++ [Event.sectRead Cyl Head Sector buflen] ∧
    ((wd179x_sectRead E s Cyl Head Sector buflen).fdc_read = TRUE →
      (pDrive s).fileref = true ∧
      (wd179x_sectRead E s Cyl Head Sector buflen).fdc_dataindex = 0 ∧
      (wd179x_sectRead E s Cyl Head Sector buflen).fdc_datacount
        = WD179X_SECTOR_LEN_BYTES s % 65536) := by
  unfold wd179x_sectRead
  dsimp only
  generalize hX : (if (pDrive _).fileref = false then _ else _ : Bool × (Nat → Nat)) = r
  have hfile : r.1 = true → (pDrive s).fileref = true := by
    intro h
    by_contra hf
    have hf2 : (pDrive s).fileref = false := by simpa using hf
    rw [← hX] at h
    simp [pDrive] at h hf2
    simp [hf2] at h
  clear hX
  rcases r with ⟨ok, buf⟩
  cases ok
  · simp [TRUE, FALSE]
  · have hf := hfile rfl
    refine ⟨?_, ?_, ?_, ?_, ?_, ?_⟩ <;>
      (simp only [if_true]; split_ifs <;> simp [hf, WD179X_SECTOR_LEN_BYTES])

theorem sectorLen_of_valid (s : WD179X_INFO Img) (h : ¬ invalidSecLen s.fdc_sec_len) :
    WD179X_SECTOR_LEN_BYTES s = 128 <<< s.fdc_sec_len ∧
      WD179X_SECTOR_LEN_BYTES s % 65536 = 128 <<< s.fdc_sec_len := by
  unfold invalidSecLen WD179X_MAX_SEC_LEN at h
  unfold WD179X_SECTOR_LEN_BYTES
  have h6 : s.fdc_sec_len ≤ 6 := by omega
  generalize s.fdc_sec_len = n at h6
  interval_cases n <;> exact ⟨rfl, rfl⟩

/-- The read of the last byte of a sector in a multi-sector transfer when the sector size
lookup succeeds: the sector register advances and the next sector is fetched. -/
theorem Read_data_last_multi (E : Env Img) (s : WD179X_INFO Img)
    (hr : s.fdc_read = TRUE) (hm : s.fdc_multiple = TRUE)
    (hlt : s.fdc_dataindex + 1 = s.fdc_datacount) (hc : s.fdc_datacount < 65536)
    (hf : (pDrive s).fileref = true) (hn : ¬ invalidSecLen (computeSectorSize E s)) :
    WD179X_Read_data E s = (s.raw s.fdc_dataindex,
      wd179x_sectRead E
        { s with fdc_status := s.fdc_status &&& (0xFF - WD179X_STAT_BUSY)
                 fdc_dataindex := s.fdc_dataindex + 1
                 fdc_sec_len := computeSectorSize E s
                 fdc_sector := (s.fdc_sector + 1) % 256 }
        (pDrive s).track s.fdc_head ((s.fdc_sector + 1) % 256)
        (WD179X_SECTOR_LEN_BYTES { s with fdc_sec_len := computeSectorSize E s })) := by
  unfold WD179X_Read_data
  rw [if_pos hr, if_pos (by omega)]
  dsimp only
  rw [Nat.mod_eq_of_lt (by omega), if_pos hlt, if_neg (by rw [hm]; decide)]
  have e1 : ∀ a b, computeSectorSize E { s with fdc_status := a, fdc_dataindex := b }
      = computeSectorSize E s := fun _ _ => rfl
  rw [e1, if_neg hn]
  rw [if_neg (by
    show ¬ (pDrive s).fileref = false
    simp [hf])]
  rfl

/-- The same read when the sector size lookup fails: nothing but the cursor, the BUSY bit and
the sector length code change. -/
theorem Read_data_last_multi_fail (E : Env Img) (s : WD179X_INFO Img)
    (hr : s.fdc_read = TRUE) (hm : s.fdc_multiple = TRUE)
    (hlt : s.fdc_dataindex + 1 = s.fdc_datacount) (hc : s.fdc_datacount < 65536)
    (hn : invalidSecLen (computeSectorSize E s)) :
    WD179X_Read_data E s = (s.raw s.fdc_dataindex,
        { s with fdc_status := s.fdc_status &&& (0xFF - WD179X_STAT_BUSY)
                 fdc_dataindex := s.fdc_dataindex + 1
                 fdc_sec_len := 0 }) := by
  unfold WD179X_Read_data
  rw [if_pos hr, if_pos (by omega)]
  dsimp only
  rw [Nat.mod_eq_of_lt (by omega), if_pos hlt, if_neg (by rw [hm]; decide)]
  have e1 : ∀ a b, computeSectorSize E { s with fdc_status := a, fdc_dataindex := b }
      = computeSectorSize E s := fun _ _ => rfl
  rw [e1, if_pos hn]

/-- A successful sector read of a multi-sector command leaves a well formed transfer. -/
theorem sectRead_multiRead (E : Env Img) (t : WD179X_INFO Img) (Cyl Head Sector buflen : Nat)
    (h1 : t.sel_drive < WD179X_MAX_DRIVES) (h4 : t.fdc_multiple = TRUE)
    (hr : (wd179x_sectRead E t Cyl Head Sector buflen).fdc_read = TRUE) :
    multiRead (wd179x_sectRead E t Cyl Head Sector buflen) := by
  obtain ⟨f1, f2, _, f4, _, f6⟩ := sectRead_facts E t Cyl Head Sector buflen
  refine ⟨by rw [f1]; exact h1, ?_, hr, by rw [f4]; exact h4, ?_⟩
  · have := (f6 hr).1
    unfold pDrive at this ⊢
    rw [f1, f2]; exact this
  · rw [(f6 hr).2.2]
    exact Nat.mod_lt _ (by decide)

/-- The reads of the Data port keep a multi-sector transfer well formed while it lasts. -/
theorem multiRead_read (E : Env Img) (s : WD179X_INFO Img) (hs : multiRead s)
    (hr : (WD179X_Read E WD179X_DATA s).2.fdc_read = TRUE) :
    multiRead (WD179X_Read E WD179X_DATA s).2 := by
  obtain ⟨h1, h2, h3, h4, h5⟩ := hs
  rw [Read_data_eq E s _ h1 (by decide)] at hr ⊢
  by_cases hlt : s.fdc_dataindex < s.fdc_datacount
  · by_cases hlast : s.fdc_dataindex + 1 = s.fdc_datacount
    · by_cases hn : invalidSecLen (computeSectorSize E s)
      · rw [Read_data_last_multi_fail E s h3 h4 hlast h5 hn]
        exact ⟨h1, h2, h3, h4, h5⟩
      · rw [Read_data_last_multi E s h3 h4 hlast h5 h2 hn] at hr ⊢
        exact sectRead_multiRead E _ _ _ _ _ h1 h4 hr
    · rw [Read_data_mid E s h3 (by omega) h5]
      exact ⟨h1, h2, h3, h4, h5⟩
  · have e : WD179X_Read_data E s = (0xFF, s) := by
      unfold WD179X_Read_data
      rw [if_pos h3, if_neg hlt]
    rw [e]
    exact ⟨h1, h2, h3, h4, h5⟩

/-- The case READ_RECS of the execution stage starts a well formed multi-sector transfer
whenever it starts a transfer at all. -/
theorem read_multiRead (E : Env Img) (c : Nat) (t : WD179X_INFO Img)
    (h1 : t.sel_drive < WD179X_MAX_DRIVES) (h2 : t.fdc_read = FALSE) (hc : c &&& 0x10 ≠ 0)
    (hr : (Do1793Command_read E c t).2.fdc_read = TRUE) :
    (Do1793Command_read E c t).1 = none ∧ multiRead (Do1793Command_read E c t).2 := by
  have hTF : (FALSE : Nat) ≠ TRUE := by decide
  unfold Do1793Command_read at hr ⊢
  dsimp only at hr ⊢
  by_cases hn : invalidSecLen (computeSectorSize E t)
  · rw [if_pos hn] at hr
    exact absurd (h2 ▸ hr) hTF
  · rw [if_neg hn] at hr ⊢
    have e2 : ∀ a b, testMode E { t with fdc_sec_len := a, fdc_multiple := b } = testMode E t :=
      fun _ _ => rfl
    rw [e2] at hr ⊢
    by_cases hm : testMode E t ≠ 0
    · rw [if_pos hm] at hr
      exact absurd (h2 ▸ hr) hTF
    · rw [if_neg hm] at hr ⊢
      exact ⟨rfl, sectRead_multiRead E _ _ _ _ _ h1 (if_pos hc) hr⟩

theorem setup_fdc_read (c : Nat) (s : WD179X_INFO Img) :
    (Do1793Command_setup c s).fdc_read = s.fdc_read := by
  unfold Do1793Command_setup
  dsimp only
  split_ifs <;> rfl

theorem multiRead_post (E : Env Img) (c : Nat) (s : WD179X_INFO Img) (hs : multiRead s) :
    multiRead (Do1793Command_post E c s) := by
  unfold multiRead at hs ⊢
  rw [pDrive_post, post_sel_drive, post_fdc_read, post_fdc_multiple, post_fdc_datacount]
  exact hs

theorem exec_readRecs (E : Env Img) (c : Nat) (s : WD179X_INFO Img)
    (hc : c &&& 0xF0 = WD179X_READ_RECS) :
    Do1793Command_exec E c s = Do1793Command_read E c s := by
  unfold Do1793Command_exec; rw [hc]
  simp [WD179X_RESTORE, WD179X_SEEK, WD179X_STEP, WD179X_STEP_U, WD179X_STEP_IN,
    WD179X_STEP_IN_U, WD179X_STEP_OUT, WD179X_STEP_OUT_U, WD179X_READ_REC, WD179X_READ_RECS]

/-- An accepted READ_RECS command that starts a transfer starts a well formed multi-sector
transfer on an open image. -/
theorem readRecs_multiRead (E : Env Img) (s : WD179X_INFO Img) (c : Nat)
    (hd : validDrive s) (hc : c &&& 0xF0 = WD179X_READ_RECS)
    (hr : (WD179X_Write E WD179X_STATUS c s).2.fdc_read = TRUE) :
    multiRead (WD179X_Write E WD179X_STATUS c s).2 := by
  have hTF : (FALSE : Nat) ≠ TRUE := by decide
  have e : WD179X_Write E WD179X_STATUS c s = (0, (Do1793Command E c (WD179X_Write_clear s)).2) := by
    unfold WD179X_Write
    rw [if_neg (by have := hd.1; omega), if_neg (by simp [hd.2]), if_pos (by decide)]
  rw [e] at hr ⊢
  have hv := validDrive_Write_clear s hd
  have hfr : (WD179X_Write_clear s).fdc_read = FALSE := by
    unfold WD179X_Write_clear raiseInterrupt
    dsimp only
    split_ifs <;> rfl
  generalize WD179X_Write_clear s = t at hr hv hfr ⊢
  have hbit : c &&& 0x10 ≠ 0 := by
    have : c &&& 0x10 = (c &&& 0xF0) &&& 0x10 := by rw [Nat.and_assoc]; rfl
    rw [this, hc]; decide
  by_cases hb : t.fdc_status &&& WD179X_STAT_BUSY ≠ 0
  · rw [Do1793Command_busy E c t hv hb] at hr
    exact absurd (hfr ▸ hr) hTF
  · have hcmd : Do1793Command E c t
        = match Do1793Command_read E c (Do1793Command_setup c
            { t with fdc_status := t.fdc_status &&& (0xFF - WD179X_STAT_NOT_READY) }) with
          | (some r, s) => (r, s)
          | (none, s) => (0, Do1793Command_post E c s) := by
      unfold Do1793Command
      rw [if_neg (by have := hv.1; omega), if_neg (by simp [hv.2]), if_neg hb]
      dsimp only
      rw [exec_readRecs E c _ hc]
    rw [hcmd] at hr ⊢
    have hu1 : (Do1793Command_setup c
        { t with fdc_status := t.fdc_status &&& (0xFF - WD179X_STAT_NOT_READY) }).sel_drive
          < WD179X_MAX_DRIVES := by
      rw [setup_sel_drive]; exact hv.1
    have hu2 : (Do1793Command_setup c
        { t with fdc_status := t.fdc_status &&& (0xFF - WD179X_STAT_NOT_READY) }).fdc_read
          = FALSE := by
      rw [setup_fdc_read]; exact hfr
    generalize Do1793Command_setup c
        { t with fdc_status := t.fdc_status &&& (0xFF - WD179X_STAT_NOT_READY) } = u
      at hr hu1 hu2 ⊢
    have key := read_multiRead E c u hu1 hu2 hbit
    rcases hX : Do1793Command_read E c u with ⟨o, w⟩
    rw [hX] at hr key
    cases o with
    | none =>
      dsimp only at hr key ⊢
      rw [post_fdc_read] at hr
      exact multiRead_post E c w (key hr).2
    | some r =>
      dsimp only at hr key ⊢
      exact absurd (key hr).1 (by simp)

/-- C13: in a multi-sector read transfer (state left by READ_RECS, `multiRead`), the read of
the Data port that delivers the last byte of the sector (`fdc_dataindex + 1 = fdc_datacount`)
returns that byte in every case.  If the sector length code `N` of the track is valid (at
most 6), the sector register is incremented by one (as a `uint8`) and the sector store is
read once more, for the current track, the head and the new sector with `128 << N` bytes;
when that read succeeds (the read flag is still set afterwards) the transfer continues with
`fdc_dataindex = 0` and `fdc_datacount = 128 << N`.  If the code is invalid (0xF8 or above 6),
the sector register is left as it was and the sector store is not read. -/
theorem C13_multi_sector_auto_advance (E : Env Img) (s : WD179X_INFO Img)
    (hs : multiRead s) (hlast : s.fdc_dataindex + 1 = s.fdc_datacount) :
    (WD179X_Read E WD179X_DATA s).1 = s.raw s.fdc_dataindex ∧
    (¬ invalidSecLen (computeSectorSize E s) →
      (WD179X_Read E WD179X_DATA s).2.fdc_sector = (s.fdc_sector + 1) % 256 ∧
      (WD179X_Read E WD179X_DATA s).2.trace = s.trace ++
        [Event.sectRead (pDrive s).track s.fdc_head ((s.fdc_sector + 1) % 256)
          (128 <<< computeSectorSize E s)] ∧
      ((WD179X_Read E WD179X_DATA s).2.fdc_read = TRUE →
        (WD179X_Read E WD179X_DATA s).2.fdc_dataindex = 0 ∧
        (WD179X_Read E WD179X_DATA s).2.fdc_datacount = 128 <<< computeSectorSize E s)) ∧
    (invalidSecLen (computeSectorSize E s) →
      (WD179X_Read E WD179X_DATA s).2.fdc_sector = s.fdc_sector ∧
      (WD179X_Read E WD179X_DATA s).2.trace = s.trace) := by
  obtain ⟨h1, h2, h3, h4, h5⟩ := hs
  rw [Read_data_eq E s _ h1 (by decide)]
  refine ⟨Read_data_fst E s h3 (by omega), ?_, ?_⟩
  · intro hn
    rw [Read_data_last_multi E s h3 h4 hlast h5 h2 hn]
    obtain ⟨_, _, f3, _, f5, f6⟩ := sectRead_facts E
      { s with fdc_status := s.fdc_status &&& (0xFF - WD179X_STAT_BUSY)
               fdc_dataindex := s.fdc_dataindex + 1
               fdc_sec_len := computeSectorSize E s
               fdc_sector := (s.fdc_sector + 1) % 256 }
      (pDrive s).track s.fdc_head ((s.fdc_sector + 1) % 256)
      (WD179X_SECTOR_LEN_BYTES { s with fdc_sec_len := computeSectorSize E s })
    have hlen := sectorLen_of_valid { s with fdc_sec_len := computeSectorSize E s } hn
    refine ⟨f3, ?_, ?_⟩
    · exact f5.trans (by rw [hlen.1])
    · intro hr
      exact ⟨(f6 hr).2.1, (f6 hr).2.2.trans hlen.2⟩
  · intro hn
    rw [Read_data_last_multi_fail E s h3 h4 hlast h5 hn]
    exact ⟨rfl, rfl⟩

/-- Instance of C13 on the demo machine: after READ_RECS for sector 1 of track 0 and 127 reads,
the read of the last byte returns it, advances the sector register to 2, fetches sector 2
(128 bytes) and restarts the cursor. -/
theorem C13_witness :
    (WD179X_Read demoEnv WD179X_DATA lastByteState).1 = 0xE5 ∧
    (WD179X_Read demoEnv WD179X_DATA lastByteState).2.fdc_sector = 2 ∧
    (WD179X_Read demoEnv WD179X_DATA lastByteState).2.trace
      = [Event.sectRead 0 0 1 128, Event.sectRead 0 0 2 128] ∧
    (WD179X_Read demoEnv WD179X_DATA lastByteState).2.fdc_dataindex = 0 ∧
    (WD179X_Read demoEnv WD179X_DATA lastByteState).2.fdc_datacount = 128 :=
  have h := C13_multi_sector_auto_advance demoEnv lastByteState (by decide) (by decide)
  have h2 := h.2.1 (by decide)
  have h3 := h2.2.2 (by decide)
  ⟨h.1.trans (by decide), h2.1.trans (by decide), h2.2.1.trans (by decide), h3.1,
    h3.2.trans (by decide)⟩

/-! ## Sector writes -/

/-- What `wd179x_sectWrite` leaves untouched and what it logs. -/
theorem sectWrite_facts (E : Env Img) (s : WD179X_INFO Img) (Cyl Head Sector buflen : Nat) :
    (wd179x_sectWrite E s Cyl Head Sector buflen).fdc_status = s.fdc_status ∧
    (wd179x_sectWrite E s Cyl Head Sector buflen).drq = s.drq ∧
    (wd179x_sectWrite E s Cyl Head Sector buflen).intrq = s.intrq ∧
    (wd179x_sectWrite E s Cyl Head Sector buflen).fdc_write_track = s.fdc_write_track ∧
    (wd179x_sectWrite E s Cyl Head Sector buflen).trace
      = s.trace ++ [Event.sectWrite Cyl Head Sector (bufBytes s.raw buflen)] := by
  unfold wd179x_sectWrite
  dsimp only
  split_ifs <;>
    first
    | exact ⟨rfl, rfl, rfl, rfl, rfl⟩
    | (split <;> exact ⟨rfl, rfl, rfl, rfl, rfl⟩)

theorem Write_data_eq (E : Env Img) (s : WD179X_INFO Img) (b : Nat) (hd : validDrive s) :
    WD179X_Write E WD179X_DATA b s
      = (0, { WD179X_Write_track E b (WD179X_Write_sector E b s) with fdc_data := b }) := by
  unfold WD179X_Write
  rw [if_neg (by have := hd.1; omega), if_neg (by simp [hd.2]), if_neg (by decide),
    if_neg (by decide), if_neg (by decide), if_pos (by decide)]

/-- A write to the Data port inside a sector write transfer, before the last byte. -/
theorem Write_data_mid (E : Env Img) (s : WD179X_INFO Img) (b : Nat) (hd : validDrive s)
    (hw : s.fdc_write = TRUE) (ht : s.fdc_write_track = FALSE)
    (hlt : s.fdc_dataindex + 1 < s.fdc_datacount) (hc : s.fdc_datacount < 65536) :
    WD179X_Write E WD179X_DATA b s = (0, { s with
      raw := fun i => if i = s.fdc_dataindex then b else s.raw i
      fdc_dataindex := s.fdc_dataindex + 1
      fdc_data := b }) := by
  rw [Write_data_eq E s b hd]
  have h1 : WD179X_Write_sector E b s = { s with
      raw := fun i => if i = s.fdc_dataindex then b else s.raw i
      fdc_dataindex := s.fdc_dataindex + 1 } := by
    unfold WD179X_Write_sector
    rw [if_pos hw, if_pos (by omega)]
    dsimp only
    rw [Nat.mod_eq_of_lt (by omega), if_neg (by omega)]
  rw [h1]
  unfold WD179X_Write_track
  rw [if_neg (by
    show ¬ s.fdc_write_track = TRUE
    rw [ht]; decide)]

/-- The write of the last byte of a sector write transfer. -/
theorem Write_data_last (E : Env Img) (s : WD179X_INFO Img) (b : Nat) (hd : validDrive s)
    (hw : s.fdc_write = TRUE) (ht : s.fdc_write_track = FALSE)
    (hlt : s.fdc_dataindex + 1 = s.fdc_datacount) (hc : s.fdc_datacount < 65536) :
    (WD179X_Write E WD179X_DATA b s).2.trace = s.trace ++
        [Event.sectWrite (pDrive s).track s.fdc_head s.fdc_sector
          (bufBytes (fun i => if i = s.fdc_dataindex then b else s.raw i)
            (WD179X_SECTOR_LEN_BYTES s))] ∧
      (WD179X_Write E WD179X_DATA b s).2.fdc_status
        = s.fdc_status &&& (0xFF - (WD179X_STAT_DRQ ||| WD179X_STAT_BUSY)) ∧
      (WD179X_Write E WD179X_DATA b s).2.drq = 0 ∧
      (WD179X_Write E WD179X_DATA b s).2.intrq = 1 ∧
      (WD179X_Write E WD179X_DATA b s).2.fdc_write = FALSE := by
  rw [Write_data_eq E s b hd]
  have h1 : WD179X_Write_sector E b s = { wd179x_sectWrite E (raiseInterrupt { s with
      raw := fun i => if i = s.fdc_dataindex then b else s.raw i
      fdc_dataindex := s.fdc_dataindex + 1
      fdc_status := s.fdc_status &&& (0xFF - (WD179X_STAT_DRQ ||| WD179X_STAT_BUSY))
      drq := 0
      intrq := 1 }) (pDrive s).track s.fdc_head s.fdc_sector (WD179X_SECTOR_LEN_BYTES s)
        with fdc_write := FALSE } := by
    unfold WD179X_Write_sector
    rw [if_pos hw, if_pos (by omega)]
    dsimp only
    rw [Nat.mod_eq_of_lt (by omega), if_pos hlt]
    simp [pDrive, WD179X_SECTOR_LEN_BYTES]
  rw [h1]
  obtain ⟨f1, f2, f3, f4, f5⟩ := sectWrite_facts E (raiseInterrupt { s with
      raw := fun i => if i = s.fdc_dataindex then b else s.raw i
      fdc_dataindex := s.fdc_dataindex + 1
      fdc_status := s.fdc_status &&& (0xFF - (WD179X_STAT_DRQ ||| WD179X_STAT_BUSY))
      drq := 0
      intrq := 1 }) (pDrive s).track s.fdc_head s.fdc_sector (WD179X_SECTOR_LEN_BYTES s)
  unfold WD179X_Write_track
  rw [if_neg (by
    dsimp only
    rw [f4, raiseInterrupt_fdc_write_track]
    show ¬ s.fdc_write_track = TRUE
    rw [ht]; decide)]
  dsimp only
  rw [f1, f2, f3, f5]
  simp

theorem storeFrom_apply (l : List Nat) :
    ∀ (raw : Nat → Nat) (idx i : Nat), storeFrom raw idx l i
      = if idx ≤ i ∧ i < idx + l.length then l.getD (i - idx) 0 else raw i := by
  induction l with
  | nil =>
    intro raw idx i
    rw [if_neg (by simp only [List.length_nil]; omega)]
    rfl
  | cons b l ih =>
    intro raw idx i
    rw [storeFrom, ih]
    by_cases h1 : i = idx
    · subst h1
      simp
    · by_cases h2 : idx + 1 ≤ i ∧ i < idx + 1 + l.length
      · rw [if_pos h2, if_pos (by simp only [List.length_cons]; omega)]
        have e : i - idx = (i - (idx + 1)) + 1 := by omega
        rw [e, List.getD_cons_succ]
      · rw [if_neg h2, if_neg h1, if_neg (by simp only [List.length_cons]; omega)]

/-- The first bytes of the buffer after a list is stored from index 0 on are the list. -/
theorem bufBytes_storeFrom (raw : Nat → Nat) (l : List Nat) :
    bufBytes (storeFrom raw 0 l) l.length = l := by
  apply List.ext_getElem
  · simp [bufBytes]
  · intro i h1 h2
    simp only [bufBytes, List.getElem_map, List.getElem_range, storeFrom_apply]
    rw [if_pos ⟨Nat.zero_le _, by omega⟩]
    simp [List.getD_eq_getElem?_getD, List.getElem?_eq_getElem h2]

theorem dataWrites_append (E : Env Img) (l : List Nat) (b : Nat) (s : WD179X_INFO Img) :
    dataWrites E (l ++ [b]) s = (WD179X_Write E WD179X_DATA b (dataWrites E l s)).2 := by
  unfold dataWrites
  rw [List.foldl_append]
  rfl

/-- Writes to the Data port inside a sector write transfer, before the last byte: only the
buffer, the cursor and the Data register change. -/
theorem dataWrites_mid (E : Env Img) (l : List Nat) :
    ∀ s : WD179X_INFO Img, validDrive s → s.fdc_write = TRUE → s.fdc_write_track = FALSE →
      s.fdc_dataindex + l.length < s.fdc_datacount → s.fdc_datacount < 65536 →
      ∃ d, dataWrites E l s = { s with
        raw := storeFrom s.raw s.fdc_dataindex l
        fdc_dataindex := s.fdc_dataindex + l.length
        fdc_data := d } := by
  induction l with
  | nil => intro s _ _ _ _ _; exact ⟨s.fdc_data, rfl⟩
  | cons b l ih =>
    intro s hd hw ht hlt hc
    simp only [List.length_cons] at hlt
    have hstep := Write_data_mid E s b hd hw ht (by omega) hc
    obtain ⟨d, hd2⟩ := ih { s with
      raw := fun i => if i = s.fdc_dataindex then b else s.raw i
      fdc_dataindex := s.fdc_dataindex + 1
      fdc_data := b } hd hw ht (show s.fdc_dataindex + 1 + l.length < s.fdc_datacount by omega) hc
    refine ⟨d, ?_⟩
    have e : dataWrites E (b :: l) s = dataWrites E l (WD179X_Write E WD179X_DATA b s).2 := rfl
    rw [e, hstep, hd2]
    dsimp only
    have e2 : s.fdc_dataindex + 1 + l.length = s.fdc_dataindex + (b :: l).length := by
      simp only [List.length_cons]; omega
    rw [e2]
    rfl

theorem storeFrom_append (l : List Nat) (b : Nat) :
    ∀ (raw : Nat → Nat) (idx : Nat), storeFrom raw idx (l ++ [b])
      = fun i => if i = idx + l.length then b else storeFrom raw idx l i := by
  induction l with
  | nil => intro raw idx; rfl
  | cons a l ih =>
    intro raw idx
    have e : idx + (a :: l).length = idx + 1 + l.length := by
      simp only [List.length_cons]; omega
    rw [e]
    exact ih _ _

/-! ## WRITE_REC -/

theorem typeII_of_writeRec (c : Nat) (hc : c &&& 0xF0 = WD179X_WRITE_REC) :
    ¬ isTypeI c ∧ isTypeII c := by
  unfold isTypeI isTypeII; rw [hc]; decide

theorem exec_writeRec (E : Env Img) (c : Nat) (s : WD179X_INFO Img)
    (hc : c &&& 0xF0 = WD179X_WRITE_REC) :
    Do1793Command_exec E c s = (none, Do1793Command_write E s) := by
  unfold Do1793Command_exec; rw [hc]
  simp [WD179X_RESTORE, WD179X_SEEK, WD179X_STEP, WD179X_STEP_U, WD179X_STEP_IN,
    WD179X_STEP_IN_U, WD179X_STEP_OUT, WD179X_STEP_OUT_U, WD179X_READ_REC, WD179X_READ_RECS,
    WD179X_WRITE_REC, WD179X_WRITE_RECS]

theorem Do1793Command_writeRec_eq (E : Env Img) (c : Nat) (s : WD179X_INFO Img)
    (hs : idle s) (hc : c &&& 0xF0 = WD179X_WRITE_REC) :
    Do1793Command E c s = (0, Do1793Command_post E c (Do1793Command_write E
      (Do1793Command_setup c
        { s with fdc_status := s.fdc_status &&& (0xFF - WD179X_STAT_NOT_READY) }))) := by
  obtain ⟨⟨h1, h2⟩, h3⟩ := hs
  unfold Do1793Command
  rw [if_neg (by omega), if_neg (by simp [h2]), if_neg (by simp [h3])]
  dsimp only
  rw [exec_writeRec E c _ hc]

theorem setup_frame (c : Nat) (s : WD179X_INFO Img) :
    (Do1793Command_setup c s).external_fifo_len = s.external_fifo_len ∧
    (Do1793Command_setup c s).trace = s.trace ∧
    (Do1793Command_setup c s).fdc_sector = s.fdc_sector := by
  unfold Do1793Command_setup
  dsimp only
  split_ifs <;> exact ⟨rfl, rfl, rfl⟩

/-- The case WRITE_REC of the execution stage with no external FIFO: the transfer is armed
and nothing is written yet. -/
theorem write_noFifo (E : Env Img) (s : WD179X_INFO Img) (h : s.external_fifo_len = 0) :
    Do1793Command_write E s = { s with
      fdc_sec_len :=
        if invalidSecLen (computeSectorSize E s) then 0 else computeSectorSize E s
      fdc_status := s.fdc_status ||| WD179X_STAT_DRQ
      drq := 1
      fdc_datacount := (128 <<< (if invalidSecLen (computeSectorSize E s) then 0
        else computeSectorSize E s)) % 2 ^ 32 % 65536
      fdc_dataindex := 0
      fdc_write := TRUE
      fdc_write_track := FALSE
      fdc_read := FALSE
      fdc_read_addr := FALSE
      raw := fun i => if i = 0 then s.fdc_data else s.raw i } := by
  have h0 : ¬ s.external_fifo_len ≠ 0 := by simp [h]
  unfold Do1793Command_write
  dsimp only
  by_cases hn : invalidSecLen (computeSectorSize E s)
  · simp only [if_pos hn, if_neg h0]
    rfl
  · simp only [if_neg hn, if_neg h0]
    rfl

theorem write_staged (E : Env Img) (s : WD179X_INFO Img) (h : s.external_fifo_len = 0) :
    (Do1793Command_write E s).fdc_write = TRUE ∧
    (Do1793Command_write E s).fdc_write_track = FALSE ∧
    (Do1793Command_write E s).fdc_dataindex = 0 ∧
    ¬ invalidSecLen (Do1793Command_write E s).fdc_sec_len ∧
    (Do1793Command_write E s).fdc_datacount
      = WD179X_SECTOR_LEN_BYTES (Do1793Command_write E s) % 65536 ∧
    (Do1793Command_write E s).sel_drive = s.sel_drive ∧
    (Do1793Command_write E s).drive = s.drive ∧
    (Do1793Command_write E s).trace = s.trace ∧
    (Do1793Command_write E s).fdc_sector = s.fdc_sector ∧
    (Do1793Command_write E s).fdc_head = s.fdc_head := by
  rw [write_noFifo E s h]
  refine ⟨rfl, rfl, rfl, ?_, rfl, rfl, rfl, rfl, rfl, rfl⟩
  dsimp only
  split_ifs with hn
  · decide
  · exact hn

/-- The state left by an accepted WRITE_REC with no external FIFO. -/
theorem writeRec_state (E : Env Img) (c : Nat) (s : WD179X_INFO Img)
    (hs : idle s) (hc : c &&& 0xF0 = WD179X_WRITE_REC) (hfifo : s.external_fifo_len = 0) :
    (Do1793Command E c s).1 = 0 ∧
    validDrive (Do1793Command E c s).2 ∧
    (Do1793Command E c s).2.fdc_write = TRUE ∧
    (Do1793Command E c s).2.fdc_write_track = FALSE ∧
    (Do1793Command E c s).2.fdc_dataindex = 0 ∧
    ¬ invalidSecLen (Do1793Command E c s).2.fdc_sec_len ∧
    (Do1793Command E c s).2.fdc_datacount
      = WD179X_SECTOR_LEN_BYTES (Do1793Command E c s).2 % 65536 ∧
    (Do1793Command E c s).2.trace = s.trace ∧
    (Do1793Command E c s).2.fdc_sector = s.fdc_sector := by
  have hf : (Do1793Command_setup c
      { s with fdc_status := s.fdc_status &&& (0xFF - WD179X_STAT_NOT_READY) }).external_fifo_len
        = 0 := by
    rw [(setup_frame c _).1]; exact hfifo
  obtain ⟨w1, w2, w3, w4, w5, w6, w7, w8, w9, _⟩ := write_staged E _ hf
  rw [Do1793Command_writeRec_eq E c s hs hc]
  dsimp only
  refine ⟨rfl, ⟨?_, ?_⟩, ?_, ?_, ?_, ?_, ?_, ?_, ?_⟩
  · rw [post_sel_drive, w6, setup_sel_drive]; exact hs.1.1
  · rw [pDrive_post]
    unfold pDrive
    rw [w6, w7, setup_sel_drive, setup_drive]
    exact hs.1.2
  · rw [post_fdc_write]; exact w1
  · rw [post_fdc_write_track]; exact w2
  · rw [post_fdc_dataindex]; exact w3
  · rw [post_fdc_sec_len]; exact w4
  · unfold WD179X_SECTOR_LEN_BYTES at w5 ⊢
    rw [post_fdc_datacount, post_fdc_sec_len]; exact w5
  · rw [post_trace, w8, (setup_frame c _).2.1]
  · rw [post_fdc_sector, w9, (setup_frame c _).2.2]

/-! ## The format state machine -/

theorem dataWrites_cons (E : Env Img) (b : Nat) (l : List Nat) (s : WD179X_INFO Img) :
    dataWrites E (b :: l) s = dataWrites E l (WD179X_Write E WD179X_DATA b s).2 := rfl

theorem dataWrites_app (E : Env Img) (l1 l2 : List Nat) (s : WD179X_INFO Img) :
    dataWrites E (l1 ++ l2) s = dataWrites E l2 (dataWrites E l1 s) := by
  unfold dataWrites
  rw [List.foldl_append]

/-- A write to the Data port in format mode runs the format state machine only. -/
theorem fmt_step (E : Env Img) (b : Nat) (s : WD179X_INFO Img) (h : fmtMode s) :
    (WD179X_Write E WD179X_DATA b s).2 = { WD179X_Write_track E b s with fdc_data := b } := by
  obtain ⟨hd, hw, _⟩ := h
  rw [Write_data_eq E s b hd]
  have h1 : WD179X_Write_sector E b s = s := by
    unfold WD179X_Write_sector
    rw [if_neg (by rw [hw]; decide)]
  rw [h1]

/-- The byte 0xFC before the ID address mark, in the state GAP1 or GAP2. -/
theorem fmt_step_FC (E : Env Img) (s : WD179X_INFO Img) (h : fmtMode s)
    (hst : s.fdc_fmt_state = FMT_GAP1 ∨ s.fdc_fmt_state = FMT_GAP2) :
    ∃ g, (WD179X_Write E WD179X_DATA 0xFC s).2 = { s with
      fdc_gap := g, fdc_fmt_state := FMT_GAP2, fdc_data := 0xFC } := by
  rw [fmt_step E _ s h]
  unfold WD179X_Write_track
  rw [if_pos h.2.2]
  rcases hst with hst | hst
  · rw [if_pos hst, if_neg (by decide)]
    exact ⟨_, rfl⟩
  · rw [if_neg (by rw [hst]; decide), if_pos hst, if_pos (by decide)]
    refine ⟨(incGap s 1).fdc_gap, ?_⟩
    rw [← hst]
    rfl

/-- Gap bytes in the state GAP2. -/
theorem fmt_gap2 (E : Env Img) (l : List Nat) :
    ∀ s : WD179X_INFO Img, fmtMode s → s.fdc_fmt_state = FMT_GAP2 → (∀ b ∈ l, b ≠ 0xFE) →
      ∃ g d, dataWrites E l s = { s with fdc_gap := g, fdc_data := d } := by
  induction l with
  | nil => intro s _ _ _; exact ⟨_, _, rfl⟩
  | cons b l ih =>
    intro s h hst hl
    have hb : b ≠ 0xFE := hl b (List.mem_cons_self _ _)
    have e : (WD179X_Write E WD179X_DATA b s).2 = { incGap s 1 with fdc_data := b } := by
      rw [fmt_step E _ s h]
      unfold WD179X_Write_track
      rw [if_pos h.2.2, if_neg (by rw [hst]; decide), if_pos hst, if_pos hb]
    obtain ⟨g, d, h2⟩ := ih { incGap s 1 with fdc_data := b } h hst
      (fun x hx => hl x (List.mem_cons_of_mem _ hx))
    rw [dataWrites_cons, e, h2]
    exact ⟨_, _, rfl⟩

/-- The ID address mark 0xFE in the state GAP2. -/
theorem fmt_step_FE (E : Env Img) (s : WD179X_INFO Img) (h : fmtMode s)
    (hst : s.fdc_fmt_state = FMT_GAP2) :
    ∃ g, (WD179X_Write E WD179X_DATA 0xFE s).2 = { s with
      fdc_gap := g, fdc_fmt_state := FMT_HEADER, fdc_header_index := 0, fdc_data := 0xFE } := by
  rw [fmt_step E _ s h]
  unfold WD179X_Write_track
  rw [if_pos h.2.2, if_neg (by rw [hst]; decide), if_pos hst, if_neg (by decide)]
  exact ⟨_, rfl⟩

/-- A header byte: the state HEADER with `fdc_header_index` below 5. -/
theorem fmt_step_header (E : Env Img) (b : Nat) (s : WD179X_INFO Img) (h : fmtMode s)
    (hst : s.fdc_fmt_state = FMT_HEADER) (hi : s.fdc_header_index < 5) :
    (WD179X_Write E WD179X_DATA b s).2 = { (if s.fdc_header_index = 0 then setTrack s b
        else if s.fdc_header_index = 1 then { s with fdc_head := b }
        else if s.fdc_header_index = 2 then { s with fdc_sector := b }
        else s) with
      fdc_header_index := s.fdc_header_index + 1, fdc_data := b } := by
  rw [fmt_step E _ s h]
  unfold WD179X_Write_track
  rw [if_pos h.2.2, if_neg (by rw [hst]; decide), if_neg (by rw [hst]; decide), if_pos hst,
    if_neg (by omega)]
  dsimp only
  have e : ∀ t : WD179X_INFO Img, t.fdc_header_index = s.fdc_header_index →
      (t.fdc_header_index + 1) % 256 = s.fdc_header_index + 1 := by
    intro t ht; rw [ht]; omega
  split_ifs <;> first | rw [e (setTrack s b) rfl] | rw [e s rfl]

theorem fmtMode_setTrack (s : WD179X_INFO Img) (t : Nat) (h : fmtMode s) :
    fmtMode (setTrack s t) := by
  obtain ⟨⟨h1, h2⟩, h3, h4⟩ := h
  refine ⟨⟨h1, ?_⟩, h3, h4⟩
  unfold setTrack
  rw [pDrive_setDrive]
  exact h2

/-- The five header bytes after the ID address mark. -/
theorem fmt_header (E : Env Img) (c hd sc ln crc : Nat) (s : WD179X_INFO Img) (h : fmtMode s)
    (hst : s.fdc_fmt_state = FMT_HEADER) (hi : s.fdc_header_index = 0) :
    dataWrites E [c, hd, sc, ln, crc] s = { setTrack s c with
      fdc_head := hd, fdc_sector := sc, fdc_header_index := 5, fdc_data := crc } := by
  have h0 := fmtMode_setTrack s c h
  simp only [dataWrites_cons]
  rw [fmt_step_header E c s h hst (by omega), if_pos hi]
  rw [fmt_step_header E hd _ (by exact h0) (by exact hst) (by dsimp only; omega),
    if_neg (by dsimp only; omega), if_pos (by dsimp only; omega)]
  rw [fmt_step_header E sc _ (by exact h0) (by exact hst) (by dsimp only; omega),
    if_neg (by dsimp only; omega), if_neg (by dsimp only; omega), if_pos (by dsimp only; omega)]
  rw [fmt_step_header E ln _ (by exact h0) (by exact hst) (by dsimp only; omega),
    if_neg (by dsimp only; omega), if_neg (by dsimp only; omega), if_neg (by dsimp only; omega)]
  rw [fmt_step_header E crc _ (by exact h0) (by exact hst) (by dsimp only; omega),
    if_neg (by dsimp only; omega), if_neg (by dsimp only; omega), if_neg (by dsimp only; omega)]
  dsimp only [dataWrites, List.foldl]
  rw [hi]

/-- The byte after the header: the state HEADER with `fdc_header_index = 5`. -/
theorem fmt_step_pad (E : Env Img) (b : Nat) (s : WD179X_INFO Img) (h : fmtMode s)
    (hst : s.fdc_fmt_state = FMT_HEADER) (hi : s.fdc_header_index = 5) :
    ∃ g, (WD179X_Write E WD179X_DATA b s).2 = { s with
      fdc_gap := g, fdc_fmt_state := FMT_GAP3, fdc_data := b } := by
  rw [fmt_step E _ s h]
  unfold WD179X_Write_track
  rw [if_pos h.2.2, if_neg (by rw [hst]; decide), if_neg (by rw [hst]; decide), if_pos hst,
    if_pos hi]
  exact ⟨_, rfl⟩

/-- Gap bytes in the state GAP3. -/
theorem fmt_gap3 (E : Env Img) (l : List Nat) :
    ∀ s : WD179X_INFO Img, fmtMode s → s.fdc_fmt_state = FMT_GAP3 → (∀ b ∈ l, b ≠ 0xFB) →
      ∃ g d, dataWrites E l s = { s with fdc_gap := g, fdc_data := d } := by
  induction l with
  | nil => intro s _ _ _; exact ⟨_, _, rfl⟩
  | cons b l ih =>
    intro s h hst hl
    have hb : b ≠ 0xFB := hl b (List.mem_cons_self _ _)
    have e : (WD179X_Write E WD179X_DATA b s).2 = { incGap s 2 with fdc_data := b } := by
      rw [fmt_step E _ s h]
      unfold WD179X_Write_track
      rw [if_pos h.2.2, if_neg (by rw [hst]; decide), if_neg (by rw [hst]; decide),
        if_neg (by rw [hst]; decide), if_pos hst, if_pos hb]
    obtain ⟨g, d, h2⟩ := ih { incGap s 2 with fdc_data := b } h hst
      (fun x hx => hl x (List.mem_cons_of_mem _ hx))
    rw [dataWrites_cons, e, h2]
    exact ⟨_, _, rfl⟩

/-- The data address mark 0xFB in the state GAP3. -/
theorem fmt_step_FB (E : Env Img) (s : WD179X_INFO Img) (h : fmtMode s)
    (hst : s.fdc_fmt_state = FMT_GAP3) :
    (WD179X_Write E WD179X_DATA 0xFB s).2 = { s with
      fdc_fmt_state := FMT_DATA, fdc_dataindex := 0, fdc_data := 0xFB } := by
  rw [fmt_step E _ s h]
  unfold WD179X_Write_track
  rw [if_pos h.2.2, if_neg (by rw [hst]; decide), if_neg (by rw [hst]; decide),
    if_neg (by rw [hst]; decide), if_pos hst, if_neg (by decide)]

/-- Data bytes in the state DATA, as long as they fit the sector buffer. -/
theorem fmt_data (E : Env Img) (l : List Nat) :
    ∀ s : WD179X_INFO Img, fmtMode s → s.fdc_fmt_state = FMT_DATA → (∀ b ∈ l, b ≠ 0xF7) →
      s.fdc_dataindex + l.length ≤ WD179X_SECTOR_LEN →
      ∃ d, dataWrites E l s = { s with
        raw := storeFrom s.raw s.fdc_dataindex l
        fdc_dataindex := s.fdc_dataindex + l.length
        fdc_data := d } := by
  induction l with
  | nil => intro s _ _ _ _; exact ⟨s.fdc_data, rfl⟩
  | cons b l ih =>
    intro s h hst hl hlen
    simp only [List.length_cons, WD179X_SECTOR_LEN] at hlen
    have hb : b ≠ 0xF7 := hl b (List.mem_cons_self _ _)
    have hin : decide (WD179X_SECTOR_LEN ≤ s.fdc_dataindex) = false :=
      decide_eq_false (by unfold WD179X_SECTOR_LEN; omega)
    have e : (WD179X_Write E WD179X_DATA b s).2 = { s with
        raw := fun i => if i = s.fdc_dataindex then b else s.raw i
        fdc_dataindex := s.fdc_dataindex + 1
        fdc_data := b } := by
      rw [fmt_step E _ s h]
      unfold WD179X_Write_track
      rw [if_pos h.2.2, if_neg (by rw [hst]; decide), if_neg (by rw [hst]; decide),
        if_neg (by rw [hst]; decide), if_neg (by rw [hst]; decide), if_pos hst, if_pos hb,
        Nat.mod_eq_of_lt (by omega), hin, Bool.or_false]
    obtain ⟨d, h2⟩ := ih { s with
        raw := fun i => if i = s.fdc_dataindex then b else s.raw i
        fdc_dataindex := s.fdc_dataindex + 1
        fdc_data := b } h hst (fun x hx => hl x (List.mem_cons_of_mem _ hx))
      (show s.fdc_dataindex + 1 + l.length ≤ WD179X_SECTOR_LEN by
        unfold WD179X_SECTOR_LEN; omega)
    refine ⟨d, ?_⟩
    rw [dataWrites_cons, e, h2]
    dsimp only
    have e2 : s.fdc_dataindex + 1 + l.length = s.fdc_dataindex + (b :: l).length := by
      simp only [List.length_cons]; omega
    rw [e2]
    rfl

theorem shl_code_lt (N : Nat) (hN : N ≤ 6) : 128 <<< N < 65536 := by
  interval_cases N <;> decide

/-- A sector of a valid length code fits the sector buffer. -/
theorem shl_code_le (N : Nat) (hN : N ≤ 6) : 128 <<< N ≤ WD179X_SECTOR_LEN := by
  interval_cases N <;> decide

/-- A whole sector of a format stream up to the closing 0xF7: the header bytes are latched,
the data bytes are in the buffer and the state is DATA. -/
theorem fmt_body (E : Env Img) (N : Nat) (r : FmtSector) (s : WD179X_INFO Img)
    (h : fmtMode s) (hst : s.fdc_fmt_state = FMT_GAP1 ∨ s.fdc_fmt_state = FMT_GAP2)
    (hwf : r.wf N) (hN : N ≤ 6) :
    ∃ g d, dataWrites E r.body s = { setTrack s r.cyl with
      fdc_gap := g
      fdc_fmt_state := FMT_DATA
      fdc_header_index := 5
      fdc_head := r.head
      fdc_sector := r.sec
      fdc_dataindex := r.data.length
      raw := storeFrom s.raw 0 r.data
      fdc_data := d } := by
  obtain ⟨w1, w2, w3, w4⟩ := hwf
  have hlen : r.data.length ≤ WD179X_SECTOR_LEN := by rw [w3]; exact shl_code_le N hN
  unfold FmtSector.body
  obtain ⟨g1, e1⟩ := fmt_step_FC E s h hst
  rw [dataWrites_cons, e1, dataWrites_app]
  obtain ⟨g2, d2, e2⟩ := fmt_gap2 E r.gap2
    { s with fdc_gap := g1, fdc_fmt_state := FMT_GAP2, fdc_data := 0xFC } h rfl w1
  rw [e2]
  obtain ⟨g3, e3⟩ := fmt_step_FE E
    { s with fdc_gap := g2, fdc_fmt_state := FMT_GAP2, fdc_data := d2 } h rfl
  rw [dataWrites_cons, e3]
  have hsplit : r.cyl :: r.head :: r.sec :: r.len :: r.crc :: r.pad :: (r.gap3 ++ 0xFB :: r.data)
      = [r.cyl, r.head, r.sec, r.len, r.crc] ++ (r.pad :: (r.gap3 ++ 0xFB :: r.data)) := rfl
  rw [hsplit, dataWrites_app]
  rw [fmt_header E r.cyl r.head r.sec r.len r.crc
    { s with fdc_gap := g3, fdc_fmt_state := FMT_HEADER, fdc_header_index := 0,
             fdc_data := 0xFE } h rfl rfl]
  have hm : fmtMode (setTrack s r.cyl) := fmtMode_setTrack s r.cyl h
  obtain ⟨g4, e4⟩ := fmt_step_pad E r.pad
    { setTrack s r.cyl with
      fdc_gap := g3
      fdc_fmt_state := FMT_HEADER
      fdc_head := r.head
      fdc_sector := r.sec
      fdc_header_index := 5
      fdc_data := r.crc } hm rfl rfl
  obtain ⟨g5, d5, e5⟩ := fmt_gap3 E r.gap3
    { setTrack s r.cyl with
      fdc_gap := g4
      fdc_fmt_state := FMT_GAP3
      fdc_head := r.head
      fdc_sector := r.sec
      fdc_header_index := 5
      fdc_data := r.pad } hm rfl w2
  have e6 := fmt_step_FB E
    { setTrack s r.cyl with
      fdc_gap := g5
      fdc_fmt_state := FMT_GAP3
      fdc_head := r.head
      fdc_sector := r.sec
      fdc_header_index := 5
      fdc_data := d5 } hm rfl
  obtain ⟨d7, e7⟩ := fmt_data E r.data
    { setTrack s r.cyl with
      fdc_gap := g5
      fdc_fmt_state := FMT_DATA
      fdc_head := r.head
      fdc_sector := r.sec
      fdc_header_index := 5
      fdc_dataindex := 0
      fdc_data := 0xFB } hm rfl w4 (by dsimp only; rw [Nat.zero_add]; exact hlen)
  have hrest : dataWrites E (r.pad :: (r.gap3 ++ 0xFB :: r.data))
      { setTrack s r.cyl with
        fdc_gap := g3
        fdc_fmt_state := FMT_HEADER
        fdc_head := r.head
        fdc_sector := r.sec
        fdc_header_index := 5
        fdc_data := r.crc }
      = { setTrack s r.cyl with
          fdc_gap := g5
          fdc_fmt_state := FMT_DATA
          fdc_header_index := 5
          fdc_head := r.head
          fdc_sector := r.sec
          fdc_dataindex := r.data.length
          raw := storeFrom s.raw 0 r.data
          fdc_data := d7 } := by
    rw [dataWrites_cons, e4, dataWrites_app]
    refine (congrArg (dataWrites E (0xFB :: r.data)) e5).trans ?_
    rw [dataWrites_cons]
    refine (congrArg (dataWrites E r.data) e6).trans ?_
    refine e7.trans ?_
    dsimp only
    rw [Nat.zero_add]
    rfl
  exact ⟨g5, d7, hrest⟩

theorem not_invalid_of_le (N : Nat) (hN : N ≤ 6) : ¬ invalidSecLen N := by
  unfold invalidSecLen WD179X_MAX_SEC_LEN; omega

theorem floorlog2_shl (N : Nat) (hN : N ≤ 6) :
    (floorlog2 (128 <<< N) + 256 - 7) % 256 = N := by
  interval_cases N <;> decide

theorem max_sectors_le (d N : Nat) (hN : N ≤ 6) : max_sectors_per_track (d &&& 1) N ≤ 26 := by
  have h1 : d &&& 1 < 2 := by
    have := Nat.and_le_right (n := d) (m := 1)
    omega
  generalize d &&& 1 = x at h1
  interval_cases x <;> interval_cases N <;> decide

/-- What `wd179x_trackWrite` logs. -/
theorem trackWrite_trace (E : Env Img) (s : WD179X_INFO Img) (Cyl Head fillbyte : Nat) :
    (wd179x_trackWrite E s Cyl Head fillbyte).trace
      = s.trace ++ [Event.trackWrite Cyl Head fillbyte s.fdc_fmt_sector_count
          (WD179X_SECTOR_LEN_BYTES s) (bufBytes s.fdc_sectormap s.fdc_fmt_sector_count)] := by
  unfold wd179x_trackWrite
  dsimp only
  split_ifs <;> first | rfl | (split <;> rfl)

/-- The closing 0xF7 of a sector that does not complete the track: the sector is counted,
its number is entered in the sector map and the state machine waits for the next sector. -/
theorem endSector_more (E : Env Img) (N j : Nat) (t : WD179X_INFO Img) (hN : N ≤ 6)
    (hidx : t.fdc_dataindex = 128 <<< N) (hj : t.fdc_fmt_sector_count = j) (hj26 : j < 26)
    (hK : j + 1 ≠ max_sectors_per_track (t.ddens &&& 1) N) :
    ∃ g, WD179X_Write_endSector E t = { t with
      fdc_sec_len := N
      fdc_sectormap := fun i => if i = j then t.fdc_sector else t.fdc_sectormap i
      fdc_fmt_sector_count := j + 1
      fdc_gap := g
      fdc_fmt_state := FMT_GAP2 } := by
  have hinv : ¬ invalidSecLen N := not_invalid_of_le N hN
  have h26 : ¬ j ≥ WD179X_MAX_SECTOR := by unfold WD179X_MAX_SECTOR; exact Nat.not_le.mpr hj26
  have hmod : (j + 1) % 256 = j + 1 :=
    Nat.mod_eq_of_lt (Nat.lt_of_lt_of_le (Nat.succ_lt_succ hj26) (by decide))
  have hfl := floorlog2_shl N hN
  unfold WD179X_Write_endSector
  rw [hidx, hfl]
  simp only [hinv, if_false]
  simp only [hj, h26, if_false, hmod]
  simp only [clearGap, hK, if_false]
  exact ⟨_, rfl⟩

/-- The closing 0xF7 of the sector that completes the track: the track is formatted with the
sectors counted, the sector map gathered and the first byte of the buffer as fill byte. -/
theorem endSector_last (E : Env Img) (N j : Nat) (t : WD179X_INFO Img) (hN : N ≤ 6)
    (hidx : t.fdc_dataindex = 128 <<< N) (hj : t.fdc_fmt_sector_count = j) (hj26 : j < 26)
    (hK : j + 1 = max_sectors_per_track (t.ddens &&& 1) N) :
    (WD179X_Write_endSector E t).trace = t.trace ++
      [Event.trackWrite (pDrive t).track t.fdc_head (t.raw 0) (j + 1) (128 <<< N)
        (bufBytes (fun i => if i = j then t.fdc_sector else t.fdc_sectormap i) (j + 1))] := by
  have hinv : ¬ invalidSecLen N := not_invalid_of_le N hN
  have h26 : ¬ j ≥ WD179X_MAX_SECTOR := by unfold WD179X_MAX_SECTOR; exact Nat.not_le.mpr hj26
  have hmod : (j + 1) % 256 = j + 1 :=
    Nat.mod_eq_of_lt (Nat.lt_of_lt_of_le (Nat.succ_lt_succ hj26) (by decide))
  have hfl := floorlog2_shl N hN
  have hlen : (128 <<< N) % 2 ^ 32 = 128 <<< N :=
    Nat.mod_eq_of_lt (Nat.lt_trans (shl_code_lt N hN) (by decide))
  unfold WD179X_Write_endSector
  rw [hidx, hfl]
  simp only [hinv, if_false]
  simp only [hj, h26, if_false, hmod]
  simp only [clearGap]
  rw [if_pos hK]
  simp only [setDrive, raiseInterrupt_trace, trackWrite_trace, WD179X_SECTOR_LEN_BYTES, hlen,
    pDrive]

/-! ## The trace only grows -/

theorem Write_sector_trace (E : Env Img) (b : Nat) (s : WD179X_INFO Img) :
    s.trace <+: (WD179X_Write_sector E b s).trace := by
  unfold WD179X_Write_sector
  dsimp only
  split_ifs
  · dsimp only
    rw [(sectWrite_facts E _ _ _ _ _).2.2.2.2, raiseInterrupt_trace]
    exact List.prefix_append _ _
  · exact List.prefix_refl _
  · exact List.prefix_refl _
  · exact List.prefix_refl _

theorem endSector_trace (E : Env Img) (s : WD179X_INFO Img) :
    s.trace <+: (WD179X_Write_endSector E s).trace := by
  unfold WD179X_Write_endSector
  generalize (floorlog2 s.fdc_dataindex + 256 - 7) % 256 = n
  by_cases c1 : invalidSecLen n <;>
    by_cases c2 : s.fdc_fmt_sector_count ≥ WD179X_MAX_SECTOR <;>
    simp only [c1, if_true, if_false] <;>
    simp only [c2, if_true, if_false] <;>
    simp only [clearGap] <;>
    split_ifs <;>
    simp only [setDrive, raiseInterrupt_trace, trackWrite_trace] <;>
    first
      | exact List.prefix_append _ _
      | exact List.prefix_refl _

theorem Write_track_trace (E : Env Img) (b : Nat) (s : WD179X_INFO Img) :
    s.trace <+: (WD179X_Write_track E b s).trace := by
  unfold WD179X_Write_track
  by_cases h0 : s.fdc_write_track = TRUE
  · rw [if_pos h0]
    by_cases h1 : s.fdc_fmt_state = FMT_GAP1
    · rw [if_pos h1]; split_ifs <;> exact List.prefix_refl _
    · rw [if_neg h1]
      by_cases h2 : s.fdc_fmt_state = FMT_GAP2
      · rw [if_pos h2]; split_ifs <;> exact List.prefix_refl _
      · rw [if_neg h2]
        by_cases h3 : s.fdc_fmt_state = FMT_HEADER
        · rw [if_pos h3]; dsimp only; split_ifs <;> exact List.prefix_refl _
        · rw [if_neg h3]
          by_cases h4 : s.fdc_fmt_state = FMT_GAP3
          · rw [if_pos h4]; split_ifs <;> exact List.prefix_refl _
          · rw [if_neg h4]
            by_cases h5 : s.fdc_fmt_state = FMT_DATA
            · rw [if_pos h5]
              by_cases h6 : b ≠ 0xF7
              · rw [if_pos h6]
              · rw [if_neg h6]; exact endSector_trace E s
            · rw [if_neg h5]
  · rw [if_neg h0]

/-- A write to the Data port never removes a call from the trace. -/
theorem Write_data_trace (E : Env Img) (b : Nat) (s : WD179X_INFO Img) :
    s.trace <+: (WD179X_Write E WD179X_DATA b s).2.trace := by
  by_cases hd : validDrive s
  · rw [Write_data_eq E s b hd]
    exact (Write_sector_trace E b s).trans (Write_track_trace E b _)
  · unfold WD179X_Write
    unfold validDrive at hd
    by_cases h1 : s.sel_drive ≥ WD179X_MAX_DRIVES
    · rw [if_pos h1]
    · rw [if_neg h1, if_pos (by
        have : ¬ (pDrive s).uptr = true := fun h => hd ⟨by omega, h⟩
        simpa using this)]

theorem dataWrites_trace (E : Env Img) (l : List Nat) :
    ∀ s : WD179X_INFO Img, s.trace <+: (dataWrites E l s).trace := by
  induction l with
  | nil => intro s; exact List.prefix_refl _
  | cons b l ih =>
    intro s
    rw [dataWrites_cons]
    exact (Write_data_trace E b s).trans (ih _)

/-- If the writes of a list leave the trace as it was, so do the writes of each of its
prefixes. -/
theorem dataWrites_take_trace (E : Env Img) (l : List Nat) (s : WD179X_INFO Img)
    (h : (dataWrites E l s).trace = s.trace) (k : Nat) :
    (dataWrites E (l.take k) s).trace = s.trace := by
  have h1 := dataWrites_trace E (l.take k) s
  have h2 := dataWrites_trace E (l.drop k) (dataWrites E (l.take k) s)
  rw [← dataWrites_app, List.take_append_drop, h] at h2
  exact (List.IsPrefix.eq_of_length h1 (Nat.le_antisymm h1.length_le h2.length_le)).symm

/-! ## Format of a track -/

/-- The closing 0xF7 in the state DATA. -/
theorem fmt_step_F7 (E : Env Img) (s : WD179X_INFO Img) (h : fmtMode s)
    (hst : s.fdc_fmt_state = FMT_DATA) :
    (WD179X_Write E WD179X_DATA 0xF7 s).2
      = { WD179X_Write_endSector E s with fdc_data := 0xF7 } := by
  rw [fmt_step E _ s h]
  unfold WD179X_Write_track
  rw [if_pos h.2.2, if_neg (by rw [hst]; decide), if_neg (by rw [hst]; decide),
    if_neg (by rw [hst]; decide), if_neg (by rw [hst]; decide), if_pos hst,
    if_neg (by decide)]

theorem bufBytes_update (f : Nat → Nat) (n x : Nat) :
    bufBytes (fun i => if i = n then x else f i) (n + 1) = bufBytes f n ++ [x] := by
  unfold bufBytes
  rw [List.range_succ, List.map_append]
  congr 1
  · apply List.map_congr_left
    intro i hi
    have : i ≠ n := by
      have := List.mem_range.mp hi
      omega
    simp [this]
  · simp

/-- A sector that does not complete the track is counted and entered in the sector map;
nothing leaves the controller. -/
theorem fmt_sector_more (E : Env Img) (N dd : Nat) (tr : List Event) (m : List Nat)
    (r : FmtSector) (s : WD179X_INFO Img) (hs : fmtReady dd tr m s) (hwf : r.wf N)
    (hN : N ≤ 6) (hK : m.length + 1 < max_sectors_per_track (dd &&& 1) N) :
    fmtReady dd tr (m ++ [r.sec]) (dataWrites E r.bytes s) := by
  obtain ⟨hm, hst, hcnt, hmap, htr, hdd⟩ := hs
  obtain ⟨g, d, hb⟩ := fmt_body E N r s hm hst hwf hN
  have h26 := max_sectors_le dd N hN
  unfold FmtSector.bytes
  rw [dataWrites_app, hb, dataWrites_cons]
  have hm2 : fmtMode (setTrack s r.cyl) := fmtMode_setTrack s r.cyl hm
  rw [fmt_step_F7 E _ (by exact hm2) rfl]
  obtain ⟨g2, he⟩ := endSector_more E N m.length
    { setTrack s r.cyl with
      fdc_gap := g
      fdc_fmt_state := FMT_DATA
      fdc_header_index := 5
      fdc_head := r.head
      fdc_sector := r.sec
      fdc_dataindex := r.data.length
      raw := storeFrom s.raw 0 r.data
      fdc_data := d } hN hwf.2.2.1 hcnt (by omega)
    (by
      show m.length + 1 ≠ max_sectors_per_track (s.ddens &&& 1) N
      rw [hdd]; omega)
  rw [he]
  refine ⟨hm2, Or.inr rfl, ?_, ?_, htr, hdd⟩
  · show m.length + 1 = (m ++ [r.sec]).length
    simp
  · show bufBytes (fun i => if i = m.length then r.sec else s.fdc_sectormap i)
      (m ++ [r.sec]).length = m ++ [r.sec]
    rw [List.length_append, List.length_singleton, bufBytes_update, hmap]

/-- The sector that completes the track: nothing leaves the controller before its closing
0xF7, which formats the track. -/
theorem fmt_sector_last (E : Env Img) (N dd : Nat) (tr : List Event) (m : List Nat)
    (r : FmtSector) (s : WD179X_INFO Img) (hs : fmtReady dd tr m s) (hwf : r.wf N)
    (hN : N ≤ 6) (hK : m.length + 1 = max_sectors_per_track (dd &&& 1) N) :
    (dataWrites E r.body s).trace = tr ∧
    (dataWrites E r.bytes s).trace = tr ++
      [Event.trackWrite r.cyl r.head (r.data.getD 0 0) (m.length + 1) (128 <<< N)
        (m ++ [r.sec])] := by
  obtain ⟨hm, hst, hcnt, hmap, htr, hdd⟩ := hs
  obtain ⟨g, d, hb⟩ := fmt_body E N r s hm hst hwf hN
  have h26 := max_sectors_le dd N hN
  refine ⟨by rw [hb]; exact htr, ?_⟩
  unfold FmtSector.bytes
  rw [dataWrites_app, hb, dataWrites_cons]
  have hm2 : fmtMode (setTrack s r.cyl) := fmtMode_setTrack s r.cyl hm
  rw [fmt_step_F7 E _ (by exact hm2) rfl]
  have he := endSector_last E N m.length
    { setTrack s r.cyl with
      fdc_gap := g
      fdc_fmt_state := FMT_DATA
      fdc_header_index := 5
      fdc_head := r.head
      fdc_sector := r.sec
      fdc_dataindex := r.data.length
      raw := storeFrom s.raw 0 r.data
      fdc_data := d } hN hwf.2.2.1 hcnt (by omega)
    (by
      show m.length + 1 = max_sectors_per_track (s.ddens &&& 1) N
      rw [hdd]; exact hK)
  have hpos : 0 < r.data.length := by
    rw [hwf.2.2.1]
    interval_cases N <;> decide
  dsimp only [dataWrites, List.foldl]
  rw [he]
  simp only [setTrack, setDrive, pDrive, if_true]
  rw [bufBytes_update, hmap, storeFrom_apply, if_pos ⟨Nat.le_refl 0, by rw [Nat.zero_add]; exact hpos⟩, htr]

theorem fmtStream_cons (r : FmtSector) (recs : List FmtSector) :
    fmtStream (r :: recs) = r.bytes ++ fmtStream recs := by
  simp [fmtStream]

theorem fmtStream_concat (recs : List FmtSector) (r : FmtSector) :
    fmtStream (recs ++ [r]) = (fmtStream recs ++ r.body) ++ [0xF7] := by
  simp [fmtStream, FmtSector.bytes]

/-- The sectors of a whole track: nothing leaves the controller before the closing 0xF7 of the
last sector, which formats the track with the sector numbers in the order supplied. -/
theorem fmt_records (E : Env Img) (N dd : Nat) (tr : List Event) (hN : N ≤ 6)
    (r : FmtSector) (recs : List FmtSector) :
    ∀ (m : List Nat) (s : WD179X_INFO Img), fmtReady dd tr m s →
      (∀ x ∈ recs ++ [r], x.wf N) →
      m.length + (recs ++ [r]).length = max_sectors_per_track (dd &&& 1) N →
      (dataWrites E (fmtStream recs ++ r.body) s).trace = tr ∧
      (dataWrites E (fmtStream (recs ++ [r])) s).trace = tr ++
        [Event.trackWrite r.cyl r.head (r.data.getD 0 0)
          (max_sectors_per_track (dd &&& 1) N) (128 <<< N)
          (m ++ (recs ++ [r]).map FmtSector.sec)] := by
  induction recs with
  | nil =>
    intro m s hs hwf hK
    simp only [List.nil_append, List.length_singleton] at hK
    have h := fmt_sector_last E N dd tr m r s hs (hwf r (by simp)) hN hK
    have e1 : fmtStream ([] : List FmtSector) ++ r.body = r.body := by simp [fmtStream]
    have e2 : fmtStream ([] ++ [r]) = r.bytes := by simp [fmtStream]
    rw [e1, e2, ← hK]
    exact h
  | cons r0 recs ih =>
    intro m s hs hwf hK
    simp only [List.cons_append, List.length_cons, List.length_append,
      List.length_singleton, List.length_nil] at hK
    have h0 := fmt_sector_more E N dd tr m r0 s hs (hwf r0 (by simp)) hN (by omega)
    have h1 := ih (m ++ [r0.sec]) (dataWrites E r0.bytes s) h0
      (fun x hx => hwf x (by simp at hx ⊢; tauto))
      (by simp only [List.length_append, List.length_singleton]; omega)
    have e1 : fmtStream (r0 :: recs) ++ r.body = r0.bytes ++ (fmtStream recs ++ r.body) := by
      rw [fmtStream_cons, List.append_assoc]
    have e2 : fmtStream (r0 :: recs ++ [r]) = r0.bytes ++ fmtStream (recs ++ [r]) := by
      rw [List.cons_append, fmtStream_cons]
    rw [e1, e2, dataWrites_app E r0.bytes (fmtStream recs ++ r.body),
      dataWrites_app E r0.bytes (fmtStream (recs ++ [r]))]
    refine ⟨h1.1, ?_⟩
    rw [h1.2]
    simp

/-! ## WRITE_TRACK -/

theorem typeIII_of_writeTrack (c : Nat) (hc : c &&& 0xF0 = WD179X_WRITE_TRACK) :
    ¬ isTypeI c ∧ ¬ isTypeII c ∧ isTypeIII c := by
  unfold isTypeI isTypeII isTypeIII; rw [hc]; decide

theorem exec_writeTrack (E : Env Img) (c : Nat) (s : WD179X_INFO Img)
    (hc : c &&& 0xF0 = WD179X_WRITE_TRACK) :
    Do1793Command_exec E c s = (none, Do1793Command_writeTrack s) := by
  unfold Do1793Command_exec; rw [hc]
  simp [WD179X_RESTORE, WD179X_SEEK, WD179X_STEP, WD179X_STEP_U, WD179X_STEP_IN,
    WD179X_STEP_IN_U, WD179X_STEP_OUT, WD179X_STEP_OUT_U, WD179X_READ_REC, WD179X_READ_RECS,
    WD179X_WRITE_REC, WD179X_WRITE_RECS, WD179X_READ_ADDR, WD179X_READ_TRACK,
    WD179X_WRITE_TRACK]

/-- An accepted WRITE_TRACK command returns 0 and arms the format state machine: no sector is
counted yet and nothing has left the controller. -/
theorem writeTrack_ready (E : Env Img) (c : Nat) (s : WD179X_INFO Img)
    (hs : idle s) (hc : c &&& 0xF0 = WD179X_WRITE_TRACK) :
    (Do1793Command E c s).1 = 0 ∧ fmtReady s.ddens s.trace [] (Do1793Command E c s).2 := by
  obtain ⟨⟨h1, h2⟩, h3⟩ := hs
  obtain ⟨n1, n2, n3⟩ := typeIII_of_writeTrack c hc
  have hsetup : ∀ s : WD179X_INFO Img, Do1793Command_setup c s = { s with cmdtype := 3 } := by
    intro s; unfold Do1793Command_setup; rw [if_neg n1, if_neg n2, if_pos n3]
  have e : Do1793Command E c s = (0, Do1793Command_post E c (Do1793Command_writeTrack
      { s with fdc_status := s.fdc_status &&& (0xFF - WD179X_STAT_NOT_READY), cmdtype := 3 })) := by
    unfold Do1793Command
    rw [if_neg (by omega), if_neg (by simp [h2]), if_neg (by simp [h3])]
    dsimp only
    rw [hsetup, exec_writeTrack E c _ hc]
  rw [e]
  refine ⟨rfl, ⟨⟨?_, ?_⟩, ?_, ?_⟩, Or.inl ?_, ?_, rfl, ?_, ?_⟩
  · dsimp only; rw [post_sel_drive]; exact h1
  · dsimp only; rw [pDrive_post]; exact h2
  · dsimp only; rw [post_fdc_write]; rfl
  · dsimp only; rw [post_fdc_write_track]; rfl
  · dsimp only; rw [post_fdc_fmt_state]; rfl
  · dsimp only; rw [post_fdc_fmt_sector_count]; rfl
  · dsimp only; rw [post_trace]; rfl
  · dsimp only; rw [post_ddens]; rfl

/-- A gap between the ID address mark and the header is taken as the header: the stream
0xFC, 0xFE, gap2 = [0x4E], header = [0, 0, 1, 5, 0], gap3 = [0x4E], 0xFB, 4096 data bytes, 0xF7
formats cylinder 0x4E with the sector map [0]. -/
theorem format_gap2_misparse (d : List Nat) (hlen : d.length = 4096)
    (hfree : ∀ b ∈ d, b ≠ 0xF7) :
    (dataWrites demoEnv (specFmtRecord [] [0x4E] [0, 0, 1, 5, 0] [0x4E] d)
      (Do1793Command demoEnv 0xF0 demoState).2).trace
        = [Event.trackWrite 0x4E 0 (d.getD 0 0) 1 4096 [0]] := by
  have hready := (writeTrack_ready demoEnv 0xF0 demoState (by decide) (by decide)).2
  have h := fmt_records demoEnv 5 demoState.ddens demoState.trace (by decide)
    (misparsedSector d) [] [] _ hready
    (by
      intro r hr
      simp only [List.nil_append, List.mem_singleton] at hr
      subst hr
      exact ⟨by simp [misparsedSector], by simp [misparsedSector], hlen, hfree⟩)
    (by rfl)
  have e : fmtStream ([] ++ [misparsedSector d])
      = specFmtRecord [] [0x4E] [0, 0, 1, 5, 0] [0x4E] d := by
    simp [fmtStream, FmtSector.bytes, FmtSector.body, specFmtRecord, misparsedSector]
  have h2 := h.2
  rw [e] at h2
  rw [h2]
  rfl

/-- Counterexample to C14 as stated: with a gap between the ID address mark 0xFE and the
header, the bytes after 0xFE are still taken as the header.  In single density with 4096-byte
sectors (code 5, one sector per track) the stream 0xFC, 0xFE, gap2 = [0x4E],
header = [0, 0, 1, 5, 0], gap3 = [0x4E], 0xFB, 4096 data bytes 0xE5, 0xF7 formats cylinder 0x4E
with the sector map [0], not with [1], the value of header[2]. -/
theorem C14_counterexample :
    (dataWrites demoEnv
      (specFmtRecord [] [0x4E] [0, 0, 1, 5, 0] [0x4E] (List.replicate 4096 0xE5))
      (Do1793Command demoEnv 0xF0 demoState).2).trace
        = [Event.trackWrite 0x4E 0 0xE5 1 4096 [0]] :=
  (format_gap2_misparse (List.replicate 4096 0xE5) (List.length_replicate _ _)
    (fun b hb => by rw [List.eq_of_mem_replicate hb]; decide)).trans (by rfl)

/-! ## Frame of the set-up stage -/

/-- The first `switch` changes the command type, the status, `intrq`, `hld`, `verify` and the
head only. -/
theorem setup_frame_ex (c : Nat) (s : WD179X_INFO Img) :
    ∃ ct st iq h v hd, Do1793Command_setup c s = { s with
      cmdtype := ct, fdc_status := st, intrq := iq, hld := h, verify := v, fdc_head := hd } := by
  unfold Do1793Command_setup
  dsimp only
  split_ifs <;> exact ⟨_, _, _, _, _, _, rfl⟩

theorem setup_fdctype (c : Nat) (s : WD179X_INFO Img) :
    (Do1793Command_setup c s).fdctype = s.fdctype := by
  obtain ⟨_, _, _, _, _, _, h⟩ := setup_frame_ex c s; rw [h]

theorem setup_intenable (c : Nat) (s : WD179X_INFO Img) :
    (Do1793Command_setup c s).intenable = s.intenable := by
  obtain ⟨_, _, _, _, _, _, h⟩ := setup_frame_ex c s; rw [h]

theorem setup_intvector (c : Nat) (s : WD179X_INFO Img) :
    (Do1793Command_setup c s).intvector = s.intvector := by
  obtain ⟨_, _, _, _, _, _, h⟩ := setup_frame_ex c s; rw [h]

theorem setup_drq (c : Nat) (s : WD179X_INFO Img) :
    (Do1793Command_setup c s).drq = s.drq := by
  obtain ⟨_, _, _, _, _, _, h⟩ := setup_frame_ex c s; rw [h]

theorem setup_ddens (c : Nat) (s : WD179X_INFO Img) :
    (Do1793Command_setup c s).ddens = s.ddens := by
  obtain ⟨_, _, _, _, _, _, h⟩ := setup_frame_ex c s; rw [h]

theorem setup_drivetype (c : Nat) (s : WD179X_INFO Img) :
    (Do1793Command_setup c s).drivetype = s.drivetype := by
  obtain ⟨_, _, _, _, _, _, h⟩ := setup_frame_ex c s; rw [h]

theorem setup_fdc_write (c : Nat) (s : WD179X_INFO Img) :
    (Do1793Command_setup c s).fdc_write = s.fdc_write := by
  obtain ⟨_, _, _, _, _, _, h⟩ := setup_frame_ex c s; rw [h]

theorem setup_fdc_write_track (c : Nat) (s : WD179X_INFO Img) :
    (Do1793Command_setup c s).fdc_write_track = s.fdc_write_track := by
  obtain ⟨_, _, _, _, _, _, h⟩ := setup_frame_ex c s; rw [h]

theorem setup_fdc_fmt_state (c : Nat) (s : WD179X_INFO Img) :
    (Do1793Command_setup c s).fdc_fmt_state = s.fdc_fmt_state := by
  obtain ⟨_, _, _, _, _, _, h⟩ := setup_frame_ex c s; rw [h]

theorem setup_fdc_gap (c : Nat) (s : WD179X_INFO Img) :
    (Do1793Command_setup c s).fdc_gap = s.fdc_gap := by
  obtain ⟨_, _, _, _, _, _, h⟩ := setup_frame_ex c s; rw [h]

theorem setup_fdc_fmt_sector_count (c : Nat) (s : WD179X_INFO Img) :
    (Do1793Command_setup c s).fdc_fmt_sector_count = s.fdc_fmt_sector_count := by
  obtain ⟨_, _, _, _, _, _, h⟩ := setup_frame_ex c s; rw [h]

theorem setup_fdc_sectormap (c : Nat) (s : WD179X_INFO Img) :
    (Do1793Command_setup c s).fdc_sectormap = s.fdc_sectormap := by
  obtain ⟨_, _, _, _, _, _, h⟩ := setup_frame_ex c s; rw [h]

theorem setup_fdc_header_index (c : Nat) (s : WD179X_INFO Img) :
    (Do1793Command_setup c s).fdc_header_index = s.fdc_header_index := by
  obtain ⟨_, _, _, _, _, _, h⟩ := setup_frame_ex c s; rw [h]

theorem setup_fdc_read_addr (c : Nat) (s : WD179X_INFO Img) :
    (Do1793Command_setup c s).fdc_read_addr = s.fdc_read_addr := by
  obtain ⟨_, _, _, _, _, _, h⟩ := setup_frame_ex c s; rw [h]

theorem setup_fdc_multiple (c : Nat) (s : WD179X_INFO Img) :
    (Do1793Command_setup c s).fdc_multiple = s.fdc_multiple := by
  obtain ⟨_, _, _, _, _, _, h⟩ := setup_frame_ex c s; rw [h]

theorem setup_fdc_datacount (c : Nat) (s : WD179X_INFO Img) :
    (Do1793Command_setup c s).fdc_datacount = s.fdc_datacount := by
  obtain ⟨_, _, _, _, _, _, h⟩ := setup_frame_ex c s; rw [h]

theorem setup_fdc_dataindex (c : Nat) (s : WD179X_INFO Img) :
    (Do1793Command_setup c s).fdc_dataindex = s.fdc_dataindex := by
  obtain ⟨_, _, _, _, _, _, h⟩ := setup_frame_ex c s; rw [h]

theorem setup_index_pulse_wait (c : Nat) (s : WD179X_INFO Img) :
    (Do1793Command_setup c s).index_pulse_wait = s.index_pulse_wait := by
  obtain ⟨_, _, _, _, _, _, h⟩ := setup_frame_ex c s; rw [h]

theorem setup_fdc_sector (c : Nat) (s : WD179X_INFO Img) :
    (Do1793Command_setup c s).fdc_sector = s.fdc_sector := by
  obtain ⟨_, _, _, _, _, _, h⟩ := setup_frame_ex c s; rw [h]

theorem setup_fdc_sec_len (c : Nat) (s : WD179X_INFO Img) :
    (Do1793Command_setup c s).fdc_sec_len = s.fdc_sec_len := by
  obtain ⟨_, _, _, _, _, _, h⟩ := setup_frame_ex c s; rw [h]

theorem setup_external_fifo_len (c : Nat) (s : WD179X_INFO Img) :
    (Do1793Command_setup c s).external_fifo_len = s.external_fifo_len := by
  obtain ⟨_, _, _, _, _, _, h⟩ := setup_frame_ex c s; rw [h]

theorem setup_external_fifo (c : Nat) (s : WD179X_INFO Img) :
    (Do1793Command_setup c s).external_fifo = s.external_fifo := by
  obtain ⟨_, _, _, _, _, _, h⟩ := setup_frame_ex c s; rw [h]

theorem setup_fdc_fifo_index (c : Nat) (s : WD179X_INFO Img) :
    (Do1793Command_setup c s).fdc_fifo_index = s.fdc_fifo_index := by
  obtain ⟨_, _, _, _, _, _, h⟩ := setup_frame_ex c s; rw [h]

theorem setup_raw (c : Nat) (s : WD179X_INFO Img) :
    (Do1793Command_setup c s).raw = s.raw := by
  obtain ⟨_, _, _, _, _, _, h⟩ := setup_frame_ex c s; rw [h]

theorem setup_vectorInterrupt (c : Nat) (s : WD179X_INFO Img) :
    (Do1793Command_setup c s).vectorInterrupt = s.vectorInterrupt := by
  obtain ⟨_, _, _, _, _, _, h⟩ := setup_frame_ex c s; rw [h]

theorem setup_dataBus (c : Nat) (s : WD179X_INFO Img) :
    (Do1793Command_setup c s).dataBus = s.dataBus := by
  obtain ⟨_, _, _, _, _, _, h⟩ := setup_frame_ex c s; rw [h]

theorem setup_trace (c : Nat) (s : WD179X_INFO Img) :
    (Do1793Command_setup c s).trace = s.trace := by
  obtain ⟨_, _, _, _, _, _, h⟩ := setup_frame_ex c s; rw [h]

/-- The set-up of a Type II command. -/
theorem setup_typeII (c : Nat) (s : WD179X_INFO Img) (h1 : ¬ isTypeI c) (h2 : isTypeII c) :
    (Do1793Command_setup c s).cmdtype = 2 ∧ (Do1793Command_setup c s).fdc_status = WD179X_STAT_BUSY ∧
      (Do1793Command_setup c s).intrq = 0 ∧ (Do1793Command_setup c s).hld = 1 := by
  unfold Do1793Command_setup
  rw [if_neg h1, if_pos h2]
  dsimp only
  split_ifs <;> exact ⟨rfl, rfl, rfl, rfl⟩

/-- The set-up of a Type III command. -/
theorem setup_typeIII (c : Nat) (s : WD179X_INFO Img) (h1 : ¬ isTypeI c) (h2 : ¬ isTypeII c)
    (h3 : isTypeIII c) : Do1793Command_setup c s = { s with cmdtype := 3 } := by
  unfold Do1793Command_setup
  rw [if_neg h1, if_neg h2, if_pos h3]

/-- The head that the set-up selects does not depend on the status. -/
theorem setup_fdc_head_status (c x : Nat) (s : WD179X_INFO Img) :
    (Do1793Command_setup c { s with fdc_status := x }).fdc_head
      = (Do1793Command_setup c s).fdc_head := by
  unfold Do1793Command_setup
  dsimp only
  split_ifs <;> rfl

theorem computeSectorSize_setup_status (E : Env Img) (c x : Nat) (s : WD179X_INFO Img) :
    computeSectorSize E (Do1793Command_setup c { s with fdc_status := x })
      = computeSectorSize E (Do1793Command_setup c s) := by
  unfold computeSectorSize pDrive
  rw [setup_fdc_head_status, setup_sel_drive, setup_drive, setup_sel_drive, setup_drive]

/-- The post-processing of a Type II or Type III command: BUSY is cleared, `drq` is set and
`intrq` is set when interrupts are enabled. -/
theorem post_typeII_III (E : Env Img) (c : Nat) (s : WD179X_INFO Img) (h1 : ¬ isTypeI c)
    (h2 : isTypeII c ∨ isTypeIII c) :
    (Do1793Command_post E c s).fdc_status = s.fdc_status &&& (0xFF - WD179X_STAT_BUSY) ∧
      (Do1793Command_post E c s).drq = 1 ∧
      (Do1793Command_post E c s).intrq = (if s.intenable ≠ 0 then 1 else s.intrq) := by
  unfold Do1793Command_post
  rw [if_neg h1, if_pos h2]
  dsimp only
  split_ifs <;> simp

/-- The command handler on an idle controller: the three stages in turn. -/
theorem Do1793Command_idle (E : Env Img) (c : Nat) (s : WD179X_INFO Img) (hs : idle s) :
    Do1793Command E c s =
      (if (Do1793Command_exec E c (Do1793Command_setup c
          { s with fdc_status := s.fdc_status &&& (0xFF - WD179X_STAT_NOT_READY) })).1 = none
       then (0, Do1793Command_post E c (Do1793Command_exec E c (Do1793Command_setup c
          { s with fdc_status := s.fdc_status &&& (0xFF - WD179X_STAT_NOT_READY) })).2)
       else (((Do1793Command_exec E c (Do1793Command_setup c
          { s with fdc_status := s.fdc_status &&& (0xFF - WD179X_STAT_NOT_READY) })).1).getD 0,
         (Do1793Command_exec E c (Do1793Command_setup c
          { s with fdc_status := s.fdc_status &&& (0xFF - WD179X_STAT_NOT_READY) })).2)) := by
  obtain ⟨⟨h1, h2⟩, h3⟩ := hs
  unfold Do1793Command
  rw [if_neg (by omega), if_neg (by simp [h2]), if_neg (by simp [h3])]
  dsimp only
  rcases Do1793Command_exec E c (Do1793Command_setup c
      { s with fdc_status := s.fdc_status &&& (0xFF - WD179X_STAT_NOT_READY) }) with ⟨o, t⟩
  cases o <;> simp

theorem exec_read (E : Env Img) (c : Nat) (s : WD179X_INFO Img)
    (hc : c &&& 0xF0 = WD179X_READ_REC ∨ c &&& 0xF0 = WD179X_READ_RECS) :
    Do1793Command_exec E c s = Do1793Command_read E c s := by
  unfold Do1793Command_exec
  rcases hc with hc | hc <;> rw [hc] <;>
  simp [WD179X_RESTORE, WD179X_SEEK, WD179X_STEP, WD179X_STEP_U, WD179X_STEP_IN,
    WD179X_STEP_IN_U, WD179X_STEP_OUT, WD179X_STEP_OUT_U, WD179X_READ_REC, WD179X_READ_RECS]

theorem exec_unimplemented (E : Env Img) (c : Nat) (s : WD179X_INFO Img)
    (hc : c &&& 0xF0 = WD179X_WRITE_RECS ∨ c &&& 0xF0 = WD179X_READ_TRACK) :
    Do1793Command_exec E c s = (none, s) := by
  unfold Do1793Command_exec
  rcases hc with hc | hc <;> rw [hc] <;>
  simp [WD179X_RESTORE, WD179X_SEEK, WD179X_STEP, WD179X_STEP_U, WD179X_STEP_IN,
    WD179X_STEP_IN_U, WD179X_STEP_OUT, WD179X_STEP_OUT_U, WD179X_READ_REC, WD179X_READ_RECS,
    WD179X_WRITE_REC, WD179X_WRITE_RECS, WD179X_READ_ADDR, WD179X_READ_TRACK]

theorem typeII_of_read (c : Nat)
    (hc : c &&& 0xF0 = WD179X_READ_REC ∨ c &&& 0xF0 = WD179X_READ_RECS) :
    ¬ isTypeI c ∧ isTypeII c := by
  unfold isTypeI isTypeII
  rcases hc with hc | hc <;> rw [hc] <;> decide

theorem typeII_of_writeRecs (c : Nat) (hc : c &&& 0xF0 = WD179X_WRITE_RECS) :
    ¬ isTypeI c ∧ isTypeII c := by
  unfold isTypeI isTypeII; rw [hc]; decide

theorem typeIII_of_readTrack (c : Nat) (hc : c &&& 0xF0 = WD179X_READ_TRACK) :
    ¬ isTypeI c ∧ ¬ isTypeII c ∧ isTypeIII c := by
  unfold isTypeI isTypeII isTypeIII; rw [hc]; decide

/-! ## The unimplemented commands -/

/-- The command handler on WRITE_RECS and READ_TRACK: set-up and post-processing only. -/
theorem Do1793Command_unimplemented (E : Env Img) (c : Nat) (s : WD179X_INFO Img)
    (hs : idle s) (hc : c &&& 0xF0 = WD179X_WRITE_RECS ∨ c &&& 0xF0 = WD179X_READ_TRACK) :
    Do1793Command E c s = (0, Do1793Command_post E c (Do1793Command_setup c
      { s with fdc_status := s.fdc_status &&& (0xFF - WD179X_STAT_NOT_READY) })) := by
  rw [Do1793Command_idle E c s hs, exec_unimplemented E c _ hc]
  rfl

/-- C21 (amended): WRITE_RECS and READ_TRACK on an idle controller return 0, start no transfer
and call nothing: the drives (Track register), the Sector and Data registers, the transfer
flags, the cursor, the buffer and the trace are as before.  They do run the set-up and the
post-processing of their command type: afterwards `drq = 1` and BUSY is clear; WRITE_RECS
sets the command type 2, loads the head (`hld = 1`), clears the whole status register and
leaves `intrq = 1` exactly when interrupts are enabled; READ_TRACK sets the command type 3,
keeps `hld`, clears only NOT_READY in the status register and sets `intrq` when interrupts
are enabled. -/
theorem C21_unimplemented_commands (E : Env Img) (s : WD179X_INFO Img) (cCommand : Nat)
    (hs : idle s)
    (hc : cCommand &&& 0xF0 = WD179X_WRITE_RECS ∨ cCommand &&& 0xF0 = WD179X_READ_TRACK) :
    (Do1793Command E cCommand s).1 = 0 ∧
    (Do1793Command E cCommand s).2.drive = s.drive ∧
    (Do1793Command E cCommand s).2.fdc_sector = s.fdc_sector ∧
    (Do1793Command E cCommand s).2.fdc_data = s.fdc_data ∧
    (Do1793Command E cCommand s).2.fdc_read = s.fdc_read ∧
    (Do1793Command E cCommand s).2.fdc_write = s.fdc_write ∧
    (Do1793Command E cCommand s).2.fdc_write_track = s.fdc_write_track ∧
    (Do1793Command E cCommand s).2.fdc_read_addr = s.fdc_read_addr ∧
    (Do1793Command E cCommand s).2.fdc_datacount = s.fdc_datacount ∧
    (Do1793Command E cCommand s).2.fdc_dataindex = s.fdc_dataindex ∧
    (Do1793Command E cCommand s).2.raw = s.raw ∧
    (Do1793Command E cCommand s).2.trace = s.trace ∧
    (Do1793Command E cCommand s).2.drq = 1 ∧
    (Do1793Command E cCommand s).2.fdc_status &&& WD179X_STAT_BUSY = 0 ∧
    (cCommand &&& 0xF0 = WD179X_WRITE_RECS →
      (Do1793Command E cCommand s).2.cmdtype = 2 ∧
      (Do1793Command E cCommand s).2.hld = 1 ∧
      (Do1793Command E cCommand s).2.fdc_status = 0 ∧
      (Do1793Command E cCommand s).2.intrq = (if s.intenable ≠ 0 then 1 else 0)) ∧
    (cCommand &&& 0xF0 = WD179X_READ_TRACK →
      (Do1793Command E cCommand s).2.cmdtype = 3 ∧
      (Do1793Command E cCommand s).2.hld = s.hld ∧
      (Do1793Command E cCommand s).2.fdc_status
        = s.fdc_status &&& (0xFF - WD179X_STAT_NOT_READY) &&& (0xFF - WD179X_STAT_BUSY) ∧
      (Do1793Command E cCommand s).2.intrq = (if s.intenable ≠ 0 then 1 else s.intrq)) := by
  have hty : ¬ isTypeI cCommand ∧ (isTypeII cCommand ∨ isTypeIII cCommand) := by
    rcases hc with h | h
    · exact ⟨(typeII_of_writeRecs _ h).1, Or.inl (typeII_of_writeRecs _ h).2⟩
    · exact ⟨(typeIII_of_readTrack _ h).1, Or.inr (typeIII_of_readTrack _ h).2.2⟩
  rw [Do1793Command_unimplemented E cCommand s hs hc]
  dsimp only
  obtain ⟨p1, p2, p3⟩ := post_typeII_III E cCommand (Do1793Command_setup cCommand
      { s with fdc_status := s.fdc_status &&& (0xFF - WD179X_STAT_NOT_READY) }) hty.1 hty.2
  refine ⟨rfl, ?_, ?_, ?_, ?_, ?_, ?_, ?_, ?_, ?_, ?_, ?_, p2, ?_, ?_, ?_⟩
  · rw [post_drive, setup_drive]
  · rw [post_fdc_sector, (setup_frame _ _).2.2]
  · rw [post_fdc_data, setup_fdc_data]
  · rw [post_fdc_read, setup_fdc_read]
  · rw [post_fdc_write, setup_fdc_write]
  · rw [post_fdc_write_track, setup_fdc_write_track]
  · rw [post_fdc_read_addr, setup_fdc_read_addr]
  · rw [post_fdc_datacount, setup_fdc_datacount]
  · rw [post_fdc_dataindex, setup_fdc_dataindex]
  · rw [post_raw, setup_raw]
  · rw [post_trace, (setup_frame _ _).2.1]
  · rw [p1]
    exact and_and_disjoint _ _ _ (by decide)
  · intro h
    obtain ⟨q1, q2, q3, q4⟩ := setup_typeII cCommand
      { s with fdc_status := s.fdc_status &&& (0xFF - WD179X_STAT_NOT_READY) }
      (typeII_of_writeRecs _ h).1 (typeII_of_writeRecs _ h).2
    refine ⟨by rw [post_cmdtype, q1], by rw [post_hld, q4], by rw [p1, q2]; rfl, ?_⟩
    rw [p3, q3, setup_intenable]
  · intro h
    obtain ⟨t1, t2, t3⟩ := typeIII_of_readTrack _ h
    rw [p1, p3, post_cmdtype, post_hld, setup_typeIII cCommand _ t1 t2 t3]
    exact ⟨rfl, rfl, rfl, rfl⟩

/-- Instance of C21 on the demo machine: READ_TRACK (0xE0) leaves the registers and the flags
alone, sets `drq` and the command type 3. -/
theorem C21_witness :
    (Do1793Command demoEnv 0xE0 demoState).1 = 0 ∧
    (Do1793Command demoEnv 0xE0 demoState).2.fdc_sector = demoState.fdc_sector ∧
    (Do1793Command demoEnv 0xE0 demoState).2.drq = 1 ∧
    (Do1793Command demoEnv 0xE0 demoState).2.cmdtype = 3 :=
  have h := C21_unimplemented_commands demoEnv demoState 0xE0 (by decide) (by decide)
  ⟨h.1, h.2.2.1, h.2.2.2.2.2.2.2.2.2.2.2.2.1, (h.2.2.2.2.2.2.2.2.2.2.2.2.2.2.2 (by decide)).1⟩

/-- Counterexample to C21 as stated: WRITE_RECS (0xB0) on the idle demo machine changes the
command type from 0 to 2, `hld` from 0 to 1 and `drq` from 0 to 1. -/
theorem C21_counterexample :
    idle demoState ∧ demoState.cmdtype = 0 ∧ demoState.hld = 0 ∧ demoState.drq = 0 ∧
    (Do1793Command demoEnv 0xB0 demoState).2.cmdtype = 2 ∧
    (Do1793Command demoEnv 0xB0 demoState).2.hld = 1 ∧
    (Do1793Command demoEnv 0xB0 demoState).2.drq = 1 := by
  decide

/-! ## Sector reads with an invalid sector size -/

/-- The case READ_REC/READ_RECS when the sector size cannot be computed: early return. -/
theorem read_invalid (E : Env Img) (c : Nat) (t : WD179X_INFO Img)
    (hn : invalidSecLen (computeSectorSize E t)) :
    Do1793Command_read E c t = (some 0xFF, { t with
      fdc_status := (t.fdc_status ||| WD179X_STAT_NOT_FOUND) &&& (0xFF - WD179X_STAT_BUSY)
      intrq := 1
      drq := 0
      fdc_sec_len := 0 }) := by
  unfold Do1793Command_read
  dsimp only
  rw [if_pos hn]

/-- C22: an accepted READ_REC or READ_RECS whose sector-size computation for the addressed
track and head (the head selected by the set-up of the command) gives 0xF8 or a code above 6
returns 0xFF at once; the status register holds NOT_FOUND alone (BUSY clear), `intrq = 1`,
`drq = 0`, the sector store is not called (the trace is unchanged) and no read transfer is
started: the read flags, the cursor and the buffer are as before. -/
theorem C22_read_invalid_size_aborts (E : Env Img) (s : WD179X_INFO Img) (cCommand : Nat)
    (hs : idle s)
    (hc : cCommand &&& 0xF0 = WD179X_READ_REC ∨ cCommand &&& 0xF0 = WD179X_READ_RECS)
    (hn : invalidSecLen (computeSectorSize E (Do1793Command_setup cCommand s))) :
    (Do1793Command E cCommand s).1 = 0xFF ∧
    (Do1793Command E cCommand s).2.fdc_status = WD179X_STAT_NOT_FOUND ∧
    (Do1793Command E cCommand s).2.fdc_status &&& WD179X_STAT_NOT_FOUND ≠ 0 ∧
    (Do1793Command E cCommand s).2.fdc_status &&& WD179X_STAT_BUSY = 0 ∧
    (Do1793Command E cCommand s).2.intrq = 1 ∧
    (Do1793Command E cCommand s).2.drq = 0 ∧
    (Do1793Command E cCommand s).2.trace = s.trace ∧
    (Do1793Command E cCommand s).2.fdc_read = s.fdc_read ∧
    (Do1793Command E cCommand s).2.fdc_read_addr = s.fdc_read_addr ∧
    (Do1793Command E cCommand s).2.fdc_datacount = s.fdc_datacount ∧
    (Do1793Command E cCommand s).2.fdc_dataindex = s.fdc_dataindex ∧
    (Do1793Command E cCommand s).2.raw = s.raw := by
  obtain ⟨t1, t2⟩ := typeII_of_read cCommand hc
  have hn2 : invalidSecLen (computeSectorSize E (Do1793Command_setup cCommand
      { s with fdc_status := s.fdc_status &&& (0xFF - WD179X_STAT_NOT_READY) })) := by
    rw [computeSectorSize_setup_status]; exact hn
  obtain ⟨q1, q2, q3, q4⟩ := setup_typeII cCommand
    { s with fdc_status := s.fdc_status &&& (0xFF - WD179X_STAT_NOT_READY) } t1 t2
  rw [Do1793Command_idle E cCommand s hs, exec_read E cCommand _ hc,
    read_invalid E cCommand _ hn2]
  dsimp only
  rw [if_neg (by simp)]
  dsimp only
  have hst : ((Do1793Command_setup cCommand
      { s with fdc_status := s.fdc_status &&& (0xFF - WD179X_STAT_NOT_READY) }).fdc_status
        ||| WD179X_STAT_NOT_FOUND) &&& (0xFF - WD179X_STAT_BUSY) = WD179X_STAT_NOT_FOUND := by
    rw [q2]; decide
  rw [hst]
  refine ⟨rfl, rfl, by decide, by decide, rfl, rfl, ?_, ?_, ?_, ?_, ?_, ?_⟩
  · rw [(setup_frame _ _).2.1]
  · rw [setup_fdc_read]
  · rw [setup_fdc_read_addr]
  · rw [setup_fdc_datacount]
  · rw [setup_fdc_dataindex]
  · rw [setup_raw]

/-- Instance of C22 on the demo machine with the head on cylinder 80 (`MAX_CYL` is 80):
READ_REC returns 0xFF with the status NOT_FOUND and calls nothing. -/
theorem C22_witness :
    (Do1793Command demoEnv 0x80 offTrackState).1 = 0xFF ∧
    (Do1793Command demoEnv 0x80 offTrackState).2.fdc_status = 0x10 ∧
    (Do1793Command demoEnv 0x80 offTrackState).2.intrq = 1 ∧
    (Do1793Command demoEnv 0x80 offTrackState).2.drq = 0 ∧
    (Do1793Command demoEnv 0x80 offTrackState).2.trace = [] :=
  have h := C22_read_invalid_size_aborts demoEnv offTrackState 0x80 (by decide) (by decide)
    (by decide)
  ⟨h.1, h.2.1, h.2.2.2.2.1, h.2.2.2.2.2.1, h.2.2.2.2.2.2.1⟩

/-! ## WRITE_TRACK and WRITE_REC arm a transfer -/

theorem Do1793Command_writeTrack_eq (E : Env Img) (c : Nat) (s : WD179X_INFO Img)
    (hs : idle s) (hc : c &&& 0xF0 = WD179X_WRITE_TRACK) :
    Do1793Command E c s = (0, Do1793Command_post E c (Do1793Command_writeTrack
      { s with fdc_status := s.fdc_status &&& (0xFF - WD179X_STAT_NOT_READY), cmdtype := 3 })) := by
  obtain ⟨n1, n2, n3⟩ := typeIII_of_writeTrack c hc
  rw [Do1793Command_idle E c s hs, setup_typeIII c _ n1 n2 n3, exec_writeTrack E c _ hc]
  rfl

theorem or_DRQ_and_not_BUSY (x : Nat) :
    ((x ||| WD179X_STAT_DRQ) &&& (0xFF - WD179X_STAT_BUSY)) &&& WD179X_STAT_DRQ ≠ 0 ∧
    ((x ||| WD179X_STAT_DRQ) &&& (0xFF - WD179X_STAT_BUSY)) &&& WD179X_STAT_BUSY = 0 := by
  constructor
  · rw [and_DRQ_ne_zero]
    simp only [Nat.testBit_and, Nat.testBit_or]
    have h1 : WD179X_STAT_DRQ.testBit 1 = true := by decide
    have h2 : (0xFF - WD179X_STAT_BUSY).testBit 1 = true := by decide
    rw [h1, h2]
    simp
  · exact and_and_disjoint _ _ _ (by decide)

/-- C27: an accepted WRITE_TRACK returns 0 and arms the format state machine: the track write
flag is set, the sector write, read and read-address flags are clear, the format state is
GAP1, no sector is counted in the sector map, `fdc_dataindex = 0`, and DRQ is asserted in the
status register and on the `drq` line. -/
theorem C27_write_track_arms_format (E : Env Img) (s : WD179X_INFO Img) (cCommand : Nat)
    (hs : idle s) (hc : cCommand &&& 0xF0 = WD179X_WRITE_TRACK) :
    (Do1793Command E cCommand s).1 = 0 ∧
    (Do1793Command E cCommand s).2.fdc_write_track = TRUE ∧
    (Do1793Command E cCommand s).2.fdc_write = FALSE ∧
    (Do1793Command E cCommand s).2.fdc_read = FALSE ∧
    (Do1793Command E cCommand s).2.fdc_read_addr = FALSE ∧
    (Do1793Command E cCommand s).2.fdc_fmt_state = FMT_GAP1 ∧
    (Do1793Command E cCommand s).2.fdc_fmt_sector_count = 0 ∧
    (Do1793Command E cCommand s).2.fdc_dataindex = 0 ∧
    (Do1793Command E cCommand s).2.fdc_status &&& WD179X_STAT_DRQ ≠ 0 ∧
    (Do1793Command E cCommand s).2.drq = 1 := by
  obtain ⟨n1, n2, n3⟩ := typeIII_of_writeTrack cCommand hc
  rw [Do1793Command_writeTrack_eq E cCommand s hs hc]
  dsimp only
  obtain ⟨p1, p2, _⟩ := post_typeII_III E cCommand (Do1793Command_writeTrack
    { s with fdc_status := s.fdc_status &&& (0xFF - WD179X_STAT_NOT_READY), cmdtype := 3 })
    n1 (Or.inr n3)
  refine ⟨rfl, ?_, ?_, ?_, ?_, ?_, ?_, ?_, ?_, p2⟩
  · rw [post_fdc_write_track]; rfl
  · rw [post_fdc_write]; rfl
  · rw [post_fdc_read]; rfl
  · rw [post_fdc_read_addr]; rfl
  · rw [post_fdc_fmt_state]; rfl
  · rw [post_fdc_fmt_sector_count]; rfl
  · rw [post_fdc_dataindex]; rfl
  · rw [p1]
    exact (or_DRQ_and_not_BUSY _).1

/-- Instance of C27 on the demo machine: WRITE_TRACK (0xF0) arms the format. -/
theorem C27_witness :
    (Do1793Command demoEnv 0xF0 demoState).2.fdc_write_track = TRUE ∧
    (Do1793Command demoEnv 0xF0 demoState).2.fdc_fmt_state = FMT_GAP1 ∧
    (Do1793Command demoEnv 0xF0 demoState).2.fdc_fmt_sector_count = 0 ∧
    (Do1793Command demoEnv 0xF0 demoState).2.drq = 1 :=
  have h := C27_write_track_arms_format demoEnv demoState 0xF0 (by decide) (by decide)
  ⟨h.2.1, h.2.2.2.2.2.1, h.2.2.2.2.2.2.1, h.2.2.2.2.2.2.2.2.2⟩

/-- C28 (amended): after an accepted WRITE_REC (no external FIFO) or WRITE_TRACK the status
register shows DRQ set and BUSY clear, and `drq = 1`: the post-processing of the command
clears BUSY while the armed transfer awaits its writes to the Data port. -/
theorem C28_write_armed_status (E : Env Img) (s : WD179X_INFO Img) (cCommand : Nat)
    (hs : idle s)
    (hc : (cCommand &&& 0xF0 = WD179X_WRITE_REC ∧ s.external_fifo_len = 0)
      ∨ cCommand &&& 0xF0 = WD179X_WRITE_TRACK) :
    (Do1793Command E cCommand s).1 = 0 ∧
    (Do1793Command E cCommand s).2.fdc_status &&& WD179X_STAT_DRQ ≠ 0 ∧
    (Do1793Command E cCommand s).2.fdc_status &&& WD179X_STAT_BUSY = 0 ∧
    (Do1793Command E cCommand s).2.drq = 1 := by
  rcases hc with ⟨hc, hf⟩ | hc
  · obtain ⟨n1, n2⟩ := typeII_of_writeRec cCommand hc
    have hf2 : (Do1793Command_setup cCommand
        { s with fdc_status := s.fdc_status &&& (0xFF - WD179X_STAT_NOT_READY) }).external_fifo_len
          = 0 := by
      rw [(setup_frame cCommand _).1]; exact hf
    rw [Do1793Command_writeRec_eq E cCommand s hs hc]
    dsimp only
    obtain ⟨p1, p2, _⟩ := post_typeII_III E cCommand (Do1793Command_write E
      (Do1793Command_setup cCommand
        { s with fdc_status := s.fdc_status &&& (0xFF - WD179X_STAT_NOT_READY) }))
      n1 (Or.inl n2)
    have hst : (Do1793Command_write E (Do1793Command_setup cCommand
        { s with fdc_status := s.fdc_status &&& (0xFF - WD179X_STAT_NOT_READY) })).fdc_status
        = (Do1793Command_setup cCommand
          { s with fdc_status := s.fdc_status &&& (0xFF - WD179X_STAT_NOT_READY) }).fdc_status
          ||| WD179X_STAT_DRQ := by
      rw [write_noFifo E _ hf2]
    rw [p1, hst]
    exact ⟨rfl, (or_DRQ_and_not_BUSY _).1, (or_DRQ_and_not_BUSY _).2, p2⟩
  · obtain ⟨n1, n2, n3⟩ := typeIII_of_writeTrack cCommand hc
    rw [Do1793Command_writeTrack_eq E cCommand s hs hc]
    dsimp only
    obtain ⟨p1, p2, _⟩ := post_typeII_III E cCommand (Do1793Command_writeTrack
      { s with fdc_status := s.fdc_status &&& (0xFF - WD179X_STAT_NOT_READY), cmdtype := 3 })
      n1 (Or.inr n3)
    rw [p1]
    exact ⟨rfl, (or_DRQ_and_not_BUSY _).1, (or_DRQ_and_not_BUSY _).2, p2⟩

/-- Instance of C28 on the demo machine: after WRITE_REC (0xA0) DRQ is set and BUSY is
clear. -/
theorem C28_witness :
    (Do1793Command demoEnv 0xA0 demoState).2.fdc_status &&& WD179X_STAT_DRQ ≠ 0 ∧
    (Do1793Command demoEnv 0xA0 demoState).2.fdc_status &&& WD179X_STAT_BUSY = 0 :=
  have h := C28_write_armed_status demoEnv demoState 0xA0 (by decide) (Or.inl (by decide))
  ⟨h.2.1, h.2.2.1⟩

/-- Counterexample to C28 as stated: on the demo machine WRITE_REC (0xA0) and WRITE_TRACK
(0xF0) are accepted (result 0) and leave the status register at 0x02: DRQ alone, BUSY clear. -/
theorem C28_counterexample :
    (Do1793Command demoEnv 0xA0 demoState).1 = 0 ∧
    (Do1793Command demoEnv 0xA0 demoState).2.fdc_status = 0x02 ∧
    (Do1793Command demoEnv 0xF0 demoState).1 = 0 ∧
    (Do1793Command demoEnv 0xF0 demoState).2.fdc_status = 0x02 := by
  decide

/-! ## The sector store adapters, case by case -/

/-- The two outcomes of `wd179x_sectRead`: a transfer is started, or NOT_FOUND is reported. -/
theorem sectRead_cases (E : Env Img) (s : WD179X_INFO Img) (Cyl Head Sector buflen : Nat) :
    (∃ buf ef, wd179x_sectRead E s Cyl Head Sector buflen = { s with
        trace := s.trace ++ [Event.sectRead Cyl Head Sector buflen]
        raw := buf
        fdc_status := WD179X_STAT_DRQ ||| WD179X_STAT_BUSY
        drq := 1
        intrq := 0
        fdc_datacount := WD179X_SECTOR_LEN_BYTES s % 65536
        fdc_dataindex := 0
        fdc_read := TRUE
        fdc_read_addr := FALSE
        external_fifo := ef
        fdc_fifo_index :=
          if s.external_fifo_len ≠ 0 then
            ((s.fdc_fifo_index + (128 <<< s.fdc_sec_len)) % 65536) &&& (s.external_fifo_len - 1)
          else s.fdc_fifo_index }) ∨
    (∃ buf, wd179x_sectRead E s Cyl Head Sector buflen = { s with
        trace := s.trace ++ [Event.sectRead Cyl Head Sector buflen]
        raw := buf
        fdc_status := 0 ||| WD179X_STAT_NOT_FOUND
        drq := 0
        intrq := 1
        fdc_read := FALSE
        fdc_read_addr := FALSE }) := by
  unfold wd179x_sectRead
  dsimp only
  generalize (if (pDrive _).fileref = false then _ else _ : Bool × (Nat → Nat)) = r
  rcases r with ⟨ok, buf⟩
  cases ok
  · right
    exact ⟨buf, by simp⟩
  · left
    by_cases hf : s.external_fifo_len ≠ 0
    · simp only [if_true, if_pos hf]
      exact ⟨_, _, rfl⟩
    · simp only [if_true, if_neg hf]
      exact ⟨buf, s.external_fifo, rfl⟩

/-- The function `wd179x_sectWrite` logs the call and may change the image of the selected
drive; nothing else. -/
theorem sectWrite_frame (E : Env Img) (s : WD179X_INFO Img) (Cyl Head Sector buflen : Nat) :
    ∃ D, wd179x_sectWrite E s Cyl Head Sector buflen = { s with
        trace := s.trace ++ [Event.sectWrite Cyl Head Sector (bufBytes s.raw buflen)]
        drive := D } ∧
      ∀ i, (D i).uptr = (s.drive i).uptr ∧ (D i).track = (s.drive i).track := by
  unfold wd179x_sectWrite
  dsimp only
  have hid : ∀ i, (s.drive i).uptr = (s.drive i).uptr ∧ (s.drive i).track = (s.drive i).track :=
    fun _ => ⟨rfl, rfl⟩
  have hset : ∀ d : WD179X_DRIVE_INFO Img, d.uptr = (s.drive s.sel_drive).uptr →
      d.track = (s.drive s.sel_drive).track →
      ∀ i, ((fun i => if i = s.sel_drive then d else s.drive i) i).uptr = (s.drive i).uptr ∧
        ((fun i => if i = s.sel_drive then d else s.drive i) i).track = (s.drive i).track := by
    intro d h1 h2 i
    dsimp only
    split_ifs with h
    · subst h; exact ⟨h1, h2⟩
    · exact ⟨rfl, rfl⟩
  split_ifs <;>
    first
    | exact ⟨s.drive, rfl, hid⟩
    | exact ⟨_, rfl, hset _ rfl rfl⟩
    | (split <;>
        first
        | exact ⟨s.drive, rfl, hid⟩
        | exact ⟨_, rfl, hset _ rfl rfl⟩)

/-- The function `wd179x_trackWrite` logs the call and may change the image of the selected
drive; nothing else. -/
theorem trackWrite_frame (E : Env Img) (s : WD179X_INFO Img) (Cyl Head fillbyte : Nat) :
    ∃ D, wd179x_trackWrite E s Cyl Head fillbyte = { s with
        trace := s.trace ++ [Event.trackWrite Cyl Head fillbyte s.fdc_fmt_sector_count
          (WD179X_SECTOR_LEN_BYTES s) (bufBytes s.fdc_sectormap s.fdc_fmt_sector_count)]
        drive := D } ∧
      ∀ i, (D i).uptr = (s.drive i).uptr ∧ (D i).track = (s.drive i).track := by
  unfold wd179x_trackWrite
  dsimp only
  have hid : ∀ i, (s.drive i).uptr = (s.drive i).uptr ∧ (s.drive i).track = (s.drive i).track :=
    fun _ => ⟨rfl, rfl⟩
  have hset : ∀ d : WD179X_DRIVE_INFO Img, d.uptr = (s.drive s.sel_drive).uptr →
      d.track = (s.drive s.sel_drive).track →
      ∀ i, ((fun i => if i = s.sel_drive then d else s.drive i) i).uptr = (s.drive i).uptr ∧
        ((fun i => if i = s.sel_drive then d else s.drive i) i).track = (s.drive i).track := by
    intro d h1 h2 i
    dsimp only
    split_ifs with h
    · subst h; exact ⟨h1, h2⟩
    · exact ⟨rfl, rfl⟩
  split_ifs <;>
    first
    | exact ⟨s.drive, rfl, hid⟩
    | exact ⟨_, rfl, hset _ rfl rfl⟩
    | (split <;>
        first
        | exact ⟨s.drive, rfl, hid⟩
        | exact ⟨_, rfl, hset _ rfl rfl⟩)

/-! ## Frame of the write adapters, field by field -/

theorem sectWrite_fdctype (E : Env Img) (s : WD179X_INFO Img) (Cyl Head Sector buflen : Nat) :
    (wd179x_sectWrite E s Cyl Head Sector buflen).fdctype = s.fdctype := by
  obtain ⟨_, h, _⟩ := sectWrite_frame E s Cyl Head Sector buflen; rw [h]

theorem sectWrite_intenable (E : Env Img) (s : WD179X_INFO Img) (Cyl Head Sector buflen : Nat) :
    (wd179x_sectWrite E s Cyl Head Sector buflen).intenable = s.intenable := by
  obtain ⟨_, h, _⟩ := sectWrite_frame E s Cyl Head Sector buflen; rw [h]

theorem sectWrite_intvector (E : Env Img) (s : WD179X_INFO Img) (Cyl Head Sector buflen : Nat) :
    (wd179x_sectWrite E s Cyl Head Sector buflen).intvector = s.intvector := by
  obtain ⟨_, h, _⟩ := sectWrite_frame E s Cyl Head Sector buflen; rw [h]

theorem sectWrite_intrq (E : Env Img) (s : WD179X_INFO Img) (Cyl Head Sector buflen : Nat) :
    (wd179x_sectWrite E s Cyl Head Sector buflen).intrq = s.intrq := by
  obtain ⟨_, h, _⟩ := sectWrite_frame E s Cyl Head Sector buflen; rw [h]

theorem sectWrite_hld (E : Env Img) (s : WD179X_INFO Img) (Cyl Head Sector buflen : Nat) :
    (wd179x_sectWrite E s Cyl Head Sector buflen).hld = s.hld := by
  obtain ⟨_, h, _⟩ := sectWrite_frame E s Cyl Head Sector buflen; rw [h]

theorem sectWrite_drq (E : Env Img) (s : WD179X_INFO Img) (Cyl Head Sector buflen : Nat) :
    (wd179x_sectWrite E s Cyl Head Sector buflen).drq = s.drq := by
  obtain ⟨_, h, _⟩ := sectWrite_frame E s Cyl Head Sector buflen; rw [h]

theorem sectWrite_ddens (E : Env Img) (s : WD179X_INFO Img) (Cyl Head Sector buflen : Nat) :
    (wd179x_sectWrite E s Cyl Head Sector buflen).ddens = s.ddens := by
  obtain ⟨_, h, _⟩ := sectWrite_frame E s Cyl Head Sector buflen; rw [h]

theorem sectWrite_fdc_head (E : Env Img) (s : WD179X_INFO Img) (Cyl Head Sector buflen : Nat) :
    (wd179x_sectWrite E s Cyl Head Sector buflen).fdc_head = s.fdc_head := by
  obtain ⟨_, h, _⟩ := sectWrite_frame E s Cyl Head Sector buflen; rw [h]

theorem sectWrite_sel_drive (E : Env Img) (s : WD179X_INFO Img) (Cyl Head Sector buflen : Nat) :
    (wd179x_sectWrite E s Cyl Head Sector buflen).sel_drive = s.sel_drive := by
  obtain ⟨_, h, _⟩ := sectWrite_frame E s Cyl Head Sector buflen; rw [h]

theorem sectWrite_drivetype (E : Env Img) (s : WD179X_INFO Img) (Cyl Head Sector buflen : Nat) :
    (wd179x_sectWrite E s Cyl Head Sector buflen).drivetype = s.drivetype := by
  obtain ⟨_, h, _⟩ := sectWrite_frame E s Cyl Head Sector buflen; rw [h]

theorem sectWrite_fdc_status (E : Env Img) (s : WD179X_INFO Img) (Cyl Head Sector buflen : Nat) :
    (wd179x_sectWrite E s Cyl Head Sector buflen).fdc_status = s.fdc_status := by
  obtain ⟨_, h, _⟩ := sectWrite_frame E s Cyl Head Sector buflen; rw [h]

theorem sectWrite_verify (E : Env Img) (s : WD179X_INFO Img) (Cyl Head Sector buflen : Nat) :
    (wd179x_sectWrite E s Cyl Head Sector buflen).verify = s.verify := by
  obtain ⟨_, h, _⟩ := sectWrite_frame E s Cyl Head Sector buflen; rw [h]

theorem sectWrite_fdc_data (E : Env Img) (s : WD179X_INFO Img) (Cyl Head Sector buflen : Nat) :
    (wd179x_sectWrite E s Cyl Head Sector buflen).fdc_data = s.fdc_data := by
  obtain ⟨_, h, _⟩ := sectWrite_frame E s Cyl Head Sector buflen; rw [h]

theorem sectWrite_fdc_read (E : Env Img) (s : WD179X_INFO Img) (Cyl Head Sector buflen : Nat) :
    (wd179x_sectWrite E s Cyl Head Sector buflen).fdc_read = s.fdc_read := by
  obtain ⟨_, h, _⟩ := sectWrite_frame E s Cyl Head Sector buflen; rw [h]

theorem sectWrite_fdc_write (E : Env Img) (s : WD179X_INFO Img) (Cyl Head Sector buflen : Nat) :
    (wd179x_sectWrite E s Cyl Head Sector buflen).fdc_write = s.fdc_write := by
  obtain ⟨_, h, _⟩ := sectWrite_frame E s Cyl Head Sector buflen; rw [h]

theorem sectWrite_fdc_write_track (E : Env Img) (s : WD179X_INFO Img) (Cyl Head Sector buflen : Nat) :
    (wd179x_sectWrite E s Cyl Head Sector buflen).fdc_write_track = s.fdc_write_track := by
  obtain ⟨_, h, _⟩ := sectWrite_frame E s Cyl Head Sector buflen; rw [h]

theorem sectWrite_fdc_fmt_state (E : Env Img) (s : WD179X_INFO Img) (Cyl Head Sector buflen : Nat) :
    (wd179x_sectWrite E s Cyl Head Sector buflen).fdc_fmt_state = s.fdc_fmt_state := by
  obtain ⟨_, h, _⟩ := sectWrite_frame E s Cyl Head Sector buflen; rw [h]

theorem sectWrite_fdc_gap (E : Env Img) (s : WD179X_INFO Img) (Cyl Head Sector buflen : Nat) :
    (wd179x_sectWrite E s Cyl Head Sector buflen).fdc_gap = s.fdc_gap := by
  obtain ⟨_, h, _⟩ := sectWrite_frame E s Cyl Head Sector buflen; rw [h]

theorem sectWrite_fdc_fmt_sector_count (E : Env Img) (s : WD179X_INFO Img) (Cyl Head Sector buflen : Nat) :
    (wd179x_sectWrite E s Cyl Head Sector buflen).fdc_fmt_sector_count = s.fdc_fmt_sector_count := by
  obtain ⟨_, h, _⟩ := sectWrite_frame E s Cyl Head Sector buflen; rw [h]

theorem sectWrite_fdc_sectormap (E : Env Img) (s : WD179X_INFO Img) (Cyl Head Sector buflen : Nat) :
    (wd179x_sectWrite E s Cyl Head Sector buflen).fdc_sectormap = s.fdc_sectormap := by
  obtain ⟨_, h, _⟩ := sectWrite_frame E s Cyl Head Sector buflen; rw [h]

theorem sectWrite_fdc_header_index (E : Env Img) (s : WD179X_INFO Img) (Cyl Head Sector buflen : Nat) :
    (wd179x_sectWrite E s Cyl Head Sector buflen).fdc_header_index = s.fdc_header_index := by
  obtain ⟨_, h, _⟩ := sectWrite_frame E s Cyl Head Sector buflen; rw [h]

theorem sectWrite_fdc_read_addr (E : Env Img) (s : WD179X_INFO Img) (Cyl Head Sector buflen : Nat) :
    (wd179x_sectWrite E s Cyl Head Sector buflen).fdc_read_addr = s.fdc_read_addr := by
  obtain ⟨_, h, _⟩ := sectWrite_frame E s Cyl Head Sector buflen; rw [h]

theorem sectWrite_fdc_multiple (E : Env Img) (s : WD179X_INFO Img) (Cyl Head Sector buflen : Nat) :
    (wd179x_sectWrite E s Cyl Head Sector buflen).fdc_multiple = s.fdc_multiple := by
  obtain ⟨_, h, _⟩ := sectWrite_frame E s Cyl Head Sector buflen; rw [h]

theorem sectWrite_fdc_datacount (E : Env Img) (s : WD179X_INFO Img) (Cyl Head Sector buflen : Nat) :
    (wd179x_sectWrite E s Cyl Head Sector buflen).fdc_datacount = s.fdc_datacount := by
  obtain ⟨_, h, _⟩ := sectWrite_frame E s Cyl Head Sector buflen; rw [h]

theorem sectWrite_fdc_dataindex (E : Env Img) (s : WD179X_INFO Img) (Cyl Head Sector buflen : Nat) :
    (wd179x_sectWrite E s Cyl Head Sector buflen).fdc_dataindex = s.fdc_dataindex := by
  obtain ⟨_, h, _⟩ := sectWrite_frame E s Cyl Head Sector buflen; rw [h]

theorem sectWrite_index_pulse_wait (E : Env Img) (s : WD179X_INFO Img) (Cyl Head Sector buflen : Nat) :
    (wd179x_sectWrite E s Cyl Head Sector buflen).index_pulse_wait = s.index_pulse_wait := by
  obtain ⟨_, h, _⟩ := sectWrite_frame E s Cyl Head Sector buflen; rw [h]

theorem sectWrite_fdc_sector (E : Env Img) (s : WD179X_INFO Img) (Cyl Head Sector buflen : Nat) :
    (wd179x_sectWrite E s Cyl Head Sector buflen).fdc_sector = s.fdc_sector := by
  obtain ⟨_, h, _⟩ := sectWrite_frame E s Cyl Head Sector buflen; rw [h]

theorem sectWrite_fdc_sec_len (E : Env Img) (s : WD179X_INFO Img) (Cyl Head Sector buflen : Nat) :
    (wd179x_sectWrite E s Cyl Head Sector buflen).fdc_sec_len = s.fdc_sec_len := by
  obtain ⟨_, h, _⟩ := sectWrite_frame E s Cyl Head Sector buflen; rw [h]

theorem sectWrite_step_dir (E : Env Img) (s : WD179X_INFO Img) (Cyl Head Sector buflen : Nat) :
    (wd179x_sectWrite E s Cyl Head Sector buflen).step_dir = s.step_dir := by
  obtain ⟨_, h, _⟩ := sectWrite_frame E s Cyl Head Sector buflen; rw [h]

theorem sectWrite_cmdtype (E : Env Img) (s : WD179X_INFO Img) (Cyl Head Sector buflen : Nat) :
    (wd179x_sectWrite E s Cyl Head Sector buflen).cmdtype = s.cmdtype := by
  obtain ⟨_, h, _⟩ := sectWrite_frame E s Cyl Head Sector buflen; rw [h]

theorem sectWrite_external_fifo_len (E : Env Img) (s : WD179X_INFO Img) (Cyl Head Sector buflen : Nat) :
    (wd179x_sectWrite E s Cyl Head Sector buflen).external_fifo_len = s.external_fifo_len := by
  obtain ⟨_, h, _⟩ := sectWrite_frame E s Cyl Head Sector buflen; rw [h]

theorem sectWrite_external_fifo (E : Env Img) (s : WD179X_INFO Img) (Cyl Head Sector buflen : Nat) :
    (wd179x_sectWrite E s Cyl Head Sector buflen).external_fifo = s.external_fifo := by
  obtain ⟨_, h, _⟩ := sectWrite_frame E s Cyl Head Sector buflen; rw [h]

theorem sectWrite_fdc_fifo_index (E : Env Img) (s : WD179X_INFO Img) (Cyl Head Sector buflen : Nat) :
    (wd179x_sectWrite E s Cyl Head Sector buflen).fdc_fifo_index = s.fdc_fifo_index := by
  obtain ⟨_, h, _⟩ := sectWrite_frame E s Cyl Head Sector buflen; rw [h]

theorem sectWrite_raw (E : Env Img) (s : WD179X_INFO Img) (Cyl Head Sector buflen : Nat) :
    (wd179x_sectWrite E s Cyl Head Sector buflen).raw = s.raw := by
  obtain ⟨_, h, _⟩ := sectWrite_frame E s Cyl Head Sector buflen; rw [h]

theorem sectWrite_vectorInterrupt (E : Env Img) (s : WD179X_INFO Img) (Cyl Head Sector buflen : Nat) :
    (wd179x_sectWrite E s Cyl Head Sector buflen).vectorInterrupt = s.vectorInterrupt := by
  obtain ⟨_, h, _⟩ := sectWrite_frame E s Cyl Head Sector buflen; rw [h]

theorem sectWrite_dataBus (E : Env Img) (s : WD179X_INFO Img) (Cyl Head Sector buflen : Nat) :
    (wd179x_sectWrite E s Cyl Head Sector buflen).dataBus = s.dataBus := by
  obtain ⟨_, h, _⟩ := sectWrite_frame E s Cyl Head Sector buflen; rw [h]

theorem trackWrite_fdctype (E : Env Img) (s : WD179X_INFO Img) (Cyl Head fillbyte : Nat) :
    (wd179x_trackWrite E s Cyl Head fillbyte).fdctype = s.fdctype := by
  obtain ⟨_, h, _⟩ := trackWrite_frame E s Cyl Head fillbyte; rw [h]

theorem trackWrite_intenable (E : Env Img) (s : WD179X_INFO Img) (Cyl Head fillbyte : Nat) :
    (wd179x_trackWrite E s Cyl Head fillbyte).intenable = s.intenable := by
  obtain ⟨_, h, _⟩ := trackWrite_frame E s Cyl Head fillbyte; rw [h]

theorem trackWrite_intvector (E : Env Img) (s : WD179X_INFO Img) (Cyl Head fillbyte : Nat) :
    (wd179x_trackWrite E s Cyl Head fillbyte).intvector = s.intvector := by
  obtain ⟨_, h, _⟩ := trackWrite_frame E s Cyl Head fillbyte; rw [h]

theorem trackWrite_intrq (E : Env Img) (s : WD179X_INFO Img) (Cyl Head fillbyte : Nat) :
    (wd179x_trackWrite E s Cyl Head fillbyte).intrq = s.intrq := by
  obtain ⟨_, h, _⟩ := trackWrite_frame E s Cyl Head fillbyte; rw [h]

theorem trackWrite_hld (E : Env Img) (s : WD179X_INFO Img) (Cyl Head fillbyte : Nat) :
    (wd179x_trackWrite E s Cyl Head fillbyte).hld = s.hld := by
  obtain ⟨_, h, _⟩ := trackWrite_frame E s Cyl Head fillbyte; rw [h]

theorem trackWrite_drq (E : Env Img) (s : WD179X_INFO Img) (Cyl Head fillbyte : Nat) :
    (wd179x_trackWrite E s Cyl Head fillbyte).drq = s.drq := by
  obtain ⟨_, h, _⟩ := trackWrite_frame E s Cyl Head fillbyte; rw [h]

theorem trackWrite_ddens (E : Env Img) (s : WD179X_INFO Img) (Cyl Head fillbyte : Nat) :
    (wd179x_trackWrite E s Cyl Head fillbyte).ddens = s.ddens := by
  obtain ⟨_, h, _⟩ := trackWrite_frame E s Cyl Head fillbyte; rw [h]

theorem trackWrite_fdc_head (E : Env Img) (s : WD179X_INFO Img) (Cyl Head fillbyte : Nat) :
    (wd179x_trackWrite E s Cyl Head fillbyte).fdc_head = s.fdc_head := by
  obtain ⟨_, h, _⟩ := trackWrite_frame E s Cyl Head fillbyte; rw [h]

theorem trackWrite_sel_drive (E : Env Img) (s : WD179X_INFO Img) (Cyl Head fillbyte : Nat) :
    (wd179x_trackWrite E s Cyl Head fillbyte).sel_drive = s.sel_drive := by
  obtain ⟨_, h, _⟩ := trackWrite_frame E s Cyl Head fillbyte; rw [h]

theorem trackWrite_drivetype (E : Env Img) (s : WD179X_INFO Img) (Cyl Head fillbyte : Nat) :
    (wd179x_trackWrite E s Cyl Head fillbyte).drivetype = s.drivetype := by
  obtain ⟨_, h, _⟩ := trackWrite_frame E s Cyl Head fillbyte; rw [h]

theorem trackWrite_fdc_status (E : Env Img) (s : WD179X_INFO Img) (Cyl Head fillbyte : Nat) :
    (wd179x_trackWrite E s Cyl Head fillbyte).fdc_status = s.fdc_status := by
  obtain ⟨_, h, _⟩ := trackWrite_frame E s Cyl Head fillbyte; rw [h]

theorem trackWrite_verify (E : Env Img) (s : WD179X_INFO Img) (Cyl Head fillbyte : Nat) :
    (wd179x_trackWrite E s Cyl Head fillbyte).verify = s.verify := by
  obtain ⟨_, h, _⟩ := trackWrite_frame E s Cyl Head fillbyte; rw [h]

theorem trackWrite_fdc_data (E : Env Img) (s : WD179X_INFO Img) (Cyl Head fillbyte : Nat) :
    (wd179x_trackWrite E s Cyl Head fillbyte).fdc_data = s.fdc_data := by
  obtain ⟨_, h, _⟩ := trackWrite_frame E s Cyl Head fillbyte; rw [h]

theorem trackWrite_fdc_read (E : Env Img) (s : WD179X_INFO Img) (Cyl Head fillbyte : Nat) :
    (wd179x_trackWrite E s Cyl Head fillbyte).fdc_read = s.fdc_read := by
  obtain ⟨_, h, _⟩ := trackWrite_frame E s Cyl Head fillbyte; rw [h]

theorem trackWrite_fdc_write (E : Env Img) (s : WD179X_INFO Img) (Cyl Head fillbyte : Nat) :
    (wd179x_trackWrite E s Cyl Head fillbyte).fdc_write = s.fdc_write := by
  obtain ⟨_, h, _⟩ := trackWrite_frame E s Cyl Head fillbyte; rw [h]

theorem trackWrite_fdc_write_track (E : Env Img) (s : WD179X_INFO Img) (Cyl Head fillbyte : Nat) :
    (wd179x_trackWrite E s Cyl Head fillbyte).fdc_write_track = s.fdc_write_track := by
  obtain ⟨_, h, _⟩ := trackWrite_frame E s Cyl Head fillbyte; rw [h]

theorem trackWrite_fdc_fmt_state (E : Env Img) (s : WD179X_INFO Img) (Cyl Head fillbyte : Nat) :
    (wd179x_trackWrite E s Cyl Head fillbyte).fdc_fmt_state = s.fdc_fmt_state := by
  obtain ⟨_, h, _⟩ := trackWrite_frame E s Cyl Head fillbyte; rw [h]

theorem trackWrite_fdc_gap (E : Env Img) (s : WD179X_INFO Img) (Cyl Head fillbyte : Nat) :
    (wd179x_trackWrite E s Cyl Head fillbyte).fdc_gap = s.fdc_gap := by
  obtain ⟨_, h, _⟩ := trackWrite_frame E s Cyl Head fillbyte; rw [h]

theorem trackWrite_fdc_fmt_sector_count (E : Env Img) (s : WD179X_INFO Img) (Cyl Head fillbyte : Nat) :
    (wd179x_trackWrite E s Cyl Head fillbyte).fdc_fmt_sector_count = s.fdc_fmt_sector_count := by
  obtain ⟨_, h, _⟩ := trackWrite_frame E s Cyl Head fillbyte; rw [h]

theorem trackWrite_fdc_sectormap (E : Env Img) (s : WD179X_INFO Img) (Cyl Head fillbyte : Nat) :
    (wd179x_trackWrite E s Cyl Head fillbyte).fdc_sectormap = s.fdc_sectormap := by
  obtain ⟨_, h, _⟩ := trackWrite_frame E s Cyl Head fillbyte; rw [h]

theorem trackWrite_fdc_header_index (E : Env Img) (s : WD179X_INFO Img) (Cyl Head fillbyte : Nat) :
    (wd179x_trackWrite E s Cyl Head fillbyte).fdc_header_index = s.fdc_header_index := by
  obtain ⟨_, h, _⟩ := trackWrite_frame E s Cyl Head fillbyte; rw [h]

theorem trackWrite_fdc_read_addr (E : Env Img) (s : WD179X_INFO Img) (Cyl Head fillbyte : Nat) :
    (wd179x_trackWrite E s Cyl Head fillbyte).fdc_read_addr = s.fdc_read_addr := by
  obtain ⟨_, h, _⟩ := trackWrite_frame E s Cyl Head fillbyte; rw [h]

theorem trackWrite_fdc_multiple (E : Env Img) (s : WD179X_INFO Img) (Cyl Head fillbyte : Nat) :
    (wd179x_trackWrite E s Cyl Head fillbyte).fdc_multiple = s.fdc_multiple := by
  obtain ⟨_, h, _⟩ := trackWrite_frame E s Cyl Head fillbyte; rw [h]

theorem trackWrite_fdc_datacount (E : Env Img) (s : WD179X_INFO Img) (Cyl Head fillbyte : Nat) :
    (wd179x_trackWrite E s Cyl Head fillbyte).fdc_datacount = s.fdc_datacount := by
  obtain ⟨_, h, _⟩ := trackWrite_frame E s Cyl Head fillbyte; rw [h]

theorem trackWrite_fdc_dataindex (E : Env Img) (s : WD179X_INFO Img) (Cyl Head fillbyte : Nat) :
    (wd179x_trackWrite E s Cyl Head fillbyte).fdc_dataindex = s.fdc_dataindex := by
  obtain ⟨_, h, _⟩ := trackWrite_frame E s Cyl Head fillbyte; rw [h]

theorem trackWrite_index_pulse_wait (E : Env Img) (s : WD179X_INFO Img) (Cyl Head fillbyte : Nat) :
    (wd179x_trackWrite E s Cyl Head fillbyte).index_pulse_wait = s.index_pulse_wait := by
  obtain ⟨_, h, _⟩ := trackWrite_frame E s Cyl Head fillbyte; rw [h]

theorem trackWrite_fdc_sector (E : Env Img) (s : WD179X_INFO Img) (Cyl Head fillbyte : Nat) :
    (wd179x_trackWrite E s Cyl Head fillbyte).fdc_sector = s.fdc_sector := by
  obtain ⟨_, h, _⟩ := trackWrite_frame E s Cyl Head fillbyte; rw [h]

theorem trackWrite_fdc_sec_len (E : Env Img) (s : WD179X_INFO Img) (Cyl Head fillbyte : Nat) :
    (wd179x_trackWrite E s Cyl Head fillbyte).fdc_sec_len = s.fdc_sec_len := by
  obtain ⟨_, h, _⟩ := trackWrite_frame E s Cyl Head fillbyte; rw [h]

theorem trackWrite_step_dir (E : Env Img) (s : WD179X_INFO Img) (Cyl Head fillbyte : Nat) :
    (wd179x_trackWrite E s Cyl Head fillbyte).step_dir = s.step_dir := by
  obtain ⟨_, h, _⟩ := trackWrite_frame E s Cyl Head fillbyte; rw [h]

theorem trackWrite_cmdtype (E : Env Img) (s : WD179X_INFO Img) (Cyl Head fillbyte : Nat) :
    (wd179x_trackWrite E s Cyl Head fillbyte).cmdtype = s.cmdtype := by
  obtain ⟨_, h, _⟩ := trackWrite_frame E s Cyl Head fillbyte; rw [h]

theorem trackWrite_external_fifo_len (E : Env Img) (s : WD179X_INFO Img) (Cyl Head fillbyte : Nat) :
    (wd179x_trackWrite E s Cyl Head fillbyte).external_fifo_len = s.external_fifo_len := by
  obtain ⟨_, h, _⟩ := trackWrite_frame E s Cyl Head fillbyte; rw [h]

theorem trackWrite_external_fifo (E : Env Img) (s : WD179X_INFO Img) (Cyl Head fillbyte : Nat) :
    (wd179x_trackWrite E s Cyl Head fillbyte).external_fifo = s.external_fifo := by
  obtain ⟨_, h, _⟩ := trackWrite_frame E s Cyl Head fillbyte; rw [h]

theorem trackWrite_fdc_fifo_index (E : Env Img) (s : WD179X_INFO Img) (Cyl Head fillbyte : Nat) :
    (wd179x_trackWrite E s Cyl Head fillbyte).fdc_fifo_index = s.fdc_fifo_index := by
  obtain ⟨_, h, _⟩ := trackWrite_frame E s Cyl Head fillbyte; rw [h]

theorem trackWrite_raw (E : Env Img) (s : WD179X_INFO Img) (Cyl Head fillbyte : Nat) :
    (wd179x_trackWrite E s Cyl Head fillbyte).raw = s.raw := by
  obtain ⟨_, h, _⟩ := trackWrite_frame E s Cyl Head fillbyte; rw [h]

theorem trackWrite_vectorInterrupt (E : Env Img) (s : WD179X_INFO Img) (Cyl Head fillbyte : Nat) :
    (wd179x_trackWrite E s Cyl Head fillbyte).vectorInterrupt = s.vectorInterrupt := by
  obtain ⟨_, h, _⟩ := trackWrite_frame E s Cyl Head fillbyte; rw [h]

theorem trackWrite_dataBus (E : Env Img) (s : WD179X_INFO Img) (Cyl Head fillbyte : Nat) :
    (wd179x_trackWrite E s Cyl Head fillbyte).dataBus = s.dataBus := by
  obtain ⟨_, h, _⟩ := trackWrite_frame E s Cyl Head fillbyte; rw [h]

/-! ## The index of the external FIFO -/

/-- Masking the 16-bit sum with `L - 1` for a power of two `L` of at most 2^16 is the
reduction of the exact sum modulo `L`. -/
theorem fifo_wrap (i S k : Nat) (hk : k ≤ 16) :
    ((i + S) % 65536) &&& (2 ^ k - 1) = (i + S) % 2 ^ k := by
  rw [Nat.and_pow_two_sub_one_eq_mod]
  exact Nat.mod_mod_of_dvd _ (by
    have : (65536 : Nat) = 2 ^ 16 := by norm_num
    rw [this]
    exact Nat.pow_dvd_pow 2 hk)

/-- The case WRITE_REC with an external FIFO: the sector is taken from the FIFO and written
at once, and the index moves on. -/
theorem write_fifo (E : Env Img) (s : WD179X_INFO Img) (h : s.external_fifo_len ≠ 0) :
    (Do1793Command_write E s).fdc_sec_len
      = (if invalidSecLen (computeSectorSize E s) then 0 else computeSectorSize E s) ∧
    (Do1793Command_write E s).fdc_fifo_index
      = ((s.fdc_fifo_index + (128 <<< (if invalidSecLen (computeSectorSize E s) then 0
          else computeSectorSize E s))) % 65536) &&& (s.external_fifo_len - 1) := by
  unfold Do1793Command_write
  dsimp only
  by_cases hn : invalidSecLen (computeSectorSize E s)
  · simp only [if_pos hn, if_pos h]
    simp only [sectWrite_fdc_sec_len, sectWrite_fdc_fifo_index, raiseInterrupt_fdc_sec_len,
      raiseInterrupt_fdc_fifo_index, raiseInterrupt_external_fifo_len, and_self]
  · simp only [if_neg hn, if_pos h]
    simp only [sectWrite_fdc_sec_len, sectWrite_fdc_fifo_index, raiseInterrupt_fdc_sec_len,
      raiseInterrupt_fdc_fifo_index, raiseInterrupt_external_fifo_len, and_self]

/-- C25: with an external FIFO whose length `L` is a power of two (of at most 2^16; the
length is a `uint16`), a WRITE_REC command, which commits a sector of `S = 128 << N` bytes
from the FIFO at once, and a successful sector read into the FIFO both move the FIFO index
from `i` to exactly `(i + S) mod L`, which is below `L`, whether or not the 16-bit addition
wraps. -/
theorem C25_fifo_index_wraps (E : Env Img) (s : WD179X_INFO Img) (k : Nat)
    (hL : s.external_fifo_len = 2 ^ k) (hk : k ≤ 16) :
    (∀ cCommand, idle s → cCommand &&& 0xF0 = WD179X_WRITE_REC →
      (Do1793Command E cCommand s).2.fdc_fifo_index
        = (s.fdc_fifo_index + (128 <<< (Do1793Command E cCommand s).2.fdc_sec_len))
            % s.external_fifo_len ∧
      (Do1793Command E cCommand s).2.fdc_fifo_index < s.external_fifo_len) ∧
    (∀ Cyl Head Sector buflen,
      (wd179x_sectRead E s Cyl Head Sector buflen).fdc_read = TRUE →
      (wd179x_sectRead E s Cyl Head Sector buflen).fdc_fifo_index
        = (s.fdc_fifo_index + (128 <<< s.fdc_sec_len)) % s.external_fifo_len ∧
      (wd179x_sectRead E s Cyl Head Sector buflen).fdc_fifo_index < s.external_fifo_len) := by
  have hpos : 0 < s.external_fifo_len := by rw [hL]; exact Nat.pow_pos (by decide)
  have hne : s.external_fifo_len ≠ 0 := by omega
  constructor
  · intro c hs hc
    have hne2 : (Do1793Command_setup c
        { s with fdc_status := s.fdc_status &&& (0xFF - WD179X_STAT_NOT_READY) }).external_fifo_len
          ≠ 0 := by
      rw [setup_external_fifo_len]; exact hne
    obtain ⟨w1, w2⟩ := write_fifo E _ hne2
    have e1 : (Do1793Command E c s).2.fdc_sec_len = (Do1793Command_write E (Do1793Command_setup c
        { s with fdc_status := s.fdc_status &&& (0xFF - WD179X_STAT_NOT_READY) })).fdc_sec_len := by
      rw [Do1793Command_writeRec_eq E c s hs hc]
      dsimp only
      rw [post_fdc_sec_len]
    have e2 : (Do1793Command E c s).2.fdc_fifo_index = (Do1793Command_write E
        (Do1793Command_setup c
        { s with fdc_status := s.fdc_status &&& (0xFF - WD179X_STAT_NOT_READY) })).fdc_fifo_index := by
      rw [Do1793Command_writeRec_eq E c s hs hc]
      dsimp only
      rw [post_fdc_fifo_index]
    rw [e1, e2, w2, w1, setup_fdc_fifo_index, setup_external_fifo_len]
    dsimp only
    rw [hL, fifo_wrap _ _ k hk]
    exact ⟨rfl, Nat.mod_lt _ (Nat.pow_pos (by decide))⟩
  · intro Cyl Head Sector buflen hr
    rcases sectRead_cases E s Cyl Head Sector buflen with ⟨buf, ef, h⟩ | ⟨buf, h⟩
    · rw [h]
      dsimp only
      rw [if_pos hne, hL, fifo_wrap _ _ k hk]
      exact ⟨rfl, Nat.mod_lt _ (Nat.pow_pos (by decide))⟩
    · rw [h] at hr
      exact absurd hr (show (FALSE : Nat) ≠ TRUE by decide)

/-- Instance of C25 on the demo machine with a FIFO of 1024 bytes and the index at 1000:
WRITE_REC (128-byte sector) moves the index to 104. -/
theorem C25_witness :
    (Do1793Command demoEnv 0xA0 fifoState).2.fdc_fifo_index = 104 ∧
    (Do1793Command demoEnv 0xA0 fifoState).2.fdc_fifo_index < 1024 :=
  have h := (C25_fifo_index_wraps demoEnv fifoState 10 (by decide) (by decide)).1 0xA0
    (by decide) (by decide)
  ⟨h.1.trans (by decide), h.2⟩

/-! ## WRITE_REC and READ_ADDR with an invalid sector size -/

/-- An invalid sector size comes from an ImageDisk image only. -/
theorem imd_of_invalid (E : Env Img) (s : WD179X_INFO Img)
    (hn : invalidSecLen (computeSectorSize E s)) : (pDrive s).u3 = ImageType.IMD := by
  by_contra h
  unfold computeSectorSize at hn
  rw [if_neg h] at hn
  exact absurd hn (by decide)

/-- The case READ_ADDR when the sector size is invalid and the density matches: the ID field
is staged with the length code 0. -/
theorem readAddr_staged_invalid (E : Env Img) (s : WD179X_INFO Img)
    (ht : (pDrive s).track ≠ 0xFF) (hn : invalidSecLen (computeSectorSize E s))
    (hd : testMode E s = 0) :
    Do1793Command_readAddr E s = { s with
      fdc_sec_len := 0
      fdc_status := (WD179X_STAT_DRQ ||| WD179X_STAT_BUSY) &&& (0xFF - WD179X_STAT_BUSY)
      drq := 1
      fdc_datacount := 6
      fdc_dataindex := 0
      fdc_read := TRUE
      fdc_read_addr := TRUE
      raw := fun i =>
        if i = 0 then (pDrive s).track
        else if i = 1 then s.fdc_head
        else if i = 2 then s.fdc_sector
        else if i = 3 then 0
        else if i = 4 then 0xAA
        else if i = 5 then 0x55
        else s.raw i
      fdc_sector := (pDrive s).track
      intrq := 1 } := by
  have himd := imd_of_invalid E s hn
  unfold Do1793Command_readAddr
  rw [if_neg ht]
  dsimp only
  rw [if_pos hn]
  have e2 : ∀ a, testMode E { s with fdc_sec_len := a } = testMode E s := fun _ => rfl
  rw [e2, if_neg (by simp [hd])]
  rw [if_neg (by
    intro ⟨a, _, _⟩
    have : (pDrive s).u3 = ImageType.DSK := a
    rw [himd] at this
    exact absurd this (by decide))]
  rfl

/-- C23 (amended): for WRITE_REC (no external FIFO) and READ_ADDR (track register not 0xFF,
no density mismatch) an out-of-range sector-size code (0xF8 or above 6) does not abort the
command: the code is replaced by 0 (128-byte sectors) and the command goes on as for a valid
code.  The handler returns 0, NOT_FOUND and BUSY are clear, `fdc_dataindex = 0`; WRITE_REC
arms the write transfer for 128 bytes and leaves `intrq = 1` only when interrupts are enabled;
READ_ADDR arms the read-address transfer of 6 bytes with `intrq = 1`. -/
theorem C23_invalid_size_falls_back (E : Env Img) (s : WD179X_INFO Img) (cCommand : Nat)
    (hs : idle s)
    (hn : invalidSecLen (computeSectorSize E (Do1793Command_setup cCommand s)))
    (hc : (cCommand &&& 0xF0 = WD179X_WRITE_REC ∧ s.external_fifo_len = 0) ∨
      (cCommand &&& 0xF0 = WD179X_READ_ADDR ∧ (pDrive s).track ≠ 0xFF ∧ testMode E s = 0)) :
    (Do1793Command E cCommand s).1 = 0 ∧
    (Do1793Command E cCommand s).2.fdc_sec_len = 0 ∧
    (Do1793Command E cCommand s).2.fdc_status &&& WD179X_STAT_NOT_FOUND = 0 ∧
    (Do1793Command E cCommand s).2.fdc_status &&& WD179X_STAT_BUSY = 0 ∧
    (Do1793Command E cCommand s).2.fdc_dataindex = 0 ∧
    (cCommand &&& 0xF0 = WD179X_WRITE_REC →
      (Do1793Command E cCommand s).2.fdc_write = TRUE ∧
      (Do1793Command E cCommand s).2.fdc_datacount = 128 ∧
      (Do1793Command E cCommand s).2.intrq = (if s.intenable ≠ 0 then 1 else 0)) ∧
    (cCommand &&& 0xF0 = WD179X_READ_ADDR →
      (Do1793Command E cCommand s).2.fdc_read = TRUE ∧
      (Do1793Command E cCommand s).2.fdc_read_addr = TRUE ∧
      (Do1793Command E cCommand s).2.fdc_datacount = 6 ∧
      (Do1793Command E cCommand s).2.intrq = 1) := by
  rcases hc with ⟨hc, hf⟩ | ⟨hc, ht, hd⟩
  · obtain ⟨n1, n2⟩ := typeII_of_writeRec cCommand hc
    have hn2 : invalidSecLen (computeSectorSize E (Do1793Command_setup cCommand
        { s with fdc_status := s.fdc_status &&& (0xFF - WD179X_STAT_NOT_READY) })) := by
      rw [computeSectorSize_setup_status]; exact hn
    have hf2 : (Do1793Command_setup cCommand
        { s with fdc_status := s.fdc_status &&& (0xFF - WD179X_STAT_NOT_READY) }).external_fifo_len
          = 0 := by
      rw [setup_external_fifo_len]; exact hf
    obtain ⟨q1, q2, q3, q4⟩ := setup_typeII cCommand
      { s with fdc_status := s.fdc_status &&& (0xFF - WD179X_STAT_NOT_READY) } n1 n2
    obtain ⟨p1, p2, p3⟩ := post_typeII_III E cCommand (Do1793Command_write E
      (Do1793Command_setup cCommand
        { s with fdc_status := s.fdc_status &&& (0xFF - WD179X_STAT_NOT_READY) }))
      n1 (Or.inl n2)
    have hw := write_noFifo E _ hf2
    rw [if_pos hn2] at hw
    have hst : (Do1793Command E cCommand s).2.fdc_status = 0x02 := by
      rw [Do1793Command_writeRec_eq E cCommand s hs hc]
      dsimp only
      rw [p1, hw]
      dsimp only
      rw [q2]
      decide
    have hnot : cCommand &&& 0xF0 ≠ WD179X_READ_ADDR := by rw [hc]; decide
    refine ⟨?_, ?_, by rw [hst]; decide, by rw [hst]; decide, ?_, ?_, fun h => absurd h hnot⟩
    · rw [Do1793Command_writeRec_eq E cCommand s hs hc]
    · rw [Do1793Command_writeRec_eq E cCommand s hs hc]
      dsimp only
      rw [post_fdc_sec_len, hw]
    · rw [Do1793Command_writeRec_eq E cCommand s hs hc]
      dsimp only
      rw [post_fdc_dataindex, hw]
    · intro _
      rw [Do1793Command_writeRec_eq E cCommand s hs hc]
      dsimp only
      rw [post_fdc_write, post_fdc_datacount, p3, hw]
      dsimp only
      rw [q3, setup_intenable]
      exact ⟨rfl, by decide, rfl⟩
  · obtain ⟨n1, n2, n3⟩ := typeIII_of_readAddr cCommand hc
    have hn2 : invalidSecLen (computeSectorSize E
        { s with fdc_status := s.fdc_status &&& (0xFF - WD179X_STAT_NOT_READY), cmdtype := 3 }) := by
      rw [setup_typeIII cCommand s n1 n2 n3] at hn
      exact hn
    have hr := readAddr_staged_invalid E
      { s with fdc_status := s.fdc_status &&& (0xFF - WD179X_STAT_NOT_READY), cmdtype := 3 }
      ht hn2 hd
    obtain ⟨p1, p2, p3⟩ := post_typeII_III E cCommand (Do1793Command_readAddr E
      { s with fdc_status := s.fdc_status &&& (0xFF - WD179X_STAT_NOT_READY), cmdtype := 3 })
      n1 (Or.inr n3)
    have hst : (Do1793Command E cCommand s).2.fdc_status = 0x02 := by
      rw [Do1793Command_readAddr_eq E cCommand s hs hc]
      dsimp only
      rw [p1, hr]
      dsimp only
      decide
    have hnot : cCommand &&& 0xF0 ≠ WD179X_WRITE_REC := by rw [hc]; decide
    refine ⟨?_, ?_, by rw [hst]; decide, by rw [hst]; decide, ?_, fun h => absurd h hnot, ?_⟩
    · rw [Do1793Command_readAddr_eq E cCommand s hs hc]
    · rw [Do1793Command_readAddr_eq E cCommand s hs hc]
      dsimp only
      rw [post_fdc_sec_len, hr]
    · rw [Do1793Command_readAddr_eq E cCommand s hs hc]
      dsimp only
      rw [post_fdc_dataindex, hr]
    · intro _
      rw [Do1793Command_readAddr_eq E cCommand s hs hc]
      dsimp only
      rw [post_fdc_read, post_fdc_read_addr, post_fdc_datacount, p3, hr]
      dsimp only
      refine ⟨rfl, rfl, rfl, ?_⟩
      split_ifs <;> rfl

/-- Instance of C23 on the demo machine with the head on cylinder 80 (`MAX_CYL` is 80):
WRITE_REC (0xA0) is accepted and arms a write transfer of 128 bytes. -/
theorem C23_witness :
    (Do1793Command demoEnv 0xA0 offTrackState).1 = 0 ∧
    (Do1793Command demoEnv 0xA0 offTrackState).2.fdc_sec_len = 0 ∧
    (Do1793Command demoEnv 0xA0 offTrackState).2.fdc_write = TRUE ∧
    (Do1793Command demoEnv 0xA0 offTrackState).2.fdc_datacount = 128 :=
  have h := C23_invalid_size_falls_back demoEnv offTrackState 0xA0 (by decide) (by decide)
    (Or.inl (by decide))
  have h2 := h.2.2.2.2.2.1 (by decide)
  ⟨h.1, h.2.1, h2.1, h2.2.1⟩

/-- Counterexample to C23 as stated: with the head on cylinder 80 the sector-size computation
gives 0xF8, yet WRITE_REC (0xA0) arms the write transfer and READ_ADDR (0xC0) arms the
read-address transfer, both with NOT_FOUND clear (status 0x02); `intrq` stays 0 after
WRITE_REC. -/
theorem C23_counterexample :
    idle offTrackState ∧ computeSectorSize demoEnv offTrackState = 0xF8 ∧
    (Do1793Command demoEnv 0xA0 offTrackState).2.fdc_write = TRUE ∧
    (Do1793Command demoEnv 0xA0 offTrackState).2.fdc_status = 0x02 ∧
    (Do1793Command demoEnv 0xA0 offTrackState).2.intrq = 0 ∧
    (Do1793Command demoEnv 0xC0 offTrackState).2.fdc_read_addr = TRUE ∧
    (Do1793Command demoEnv 0xC0 offTrackState).2.fdc_status = 0x02 := by
  decide

/-! ## Every command ends with BUSY clear -/

theorem and_mask_BUSY (x m : Nat) (h : x &&& WD179X_STAT_BUSY = 0) :
    (x &&& m) &&& WD179X_STAT_BUSY = 0 := by
  rw [Nat.and_assoc, Nat.and_comm m, ← Nat.and_assoc, h, Nat.zero_and]

theorem exec_other (E : Env Img) (c : Nat) (s : WD179X_INFO Img) (h1 : ¬ isTypeI c)
    (h2 : ¬ isTypeII c) (h3 : ¬ isTypeIII c) (h4 : c &&& 0xF0 ≠ WD179X_FORCE_INTR) :
    Do1793Command_exec E c s = (none, s) := by
  unfold isTypeI at h1
  unfold isTypeII at h2
  unfold isTypeIII at h3
  push_neg at h1 h2 h3
  unfold Do1793Command_exec
  simp [h1, h2, h3, h4]

theorem exec_fst_of_not_read (E : Env Img) (c : Nat) (s : WD179X_INFO Img)
    (hr : ¬ (c &&& 0xF0 = WD179X_READ_REC ∨ c &&& 0xF0 = WD179X_READ_RECS)) :
    (Do1793Command_exec E c s).1 = none := by
  by_cases h1 : isTypeI c
  · exact exec_typeI_fst E c s h1
  by_cases hw : c &&& 0xF0 = WD179X_WRITE_REC
  · rw [exec_writeRec E c s hw]
  by_cases hu : c &&& 0xF0 = WD179X_WRITE_RECS ∨ c &&& 0xF0 = WD179X_READ_TRACK
  · rw [exec_unimplemented E c s hu]
  by_cases ha : c &&& 0xF0 = WD179X_READ_ADDR
  · rw [exec_readAddr E c s ha]
  by_cases ht : c &&& 0xF0 = WD179X_WRITE_TRACK
  · rw [exec_writeTrack E c s ht]
  by_cases hf : c &&& 0xF0 = WD179X_FORCE_INTR
  · rw [exec_forceIntr E c s hf]
  rw [exec_other E c s h1 (by unfold isTypeII; tauto) (by unfold isTypeIII; tauto) hf]

/-- An early return of the execution stage leaves BUSY clear. -/
theorem exec_some_busy (E : Env Img) (c : Nat) (s : WD179X_INFO Img)
    (h : (Do1793Command_exec E c s).1 ≠ none) :
    (Do1793Command_exec E c s).2.fdc_status &&& WD179X_STAT_BUSY = 0 := by
  by_cases hr : c &&& 0xF0 = WD179X_READ_REC ∨ c &&& 0xF0 = WD179X_READ_RECS
  · rw [exec_read E c s hr] at h ⊢
    by_cases hn : invalidSecLen (computeSectorSize E s)
    · rw [read_invalid E c s hn]
      exact and_and_disjoint _ _ _ (by decide)
    · exfalso
      apply h
      unfold Do1793Command_read
      dsimp only
      rw [if_neg hn]
      split_ifs <;> rfl
  · exact absurd (exec_fst_of_not_read E c s hr) h

theorem post_other (E : Env Img) (c : Nat) (s : WD179X_INFO Img) (h1 : ¬ isTypeI c)
    (h2 : ¬ isTypeII c) (h3 : ¬ isTypeIII c) : Do1793Command_post E c s = s := by
  unfold Do1793Command_post
  rw [if_neg h1, if_neg (by tauto)]

theorem setup_other_status (c : Nat) (s : WD179X_INFO Img) (h1 : ¬ isTypeI c)
    (h2 : ¬ isTypeII c) : (Do1793Command_setup c s).fdc_status = s.fdc_status := by
  unfold Do1793Command_setup
  rw [if_neg h1, if_neg h2]
  split_ifs <;> rfl

theorem forceIntr_busy (E : Env Img) (c : Nat) (s : WD179X_INFO Img) :
    (Do1793Command_forceIntr E c s).fdc_status &&& WD179X_STAT_BUSY = 0 := by
  unfold Do1793Command_forceIntr
  by_cases h0 : c &&& 0x0F = 0
  · rw [if_pos h0]
    show (s.fdc_status &&& (0xFF - (WD179X_STAT_DRQ ||| WD179X_STAT_BUSY)))
      &&& WD179X_STAT_BUSY = 0
    exact and_and_disjoint _ _ _ (by decide)
  · rw [if_neg h0]
    exact and_and_disjoint _ _ _ (by decide)

/-- The command handler leaves BUSY clear on an idle controller, whatever the command. -/
theorem Do1793Command_busy_clear (E : Env Img) (c : Nat) (s : WD179X_INFO Img) (hs : idle s) :
    (Do1793Command E c s).2.fdc_status &&& WD179X_STAT_BUSY = 0 := by
  rw [Do1793Command_idle E c s hs]
  by_cases hx : (Do1793Command_exec E c (Do1793Command_setup c
      { s with fdc_status := s.fdc_status &&& (0xFF - WD179X_STAT_NOT_READY) })).1 = none
  · rw [if_pos hx]
    dsimp only
    by_cases h1 : isTypeI c
    · exact post_typeI_busy E c _ h1
    · by_cases h23 : isTypeII c ∨ isTypeIII c
      · rw [(post_typeII_III E c _ h1 h23).1]
        exact and_and_disjoint _ _ _ (by decide)
      · have h2 : ¬ isTypeII c := fun h => h23 (Or.inl h)
        have h3 : ¬ isTypeIII c := fun h => h23 (Or.inr h)
        rw [post_other E c _ h1 h2 h3]
        by_cases h4 : c &&& 0xF0 = WD179X_FORCE_INTR
        · rw [exec_forceIntr E c _ h4]
          exact forceIntr_busy E c _
        · rw [exec_other E c _ h1 h2 h3 h4]
          dsimp only
          rw [setup_other_status c _ h1 h2]
          exact and_mask_BUSY _ _ hs.2
  · rw [if_neg hx]
    exact exec_some_busy E c _ hx

theorem idle_Write_clear (s : WD179X_INFO Img) (hs : idle s) : idle (WD179X_Write_clear s) := by
  refine ⟨validDrive_Write_clear s hs.1, ?_⟩
  unfold WD179X_Write_clear
  rw [raiseInterrupt_fdc_status]
  exact hs.2

theorem Write_command_eq (E : Env Img) (s : WD179X_INFO Img) (Addr c : Nat)
    (hd : validDrive s) (ha : Addr &&& 0x3 = WD179X_STATUS) :
    WD179X_Write E Addr c s = (0, (Do1793Command E c (WD179X_Write_clear s)).2) := by
  unfold WD179X_Write
  rw [if_neg (by have := hd.1; omega), if_neg (by simp [hd.2]), if_pos ha]

/-- C29: every command byte written to the command port of an idle controller (valid attached
drive, BUSY clear), and every command handled by `Do1793Command` on such a controller, leaves
the BUSY bit of the status register clear, on every path; hence BUSY does not make the
controller reject the next command. -/
theorem C29_commands_end_not_busy (E : Env Img) (s : WD179X_INFO Img) (Addr cCommand : Nat)
    (hs : idle s) (ha : Addr &&& 0x3 = WD179X_STATUS) :
    (WD179X_Write E Addr cCommand s).2.fdc_status &&& WD179X_STAT_BUSY = 0 ∧
    (Do1793Command E cCommand s).2.fdc_status &&& WD179X_STAT_BUSY = 0 := by
  refine ⟨?_, Do1793Command_busy_clear E cCommand s hs⟩
  rw [Write_command_eq E s Addr cCommand hs.1 ha]
  exact Do1793Command_busy_clear E cCommand _ (idle_Write_clear s hs)

/-- Instance of C29 on the demo machine: READ_RECS (0x90) for sector 1, which starts a
transfer, leaves BUSY clear. -/
theorem C29_witness :
    (WD179X_Write demoEnv WD179X_STATUS 0x90
      (WD179X_Write demoEnv WD179X_SECTOR 1 demoState).2).2.fdc_status
        &&& WD179X_STAT_BUSY = 0 :=
  (C29_commands_end_not_busy demoEnv (WD179X_Write demoEnv WD179X_SECTOR 1 demoState).2
    WD179X_STATUS 0x90 (by decide) (by decide)).1

/-! ## Density mismatch and sector not found -/

theorem setup_fdc_head_congr (c : Nat) (s s' : WD179X_INFO Img)
    (h1 : s'.fdctype = s.fdctype) (h2 : s'.fdc_head = s.fdc_head) :
    (Do1793Command_setup c s').fdc_head = (Do1793Command_setup c s).fdc_head := by
  unfold Do1793Command_setup
  dsimp only
  rw [h1]
  split_ifs <;> first | rfl | exact h2

/-- The state in which the command written to the command port is executed addresses the
same drive, head and density as the state before the write. -/
theorem setup_clear_addressing (c : Nat) (s : WD179X_INFO Img) :
    pDrive (Do1793Command_setup c { WD179X_Write_clear s with
        fdc_status := (WD179X_Write_clear s).fdc_status &&& (0xFF - WD179X_STAT_NOT_READY) })
      = pDrive (Do1793Command_setup c s) ∧
    (Do1793Command_setup c { WD179X_Write_clear s with
        fdc_status := (WD179X_Write_clear s).fdc_status &&& (0xFF - WD179X_STAT_NOT_READY) }).fdc_head
      = (Do1793Command_setup c s).fdc_head ∧
    (Do1793Command_setup c { WD179X_Write_clear s with
        fdc_status := (WD179X_Write_clear s).fdc_status &&& (0xFF - WD179X_STAT_NOT_READY) }).ddens
      = (Do1793Command_setup c s).ddens := by
  refine ⟨?_, ?_, ?_⟩
  · rw [pDrive_setup, pDrive_setup]
    unfold pDrive WD179X_Write_clear
    dsimp only
    rw [raiseInterrupt_drive, raiseInterrupt_sel_drive]
  · apply setup_fdc_head_congr
    · unfold WD179X_Write_clear
      dsimp only
      rw [raiseInterrupt_fdctype]
    · unfold WD179X_Write_clear
      dsimp only
      rw [raiseInterrupt_fdc_head]
  · rw [setup_ddens, setup_ddens]
    unfold WD179X_Write_clear
    dsimp only
    rw [raiseInterrupt_ddens]

theorem computeSectorSize_congr (E : Env Img) (s s' : WD179X_INFO Img)
    (hd : pDrive s' = pDrive s) (hh : s'.fdc_head = s.fdc_head) :
    computeSectorSize E s' = computeSectorSize E s := by
  unfold computeSectorSize
  rw [hd, hh]

theorem testMode_congr (E : Env Img) (s s' : WD179X_INFO Img)
    (hd : pDrive s' = pDrive s) (hh : s'.fdc_head = s.fdc_head) (hdd : s'.ddens = s.ddens) :
    testMode E s' = testMode E s := by
  unfold testMode
  rw [hd, hh, hdd]

/-- The case READ_REC/READ_RECS with a valid sector size and a density mismatch. -/
theorem read_mismatch (E : Env Img) (c : Nat) (t : WD179X_INFO Img)
    (hn : ¬ invalidSecLen (computeSectorSize E t)) (hm : testMode E t ≠ 0) :
    Do1793Command_read E c t = (none, { t with
      fdc_sec_len := computeSectorSize E t
      fdc_multiple := if c &&& 0x10 ≠ 0 then TRUE else FALSE
      fdc_status := (t.fdc_status ||| WD179X_STAT_NOT_FOUND) &&& (0xFF - WD179X_STAT_BUSY)
      intrq := 1
      drq := 0 }) := by
  unfold Do1793Command_read
  dsimp only
  rw [if_neg hn]
  have e2 : ∀ a b, testMode E { t with fdc_sec_len := a, fdc_multiple := b } = testMode E t :=
    fun _ _ => rfl
  rw [e2, if_pos hm]

/-- The case READ_REC/READ_RECS with a valid sector size and no density mismatch: the sector
is fetched. -/
theorem read_fetch (E : Env Img) (c : Nat) (t : WD179X_INFO Img)
    (hn : ¬ invalidSecLen (computeSectorSize E t)) (hm : testMode E t = 0) :
    Do1793Command_read E c t = (none, wd179x_sectRead E
      { t with
        fdc_sec_len := computeSectorSize E t
        fdc_multiple := if c &&& 0x10 ≠ 0 then TRUE else FALSE }
      (pDrive t).track t.fdc_head t.fdc_sector
      (WD179X_SECTOR_LEN_BYTES { t with fdc_sec_len := computeSectorSize E t })) := by
  unfold Do1793Command_read
  dsimp only
  rw [if_neg hn]
  have e2 : ∀ a b, testMode E { t with fdc_sec_len := a, fdc_multiple := b } = testMode E t :=
    fun _ _ => rfl
  rw [e2, if_neg (by simp [hm])]
  rfl

theorem Write_clear_fields (s : WD179X_INFO Img) :
    (WD179X_Write_clear s).fdc_read = FALSE ∧ (WD179X_Write_clear s).fdc_datacount = 0 ∧
    (WD179X_Write_clear s).fdc_dataindex = 0 ∧
    (WD179X_Write_clear s).fdc_read_addr = s.fdc_read_addr ∧
    (WD179X_Write_clear s).fdc_sector = s.fdc_sector ∧
    (WD179X_Write_clear s).intrq = s.intrq ∧
    (WD179X_Write_clear s).fdc_write_track = FALSE ∧
    (WD179X_Write_clear s).fdc_sec_len = s.fdc_sec_len := by
  unfold WD179X_Write_clear
  simp

/-- A sector read command with a density mismatch, written to the command port. -/
theorem read_command_mismatch (E : Env Img) (s : WD179X_INFO Img) (Addr c : Nat)
    (hs : idle s) (ha : Addr &&& 0x3 = WD179X_STATUS)
    (hc : c &&& 0xF0 = WD179X_READ_REC ∨ c &&& 0xF0 = WD179X_READ_RECS)
    (hv : ¬ invalidSecLen (computeSectorSize E (Do1793Command_setup c s)))
    (hm : testMode E (Do1793Command_setup c s) ≠ 0) :
    (WD179X_Write E Addr c s).2.fdc_status = WD179X_STAT_NOT_FOUND ∧
    (WD179X_Write E Addr c s).2.drq = 1 ∧
    (WD179X_Write E Addr c s).2.intrq = 1 ∧
    (WD179X_Write E Addr c s).2.fdc_read = FALSE ∧
    (WD179X_Write E Addr c s).2.fdc_datacount = 0 ∧
    (WD179X_Write E Addr c s).2.fdc_dataindex = 0 ∧
    (WD179X_Write E Addr c s).2.fdc_sector = s.fdc_sector ∧
    (WD179X_Write E Addr c s).2.fdc_read_addr = s.fdc_read_addr ∧
    (WD179X_Write E Addr c s).2.trace = s.trace := by
  obtain ⟨t1, t2⟩ := typeII_of_read c hc
  obtain ⟨a1, a2, a3⟩ := setup_clear_addressing c s
  obtain ⟨w1, w2, w3, w4, w5, _⟩ := Write_clear_fields s
  have hv2 := hv
  rw [← computeSectorSize_congr E _ _ a1 a2] at hv2
  have hm2 := hm
  rw [← testMode_congr E _ _ a1 a2 a3] at hm2
  obtain ⟨q1, q2, q3, q4⟩ := setup_typeII c { WD179X_Write_clear s with
    fdc_status := (WD179X_Write_clear s).fdc_status &&& (0xFF - WD179X_STAT_NOT_READY) } t1 t2
  rw [Write_command_eq E s Addr c hs.1 ha, Do1793Command_idle E c _ (idle_Write_clear s hs),
    exec_read E c _ hc, read_mismatch E c _ hv2 hm2]
  dsimp only
  rw [if_pos rfl]
  dsimp only
  obtain ⟨p1, p2, p3⟩ := post_typeII_III E c
    { Do1793Command_setup c { WD179X_Write_clear s with
        fdc_status := (WD179X_Write_clear s).fdc_status &&& (0xFF - WD179X_STAT_NOT_READY) } with
      fdc_sec_len := computeSectorSize E (Do1793Command_setup c { WD179X_Write_clear s with
        fdc_status := (WD179X_Write_clear s).fdc_status &&& (0xFF - WD179X_STAT_NOT_READY) })
      fdc_multiple := if c &&& 0x10 ≠ 0 then TRUE else FALSE
      fdc_status := ((Do1793Command_setup c { WD179X_Write_clear s with
        fdc_status := (WD179X_Write_clear s).fdc_status
          &&& (0xFF - WD179X_STAT_NOT_READY) }).fdc_status ||| WD179X_STAT_NOT_FOUND)
        &&& (0xFF - WD179X_STAT_BUSY)
      intrq := 1
      drq := 0 } t1 (Or.inl t2)
  refine ⟨?_, p2, ?_, ?_, ?_, ?_, ?_, ?_, ?_⟩
  · rw [p1]
    dsimp only
    rw [q2]
    decide
  · rw [p3]
    dsimp only
    split_ifs <;> rfl
  · rw [post_fdc_read]
    dsimp only
    rw [setup_fdc_read]
    exact w1
  · rw [post_fdc_datacount]
    dsimp only
    rw [setup_fdc_datacount]
    exact w2
  · rw [post_fdc_dataindex]
    dsimp only
    rw [setup_fdc_dataindex]
    exact w3
  · rw [post_fdc_sector]
    dsimp only
    rw [(setup_frame _ _).2.2]
    exact w5
  · rw [post_fdc_read_addr]
    dsimp only
    rw [setup_fdc_read_addr]
    exact w4
  · rw [post_trace]
    dsimp only
    rw [(setup_frame _ _).2.1]
    unfold WD179X_Write_clear
    rw [raiseInterrupt_trace]

/-- A sector read command without density mismatch whose sector the store does not find,
written to the command port. -/
theorem read_command_not_found (E : Env Img) (s : WD179X_INFO Img) (Addr c : Nat)
    (hs : idle s) (ha : Addr &&& 0x3 = WD179X_STATUS)
    (hc : c &&& 0xF0 = WD179X_READ_REC ∨ c &&& 0xF0 = WD179X_READ_RECS)
    (hv : ¬ invalidSecLen (computeSectorSize E (Do1793Command_setup c s)))
    (hm : testMode E (Do1793Command_setup c s) = 0)
    (hnf : (WD179X_Write E Addr c s).2.fdc_read ≠ TRUE) :
    (WD179X_Write E Addr c s).2.fdc_status = WD179X_STAT_NOT_FOUND ∧
    (WD179X_Write E Addr c s).2.drq = 1 ∧
    (WD179X_Write E Addr c s).2.intrq = 1 ∧
    (WD179X_Write E Addr c s).2.fdc_read = FALSE ∧
    (WD179X_Write E Addr c s).2.fdc_datacount = 0 ∧
    (WD179X_Write E Addr c s).2.fdc_dataindex = 0 ∧
    (WD179X_Write E Addr c s).2.fdc_sector = s.fdc_sector ∧
    (WD179X_Write E Addr c s).2.fdc_read_addr = FALSE := by
  obtain ⟨t1, t2⟩ := typeII_of_read c hc
  obtain ⟨a1, a2, a3⟩ := setup_clear_addressing c s
  obtain ⟨w1, w2, w3, w4, w5, _⟩ := Write_clear_fields s
  have hv2 := hv
  rw [← computeSectorSize_congr E _ _ a1 a2] at hv2
  have hm2 := hm
  rw [← testMode_congr E _ _ a1 a2 a3] at hm2
  rw [Write_command_eq E s Addr c hs.1 ha, Do1793Command_idle E c _ (idle_Write_clear s hs),
    exec_read E c _ hc, read_fetch E c _ hv2 hm2] at hnf ⊢
  dsimp only at hnf ⊢
  rw [if_pos rfl] at hnf ⊢
  dsimp only at hnf ⊢
  rw [post_fdc_read] at hnf
  generalize hX : wd179x_sectRead E _ _ _ _ _ = X at hnf ⊢
  obtain ⟨p1, p2, p3⟩ := post_typeII_III E c X t1 (Or.inl t2)
  rcases sectRead_cases E
    { Do1793Command_setup c { WD179X_Write_clear s with
        fdc_status := (WD179X_Write_clear s).fdc_status &&& (0xFF - WD179X_STAT_NOT_READY) } with
      fdc_sec_len := computeSectorSize E (Do1793Command_setup c { WD179X_Write_clear s with
        fdc_status := (WD179X_Write_clear s).fdc_status &&& (0xFF - WD179X_STAT_NOT_READY) })
      fdc_multiple := if c &&& 0x10 ≠ 0 then TRUE else FALSE }
    (pDrive (Do1793Command_setup c { WD179X_Write_clear s with
        fdc_status := (WD179X_Write_clear s).fdc_status &&& (0xFF - WD179X_STAT_NOT_READY) })).track
    (Do1793Command_setup c { WD179X_Write_clear s with
        fdc_status := (WD179X_Write_clear s).fdc_status &&& (0xFF - WD179X_STAT_NOT_READY) }).fdc_head
    (Do1793Command_setup c { WD179X_Write_clear s with
        fdc_status := (WD179X_Write_clear s).fdc_status &&& (0xFF - WD179X_STAT_NOT_READY) }).fdc_sector
    (WD179X_SECTOR_LEN_BYTES
      { Do1793Command_setup c { WD179X_Write_clear s with
          fdc_status := (WD179X_Write_clear s).fdc_status &&& (0xFF - WD179X_STAT_NOT_READY) } with
        fdc_sec_len := computeSectorSize E (Do1793Command_setup c { WD179X_Write_clear s with
          fdc_status := (WD179X_Write_clear s).fdc_status &&& (0xFF - WD179X_STAT_NOT_READY) }) })
    with ⟨buf, ef, h⟩ | ⟨buf, h⟩
  · rw [hX] at h
    rw [h] at hnf
    exact absurd rfl hnf
  · rw [hX] at h
    refine ⟨?_, p2, ?_, ?_, ?_, ?_, ?_, ?_⟩
    · rw [p1, h]
      dsimp only
      decide
    · rw [p3, h]
      dsimp only
      split_ifs <;> rfl
    · rw [post_fdc_read, h]
    · rw [post_fdc_datacount, h]
      dsimp only
      rw [setup_fdc_datacount]
      exact w2
    · rw [post_fdc_dataindex, h]
      dsimp only
      rw [setup_fdc_dataindex]
      exact w3
    · rw [post_fdc_sector, h]
      dsimp only
      rw [(setup_frame _ _).2.2]
      exact w5
    · rw [post_fdc_read_addr, h]

/-- For READ_REC/READ_RECS written to the command port of an idle controller with a valid
sector size, a density mismatch on the addressed track (environment `E1`) and a sector that
the store does not find without mismatch (environment `E2`) leave the same status register
(NOT_FOUND alone), `drq`, `intrq`, read flag, cursor and Sector register.  The read-address
flag is cleared by the sector store path but left as it was by the density mismatch path, so
the two states agree on it only when it was clear before the command. -/
theorem read_mismatch_like_not_found (E1 E2 : Env Img) (s : WD179X_INFO Img)
    (Addr cCommand : Nat) (hs : idle s) (ha : Addr &&& 0x3 = WD179X_STATUS)
    (hc : cCommand &&& 0xF0 = WD179X_READ_REC ∨ cCommand &&& 0xF0 = WD179X_READ_RECS)
    (hv1 : ¬ invalidSecLen (computeSectorSize E1 (Do1793Command_setup cCommand s)))
    (hv2 : ¬ invalidSecLen (computeSectorSize E2 (Do1793Command_setup cCommand s)))
    (hm1 : testMode E1 (Do1793Command_setup cCommand s) ≠ 0)
    (hm2 : testMode E2 (Do1793Command_setup cCommand s) = 0)
    (hnf : (WD179X_Write E2 Addr cCommand s).2.fdc_read ≠ TRUE) :
    (WD179X_Write E1 Addr cCommand s).2.fdc_status
      = (WD179X_Write E2 Addr cCommand s).2.fdc_status ∧
    (WD179X_Write E1 Addr cCommand s).2.drq = (WD179X_Write E2 Addr cCommand s).2.drq ∧
    (WD179X_Write E1 Addr cCommand s).2.intrq = (WD179X_Write E2 Addr cCommand s).2.intrq ∧
    (WD179X_Write E1 Addr cCommand s).2.fdc_read
      = (WD179X_Write E2 Addr cCommand s).2.fdc_read ∧
    (WD179X_Write E1 Addr cCommand s).2.fdc_datacount
      = (WD179X_Write E2 Addr cCommand s).2.fdc_datacount ∧
    (WD179X_Write E1 Addr cCommand s).2.fdc_dataindex
      = (WD179X_Write E2 Addr cCommand s).2.fdc_dataindex ∧
    (WD179X_Write E1 Addr cCommand s).2.fdc_sector
      = (WD179X_Write E2 Addr cCommand s).2.fdc_sector ∧
    (WD179X_Write E1 Addr cCommand s).2.fdc_read_addr = s.fdc_read_addr ∧
    (WD179X_Write E2 Addr cCommand s).2.fdc_read_addr = FALSE ∧
    (s.fdc_read_addr = FALSE →
      (WD179X_Write E1 Addr cCommand s).2.fdc_read_addr
        = (WD179X_Write E2 Addr cCommand s).2.fdc_read_addr) := by
  obtain ⟨a1, a2, a3, a4, a5, a6, a7, a8, _⟩ :=
    read_command_mismatch E1 s Addr cCommand hs ha hc hv1 hm1
  obtain ⟨b1, b2, b3, b4, b5, b6, b7, b8⟩ :=
    read_command_not_found E2 s Addr cCommand hs ha hc hv2 hm2 hnf
  refine ⟨a1.trans b1.symm, a2.trans b2.symm, a3.trans b3.symm, a4.trans b4.symm,
    a5.trans b5.symm, a6.trans b6.symm, a7.trans b7.symm, a8, b8, ?_⟩
  intro h
  rw [a8, b8, h]

/-- C30 fails on the read-address flag: after READ_ADDR (0xC0) on the demo machine the flag
is set and the Sector register holds 0.  READ_REC (0x80) written to the command port then ends
with status NOT_FOUND, `drq = 1`, `intrq = 1`, the read flag clear and the cursor at (0, 0) both
when the density does not match and when the sector store reports the sector as not found, but
with the read-address flag still set in the first case and clear in the second. -/
theorem C30_mismatch_keeps_read_addr :
    idle (Do1793Command demoEnv 0xC0 demoState).2 ∧
    (Do1793Command demoEnv 0xC0 demoState).2.fdc_read_addr = TRUE ∧
    testMode mfmEnv (Do1793Command_setup 0x80 (Do1793Command demoEnv 0xC0 demoState).2) ≠ 0 ∧
    testMode demoEnv (Do1793Command_setup 0x80 (Do1793Command demoEnv 0xC0 demoState).2) = 0 ∧
    (WD179X_Write demoEnv WD179X_STATUS 0x80
      (Do1793Command demoEnv 0xC0 demoState).2).2.trace = [Event.sectRead 0 0 0 128] ∧
    (WD179X_Write mfmEnv WD179X_STATUS 0x80
      (Do1793Command demoEnv 0xC0 demoState).2).2.trace = [] ∧
    (WD179X_Write mfmEnv WD179X_STATUS 0x80
      (Do1793Command demoEnv 0xC0 demoState).2).2.fdc_status = WD179X_STAT_NOT_FOUND ∧
    (WD179X_Write demoEnv WD179X_STATUS 0x80
      (Do1793Command demoEnv 0xC0 demoState).2).2.fdc_status = WD179X_STAT_NOT_FOUND ∧
    (WD179X_Write mfmEnv WD179X_STATUS 0x80
      (Do1793Command demoEnv 0xC0 demoState).2).2.drq = 1 ∧
    (WD179X_Write demoEnv WD179X_STATUS 0x80
      (Do1793Command demoEnv 0xC0 demoState).2).2.drq = 1 ∧
    (WD179X_Write mfmEnv WD179X_STATUS 0x80
      (Do1793Command demoEnv 0xC0 demoState).2).2.intrq = 1 ∧
    (WD179X_Write demoEnv WD179X_STATUS 0x80
      (Do1793Command demoEnv 0xC0 demoState).2).2.intrq = 1 ∧
    (WD179X_Write mfmEnv WD179X_STATUS 0x80
      (Do1793Command demoEnv 0xC0 demoState).2).2.fdc_read = FALSE ∧
    (WD179X_Write demoEnv WD179X_STATUS 0x80
      (Do1793Command demoEnv 0xC0 demoState).2).2.fdc_read = FALSE ∧
    (WD179X_Write mfmEnv WD179X_STATUS 0x80
      (Do1793Command demoEnv 0xC0 demoState).2).2.fdc_read_addr = TRUE ∧
    (WD179X_Write demoEnv WD179X_STATUS 0x80
      (Do1793Command demoEnv 0xC0 demoState).2).2.fdc_read_addr = FALSE := by
  decide

/-! ## Where the interrupt request is cleared -/

theorem Read_data_intrq (E : Env Img) (s : WD179X_INFO Img) (hi : s.intrq = 1)
    (hm : s.fdc_multiple = FALSE) : (WD179X_Read_data E s).2.intrq = 1 := by
  unfold WD179X_Read_data
  by_cases hr : s.fdc_read = TRUE
  · rw [if_pos hr]
    by_cases hlt : s.fdc_dataindex < s.fdc_datacount
    · rw [if_pos hlt]
      dsimp only
      by_cases hl : (s.fdc_dataindex + 1) % 65536 = s.fdc_datacount
      · rw [if_pos hl, if_pos hm]
      · rw [if_neg hl]; exact hi
    · rw [if_neg hlt]; exact hi
  · rw [if_neg hr]; exact hi

theorem Read_other_intrq (E : Env Img) (s : WD179X_INFO Img) (Addr : Nat) (hi : s.intrq = 1)
    (ha : Addr &&& 0x3 ≠ WD179X_STATUS)
    (hm : Addr &&& 0x3 = WD179X_DATA → s.fdc_multiple = FALSE) :
    (WD179X_Read E Addr s).2.intrq = 1 := by
  unfold WD179X_Read
  by_cases hsel : s.sel_drive ≥ WD179X_MAX_DRIVES
  · rw [if_pos hsel]; exact hi
  · rw [if_neg hsel, if_neg ha]
    by_cases h1 : Addr &&& 0x3 = WD179X_TRACK
    · rw [if_pos h1]; exact hi
    · rw [if_neg h1]
      by_cases h2 : Addr &&& 0x3 = WD179X_SECTOR
      · rw [if_pos h2]; exact hi
      · rw [if_neg h2]
        by_cases h3 : Addr &&& 0x3 = WD179X_DATA
        · rw [if_pos h3]; exact Read_data_intrq E s hi (hm h3)
        · rw [if_neg h3]; exact hi

theorem Write_sector_intrq (E : Env Img) (b : Nat) (s : WD179X_INFO Img) (hi : s.intrq = 1) :
    (WD179X_Write_sector E b s).intrq = 1 := by
  unfold WD179X_Write_sector
  dsimp only
  split_ifs
  · dsimp only
    rw [sectWrite_intrq, raiseInterrupt_intrq]
  · exact hi
  · exact hi
  · exact hi

theorem endSector_intrq (E : Env Img) (s : WD179X_INFO Img) (hi : s.intrq = 1) :
    (WD179X_Write_endSector E s).intrq = 1 := by
  unfold WD179X_Write_endSector
  generalize (floorlog2 s.fdc_dataindex + 256 - 7) % 256 = n
  by_cases c1 : invalidSecLen n <;>
    by_cases c2 : s.fdc_fmt_sector_count ≥ WD179X_MAX_SECTOR <;>
    simp only [c1, if_true, if_false] <;>
    simp only [c2, if_true, if_false] <;>
    simp only [clearGap] <;>
    split_ifs <;>
    first
      | exact hi
      | simp only [setDrive, raiseInterrupt_intrq, trackWrite_intrq]

theorem Write_track_intrq (E : Env Img) (b : Nat) (s : WD179X_INFO Img) (hi : s.intrq = 1) :
    (WD179X_Write_track E b s).intrq = 1 := by
  unfold WD179X_Write_track
  by_cases h0 : s.fdc_write_track = TRUE
  · rw [if_pos h0]
    by_cases h1 : s.fdc_fmt_state = FMT_GAP1
    · rw [if_pos h1]; split_ifs <;> exact hi
    · rw [if_neg h1]
      by_cases h2 : s.fdc_fmt_state = FMT_GAP2
      · rw [if_pos h2]; split_ifs <;> exact hi
      · rw [if_neg h2]
        by_cases h3 : s.fdc_fmt_state = FMT_HEADER
        · rw [if_pos h3]; dsimp only; split_ifs <;> exact hi
        · rw [if_neg h3]
          by_cases h4 : s.fdc_fmt_state = FMT_GAP3
          · rw [if_pos h4]; split_ifs <;> exact hi
          · rw [if_neg h4]
            by_cases h5 : s.fdc_fmt_state = FMT_DATA
            · rw [if_pos h5]
              by_cases h6 : b ≠ 0xF7
              · rw [if_pos h6]; exact hi
              · rw [if_neg h6]; exact endSector_intrq E s hi
            · rw [if_neg h5]; exact hi
  · rw [if_neg h0]; exact hi

theorem post_typeI_intrq (E : Env Img) (c : Nat) (s : WD179X_INFO Img) (hc : isTypeI c) :
    (Do1793Command_post E c s).intrq = 1 := by
  unfold Do1793Command_post; rw [if_pos hc]
  simp only [raiseInterrupt_intrq]

theorem setup_other_intrq (c : Nat) (s : WD179X_INFO Img) (h1 : ¬ isTypeI c)
    (h2 : ¬ isTypeII c) : (Do1793Command_setup c s).intrq = s.intrq := by
  unfold Do1793Command_setup
  rw [if_neg h1, if_neg h2]
  split_ifs <;> rfl

theorem forceIntr_intrq (E : Env Img) (c : Nat) (s : WD179X_INFO Img) (hi : s.intrq = 1) :
    (Do1793Command_forceIntr E c s).intrq = 1 := by
  unfold Do1793Command_forceIntr
  by_cases h0 : c &&& 0x0F = 0
  · rw [if_pos h0]; exact hi
  · rw [if_neg h0]
    dsimp only
    split_ifs <;> first | exact hi | simp only [raiseInterrupt_intrq]

theorem le_of_not_invalid (n : Nat) (h : ¬ invalidSecLen n) : n ≤ WD179X_MAX_SEC_LEN := by
  unfold invalidSecLen at h
  push_neg at h
  exact h.2

/-- The case READ_ADDR, whatever its outcome: the interrupt request is set, the size code is
valid, the format flag is kept, and the cursor is either kept or set to the six bytes of the
ID field. -/
theorem readAddr_fields (E : Env Img) (s : WD179X_INFO Img) :
    (Do1793Command_readAddr E s).intrq = 1 ∧
    (Do1793Command_readAddr E s).fdc_sec_len ≤ WD179X_MAX_SEC_LEN ∧
    (Do1793Command_readAddr E s).fdc_write_track = s.fdc_write_track ∧
    (((Do1793Command_readAddr E s).fdc_datacount = s.fdc_datacount ∧
        (Do1793Command_readAddr E s).fdc_dataindex = s.fdc_dataindex) ∨
      ((Do1793Command_readAddr E s).fdc_datacount = 6 ∧
        (Do1793Command_readAddr E s).fdc_dataindex = 0)) := by
  unfold Do1793Command_readAddr
  generalize hg : (if (pDrive s).track = 0xFF then setTrack s 0 else s) = s1
  have g1 : s1.fdc_write_track = s.fdc_write_track := by rw [← hg]; split_ifs <;> rfl
  have g2 : s1.fdc_datacount = s.fdc_datacount := by rw [← hg]; split_ifs <;> rfl
  have g3 : s1.fdc_dataindex = s.fdc_dataindex := by rw [← hg]; split_ifs <;> rfl
  clear hg
  dsimp only
  by_cases hn : invalidSecLen (computeSectorSize E s1)
  · rw [if_pos hn]
    split_ifs <;> refine ⟨rfl, Nat.zero_le _, g1, ?_⟩ <;>
      first
        | exact Or.inl ⟨g2, g3⟩
        | exact Or.inr ⟨rfl, rfl⟩
  · rw [if_neg hn]
    split_ifs <;> refine ⟨rfl, le_of_not_invalid _ hn, g1, ?_⟩ <;>
      first
        | exact Or.inl ⟨g2, g3⟩
        | exact Or.inr ⟨rfl, rfl⟩

theorem readAddr_intrq (E : Env Img) (s : WD179X_INFO Img) :
    (Do1793Command_readAddr E s).intrq = 1 :=
  (readAddr_fields E s).1

/-- The execution stage of a command that is neither of Type I nor of Type II keeps a pending
interrupt request. -/
theorem exec_intrq_keep (E : Env Img) (c : Nat) (s : WD179X_INFO Img) (h1 : ¬ isTypeI c)
    (h2 : ¬ isTypeII c) (hi : s.intrq = 1) : (Do1793Command_exec E c s).2.intrq = 1 := by
  by_cases hu : c &&& 0xF0 = WD179X_WRITE_RECS ∨ c &&& 0xF0 = WD179X_READ_TRACK
  · rw [exec_unimplemented E c s hu]; exact hi
  by_cases ha : c &&& 0xF0 = WD179X_READ_ADDR
  · rw [exec_readAddr E c s ha]; exact readAddr_intrq E s
  by_cases ht : c &&& 0xF0 = WD179X_WRITE_TRACK
  · rw [exec_writeTrack E c s ht]; exact hi
  by_cases hf : c &&& 0xF0 = WD179X_FORCE_INTR
  · rw [exec_forceIntr E c s hf]; exact forceIntr_intrq E c s hi
  rw [exec_other E c s h1 h2 (by unfold isTypeIII; tauto) hf]; exact hi

/-- The command handler keeps a pending interrupt request unless the command is of Type II. -/
theorem Do1793Command_intrq_keep (E : Env Img) (c : Nat) (s : WD179X_INFO Img)
    (hd : validDrive s) (h2 : ¬ isTypeII c) (hi : s.intrq = 1) :
    (Do1793Command E c s).2.intrq = 1 := by
  by_cases hb : s.fdc_status &&& WD179X_STAT_BUSY ≠ 0
  · rw [Do1793Command_busy E c s hd hb]; exact hi
  have hs : idle s := ⟨hd, not_not.mp hb⟩
  have hr : ¬ (c &&& 0xF0 = WD179X_READ_REC ∨ c &&& 0xF0 = WD179X_READ_RECS) :=
    fun h => h2 (typeII_of_read c h).2
  rw [Do1793Command_idle E c s hs, if_pos (exec_fst_of_not_read E c _ hr)]
  dsimp only
  by_cases h1 : isTypeI c
  · exact post_typeI_intrq E c _ h1
  have hx : (Do1793Command_exec E c (Do1793Command_setup c
      { s with fdc_status := s.fdc_status &&& (0xFF - WD179X_STAT_NOT_READY) })).2.intrq = 1 :=
    exec_intrq_keep E c _ h1 h2 ((setup_other_intrq c _ h1 h2).trans hi)
  by_cases h3 : isTypeIII c
  · rw [(post_typeII_III E c _ h1 (Or.inr h3)).2.2, hx]
    split_ifs <;> rfl
  · rw [post_other E c _ h1 h2 h3]
    exact hx

theorem Write_intrq_keep (E : Env Img) (s : WD179X_INFO Img) (Addr cData : Nat)
    (hi : s.intrq = 1) (hc : Addr &&& 0x3 = WD179X_STATUS → ¬ isTypeII cData) :
    (WD179X_Write E Addr cData s).2.intrq = 1 := by
  unfold WD179X_Write
  by_cases hsel : s.sel_drive ≥ WD179X_MAX_DRIVES
  · rw [if_pos hsel]; exact hi
  rw [if_neg hsel]
  by_cases hu : (pDrive s).uptr = false
  · rw [if_pos hu]; exact hi
  rw [if_neg hu]
  have hd : validDrive s := ⟨by omega, by simpa using hu⟩
  by_cases h0 : Addr &&& 0x3 = WD179X_STATUS
  · rw [if_pos h0]
    exact Do1793Command_intrq_keep E cData _ (validDrive_Write_clear s hd) (hc h0)
      ((Write_clear_fields s).2.2.2.2.2.1.trans hi)
  rw [if_neg h0]
  by_cases h1 : Addr &&& 0x3 = WD179X_TRACK
  · rw [if_pos h1]; exact hi
  rw [if_neg h1]
  by_cases h2 : Addr &&& 0x3 = WD179X_SECTOR
  · rw [if_pos h2]; exact hi
  rw [if_neg h2]
  by_cases h3 : Addr &&& 0x3 = WD179X_DATA
  · rw [if_pos h3]
    exact Write_track_intrq E cData _ (Write_sector_intrq E cData s hi)
  · rw [if_neg h3]; exact hi

/-- C26 (amended): with an interrupt request pending, a read of the Status port with a valid
drive selected clears it; a read of the Track or Sector port, a read of the Data port when
the controller is not in multi-sector mode, and every write of a port keep it, except the
write of a Type II command byte (READ_REC, READ_RECS, WRITE_REC, WRITE_RECS) to the command
port. -/
theorem C26_intrq_cleared_by_status_read (E : Env Img) (s : WD179X_INFO Img)
    (hi : s.intrq = 1) :
    (∀ Addr, s.sel_drive < WD179X_MAX_DRIVES → Addr &&& 0x3 = WD179X_STATUS →
        (WD179X_Read E Addr s).2.intrq = 0) ∧
    (∀ Addr, Addr &&& 0x3 ≠ WD179X_STATUS →
        (Addr &&& 0x3 = WD179X_DATA → s.fdc_multiple = FALSE) →
        (WD179X_Read E Addr s).2.intrq = 1) ∧
    (∀ Addr cData, (Addr &&& 0x3 = WD179X_STATUS → ¬ isTypeII cData) →
        (WD179X_Write E Addr cData s).2.intrq = 1) := by
  refine ⟨?_, ?_, ?_⟩
  · intro Addr hsel ha
    obtain ⟨st, v, h, -⟩ := Read_status_eq E s Addr hsel ha
    rw [h]
  · intro Addr ha hm
    exact Read_other_intrq E s Addr hi ha hm
  · intro Addr cData hc
    exact Write_intrq_keep E s Addr cData hi hc

/-- C26 on the demo machine with the interrupt of a RESTORE pending: the Status read clears
it, the Data read and the READ_ADDR command keep it. -/
theorem C26_witness :
    pendingState.intrq = 1 ∧
    (WD179X_Read demoEnv WD179X_STATUS pendingState).2.intrq = 0 ∧
    (WD179X_Read demoEnv WD179X_DATA pendingState).2.intrq = 1 ∧
    (WD179X_Write demoEnv WD179X_STATUS 0xC0 pendingState).2.intrq = 1 :=
  ⟨by decide,
   (C26_intrq_cleared_by_status_read demoEnv pendingState (by decide)).1 WD179X_STATUS
     (by decide) (by decide),
   (C26_intrq_cleared_by_status_read demoEnv pendingState (by decide)).2.1 WD179X_DATA
     (by decide) (fun _ => by decide),
   (C26_intrq_cleared_by_status_read demoEnv pendingState (by decide)).2.2 WD179X_STATUS 0xC0
     (fun _ => by decide)⟩

/-- C26 as stated fails: with the interrupt of a RESTORE pending, the write of the command
READ_REC (0x80) to the command port leaves `intrq = 0`, although no Status read took place. -/
theorem C26_counterexample :
    pendingState.intrq = 1 ∧
    (WD179X_Write demoEnv WD179X_STATUS 0x80 pendingState).2.intrq = 0 := by
  decide

/-! ## The invariant of the transfer cursor -/

theorem cursorInv_of_eq (s t : WD179X_INFO Img) (h1 : t.fdc_sec_len = s.fdc_sec_len)
    (h2 : t.fdc_datacount = s.fdc_datacount) (h3 : t.fdc_dataindex = s.fdc_dataindex)
    (h4 : t.fdc_write_track = s.fdc_write_track) (hs : cursorInv s) : cursorInv t := by
  unfold cursorInv at *
  rw [h1, h2, h3, h4]
  exact hs

/-- In format mode the invariant needs only the size code and the count. -/
theorem cursorInv_fmt (s t : WD179X_INFO Img) (h1 : t.fdc_sec_len ≤ WD179X_MAX_SEC_LEN)
    (h2 : t.fdc_datacount = s.fdc_datacount) (h4 : t.fdc_write_track = TRUE)
    (hs : cursorInv s) : cursorInv t := by
  unfold cursorInv at *
  rw [h2]
  exact ⟨h1, hs.2.1, fun h => absurd h4 h⟩

theorem shl_count_le (N : Nat) (h : N ≤ WD179X_MAX_SEC_LEN) :
    (128 <<< N) % 2 ^ 32 % 65536 ≤ 128 <<< WD179X_MAX_SEC_LEN := by
  unfold WD179X_MAX_SEC_LEN at *
  interval_cases N <;> decide

theorem sectorLen_le (s : WD179X_INFO Img) (h : s.fdc_sec_len ≤ WD179X_MAX_SEC_LEN) :
    WD179X_SECTOR_LEN_BYTES s % 65536 ≤ 128 <<< WD179X_MAX_SEC_LEN :=
  shl_count_le _ h

theorem sectRead_cursor (E : Env Img) (s : WD179X_INFO Img) (Cyl Head Sector buflen : Nat)
    (hs : cursorInv s) : cursorInv (wd179x_sectRead E s Cyl Head Sector buflen) := by
  rcases sectRead_cases E s Cyl Head Sector buflen with ⟨buf, ef, h⟩ | ⟨buf, h⟩
  · rw [h]
    exact ⟨hs.1, sectorLen_le s hs.1, fun _ => Nat.zero_le _⟩
  · rw [h]
    exact cursorInv_of_eq s _ rfl rfl rfl rfl hs

theorem Read_data_cursor (E : Env Img) (s : WD179X_INFO Img) (hs : cursorInv s) :
    cursorInv (WD179X_Read_data E s).2 := by
  unfold WD179X_Read_data
  by_cases hr : s.fdc_read = TRUE
  · rw [if_pos hr]
    by_cases hlt : s.fdc_dataindex < s.fdc_datacount
    · rw [if_pos hlt]
      dsimp only
      have hle : (s.fdc_dataindex + 1) % 65536 ≤ s.fdc_datacount :=
        le_trans (Nat.mod_le _ _) hlt
      by_cases hl : (s.fdc_dataindex + 1) % 65536 = s.fdc_datacount
      · rw [if_pos hl]
        by_cases hm : s.fdc_multiple = FALSE
        · rw [if_pos hm]
          exact ⟨hs.1, hs.2.1, fun _ => hle⟩
        · rw [if_neg hm]
          have e1 : ∀ a b, computeSectorSize E { s with fdc_status := a, fdc_dataindex := b }
              = computeSectorSize E s := fun _ _ => rfl
          rw [e1]
          by_cases hn : invalidSecLen (computeSectorSize E s)
          · rw [if_pos hn]
            exact ⟨Nat.zero_le _, hs.2.1, fun _ => hle⟩
          · rw [if_neg hn]
            split_ifs
            · exact ⟨le_of_not_invalid _ hn, hs.2.1, fun _ => hle⟩
            · exact sectRead_cursor E _ _ _ _ _ ⟨le_of_not_invalid _ hn, hs.2.1, fun _ => hle⟩
      · rw [if_neg hl]
        exact ⟨hs.1, hs.2.1, fun _ => hle⟩
    · rw [if_neg hlt]; exact hs
  · rw [if_neg hr]; exact hs

theorem Read_cursor (E : Env Img) (Addr : Nat) (s : WD179X_INFO Img) (hs : cursorInv s) :
    cursorInv (WD179X_Read E Addr s).2 := by
  by_cases hsel : s.sel_drive < WD179X_MAX_DRIVES
  · by_cases h0 : Addr &&& 0x3 = WD179X_STATUS
    · obtain ⟨st, v, h, -⟩ := Read_status_eq E s Addr hsel h0
      rw [h]
      exact cursorInv_of_eq s _ rfl rfl rfl rfl hs
    · unfold WD179X_Read
      rw [if_neg (by omega), if_neg h0]
      by_cases h1 : Addr &&& 0x3 = WD179X_TRACK
      · rw [if_pos h1]; exact hs
      · rw [if_neg h1]
        by_cases h2 : Addr &&& 0x3 = WD179X_SECTOR
        · rw [if_pos h2]; exact hs
        · rw [if_neg h2]
          by_cases h3 : Addr &&& 0x3 = WD179X_DATA
          · rw [if_pos h3]; exact Read_data_cursor E s hs
          · rw [if_neg h3]; exact hs
  · unfold WD179X_Read
    rw [if_pos (by omega)]
    exact hs

theorem Write_sector_cursor (E : Env Img) (b : Nat) (s : WD179X_INFO Img) (hs : cursorInv s) :
    cursorInv (WD179X_Write_sector E b s) := by
  unfold WD179X_Write_sector
  by_cases hw : s.fdc_write = TRUE
  · rw [if_pos hw]
    by_cases hlt : s.fdc_dataindex < s.fdc_datacount
    · rw [if_pos hlt]
      dsimp only
      have hle : (s.fdc_dataindex + 1) % 65536 ≤ s.fdc_datacount :=
        le_trans (Nat.mod_le _ _) hlt
      by_cases hl : (s.fdc_dataindex + 1) % 65536 = s.fdc_datacount
      · rw [if_pos hl]
        unfold cursorInv
        dsimp only
        simp only [sectWrite_fdc_sec_len, sectWrite_fdc_datacount, sectWrite_fdc_dataindex,
          sectWrite_fdc_write_track, raiseInterrupt_fdc_sec_len, raiseInterrupt_fdc_datacount,
          raiseInterrupt_fdc_dataindex, raiseInterrupt_fdc_write_track]
        exact ⟨hs.1, hs.2.1, fun _ => hle⟩
      · rw [if_neg hl]
        exact ⟨hs.1, hs.2.1, fun _ => hle⟩
    · rw [if_neg hlt]; exact hs
  · rw [if_neg hw]; exact hs

theorem endSector_cursor (E : Env Img) (s : WD179X_INFO Img) :
    (WD179X_Write_endSector E s).fdc_sec_len ≤ WD179X_MAX_SEC_LEN ∧
    (WD179X_Write_endSector E s).fdc_datacount = s.fdc_datacount ∧
    (WD179X_Write_endSector E s).fdc_write_track = s.fdc_write_track := by
  unfold WD179X_Write_endSector
  generalize (floorlog2 s.fdc_dataindex + 256 - 7) % 256 = n
  by_cases c1 : invalidSecLen n <;>
    by_cases c2 : s.fdc_fmt_sector_count ≥ WD179X_MAX_SECTOR <;>
    simp only [c1, if_true, if_false] <;>
    simp only [c2, if_true, if_false] <;>
    simp only [clearGap] <;>
    split_ifs <;>
    (try simp only [setDrive, raiseInterrupt_fdc_sec_len, raiseInterrupt_fdc_datacount,
      raiseInterrupt_fdc_write_track, trackWrite_fdc_sec_len, trackWrite_fdc_datacount,
      trackWrite_fdc_write_track]) <;>
    first
      | exact ⟨Nat.zero_le _, rfl, rfl⟩
      | exact ⟨le_of_not_invalid _ c1, rfl, rfl⟩
      | exact ⟨Nat.zero_le _, trivial, trivial⟩
      | exact ⟨le_of_not_invalid _ c1, trivial, trivial⟩

theorem Write_track_cursor (E : Env Img) (b : Nat) (s : WD179X_INFO Img) (hs : cursorInv s) :
    cursorInv (WD179X_Write_track E b s) := by
  unfold WD179X_Write_track
  by_cases h0 : s.fdc_write_track = TRUE
  · rw [if_pos h0]
    by_cases h1 : s.fdc_fmt_state = FMT_GAP1
    · rw [if_pos h1]; split_ifs <;> exact cursorInv_fmt s _ hs.1 rfl h0 hs
    · rw [if_neg h1]
      by_cases h2 : s.fdc_fmt_state = FMT_GAP2
      · rw [if_pos h2]; split_ifs <;> exact cursorInv_fmt s _ hs.1 rfl h0 hs
      · rw [if_neg h2]
        by_cases h3 : s.fdc_fmt_state = FMT_HEADER
        · rw [if_pos h3]; dsimp only; split_ifs <;> exact cursorInv_fmt s _ hs.1 rfl h0 hs
        · rw [if_neg h3]
          by_cases h4 : s.fdc_fmt_state = FMT_GAP3
          · rw [if_pos h4]; split_ifs <;> exact cursorInv_fmt s _ hs.1 rfl h0 hs
          · rw [if_neg h4]
            by_cases h5 : s.fdc_fmt_state = FMT_DATA
            · rw [if_pos h5]
              by_cases h6 : b ≠ 0xF7
              · rw [if_pos h6]; exact cursorInv_fmt s _ hs.1 rfl h0 hs
              · rw [if_neg h6]
                obtain ⟨e1, e2, e3⟩ := endSector_cursor E s
                exact cursorInv_fmt s _ e1 e2 (e3.trans h0) hs
            · rw [if_neg h5]; exact hs
  · rw [if_neg h0]; exact hs

theorem exec_typeI_fdc_sec_len (E : Env Img) (c : Nat) (s : WD179X_INFO Img)
    (hc : isTypeI c) : (Do1793Command_exec E c s).2.fdc_sec_len = s.fdc_sec_len := by
  unfold isTypeI at hc
  unfold Do1793Command_exec
  rcases hc with h | h | h | h | h | h | h | h <;>
    (rw [h]; simp [WD179X_RESTORE, WD179X_SEEK, WD179X_STEP, WD179X_STEP_U, WD179X_STEP_IN,
      WD179X_STEP_IN_U, WD179X_STEP_OUT, WD179X_STEP_OUT_U, setTrack, setDrive];
     all_goals (split_ifs <;> rfl))

theorem exec_typeI_fdc_datacount (E : Env Img) (c : Nat) (s : WD179X_INFO Img)
    (hc : isTypeI c) : (Do1793Command_exec E c s).2.fdc_datacount = s.fdc_datacount := by
  unfold isTypeI at hc
  unfold Do1793Command_exec
  rcases hc with h | h | h | h | h | h | h | h <;>
    (rw [h]; simp [WD179X_RESTORE, WD179X_SEEK, WD179X_STEP, WD179X_STEP_U, WD179X_STEP_IN,
      WD179X_STEP_IN_U, WD179X_STEP_OUT, WD179X_STEP_OUT_U, setTrack, setDrive];
     all_goals (split_ifs <;> rfl))

theorem exec_typeI_fdc_dataindex (E : Env Img) (c : Nat) (s : WD179X_INFO Img)
    (hc : isTypeI c) : (Do1793Command_exec E c s).2.fdc_dataindex = s.fdc_dataindex := by
  unfold isTypeI at hc
  unfold Do1793Command_exec
  rcases hc with h | h | h | h | h | h | h | h <;>
    (rw [h]; simp [WD179X_RESTORE, WD179X_SEEK, WD179X_STEP, WD179X_STEP_U, WD179X_STEP_IN,
      WD179X_STEP_IN_U, WD179X_STEP_OUT, WD179X_STEP_OUT_U, setTrack, setDrive];
     all_goals (split_ifs <;> rfl))

theorem exec_typeI_fdc_write_track (E : Env Img) (c : Nat) (s : WD179X_INFO Img)
    (hc : isTypeI c) : (Do1793Command_exec E c s).2.fdc_write_track = s.fdc_write_track := by
  unfold isTypeI at hc
  unfold Do1793Command_exec
  rcases hc with h | h | h | h | h | h | h | h <;>
    (rw [h]; simp [WD179X_RESTORE, WD179X_SEEK, WD179X_STEP, WD179X_STEP_U, WD179X_STEP_IN,
      WD179X_STEP_IN_U, WD179X_STEP_OUT, WD179X_STEP_OUT_U, setTrack, setDrive];
     all_goals (split_ifs <;> rfl))

theorem read_cursor (E : Env Img) (c : Nat) (s : WD179X_INFO Img) (hs : cursorInv s) :
    cursorInv (Do1793Command_read E c s).2 := by
  by_cases hn : invalidSecLen (computeSectorSize E s)
  · rw [read_invalid E c s hn]
    exact ⟨Nat.zero_le _, hs.2.1, hs.2.2⟩
  by_cases hm : testMode E s ≠ 0
  · rw [read_mismatch E c s hn hm]
    exact ⟨le_of_not_invalid _ hn, hs.2.1, hs.2.2⟩
  · rw [read_fetch E c s hn (not_not.mp hm)]
    exact sectRead_cursor E _ _ _ _ _ ⟨le_of_not_invalid _ hn, hs.2.1, hs.2.2⟩

theorem write_cursor (E : Env Img) (s : WD179X_INFO Img) :
    cursorInv (Do1793Command_write E s) := by
  have hN : (if invalidSecLen (computeSectorSize E s) then 0 else computeSectorSize E s)
      ≤ WD179X_MAX_SEC_LEN := by
    split_ifs with hn
    · exact Nat.zero_le _
    · exact le_of_not_invalid _ hn
  by_cases h : s.external_fifo_len = 0
  · rw [write_noFifo E s h]
    exact ⟨hN, shl_count_le _ hN, fun _ => Nat.zero_le _⟩
  · have hc : (Do1793Command_write E s).fdc_sec_len
        = (if invalidSecLen (computeSectorSize E s) then 0 else computeSectorSize E s) ∧
      (Do1793Command_write E s).fdc_datacount
        = (128 <<< (if invalidSecLen (computeSectorSize E s) then 0
            else computeSectorSize E s)) % 2 ^ 32 % 65536 ∧
      (Do1793Command_write E s).fdc_dataindex = 0 := by
      unfold Do1793Command_write
      dsimp only
      by_cases hn : invalidSecLen (computeSectorSize E s)
      · simp only [if_pos hn, if_pos h]
        simp only [sectWrite_fdc_sec_len, sectWrite_fdc_datacount, sectWrite_fdc_dataindex,
          raiseInterrupt_fdc_sec_len, raiseInterrupt_fdc_datacount,
          raiseInterrupt_fdc_dataindex]
        exact ⟨trivial, rfl, trivial⟩
      · simp only [if_neg hn, if_pos h]
        simp only [sectWrite_fdc_sec_len, sectWrite_fdc_datacount, sectWrite_fdc_dataindex,
          raiseInterrupt_fdc_sec_len, raiseInterrupt_fdc_datacount,
          raiseInterrupt_fdc_dataindex]
        exact ⟨trivial, rfl, trivial⟩
    obtain ⟨c1, c2, c3⟩ := hc
    unfold cursorInv
    rw [c1, c2, c3]
    exact ⟨hN, shl_count_le _ hN, fun _ => Nat.zero_le _⟩

theorem readAddr_cursor (E : Env Img) (s : WD179X_INFO Img) (hs : cursorInv s) :
    cursorInv (Do1793Command_readAddr E s) := by
  obtain ⟨-, f2, f3, f4⟩ := readAddr_fields E s
  unfold cursorInv
  rw [f3]
  rcases f4 with ⟨a, b⟩ | ⟨a, b⟩
  · rw [a, b]
    exact ⟨f2, hs.2.1, hs.2.2⟩
  · rw [a, b]
    exact ⟨f2, by decide, fun _ => Nat.zero_le _⟩

theorem writeTrack_cursor (s : WD179X_INFO Img) (hs : cursorInv s) :
    cursorInv (Do1793Command_writeTrack s) :=
  ⟨hs.1, sectorLen_le s hs.1, fun _ => Nat.zero_le _⟩

theorem forceIntr_cursor (E : Env Img) (c : Nat) (s : WD179X_INFO Img) (hs : cursorInv s) :
    cursorInv (Do1793Command_forceIntr E c s) := by
  unfold Do1793Command_forceIntr
  by_cases h0 : c &&& 0x0F = 0
  · rw [if_pos h0]
    exact ⟨hs.1, Nat.zero_le _, fun _ => Nat.le_refl _⟩
  · rw [if_neg h0]
    dsimp only
    split_ifs <;>
      first
        | exact cursorInv_of_eq s _ rfl rfl rfl rfl hs
        | exact cursorInv_of_eq s _ (raiseInterrupt_fdc_sec_len _)
            (raiseInterrupt_fdc_datacount _) (raiseInterrupt_fdc_dataindex _)
            (raiseInterrupt_fdc_write_track _) hs

/-- The execution stage keeps the invariant of the cursor. -/
theorem exec_cursor (E : Env Img) (c : Nat) (s : WD179X_INFO Img) (hs : cursorInv s) :
    cursorInv (Do1793Command_exec E c s).2 := by
  by_cases h1 : isTypeI c
  · exact cursorInv_of_eq s _ (exec_typeI_fdc_sec_len E c s h1)
      (exec_typeI_fdc_datacount E c s h1) (exec_typeI_fdc_dataindex E c s h1)
      (exec_typeI_fdc_write_track E c s h1) hs
  by_cases hr : c &&& 0xF0 = WD179X_READ_REC ∨ c &&& 0xF0 = WD179X_READ_RECS
  · rw [exec_read E c s hr]; exact read_cursor E c s hs
  by_cases hw : c &&& 0xF0 = WD179X_WRITE_REC
  · rw [exec_writeRec E c s hw]; exact write_cursor E s
  by_cases hu : c &&& 0xF0 = WD179X_WRITE_RECS ∨ c &&& 0xF0 = WD179X_READ_TRACK
  · rw [exec_unimplemented E c s hu]; exact hs
  by_cases ha : c &&& 0xF0 = WD179X_READ_ADDR
  · rw [exec_readAddr E c s ha]; exact readAddr_cursor E s hs
  by_cases ht : c &&& 0xF0 = WD179X_WRITE_TRACK
  · rw [exec_writeTrack E c s ht]; exact writeTrack_cursor s hs
  by_cases hf : c &&& 0xF0 = WD179X_FORCE_INTR
  · rw [exec_forceIntr E c s hf]; exact forceIntr_cursor E c s hs
  rw [exec_other E c s h1 (by unfold isTypeII; tauto) (by unfold isTypeIII; tauto) hf]
  exact hs

/-- The command handler keeps the invariant of the cursor. -/
theorem Do1793Command_cursor (E : Env Img) (c : Nat) (s : WD179X_INFO Img)
    (hs : cursorInv s) : cursorInv (Do1793Command E c s).2 := by
  by_cases hi : idle s
  · rw [Do1793Command_idle E c s hi]
    have hx := exec_cursor E c (Do1793Command_setup c
      { s with fdc_status := s.fdc_status &&& (0xFF - WD179X_STAT_NOT_READY) })
      (cursorInv_of_eq s _ (setup_fdc_sec_len c _) (setup_fdc_datacount c _)
        (setup_fdc_dataindex c _) (setup_fdc_write_track c _) hs)
    split_ifs
    · exact cursorInv_of_eq _ _ (post_fdc_sec_len E c _) (post_fdc_datacount E c _)
        (post_fdc_dataindex E c _) (post_fdc_write_track E c _) hx
    · exact hx
  · unfold Do1793Command
    by_cases h1 : s.sel_drive ≥ WD179X_MAX_DRIVES
    · rw [if_pos h1]; exact hs
    rw [if_neg h1]
    by_cases h2 : (pDrive s).uptr = false
    · rw [if_pos h2]; exact hs
    rw [if_neg h2]
    by_cases h3 : s.fdc_status &&& WD179X_STAT_BUSY ≠ 0
    · rw [if_pos h3]; exact hs
    exact absurd ⟨⟨by omega, by simpa using h2⟩, not_not.mp h3⟩ hi

theorem Write_clear_cursor (s : WD179X_INFO Img) (hs : cursorInv s) :
    cursorInv (WD179X_Write_clear s) := by
  obtain ⟨_, f2, f3, _, _, _, f7, f8⟩ := Write_clear_fields s
  unfold cursorInv
  rw [f2, f3, f8]
  exact ⟨hs.1, Nat.zero_le _, fun _ => Nat.le_refl _⟩

theorem Write_cursor (E : Env Img) (Addr cData : Nat) (s : WD179X_INFO Img)
    (hs : cursorInv s) : cursorInv (WD179X_Write E Addr cData s).2 := by
  unfold WD179X_Write
  by_cases hsel : s.sel_drive ≥ WD179X_MAX_DRIVES
  · rw [if_pos hsel]; exact hs
  rw [if_neg hsel]
  by_cases hu : (pDrive s).uptr = false
  · rw [if_pos hu]; exact hs
  rw [if_neg hu]
  by_cases h0 : Addr &&& 0x3 = WD179X_STATUS
  · rw [if_pos h0]
    exact Do1793Command_cursor E cData _ (Write_clear_cursor s hs)
  rw [if_neg h0]
  by_cases h1 : Addr &&& 0x3 = WD179X_TRACK
  · rw [if_pos h1]; exact cursorInv_of_eq s _ rfl rfl rfl rfl hs
  rw [if_neg h1]
  by_cases h2 : Addr &&& 0x3 = WD179X_SECTOR
  · rw [if_pos h2]; exact cursorInv_of_eq s _ rfl rfl rfl rfl hs
  rw [if_neg h2]
  by_cases h3 : Addr &&& 0x3 = WD179X_DATA
  · rw [if_pos h3]
    exact cursorInv_of_eq _ _ rfl rfl rfl rfl
      (Write_track_cursor E cData _ (Write_sector_cursor E cData s hs))
  · rw [if_neg h3]; exact hs

theorem portStep_cursor (E : Env Img) (op : PortOp) (s : WD179X_INFO Img)
    (hs : cursorInv s) : cursorInv (portStep E op s) := by
  cases op with
  | read Addr => exact Read_cursor E Addr s hs
  | write Addr cData => exact Write_cursor E Addr cData s hs

theorem runPorts_cursor (E : Env Img) (ops : List PortOp) (s : WD179X_INFO Img)
    (hs : cursorInv s) : cursorInv (runPorts E ops s) := by
  induction ops generalizing s with
  | nil => exact hs
  | cons op ops ih => exact ih _ (portStep_cursor E op s hs)

/-- C24 as stated fails: the demo machine satisfies the stated invariant, and after the port
writes that format one sector of 256 bytes the index is 256 while the count is 128. -/
theorem C24_counterexample :
    specCursorInv demoState ∧
    (runPorts demoEnv formatOps demoState).fdc_dataindex = 256 ∧
    (runPorts demoEnv formatOps demoState).fdc_datacount = 128 ∧
    ¬ specCursorInv (runPorts demoEnv formatOps demoState) := by
  decide!

/-! ## The integer logarithm `floorlog2` -/

theorem floorlog2_spec (n : Nat) (h1 : 1 ≤ n) (h2 : n < 2 ^ 32) :
    2 ^ floorlog2 n ≤ n ∧ n < 2 ^ (floorlog2 n + 1) := by
  unfold floorlog2
  simp only [Nat.shiftLeft_eq, Nat.shiftRight_eq_div_pow, Nat.reducePow, Nat.reduceMul,
    ge_iff_le] at h2 ⊢
  split_ifs <;> simp only [Nat.reducePow, Nat.reduceAdd, Nat.zero_add] <;> omega

theorem floorlog2_unique (n r : Nat) (h1 : 1 ≤ n) (h2 : n < 2 ^ 32) (hr1 : 2 ^ r ≤ n)
    (hr2 : n < 2 ^ (r + 1)) : r = floorlog2 n := by
  obtain ⟨a, b⟩ := floorlog2_spec n h1 h2
  have e1 : r < floorlog2 n + 1 :=
    (Nat.pow_lt_pow_iff_right (by decide : 1 < 2)).mp (Nat.lt_of_le_of_lt hr1 b)
  have e2 : floorlog2 n < r + 1 :=
    (Nat.pow_lt_pow_iff_right (by decide : 1 < 2)).mp (Nat.lt_of_le_of_lt a hr2)
  omega

theorem floorlog2_shl_eq (N : Nat) (hN : N ≤ 6) : floorlog2 (128 <<< N) = N + 7 := by
  interval_cases N <;> decide

/-- C40: for every 32-bit `n >= 1` the function `floorlog2` returns the unique `r` with
`2^r <= n < 2^(r+1)`, and for `n = 0` the error value 0xFF; hence
`floorlog2 (128 << N) - 7 = N` for every `N` in [0,6], and `floorlog2 0 - 7` is the sentinel
0xF8 in 8-bit arithmetic. -/
theorem C40_floorlog2_is_log2 :
    (∀ n, 1 ≤ n → n < 2 ^ 32 →
      2 ^ floorlog2 n ≤ n ∧ n < 2 ^ (floorlog2 n + 1) ∧
      ∀ r, 2 ^ r ≤ n → n < 2 ^ (r + 1) → r = floorlog2 n) ∧
    floorlog2 0 = 0xFF ∧
    (∀ N, N ≤ WD179X_MAX_SEC_LEN →
      floorlog2 (128 <<< N) = N + 7 ∧ (floorlog2 (128 <<< N) + 256 - 7) % 256 = N) ∧
    (floorlog2 0 + 256 - 7) % 256 = 0xF8 := by
  refine ⟨fun n h1 h2 => ?_, by decide, fun N hN => ?_, by decide⟩
  · obtain ⟨a, b⟩ := floorlog2_spec n h1 h2
    exact ⟨a, b, fun r hr1 hr2 => floorlog2_unique n r h1 h2 hr1 hr2⟩
  · exact ⟨floorlog2_shl_eq N hN, floorlog2_shl N hN⟩

/-- Instances of C40: `floorlog2 300 = 8` is the only exponent `r` with `2^r <= 300 < 2^(r+1)`,
and `floorlog2 (128 << 3) - 7 = 3`. -/
theorem C40_witness :
    (2 ^ floorlog2 300 ≤ 300 ∧ 300 < 2 ^ (floorlog2 300 + 1)) ∧ 8 = floorlog2 300 ∧
    (floorlog2 (128 <<< 3) + 256 - 7) % 256 = 3 :=
  ⟨⟨(C40_floorlog2_is_log2.1 300 (by decide) (by decide)).1,
    (C40_floorlog2_is_log2.1 300 (by decide) (by decide)).2.1⟩,
   (C40_floorlog2_is_log2.1 300 (by decide) (by decide)).2.2 8 (by decide) (by decide),
   (C40_floorlog2_is_log2.2.2.1 3 (by decide)).2⟩

/-! ## The sector size derived at the end of a formatted sector -/

theorem endSector_sec_len (E : Env Img) (s : WD179X_INFO Img) :
    (WD179X_Write_endSector E s).fdc_sec_len
      = (if invalidSecLen ((floorlog2 s.fdc_dataindex + 256 - 7) % 256) then 0
         else (floorlog2 s.fdc_dataindex + 256 - 7) % 256) := by
  unfold WD179X_Write_endSector
  generalize (floorlog2 s.fdc_dataindex + 256 - 7) % 256 = n
  by_cases c1 : invalidSecLen n <;>
    by_cases c2 : s.fdc_fmt_sector_count ≥ WD179X_MAX_SECTOR <;>
    simp only [c1, if_true, if_false] <;>
    simp only [c2, if_true, if_false] <;>
    simp only [clearGap] <;>
    split_ifs <;>
    (try simp only [setDrive, raiseInterrupt_fdc_sec_len, trackWrite_fdc_sec_len])

/-- The size code that the byte count `c` of a formatted sector gives: invalid exactly when
`c < 128` or `c >= 16384`, and otherwise the integer logarithm of `c` less 7. -/
theorem size_code_cases (c : Nat) (hc : c < 65536) :
    (invalidSecLen ((floorlog2 c + 256 - 7) % 256) ↔ (c < 128 ∨ 16384 ≤ c)) ∧
    (128 ≤ c → c < 16384 →
      2 ^ ((floorlog2 c + 256 - 7) % 256 + 7) ≤ c ∧
      c < 2 ^ ((floorlog2 c + 256 - 7) % 256 + 8)) := by
  unfold invalidSecLen WD179X_MAX_SEC_LEN
  by_cases h0 : c = 0
  · subst h0
    rw [show floorlog2 0 = 0xFF from by decide]
    exact ⟨by decide, fun h => absurd h (by decide)⟩
  · have h1 : 1 ≤ c := Nat.one_le_iff_ne_zero.mpr h0
    obtain ⟨a, b⟩ := floorlog2_spec c h1 (Nat.lt_trans hc (by decide))
    generalize floorlog2 c = f at a b
    have f16 : f < 16 :=
      (Nat.pow_lt_pow_iff_right (by decide : 1 < 2)).mp (Nat.lt_of_le_of_lt a hc)
    by_cases hlo : c < 128
    · have f7 : f < 7 :=
        (Nat.pow_lt_pow_iff_right (by decide : 1 < 2)).mp (Nat.lt_of_le_of_lt a hlo)
      refine ⟨⟨fun _ => Or.inl hlo, fun _ => ?_⟩, fun h => absurd hlo (Nat.not_lt.mpr h)⟩
      omega
    · by_cases hhi : c < 16384
      · have f14 : f < 14 :=
          (Nat.pow_lt_pow_iff_right (by decide : 1 < 2)).mp (Nat.lt_of_le_of_lt a hhi)
        have f7 : 7 < f + 1 :=
          (Nat.pow_lt_pow_iff_right (by decide : 1 < 2)).mp
            (Nat.lt_of_le_of_lt (Nat.not_lt.mp hlo) b)
        have e : (f + 256 - 7) % 256 = f - 7 := by omega
        rw [e]
        have e7 : f - 7 + 7 = f := by omega
        have e8 : f - 7 + 8 = f + 1 := by omega
        rw [e7, e8]
        refine ⟨⟨fun h => ?_, fun h => ?_⟩, fun _ _ => ⟨a, b⟩⟩
        · omega
        · omega
      · have f14 : 14 < f + 1 :=
          (Nat.pow_lt_pow_iff_right (by decide : 1 < 2)).mp
            (Nat.lt_of_le_of_lt (Nat.not_lt.mp hhi) b)
        refine ⟨⟨fun _ => Or.inr (Nat.not_lt.mp hhi), fun _ => ?_⟩,
          fun _ h => absurd h hhi⟩
        omega

/-- C32 (amended): in the format Data state, when the terminating 0xF7 arrives after `c`
accumulated data bytes that fit the sector buffer (`c <= 8192`): if `c = 128 << k` with `k` in
[0,6] the sector-length code becomes `k`; for every `c` from 128 on the size is accepted and
the code becomes the integer logarithm of `c` less 7, that is the `N` in [0,6] with
`128 << N <= c < 128 << (N + 1)`; the invalid-size branch is taken, and the code reset to 0,
exactly when `c < 128`. -/
theorem C32_format_sector_size (E : Env Img) (s : WD179X_INFO Img) (h : fmtMode s)
    (hst : s.fdc_fmt_state = FMT_DATA) (hc : s.fdc_dataindex ≤ WD179X_SECTOR_LEN) :
    (∀ k, k ≤ WD179X_MAX_SEC_LEN → s.fdc_dataindex = 128 <<< k →
      (WD179X_Write E WD179X_DATA 0xF7 s).2.fdc_sec_len = k) ∧
    (128 ≤ s.fdc_dataindex →
      ¬ invalidSecLen ((floorlog2 s.fdc_dataindex + 256 - 7) % 256) ∧
      (WD179X_Write E WD179X_DATA 0xF7 s).2.fdc_sec_len ≤ WD179X_MAX_SEC_LEN ∧
      2 ^ ((WD179X_Write E WD179X_DATA 0xF7 s).2.fdc_sec_len + 7) ≤ s.fdc_dataindex ∧
      s.fdc_dataindex < 2 ^ ((WD179X_Write E WD179X_DATA 0xF7 s).2.fdc_sec_len + 8)) ∧
    (s.fdc_dataindex < 128 →
      invalidSecLen ((floorlog2 s.fdc_dataindex + 256 - 7) % 256) ∧
      (WD179X_Write E WD179X_DATA 0xF7 s).2.fdc_sec_len = 0) := by
  have e : (WD179X_Write E WD179X_DATA 0xF7 s).2.fdc_sec_len
      = (if invalidSecLen ((floorlog2 s.fdc_dataindex + 256 - 7) % 256) then 0
         else (floorlog2 s.fdc_dataindex + 256 - 7) % 256) := by
    have e0 := endSector_sec_len E s
    rw [fmt_step_F7 E s h hst]
    dsimp only
    exact e0
  unfold WD179X_SECTOR_LEN at hc
  obtain ⟨q1, q2⟩ := size_code_cases s.fdc_dataindex (by omega)
  refine ⟨fun k hk hx => ?_, fun h1 => ?_, fun h1 => ?_⟩
  · rw [e, hx, floorlog2_shl k hk, if_neg (not_invalid_of_le k hk)]
  · have hv : ¬ invalidSecLen ((floorlog2 s.fdc_dataindex + 256 - 7) % 256) := by
      rw [q1]
      omega
    rw [e, if_neg hv]
    exact ⟨hv, le_of_not_invalid _ hv, q2 h1 (by omega)⟩
  · have hv : invalidSecLen ((floorlog2 s.fdc_dataindex + 256 - 7) % 256) :=
      q1.mpr (Or.inl h1)
    rw [e, if_pos hv]
    exact ⟨hv, rfl⟩

/-- Instance of C32 on the demo machine: 300 data bytes followed by 0xF7 are accepted as a
sector with a size code `N` such that `128 << N <= 300 < 128 << (N + 1)`. -/
theorem C32_witness :
    fmtMode (fmtDataState 300) ∧ (fmtDataState 300).fdc_dataindex = 300 ∧
    ¬ invalidSecLen ((floorlog2 (fmtDataState 300).fdc_dataindex + 256 - 7) % 256) ∧
    2 ^ ((WD179X_Write demoEnv WD179X_DATA 0xF7 (fmtDataState 300)).2.fdc_sec_len + 7)
      ≤ (fmtDataState 300).fdc_dataindex ∧
    (fmtDataState 300).fdc_dataindex
      < 2 ^ ((WD179X_Write demoEnv WD179X_DATA 0xF7 (fmtDataState 300)).2.fdc_sec_len + 8) :=
  have h := (C32_format_sector_size demoEnv (fmtDataState 300) (by decide!) (by decide!)
      (by decide!)).2.1 (by decide!)
  ⟨by decide!, by decide!, h.1, h.2.2⟩

/-- Counterexample to C32 as stated: 300 is not a power-of-two sector size, yet 0xF7 after
300 data bytes is not handled as invalid: the sector-length code becomes 1. -/
theorem C32_counterexample :
    (fmtDataState 300).fdc_fmt_state = FMT_DATA ∧ (fmtDataState 300).fdc_dataindex = 300 ∧
    (∀ k, k ≤ 6 → 300 ≠ 128 <<< k) ∧
    ¬ invalidSecLen ((floorlog2 300 + 256 - 7) % 256) ∧
    (WD179X_Write demoEnv WD179X_DATA 0xF7 (fmtDataState 300)).2.fdc_sec_len = 1 := by
  decide!

/-! ## The header of a formatted sector -/

theorem fmt_step_pad_eq (E : Env Img) (b : Nat) (s : WD179X_INFO Img) (h : fmtMode s)
    (hst : s.fdc_fmt_state = FMT_HEADER) (hi : s.fdc_header_index = 5) :
    (WD179X_Write E WD179X_DATA b s).2
      = { clearGap s 2 with fdc_fmt_state := FMT_GAP3, fdc_data := b } := by
  rw [fmt_step E _ s h]
  unfold WD179X_Write_track
  rw [if_pos h.2.2, if_neg (by rw [hst]; decide), if_neg (by rw [hst]; decide), if_pos hst,
    if_pos hi]

/-- C31 (amended): in the format Header state six Data writes are consumed.  Bytes 0, 1, 2
set the drive track, the head and the sector register, bytes 3 and 4 are ignored (apart from
the Data register only the bytes 0, 1, 2 show in the state), and after the fifth byte the
state is still Header with the header index 5.  The sixth byte, whatever its value, is
consumed by the move to Gap3, which clears the gap counter; a 0xFB moves the machine to the
Data state only from the seventh byte on. -/
theorem C31_format_header_bytes (E : Env Img) (s : WD179X_INFO Img) (c hd sc ln crc b : Nat)
    (h : fmtMode s) (hst : s.fdc_fmt_state = FMT_HEADER) (hi : s.fdc_header_index = 0) :
    dataWrites E [c, hd, sc, ln, crc] s = { setTrack s c with
      fdc_head := hd, fdc_sector := sc, fdc_header_index := 5, fdc_data := crc } ∧
    (pDrive (dataWrites E [c, hd, sc, ln, crc] s)).track = c ∧
    (dataWrites E [c, hd, sc, ln, crc] s).fdc_fmt_state = FMT_HEADER ∧
    dataWrites E [c, hd, sc, ln, crc, b] s = { clearGap (setTrack s c) 2 with
      fdc_head := hd, fdc_sector := sc, fdc_header_index := 5, fdc_fmt_state := FMT_GAP3,
      fdc_data := b } ∧
    (dataWrites E [c, hd, sc, ln, crc, b] s).fdc_fmt_state = FMT_GAP3 ∧
    (dataWrites E [c, hd, sc, ln, crc, b] s).fdc_gap 2 = 0 ∧
    (dataWrites E [c, hd, sc, ln, crc, b, 0xFB] s).fdc_fmt_state = FMT_DATA ∧
    (dataWrites E [c, hd, sc, ln, crc, b, 0xFB] s).fdc_dataindex = 0 := by
  have h5 := fmt_header E c hd sc ln crc s h hst hi
  have m0 := fmtMode_setTrack s c h
  have e6 : dataWrites E [c, hd, sc, ln, crc, b] s = { clearGap (setTrack s c) 2 with
      fdc_head := hd, fdc_sector := sc, fdc_header_index := 5, fdc_fmt_state := FMT_GAP3,
      fdc_data := b } := by
    rw [show [c, hd, sc, ln, crc, b] = [c, hd, sc, ln, crc] ++ [b] from rfl,
      dataWrites_append, h5, fmt_step_pad_eq E b _ (by exact m0) (by exact hst) rfl]
    rfl
  have e7 : dataWrites E [c, hd, sc, ln, crc, b, 0xFB] s = { clearGap (setTrack s c) 2 with
      fdc_head := hd, fdc_sector := sc, fdc_header_index := 5, fdc_fmt_state := FMT_DATA,
      fdc_dataindex := 0, fdc_data := 0xFB } := by
    rw [show [c, hd, sc, ln, crc, b, 0xFB] = [c, hd, sc, ln, crc, b] ++ [0xFB] from rfl,
      dataWrites_append, e6, fmt_step_FB E _ (by exact m0) rfl]
  refine ⟨h5, ?_, ?_, e6, ?_, ?_, ?_, ?_⟩
  · rw [h5]
    exact pDrive_setTrack_track s c
  · rw [h5]
    exact hst
  · rw [e6]
  · rw [e6]
    rfl
  · rw [e7]
  · rw [e7]

/-- Instance of C31 on the demo machine: the ID field 0, 0, 1, 1, 0xF7 leaves the state
Header, the byte 0x4E after it moves to Gap3, and the following 0xFB to Data. -/
theorem C31_witness :
    fmtMode headerState ∧
    (dataWrites demoEnv [0, 0, 1, 1, 0xF7] headerState).fdc_fmt_state = FMT_HEADER ∧
    (dataWrites demoEnv [0, 0, 1, 1, 0xF7, 0x4E] headerState).fdc_fmt_state = FMT_GAP3 ∧
    (dataWrites demoEnv [0, 0, 1, 1, 0xF7, 0x4E, 0xFB] headerState).fdc_fmt_state
      = FMT_DATA :=
  ⟨by decide,
   (C31_format_header_bytes demoEnv headerState 0 0 1 1 0xF7 0x4E (by decide) (by decide)
      (by decide)).2.2.1,
   (C31_format_header_bytes demoEnv headerState 0 0 1 1 0xF7 0x4E (by decide) (by decide)
      (by decide)).2.2.2.2.1,
   (C31_format_header_bytes demoEnv headerState 0 0 1 1 0xF7 0x4E (by decide) (by decide)
      (by decide)).2.2.2.2.2.2.1⟩

/-- Counterexample to C31 as stated: after the five bytes of the ID field the state is still
Header, and a 0xFB written immediately after them is swallowed: the machine is then in the
state Gap3, not in the state Data. -/
theorem C31_counterexample :
    headerState.fdc_fmt_state = FMT_HEADER ∧ headerState.fdc_header_index = 0 ∧
    (dataWrites demoEnv [0, 0, 1, 1, 0xF7] headerState).fdc_fmt_state = FMT_HEADER ∧
    (dataWrites demoEnv [0, 0, 1, 1, 0xF7, 0xFB] headerState).fdc_fmt_state = FMT_GAP3 ∧
    (dataWrites demoEnv [0, 0, 1, 1, 0xF7, 0xFB] headerState).fdc_fmt_state ≠ FMT_DATA := by
  decide

/-! ## The bounds of the sector map -/

theorem Write_sector_fdc_write_track (E : Env Img) (b : Nat) (s : WD179X_INFO Img) :
    (WD179X_Write_sector E b s).fdc_write_track = s.fdc_write_track := by
  unfold WD179X_Write_sector
  dsimp only
  split_ifs
  · dsimp only
    rw [sectWrite_fdc_write_track, raiseInterrupt_fdc_write_track]
  · rfl
  · rfl
  · rfl

theorem Write_sector_fdc_fmt_state (E : Env Img) (b : Nat) (s : WD179X_INFO Img) :
    (WD179X_Write_sector E b s).fdc_fmt_state = s.fdc_fmt_state := by
  unfold WD179X_Write_sector
  dsimp only
  split_ifs
  · dsimp only
    rw [sectWrite_fdc_fmt_state, raiseInterrupt_fdc_fmt_state]
  · rfl
  · rfl
  · rfl

theorem Write_sector_fdc_fmt_sector_count (E : Env Img) (b : Nat) (s : WD179X_INFO Img) :
    (WD179X_Write_sector E b s).fdc_fmt_sector_count = s.fdc_fmt_sector_count := by
  unfold WD179X_Write_sector
  dsimp only
  split_ifs
  · dsimp only
    rw [sectWrite_fdc_fmt_sector_count, raiseInterrupt_fdc_fmt_sector_count]
  · rfl
  · rfl
  · rfl

theorem Write_sector_fdc_sector (E : Env Img) (b : Nat) (s : WD179X_INFO Img) :
    (WD179X_Write_sector E b s).fdc_sector = s.fdc_sector := by
  unfold WD179X_Write_sector
  dsimp only
  split_ifs
  · dsimp only
    rw [sectWrite_fdc_sector, raiseInterrupt_fdc_sector]
  · rfl
  · rfl
  · rfl

theorem Write_sector_fdc_sectormap (E : Env Img) (b : Nat) (s : WD179X_INFO Img) :
    (WD179X_Write_sector E b s).fdc_sectormap = s.fdc_sectormap := by
  unfold WD179X_Write_sector
  dsimp only
  split_ifs
  · dsimp only
    rw [sectWrite_fdc_sectormap, raiseInterrupt_fdc_sectormap]
  · rfl
  · rfl
  · rfl

theorem Write_sector_ddens (E : Env Img) (b : Nat) (s : WD179X_INFO Img) :
    (WD179X_Write_sector E b s).ddens = s.ddens := by
  unfold WD179X_Write_sector
  dsimp only
  split_ifs
  · dsimp only
    rw [sectWrite_ddens, raiseInterrupt_ddens]
  · rfl
  · rfl
  · rfl

theorem Write_sector_fdc_sec_len (E : Env Img) (b : Nat) (s : WD179X_INFO Img) :
    (WD179X_Write_sector E b s).fdc_sec_len = s.fdc_sec_len := by
  unfold WD179X_Write_sector
  dsimp only
  split_ifs
  · dsimp only
    rw [sectWrite_fdc_sec_len, raiseInterrupt_fdc_sec_len]
  · rfl
  · rfl
  · rfl

theorem Write_sector_sel_drive (E : Env Img) (b : Nat) (s : WD179X_INFO Img) :
    (WD179X_Write_sector E b s).sel_drive = s.sel_drive := by
  unfold WD179X_Write_sector
  dsimp only
  split_ifs
  · dsimp only
    rw [sectWrite_sel_drive, raiseInterrupt_sel_drive]
  · rfl
  · rfl
  · rfl

theorem endSector_map (E : Env Img) (s : WD179X_INFO Img) :
    (WD179X_Write_endSector E s).fdc_sectormap
      = (fun i => if i = (if s.fdc_fmt_sector_count ≥ WD179X_MAX_SECTOR then 0
            else s.fdc_fmt_sector_count) then s.fdc_sector else s.fdc_sectormap i) ∧
    (WD179X_Write_endSector E s).fdc_fmt_sector_count
      = (if s.fdc_fmt_sector_count ≥ WD179X_MAX_SECTOR then 0
          else s.fdc_fmt_sector_count) + 1 := by
  unfold WD179X_Write_endSector
  generalize (floorlog2 s.fdc_dataindex + 256 - 7) % 256 = n
  have hmod : ¬ s.fdc_fmt_sector_count ≥ WD179X_MAX_SECTOR →
      (s.fdc_fmt_sector_count + 1) % 256 = s.fdc_fmt_sector_count + 1 := by
    unfold WD179X_MAX_SECTOR
    intro h
    omega
  by_cases c1 : invalidSecLen n <;>
    by_cases c2 : s.fdc_fmt_sector_count ≥ WD179X_MAX_SECTOR <;>
    simp only [c1, if_true, if_false] <;>
    simp only [c2, if_true, if_false] <;>
    simp only [clearGap] <;>
    split_ifs <;>
    (try simp only [setDrive, raiseInterrupt_fdc_sectormap,
      raiseInterrupt_fdc_fmt_sector_count, trackWrite_fdc_sectormap,
      trackWrite_fdc_fmt_sector_count]) <;>
    first
      | exact ⟨rfl, rfl⟩
      | exact ⟨trivial, trivial⟩
      | exact ⟨rfl, hmod c2⟩
      | exact ⟨trivial, hmod c2⟩

theorem Write_track_map (E : Env Img) (b : Nat) (s : WD179X_INFO Img)
    (h : ¬ (s.fdc_write_track = TRUE ∧ s.fdc_fmt_state = FMT_DATA ∧ b = 0xF7)) :
    (WD179X_Write_track E b s).fdc_sectormap = s.fdc_sectormap ∧
    (WD179X_Write_track E b s).fdc_fmt_sector_count = s.fdc_fmt_sector_count := by
  unfold WD179X_Write_track
  by_cases h0 : s.fdc_write_track = TRUE
  · rw [if_pos h0]
    by_cases h1 : s.fdc_fmt_state = FMT_GAP1
    · rw [if_pos h1]; split_ifs <;> exact ⟨rfl, rfl⟩
    · rw [if_neg h1]
      by_cases h2 : s.fdc_fmt_state = FMT_GAP2
      · rw [if_pos h2]; split_ifs <;> exact ⟨rfl, rfl⟩
      · rw [if_neg h2]
        by_cases h3 : s.fdc_fmt_state = FMT_HEADER
        · rw [if_pos h3]; dsimp only; split_ifs <;> exact ⟨rfl, rfl⟩
        · rw [if_neg h3]
          by_cases h4 : s.fdc_fmt_state = FMT_GAP3
          · rw [if_pos h4]; split_ifs <;> exact ⟨rfl, rfl⟩
          · rw [if_neg h4]
            by_cases h5 : s.fdc_fmt_state = FMT_DATA
            · rw [if_pos h5]
              by_cases h6 : b ≠ 0xF7
              · rw [if_pos h6]; exact ⟨rfl, rfl⟩
              · exact absurd ⟨h0, h5, not_not.mp h6⟩ h
            · rw [if_neg h5]; exact ⟨rfl, rfl⟩
  · rw [if_neg h0]; exact ⟨rfl, rfl⟩

theorem Write_track_F7 (E : Env Img) (s : WD179X_INFO Img) (h0 : s.fdc_write_track = TRUE)
    (h5 : s.fdc_fmt_state = FMT_DATA) :
    WD179X_Write_track E 0xF7 s = WD179X_Write_endSector E s := by
  unfold WD179X_Write_track
  rw [if_pos h0, if_neg (by rw [h5]; decide), if_neg (by rw [h5]; decide),
    if_neg (by rw [h5]; decide), if_neg (by rw [h5]; decide), if_pos h5, if_neg (by decide)]

theorem and_one_lt_two (d : Nat) : d &&& 1 < 2 := by
  have := Nat.and_le_right (n := d) (m := 1)
  omega

/-- C33: for every controller state and every byte written to the Data port, the sector map
and its length change only when a formatted sector is terminated (valid attached drive,
format mode, state Data, byte 0xF7).  Then the store into the sector map uses the index
`k = 0` if the length was 26 or more and `k =` the length otherwise, so `k < 26`; the new
length is `k + 1`, in [1, 26], and it is 1 when the length was already 26; the lookup in
`max_sectors_per_track` uses the row `ddens & 1 < 2` and the column `N < 7`. -/
theorem C33_sector_map_bounds (E : Env Img) (s : WD179X_INFO Img) (b : Nat) :
    (¬ (validDrive s ∧ s.fdc_write_track = TRUE ∧ s.fdc_fmt_state = FMT_DATA ∧ b = 0xF7) →
      (WD179X_Write E WD179X_DATA b s).2.fdc_sectormap = s.fdc_sectormap ∧
      (WD179X_Write E WD179X_DATA b s).2.fdc_fmt_sector_count = s.fdc_fmt_sector_count) ∧
    (validDrive s → s.fdc_write_track = TRUE → s.fdc_fmt_state = FMT_DATA → b = 0xF7 →
      (if s.fdc_fmt_sector_count ≥ WD179X_MAX_SECTOR then 0 else s.fdc_fmt_sector_count)
        < WD179X_MAX_SECTOR ∧
      (WD179X_Write E WD179X_DATA b s).2.fdc_sectormap
        = (fun i => if i = (if s.fdc_fmt_sector_count ≥ WD179X_MAX_SECTOR then 0
              else s.fdc_fmt_sector_count) then s.fdc_sector else s.fdc_sectormap i) ∧
      (WD179X_Write E WD179X_DATA b s).2.fdc_fmt_sector_count
        = (if s.fdc_fmt_sector_count ≥ WD179X_MAX_SECTOR then 0
            else s.fdc_fmt_sector_count) + 1 ∧
      1 ≤ (WD179X_Write E WD179X_DATA b s).2.fdc_fmt_sector_count ∧
      (WD179X_Write E WD179X_DATA b s).2.fdc_fmt_sector_count ≤ WD179X_MAX_SECTOR ∧
      (s.fdc_fmt_sector_count ≥ WD179X_MAX_SECTOR →
        (WD179X_Write E WD179X_DATA b s).2.fdc_fmt_sector_count = 1) ∧
      s.ddens &&& 1 < 2 ∧
      (WD179X_Write E WD179X_DATA b s).2.fdc_sec_len < 7) := by
  constructor
  · intro hn
    by_cases hd : validDrive s
    · rw [Write_data_eq E s b hd]
      have hn2 : ¬ ((WD179X_Write_sector E b s).fdc_write_track = TRUE ∧
          (WD179X_Write_sector E b s).fdc_fmt_state = FMT_DATA ∧ b = 0xF7) := by
        rw [Write_sector_fdc_write_track, Write_sector_fdc_fmt_state]
        exact fun h => hn ⟨hd, h⟩
      obtain ⟨m1, m2⟩ := Write_track_map E b _ hn2
      exact ⟨m1.trans (Write_sector_fdc_sectormap E b s),
        m2.trans (Write_sector_fdc_fmt_sector_count E b s)⟩
    · have e : WD179X_Write E WD179X_DATA b s = (0xFF, s) := by
        unfold WD179X_Write
        by_cases h1 : s.sel_drive ≥ WD179X_MAX_DRIVES
        · rw [if_pos h1]
        · rw [if_neg h1]
          by_cases h2 : (pDrive s).uptr = false
          · rw [if_pos h2]
          · exact absurd ⟨by omega, by simpa using h2⟩ hd
      rw [e]
      exact ⟨rfl, rfl⟩
  · intro hd h0 h5 hb
    subst hb
    have hk : (if s.fdc_fmt_sector_count ≥ WD179X_MAX_SECTOR then 0
        else s.fdc_fmt_sector_count) < WD179X_MAX_SECTOR := by
      split_ifs with hc
      · decide
      · exact Nat.not_le.mp hc
    rw [Write_data_eq E s _ hd]
    have e : WD179X_Write_track E 0xF7 (WD179X_Write_sector E 0xF7 s)
        = WD179X_Write_endSector E (WD179X_Write_sector E 0xF7 s) :=
      Write_track_F7 E _ ((Write_sector_fdc_write_track E _ s).trans h0)
        ((Write_sector_fdc_fmt_state E _ s).trans h5)
    obtain ⟨m1, m2⟩ := endSector_map E (WD179X_Write_sector E 0xF7 s)
    rw [Write_sector_fdc_fmt_sector_count, Write_sector_fdc_sector,
      Write_sector_fdc_sectormap] at m1
    rw [Write_sector_fdc_fmt_sector_count] at m2
    have hlen := (endSector_cursor E (WD179X_Write_sector E 0xF7 s)).1
    dsimp only
    rw [e, m1, m2]
    refine ⟨hk, rfl, rfl, Nat.le_add_left _ _, hk, fun hc => ?_, and_one_lt_two _, ?_⟩
    · rw [if_pos hc]
    · exact Nat.lt_succ_of_le hlen

/-- Instance of C33 on the demo machine: the first formatted sector (128 data bytes, then
0xF7) is stored at index 0 of the sector map and the length becomes 1. -/
theorem C33_witness :
    validDrive (fmtDataState 128) ∧ (fmtDataState 128).fdc_fmt_sector_count = 0 ∧
    (WD179X_Write demoEnv WD179X_DATA 0xF7 (fmtDataState 128)).2.fdc_fmt_sector_count
      = 0 + 1 ∧
    (WD179X_Write demoEnv WD179X_DATA 0xF7 (fmtDataState 128)).2.fdc_sec_len < 7 ∧
    (WD179X_Write demoEnv WD179X_DATA 0xE5 (fmtDataState 128)).2.fdc_fmt_sector_count
      = (fmtDataState 128).fdc_fmt_sector_count :=
  ⟨by decide, by decide,
   ((C33_sector_map_bounds demoEnv (fmtDataState 128) 0xF7).2 (by decide) (by decide)
      (by decide) rfl).2.2.1,
   ((C33_sector_map_bounds demoEnv (fmtDataState 128) 0xF7).2 (by decide) (by decide)
      (by decide) rfl).2.2.2.2.2.2.2,
   ((C33_sector_map_bounds demoEnv (fmtDataState 128) 0xE5).1 (by decide)).2⟩

/-! ## The head selected by a command -/

theorem exec_typeI_fdc_head (E : Env Img) (c : Nat) (s : WD179X_INFO Img)
    (hc : isTypeI c) : (Do1793Command_exec E c s).2.fdc_head = s.fdc_head := by
  unfold isTypeI at hc
  unfold Do1793Command_exec
  rcases hc with h | h | h | h | h | h | h | h <;>
    (rw [h]; simp [WD179X_RESTORE, WD179X_SEEK, WD179X_STEP, WD179X_STEP_U, WD179X_STEP_IN,
      WD179X_STEP_IN_U, WD179X_STEP_OUT, WD179X_STEP_OUT_U, setTrack, setDrive];
     all_goals (split_ifs <;> rfl))

theorem read_fdc_head (E : Env Img) (c : Nat) (s : WD179X_INFO Img) :
    (Do1793Command_read E c s).2.fdc_head = s.fdc_head := by
  by_cases hn : invalidSecLen (computeSectorSize E s)
  · rw [read_invalid E c s hn]
  by_cases hm : testMode E s ≠ 0
  · rw [read_mismatch E c s hn hm]
  · rw [read_fetch E c s hn (not_not.mp hm)]
    rcases sectRead_cases E { s with
        fdc_sec_len := computeSectorSize E s
        fdc_multiple := if c &&& 0x10 ≠ 0 then TRUE else FALSE }
      (pDrive s).track s.fdc_head s.fdc_sector
      (WD179X_SECTOR_LEN_BYTES { s with fdc_sec_len := computeSectorSize E s })
      with ⟨buf, ef, h⟩ | ⟨buf, h⟩
    · dsimp only
      rw [h]
    · dsimp only
      rw [h]

theorem write_fdc_head (E : Env Img) (s : WD179X_INFO Img) :
    (Do1793Command_write E s).fdc_head = s.fdc_head := by
  by_cases h : s.external_fifo_len = 0
  · rw [write_noFifo E s h]
  · unfold Do1793Command_write
    dsimp only
    by_cases hn : invalidSecLen (computeSectorSize E s)
    · simp only [if_pos hn, if_pos h]
      simp only [sectWrite_fdc_head, raiseInterrupt_fdc_head]
    · simp only [if_neg hn, if_pos h]
      simp only [sectWrite_fdc_head, raiseInterrupt_fdc_head]

theorem exec_fdc_head (E : Env Img) (c : Nat) (s : WD179X_INFO Img)
    (hc : isTypeI c ∨ isTypeII c) : (Do1793Command_exec E c s).2.fdc_head = s.fdc_head := by
  by_cases h1 : isTypeI c
  · exact exec_typeI_fdc_head E c s h1
  have h2 : isTypeII c := hc.resolve_left h1
  unfold isTypeII at h2
  rcases h2 with h | h | h | h
  · rw [exec_read E c s (Or.inl h)]; exact read_fdc_head E c s
  · rw [exec_read E c s (Or.inr h)]; exact read_fdc_head E c s
  · rw [exec_writeRec E c s h]; exact write_fdc_head E s
  · rw [exec_unimplemented E c s (Or.inl h)]

theorem setup_head_select (c : Nat) (s : WD179X_INFO Img) (hc : isTypeI c ∨ isTypeII c) :
    (Do1793Command_setup c s).fdc_head
      = (if s.fdctype = 1795 then (c &&& 0x02) >>> 1 else s.fdc_head) := by
  unfold Do1793Command_setup
  by_cases h1 : isTypeI c
  · rw [if_pos h1]
    dsimp only
    split_ifs <;> rfl
  · rw [if_neg h1, if_pos (hc.resolve_left h1)]
    dsimp only
    split_ifs <;> rfl

/-- The head after an accepted Type I or Type II command: bit 1 of the command for the
controller type 1795, and the head as it was for every other controller type, 1793 and 1797
alike. -/
theorem head_select (E : Env Img) (c : Nat) (s : WD179X_INFO Img) (hs : idle s)
    (hc : isTypeI c ∨ isTypeII c) :
    (Do1793Command E c s).2.fdc_head
      = (if s.fdctype = 1795 then (c &&& 0x02) >>> 1 else s.fdc_head) := by
  have e : (Do1793Command_exec E c (Do1793Command_setup c
      { s with fdc_status := s.fdc_status &&& (0xFF - WD179X_STAT_NOT_READY) })).2.fdc_head
      = (if s.fdctype = 1795 then (c &&& 0x02) >>> 1 else s.fdc_head) := by
    rw [exec_fdc_head E c _ hc, setup_fdc_head_status, setup_head_select c s hc]
  rw [Do1793Command_idle E c s hs]
  by_cases hx : (Do1793Command_exec E c (Do1793Command_setup c
      { s with fdc_status := s.fdc_status &&& (0xFF - WD179X_STAT_NOT_READY) })).1 = none
  · rw [if_pos hx]
    dsimp only
    rw [post_fdc_head]
    exact e
  · rw [if_neg hx]
    exact e

/-- C37 (defect of the code): on a controller configured as a WD1797 an accepted Type II
command (READ_REC 0x82) and an accepted Type I command (SEEK 0x12), both with bit 1 set,
leave the head at 0, whereas the same commands select head 1 on a WD1795: the set-up tests
`fdctype == 1795` only, under the comment that the WD1795 and the WD1797 have a side select
output. -/
theorem C37_head_select_ignored_on_1797 :
    idle demoState1797 ∧ demoState1797.fdctype = 1797 ∧ demoState1797.fdc_head = 0 ∧
    isTypeII 0x82 ∧ isTypeI 0x12 ∧ (0x82 >>> 1) &&& 1 = 1 ∧ (0x12 >>> 1) &&& 1 = 1 ∧
    (Do1793Command demoEnv 0x82 demoState1797).1 = 0 ∧
    (Do1793Command demoEnv 0x82 demoState1797).2.fdc_head = 0 ∧
    (Do1793Command demoEnv 0x12 demoState1797).1 = 0 ∧
    (Do1793Command demoEnv 0x12 demoState1797).2.fdc_head = 0 ∧
    (Do1793Command demoEnv 0x82 demoState1795).2.fdc_head = 1 ∧
    (Do1793Command demoEnv 0x12 demoState1795).2.fdc_head = 1 := by
  decide

/-! ## READ_ADDR after a multi-sector read -/

/-- C38 (defect of the code): READ_RECS leaves `fdc_multiple` set and READ_ADDR does not
clear it.  On the demo machine, after READ_RECS for the missing sector 0 and an accepted
READ_ADDR that stages the six bytes of the ID field, the sixth read of the Data port does not
end the transfer: the Sector register goes from 0 to 1, the sector store is called for sector
1, and a sector read of 128 bytes is under way with DRQ and BUSY set and `intrq = 0`. -/
theorem C38_read_addr_after_read_recs :
    (runPorts demoEnv [PortOp.write WD179X_STATUS 0x90] demoState).fdc_multiple = TRUE ∧
    idle (runPorts demoEnv [PortOp.write WD179X_STATUS 0x90] demoState) ∧
    staleMultiState.fdc_read = TRUE ∧ staleMultiState.fdc_read_addr = TRUE ∧
    staleMultiState.fdc_datacount = 6 ∧ staleMultiState.fdc_dataindex = 5 ∧
    staleMultiState.fdc_sector = 0 ∧ staleMultiState.trace = [Event.sectRead 0 0 0 128] ∧
    (WD179X_Read demoEnv WD179X_DATA staleMultiState).2.fdc_sector = 1 ∧
    (WD179X_Read demoEnv WD179X_DATA staleMultiState).2.trace
      = [Event.sectRead 0 0 0 128, Event.sectRead 0 0 1 128] ∧
    (WD179X_Read demoEnv WD179X_DATA staleMultiState).2.fdc_read = TRUE ∧
    (WD179X_Read demoEnv WD179X_DATA staleMultiState).2.fdc_datacount = 128 ∧
    (WD179X_Read demoEnv WD179X_DATA staleMultiState).2.fdc_status
      = WD179X_STAT_DRQ ||| WD179X_STAT_BUSY ∧
    (WD179X_Read demoEnv WD179X_DATA staleMultiState).2.intrq = 0 := by
  decide

/-! ## The `drq` line and the DRQ bit of the status register -/

theorem exec_fst_cases (E : Env Img) (c : Nat) (s : WD179X_INFO Img) :
    (Do1793Command_exec E c s).1 = none ∨ (Do1793Command_exec E c s).1 = some 0xFF := by
  by_cases hr : c &&& 0xF0 = WD179X_READ_REC ∨ c &&& 0xF0 = WD179X_READ_RECS
  · rw [exec_read E c s hr]
    by_cases hn : invalidSecLen (computeSectorSize E s)
    · rw [read_invalid E c s hn]
      exact Or.inr rfl
    · by_cases hm : testMode E s ≠ 0
      · rw [read_mismatch E c s hn hm]
        exact Or.inl rfl
      · rw [read_fetch E c s hn (not_not.mp hm)]
        exact Or.inl rfl
  · exact Or.inl (exec_fst_of_not_read E c s hr)

theorem not_typeI_of_II_III (c : Nat) (h : isTypeII c ∨ isTypeIII c) : ¬ isTypeI c := by
  unfold isTypeI
  unfold isTypeII isTypeIII at h
  rcases h with (h | h | h | h) | (h | h | h) <;> rw [h] <;> decide

/-- The status register after a read of the Status port in a Type II or Type III context. -/
theorem Read_status_typeII_III (E : Env Img) (s : WD179X_INFO Img) (Addr : Nat)
    (hsel : s.sel_drive < WD179X_MAX_DRIVES) (ha : Addr &&& 0x3 = WD179X_STATUS)
    (hc : s.cmdtype = 2 ∨ s.cmdtype = 3) :
    ∃ v, WD179X_Read E Addr s
      = ((if (pDrive s).ready = 0 then WD179X_STAT_NOT_READY else 0) |||
          ((s.fdc_status &&& (0xFF - WD179X_STAT_INDEX)) |||
            (if s.drq ≠ 0 then WD179X_STAT_DRQ else 0)),
         { s with
           fdc_status := (s.fdc_status &&& (0xFF - WD179X_STAT_INDEX)) |||
             (if s.drq ≠ 0 then WD179X_STAT_DRQ else 0)
           intrq := 0
           vectorInterrupt := v }) := by
  unfold WD179X_Read
  rw [if_neg (by omega), if_pos ha]
  dsimp only
  rw [if_neg (show ¬ (s.cmdtype = 0 ∨ s.cmdtype = 1 ∨ s.cmdtype = 4) by omega),
    if_neg (show ¬ s.cmdtype = 4 by omega)]
  by_cases hi : s.intenable ≠ 0
  · rw [if_pos hi]
    exact ⟨_, rfl⟩
  · rw [if_neg hi]
    exact ⟨s.vectorInterrupt, rfl⟩

theorem drq_bit_sync (x d : Nat) :
    ((x &&& (0xFF - WD179X_STAT_INDEX)) ||| (if d ≠ 0 then WD179X_STAT_DRQ else 0))
      &&& WD179X_STAT_DRQ ≠ 0 ↔ d ≠ 0 := by
  by_cases hd : d ≠ 0
  · rw [if_pos hd, or_and_self_mask]
    exact ⟨fun _ => hd, fun _ => by decide⟩
  · rw [if_neg hd, Nat.or_zero, and_and_disjoint x _ _ (by decide)]
    exact ⟨fun h => absurd rfl h, fun h => absurd h hd⟩

theorem drq_bit_of_or (n x : Nat) (hn : n &&& WD179X_STAT_DRQ = 0) :
    (n ||| x) &&& WD179X_STAT_DRQ = x &&& WD179X_STAT_DRQ := by
  rw [Nat.and_comm, Nat.and_or_distrib_left, Nat.and_comm, hn, Nat.zero_or, Nat.and_comm]

/-- C34 (amended): the `drq` line is the master copy and the DRQ bit of the status register
follows it only at a read of the Status port: in a Type II or Type III command context, with
a valid drive selected, the read stores and returns a status whose DRQ bit is set if and only
if `drq` is not 0, and leaves `drq` and the command type as they were.  An accepted Type II
or Type III command that does not return 0xFF ends with `drq = 1` whatever the status
register holds. -/
theorem C34_drq_follows_at_status_read (E : Env Img) (s : WD179X_INFO Img) :
    (∀ Addr, s.sel_drive < WD179X_MAX_DRIVES → Addr &&& 0x3 = WD179X_STATUS →
      (s.cmdtype = 2 ∨ s.cmdtype = 3) →
      ((WD179X_Read E Addr s).2.fdc_status &&& WD179X_STAT_DRQ ≠ 0 ↔ s.drq ≠ 0) ∧
      ((WD179X_Read E Addr s).1 &&& WD179X_STAT_DRQ ≠ 0 ↔ s.drq ≠ 0) ∧
      (WD179X_Read E Addr s).2.drq = s.drq ∧
      (WD179X_Read E Addr s).2.cmdtype = s.cmdtype) ∧
    (∀ c, idle s → (isTypeII c ∨ isTypeIII c) → (Do1793Command E c s).1 ≠ 0xFF →
      (Do1793Command E c s).2.drq = 1) := by
  constructor
  · intro Addr hsel ha hc
    obtain ⟨v, h⟩ := Read_status_typeII_III E s Addr hsel ha hc
    rw [h]
    dsimp only
    refine ⟨drq_bit_sync _ _, ?_, rfl, rfl⟩
    rw [drq_bit_of_or _ _ (by split_ifs <;> decide)]
    exact drq_bit_sync _ _
  · intro c hs hc hr
    have h1 := not_typeI_of_II_III c hc
    rw [Do1793Command_idle E c s hs] at hr ⊢
    rcases exec_fst_cases E c (Do1793Command_setup c
      { s with fdc_status := s.fdc_status &&& (0xFF - WD179X_STAT_NOT_READY) }) with hx | hx
    · rw [if_pos hx]
      exact (post_typeII_III E c _ h1 hc).2.1
    · rw [if_neg (by rw [hx]; exact fun h => Option.noConfusion h), hx] at hr
      exact absurd rfl hr

/-- Instance of C34 on the demo machine after READ_REC for the missing sector 0: the command
leaves `drq = 1`, and the read of the Status port stores a status with the DRQ bit set. -/
theorem C34_witness :
    (Do1793Command demoEnv 0x80 demoState).2.drq = 1 ∧
    ((WD179X_Read demoEnv WD179X_STATUS
        (Do1793Command demoEnv 0x80 demoState).2).2.fdc_status &&& WD179X_STAT_DRQ ≠ 0 ↔
      (Do1793Command demoEnv 0x80 demoState).2.drq ≠ 0) :=
  ⟨(C34_drq_follows_at_status_read demoEnv demoState).2 0x80 (by decide) (by decide)
      (by decide),
   ((C34_drq_follows_at_status_read demoEnv (Do1793Command demoEnv 0x80 demoState).2).1
      WD179X_STATUS (by decide) (by decide) (by decide)).1⟩

/-- Counterexample to C34 as stated: READ_REC (0x80) for the missing sector 0, written to the
command port of the demo machine, leaves the controller in the Type II context with
`drq = 1` while the status register holds NOT_FOUND alone, DRQ bit clear. -/
theorem C34_counterexample :
    (WD179X_Write demoEnv WD179X_STATUS 0x80 demoState).2.cmdtype = 2 ∧
    (WD179X_Write demoEnv WD179X_STATUS 0x80 demoState).2.drq = 1 ∧
    (WD179X_Write demoEnv WD179X_STATUS 0x80 demoState).2.fdc_status
      = WD179X_STAT_NOT_FOUND ∧
    (WD179X_Write demoEnv WD179X_STATUS 0x80 demoState).2.fdc_status
      &&& WD179X_STAT_DRQ = 0 := by
  decide

/-! ## What every port operation keeps -/

theorem unused_and {x : Nat} (y : Nat) (h : x &&& statusUnused = 0) :
    (x &&& y) &&& statusUnused = 0 := by
  rw [Nat.and_assoc, Nat.and_comm y, ← Nat.and_assoc, h, Nat.zero_and]

theorem unused_or {x c : Nat} (h : x &&& statusUnused = 0) (hc : c &&& statusUnused = 0) :
    (x ||| c) &&& statusUnused = 0 := by
  rw [Nat.and_comm, Nat.and_or_distrib_left, Nat.and_comm statusUnused x, h,
    Nat.and_comm statusUnused c, hc]
  decide

theorem unused_xor {x c : Nat} (h : x &&& statusUnused = 0) (hc : c &&& statusUnused = 0) :
    (x ^^^ c) &&& statusUnused = 0 := by
  rw [Nat.and_xor_distrib_right, h, hc]
  decide

theorem unused_sub {x : Nat} (m : Nat) (hm : statusUnused &&& m = m)
    (h : x &&& statusUnused = 0) : x &&& m = 0 := by
  rw [← hm, ← Nat.and_assoc, h, Nat.zero_and]

theorem portKeeps_refl (s : WD179X_INFO Img) : portKeeps s s :=
  ⟨id, id, rfl⟩

theorem portKeeps_trans {s t u : WD179X_INFO Img} (h1 : portKeeps s t) (h2 : portKeeps t u) :
    portKeeps s u :=
  ⟨fun h => h2.1 (h1.1 h), fun h => h2.2.1 (h1.2.1 h), h2.2.2.trans h1.2.2⟩

theorem portKeeps_of_eq (s t : WD179X_INFO Img) (h1 : t.fdc_sec_len = s.fdc_sec_len)
    (h2 : t.fdc_status = s.fdc_status) (h3 : t.sel_drive = s.sel_drive) : portKeeps s t := by
  unfold portKeeps
  rw [h1, h2, h3]
  exact ⟨id, id, rfl⟩

theorem sectRead_keeps (E : Env Img) (s : WD179X_INFO Img) (Cyl Head Sector buflen : Nat) :
    portKeeps s (wd179x_sectRead E s Cyl Head Sector buflen) := by
  rcases sectRead_cases E s Cyl Head Sector buflen with ⟨buf, ef, h⟩ | ⟨buf, h⟩
  · rw [h]
    exact ⟨id, fun _ => by dsimp only; decide, rfl⟩
  · rw [h]
    exact ⟨id, fun _ => by dsimp only; decide, rfl⟩

theorem Read_data_keeps (E : Env Img) (s : WD179X_INFO Img) :
    portKeeps s (WD179X_Read_data E s).2 := by
  unfold WD179X_Read_data
  by_cases hr : s.fdc_read = TRUE
  · rw [if_pos hr]
    by_cases hlt : s.fdc_dataindex < s.fdc_datacount
    · rw [if_pos hlt]
      dsimp only
      by_cases hl : (s.fdc_dataindex + 1) % 65536 = s.fdc_datacount
      · rw [if_pos hl]
        by_cases hm : s.fdc_multiple = FALSE
        · rw [if_pos hm]
          exact ⟨id, fun h => unused_and _ (unused_and _ h), rfl⟩
        · rw [if_neg hm]
          have e1 : ∀ a b, computeSectorSize E { s with fdc_status := a, fdc_dataindex := b }
              = computeSectorSize E s := fun _ _ => rfl
          rw [e1]
          by_cases hn : invalidSecLen (computeSectorSize E s)
          · rw [if_pos hn]
            exact ⟨fun _ => Nat.zero_le _, fun h => unused_and _ h, rfl⟩
          · rw [if_neg hn]
            split_ifs
            · exact ⟨fun _ => le_of_not_invalid _ hn, fun h => unused_and _ h, rfl⟩
            · refine portKeeps_trans ?_ (sectRead_keeps E _ _ _ _ _)
              exact ⟨fun _ => le_of_not_invalid _ hn, fun h => unused_and _ h, rfl⟩
      · rw [if_neg hl]
        exact ⟨id, fun h => unused_and _ h, rfl⟩
    · rw [if_neg hlt]; exact portKeeps_refl s
  · rw [if_neg hr]; exact portKeeps_refl s

/-- The read of the Status port: the byte returned and the state afterwards, and the unused
bits of the stored status. -/
theorem Read_status_unused (E : Env Img) (s : WD179X_INFO Img) (Addr : Nat)
    (hsel : s.sel_drive < WD179X_MAX_DRIVES) (h : Addr &&& 0x3 = WD179X_STATUS) :
    ∃ st v, WD179X_Read E Addr s
        = ((if (pDrive s).ready = 0 then WD179X_STAT_NOT_READY else 0) ||| st,
            { s with fdc_status := st, intrq := 0, vectorInterrupt := v }) ∧
      (s.fdc_status &&& statusUnused = 0 → st &&& statusUnused = 0) := by
  unfold WD179X_Read
  rw [if_neg (by omega), if_pos h]
  dsimp only
  by_cases hc : s.cmdtype = 0 ∨ s.cmdtype = 1 ∨ s.cmdtype = 4
  · rw [if_pos hc]
    refine ⟨((s.fdc_status ^^^ WD179X_STAT_INDEX) &&& (0xFF - WD179X_STAT_TRACK0))
        ||| (if (pDrive s).track = 0 then WD179X_STAT_TRACK0 else 0),
      if s.intenable ≠ 0 then
        s.vectorInterrupt &&& (2 ^ 32 - 1 - (1 <<< s.intvector) % 2 ^ 32)
      else s.vectorInterrupt, ?_, ?_⟩
    · dsimp only [pDrive]; split_ifs <;> rfl
    · intro hu
      exact unused_or (unused_and _ (unused_xor hu (by decide))) (by split_ifs <;> decide)
  · rw [if_neg hc]
    by_cases h4 : s.cmdtype = 4
    · exact absurd (Or.inr (Or.inr h4)) hc
    · rw [if_neg h4]
      refine ⟨(s.fdc_status &&& (0xFF - WD179X_STAT_INDEX))
          ||| (if s.drq ≠ 0 then WD179X_STAT_DRQ else 0),
        if s.intenable ≠ 0 then
          s.vectorInterrupt &&& (2 ^ 32 - 1 - (1 <<< s.intvector) % 2 ^ 32)
        else s.vectorInterrupt, ?_, ?_⟩
      · dsimp only [pDrive]; split_ifs <;> rfl
      · intro hu
        exact unused_or (unused_and _ hu) (by split_ifs <;> decide)

theorem Read_keeps (E : Env Img) (Addr : Nat) (s : WD179X_INFO Img) :
    portKeeps s (WD179X_Read E Addr s).2 := by
  by_cases hsel : s.sel_drive < WD179X_MAX_DRIVES
  · by_cases h0 : Addr &&& 0x3 = WD179X_STATUS
    · obtain ⟨st, v, h, hu⟩ := Read_status_unused E s Addr hsel h0
      rw [h]
      exact ⟨id, hu, rfl⟩
    · unfold WD179X_Read
      rw [if_neg (by omega), if_neg h0]
      by_cases h1 : Addr &&& 0x3 = WD179X_TRACK
      · rw [if_pos h1]; exact portKeeps_refl s
      · rw [if_neg h1]
        by_cases h2 : Addr &&& 0x3 = WD179X_SECTOR
        · rw [if_pos h2]; exact portKeeps_refl s
        · rw [if_neg h2]
          by_cases h3 : Addr &&& 0x3 = WD179X_DATA
          · rw [if_pos h3]; exact Read_data_keeps E s
          · rw [if_neg h3]; exact portKeeps_refl s
  · unfold WD179X_Read
    rw [if_pos (by omega)]
    exact portKeeps_refl s

theorem Write_sector_unused (E : Env Img) (b : Nat) (s : WD179X_INFO Img)
    (h : s.fdc_status &&& statusUnused = 0) :
    (WD179X_Write_sector E b s).fdc_status &&& statusUnused = 0 := by
  unfold WD179X_Write_sector
  dsimp only
  split_ifs
  · dsimp only
    rw [sectWrite_fdc_status, raiseInterrupt_fdc_status]
    exact unused_and _ h
  · exact h
  · exact h
  · exact h

theorem Write_sector_keeps (E : Env Img) (b : Nat) (s : WD179X_INFO Img) :
    portKeeps s (WD179X_Write_sector E b s) :=
  ⟨fun h => (Write_sector_fdc_sec_len E b s).symm ▸ h, Write_sector_unused E b s,
    Write_sector_sel_drive E b s⟩

theorem endSector_unused (E : Env Img) (s : WD179X_INFO Img)
    (h : s.fdc_status &&& statusUnused = 0) :
    (WD179X_Write_endSector E s).fdc_status &&& statusUnused = 0 := by
  unfold WD179X_Write_endSector
  generalize (floorlog2 s.fdc_dataindex + 256 - 7) % 256 = n
  by_cases c1 : invalidSecLen n <;>
    by_cases c2 : s.fdc_fmt_sector_count ≥ WD179X_MAX_SECTOR <;>
    simp only [c1, if_true, if_false] <;>
    simp only [c2, if_true, if_false] <;>
    simp only [clearGap] <;>
    split_ifs <;>
    (try simp only [setDrive, raiseInterrupt_fdc_status, trackWrite_fdc_status]) <;>
    first
      | exact h
      | exact unused_and _ h

theorem endSector_sel_drive (E : Env Img) (s : WD179X_INFO Img) :
    (WD179X_Write_endSector E s).sel_drive = s.sel_drive := by
  unfold WD179X_Write_endSector
  generalize (floorlog2 s.fdc_dataindex + 256 - 7) % 256 = n
  by_cases c1 : invalidSecLen n <;>
    by_cases c2 : s.fdc_fmt_sector_count ≥ WD179X_MAX_SECTOR <;>
    simp only [c1, if_true, if_false] <;>
    simp only [c2, if_true, if_false] <;>
    simp only [clearGap] <;>
    split_ifs <;>
    (try simp only [setDrive, raiseInterrupt_sel_drive, trackWrite_sel_drive])

theorem Write_track_keeps (E : Env Img) (b : Nat) (s : WD179X_INFO Img) :
    portKeeps s (WD179X_Write_track E b s) := by
  unfold WD179X_Write_track
  by_cases h0 : s.fdc_write_track = TRUE
  · rw [if_pos h0]
    by_cases h1 : s.fdc_fmt_state = FMT_GAP1
    · rw [if_pos h1]; split_ifs <;> exact portKeeps_of_eq s _ rfl rfl rfl
    · rw [if_neg h1]
      by_cases h2 : s.fdc_fmt_state = FMT_GAP2
      · rw [if_pos h2]; split_ifs <;> exact portKeeps_of_eq s _ rfl rfl rfl
      · rw [if_neg h2]
        by_cases h3 : s.fdc_fmt_state = FMT_HEADER
        · rw [if_pos h3]; dsimp only; split_ifs <;> exact portKeeps_of_eq s _ rfl rfl rfl
        · rw [if_neg h3]
          by_cases h4 : s.fdc_fmt_state = FMT_GAP3
          · rw [if_pos h4]; split_ifs <;> exact portKeeps_of_eq s _ rfl rfl rfl
          · rw [if_neg h4]
            by_cases h5 : s.fdc_fmt_state = FMT_DATA
            · rw [if_pos h5]
              by_cases h6 : b ≠ 0xF7
              · rw [if_pos h6]; exact portKeeps_of_eq s _ rfl rfl rfl
              · rw [if_neg h6]
                exact ⟨fun _ => (endSector_cursor E s).1, endSector_unused E s,
                  endSector_sel_drive E s⟩
            · rw [if_neg h5]; exact portKeeps_refl s
  · rw [if_neg h0]; exact portKeeps_refl s

theorem setup_keeps (c : Nat) (s : WD179X_INFO Img) :
    portKeeps s (Do1793Command_setup c s) := by
  refine ⟨fun h => ?_, fun h => ?_, setup_sel_drive c s⟩
  · rw [setup_fdc_sec_len]; exact h
  · by_cases h1 : isTypeI c
    · rw [setup_typeI_status c s h1]
      exact unused_and _ (unused_or h (by decide))
    · by_cases h2 : isTypeII c
      · rw [(setup_typeII c s h1 h2).2.1]
        decide
      · rw [setup_other_status c s h1 h2]
        exact h

theorem read_keeps (E : Env Img) (c : Nat) (s : WD179X_INFO Img) :
    portKeeps s (Do1793Command_read E c s).2 := by
  by_cases hn : invalidSecLen (computeSectorSize E s)
  · rw [read_invalid E c s hn]
    exact ⟨fun _ => Nat.zero_le _, fun h => unused_and _ (unused_or h (by decide)), rfl⟩
  by_cases hm : testMode E s ≠ 0
  · rw [read_mismatch E c s hn hm]
    exact ⟨fun _ => le_of_not_invalid _ hn,
      fun h => unused_and _ (unused_or h (by decide)), rfl⟩
  · rw [read_fetch E c s hn (not_not.mp hm)]
    refine portKeeps_trans ?_ (sectRead_keeps E _ _ _ _ _)
    exact ⟨fun _ => le_of_not_invalid _ hn, id, rfl⟩

theorem write_keeps (E : Env Img) (s : WD179X_INFO Img) :
    portKeeps s (Do1793Command_write E s) := by
  have hN : (if invalidSecLen (computeSectorSize E s) then 0 else computeSectorSize E s)
      ≤ WD179X_MAX_SEC_LEN := by
    split_ifs with hn
    · exact Nat.zero_le _
    · exact le_of_not_invalid _ hn
  by_cases h : s.external_fifo_len = 0
  · rw [write_noFifo E s h]
    exact ⟨fun _ => hN, fun hu => unused_or hu (by decide), rfl⟩
  · have hc : (Do1793Command_write E s).fdc_sec_len
        = (if invalidSecLen (computeSectorSize E s) then 0 else computeSectorSize E s) ∧
      (Do1793Command_write E s).fdc_status
        = (s.fdc_status ||| WD179X_STAT_DRQ)
            &&& (0xFF - (WD179X_STAT_DRQ ||| WD179X_STAT_BUSY)) ∧
      (Do1793Command_write E s).sel_drive = s.sel_drive := by
      unfold Do1793Command_write
      dsimp only
      by_cases hn : invalidSecLen (computeSectorSize E s)
      · simp only [if_pos hn, if_pos h]
        simp only [sectWrite_fdc_sec_len, sectWrite_fdc_status, sectWrite_sel_drive,
          raiseInterrupt_fdc_sec_len, raiseInterrupt_fdc_status, raiseInterrupt_sel_drive,
          and_self]
      · simp only [if_neg hn, if_pos h]
        simp only [sectWrite_fdc_sec_len, sectWrite_fdc_status, sectWrite_sel_drive,
          raiseInterrupt_fdc_sec_len, raiseInterrupt_fdc_status, raiseInterrupt_sel_drive,
          and_self]
    obtain ⟨c1, c2, c3⟩ := hc
    unfold portKeeps
    rw [c1, c2, c3]
    exact ⟨fun _ => hN, fun hu => unused_and _ (unused_or hu (by decide)), rfl⟩

theorem readAddr_keeps (E : Env Img) (s : WD179X_INFO Img) :
    portKeeps s (Do1793Command_readAddr E s) := by
  unfold Do1793Command_readAddr
  generalize hg : (if (pDrive s).track = 0xFF then setTrack s 0 else s) = s1
  have g1 : s1.sel_drive = s.sel_drive := by rw [← hg]; split_ifs <;> rfl
  clear hg
  dsimp only
  by_cases hn : invalidSecLen (computeSectorSize E s1)
  · rw [if_pos hn]
    split_ifs <;>
      exact ⟨fun _ => Nat.zero_le _, fun _ => by dsimp only; decide, g1⟩
  · rw [if_neg hn]
    split_ifs <;>
      exact ⟨fun _ => le_of_not_invalid _ hn, fun _ => by dsimp only; decide, g1⟩

theorem writeTrack_keeps (s : WD179X_INFO Img) :
    portKeeps s (Do1793Command_writeTrack s) :=
  ⟨id, fun h => unused_or h (by decide), rfl⟩

theorem forceIntr_keeps (E : Env Img) (c : Nat) (s : WD179X_INFO Img) :
    portKeeps s (Do1793Command_forceIntr E c s) := by
  unfold Do1793Command_forceIntr
  by_cases h0 : c &&& 0x0F = 0
  · rw [if_pos h0]
    exact ⟨id, fun h => unused_and _ h, rfl⟩
  · rw [if_neg h0]
    dsimp only
    split_ifs <;> refine ⟨fun h1 => ?_, fun h2 => ?_, ?_⟩ <;>
      (try simp only [raiseInterrupt_fdc_sec_len, raiseInterrupt_fdc_status,
        raiseInterrupt_sel_drive]) <;>
      first
        | exact h1
        | exact unused_and _ h2
        | decide

/-- The execution stage keeps the size code valid, the unused status bits clear and the
selected drive. -/
theorem exec_keeps (E : Env Img) (c : Nat) (s : WD179X_INFO Img) :
    portKeeps s (Do1793Command_exec E c s).2 := by
  by_cases h1 : isTypeI c
  · exact portKeeps_of_eq s _ (exec_typeI_fdc_sec_len E c s h1)
      (exec_typeI_fdc_status E c s h1) (exec_typeI_sel_drive E c s h1)
  by_cases hr : c &&& 0xF0 = WD179X_READ_REC ∨ c &&& 0xF0 = WD179X_READ_RECS
  · rw [exec_read E c s hr]; exact read_keeps E c s
  by_cases hw : c &&& 0xF0 = WD179X_WRITE_REC
  · rw [exec_writeRec E c s hw]; exact write_keeps E s
  by_cases hu : c &&& 0xF0 = WD179X_WRITE_RECS ∨ c &&& 0xF0 = WD179X_READ_TRACK
  · rw [exec_unimplemented E c s hu]; exact portKeeps_refl s
  by_cases ha : c &&& 0xF0 = WD179X_READ_ADDR
  · rw [exec_readAddr E c s ha]; exact readAddr_keeps E s
  by_cases ht : c &&& 0xF0 = WD179X_WRITE_TRACK
  · rw [exec_writeTrack E c s ht]; exact writeTrack_keeps s
  by_cases hf : c &&& 0xF0 = WD179X_FORCE_INTR
  · rw [exec_forceIntr E c s hf]; exact forceIntr_keeps E c s
  rw [exec_other E c s h1 (by unfold isTypeII; tauto) (by unfold isTypeIII; tauto) hf]
  exact portKeeps_refl s

theorem post_typeI_unused (E : Env Img) (c : Nat) (s : WD179X_INFO Img) (hc : isTypeI c)
    (h : s.fdc_status &&& statusUnused = 0) :
    (Do1793Command_post E c s).fdc_status &&& statusUnused = 0 := by
  unfold Do1793Command_post
  rw [if_pos hc]
  simp only [raiseInterrupt_fdc_status]
  split_ifs <;> (try dsimp only) <;>
    repeat' (first | assumption | decide | apply unused_and | apply unused_or)

theorem post_keeps (E : Env Img) (c : Nat) (s : WD179X_INFO Img) :
    portKeeps s (Do1793Command_post E c s) := by
  refine ⟨fun h => ?_, fun h => ?_, post_sel_drive E c s⟩
  · rw [post_fdc_sec_len]; exact h
  · by_cases h1 : isTypeI c
    · exact post_typeI_unused E c s h1 h
    · by_cases h23 : isTypeII c ∨ isTypeIII c
      · rw [(post_typeII_III E c s h1 h23).1]
        exact unused_and _ h
      · rw [post_other E c s h1 (fun x => h23 (Or.inl x)) (fun x => h23 (Or.inr x))]
        exact h

/-- The command handler keeps the size code valid, the unused status bits clear and the
selected drive. -/
theorem Do1793Command_keeps (E : Env Img) (c : Nat) (s : WD179X_INFO Img) :
    portKeeps s (Do1793Command E c s).2 := by
  by_cases hi : idle s
  · rw [Do1793Command_idle E c s hi]
    have k0 : portKeeps s
        { s with fdc_status := s.fdc_status &&& (0xFF - WD179X_STAT_NOT_READY) } :=
      ⟨id, fun h => unused_and _ h, rfl⟩
    have k := portKeeps_trans k0 (portKeeps_trans (setup_keeps c _) (exec_keeps E c _))
    by_cases hx : (Do1793Command_exec E c (Do1793Command_setup c
        { s with fdc_status := s.fdc_status &&& (0xFF - WD179X_STAT_NOT_READY) })).1 = none
    · rw [if_pos hx]
      exact portKeeps_trans k (post_keeps E c _)
    · rw [if_neg hx]
      exact k
  · unfold Do1793Command
    by_cases h1 : s.sel_drive ≥ WD179X_MAX_DRIVES
    · rw [if_pos h1]; exact portKeeps_refl s
    rw [if_neg h1]
    by_cases h2 : (pDrive s).uptr = false
    · rw [if_pos h2]; exact portKeeps_refl s
    rw [if_neg h2]
    by_cases h3 : s.fdc_status &&& WD179X_STAT_BUSY ≠ 0
    · rw [if_pos h3]; exact portKeeps_refl s
    exact absurd ⟨⟨by omega, by simpa using h2⟩, not_not.mp h3⟩ hi

theorem Write_clear_keeps (s : WD179X_INFO Img) : portKeeps s (WD179X_Write_clear s) :=
  portKeeps_of_eq s _ (Write_clear_fields s).2.2.2.2.2.2.2
    (by unfold WD179X_Write_clear; rw [raiseInterrupt_fdc_status])
    (by unfold WD179X_Write_clear; rw [raiseInterrupt_sel_drive])

theorem Write_keeps (E : Env Img) (Addr cData : Nat) (s : WD179X_INFO Img) :
    portKeeps s (WD179X_Write E Addr cData s).2 := by
  unfold WD179X_Write
  by_cases hsel : s.sel_drive ≥ WD179X_MAX_DRIVES
  · rw [if_pos hsel]; exact portKeeps_refl s
  rw [if_neg hsel]
  by_cases hu : (pDrive s).uptr = false
  · rw [if_pos hu]; exact portKeeps_refl s
  rw [if_neg hu]
  by_cases h0 : Addr &&& 0x3 = WD179X_STATUS
  · rw [if_pos h0]
    exact portKeeps_trans (Write_clear_keeps s) (Do1793Command_keeps E cData _)
  rw [if_neg h0]
  by_cases h1 : Addr &&& 0x3 = WD179X_TRACK
  · rw [if_pos h1]; exact portKeeps_of_eq s _ rfl rfl rfl
  rw [if_neg h1]
  by_cases h2 : Addr &&& 0x3 = WD179X_SECTOR
  · rw [if_pos h2]; exact portKeeps_of_eq s _ rfl rfl rfl
  rw [if_neg h2]
  by_cases h3 : Addr &&& 0x3 = WD179X_DATA
  · rw [if_pos h3]
    exact portKeeps_trans (Write_sector_keeps E cData s)
      (portKeeps_trans (Write_track_keeps E cData _) (portKeeps_of_eq _ _ rfl rfl rfl))
  · rw [if_neg h3]; exact portKeeps_refl s

theorem portStep_keeps (E : Env Img) (op : PortOp) (s : WD179X_INFO Img) :
    portKeeps s (portStep E op s) := by
  cases op with
  | read Addr => exact Read_keeps E Addr s
  | write Addr cData => exact Write_keeps E Addr cData s

theorem runPorts_keeps (E : Env Img) (ops : List PortOp) (s : WD179X_INFO Img) :
    portKeeps s (runPorts E ops s) := by
  induction ops generalizing s with
  | nil => exact portKeeps_refl s
  | cons op ops ih => exact portKeeps_trans (portStep_keeps E op s) (ih _)

theorem shl_le_buffer (N : Nat) (h : N ≤ WD179X_MAX_SEC_LEN) :
    128 <<< N ≤ WD179X_SECTOR_LEN ∧ (128 <<< N) % 2 ^ 32 ≤ WD179X_SECTOR_LEN := by
  unfold WD179X_MAX_SEC_LEN at h
  interval_cases N <;> decide

/-! ## What the write routines hand to the image -/

/-- The selected drive after `wd179x_sectWrite` with a buffer length that passes the test of
the length: an ImageDisk image gets the buffer through `sectWrite`, a DSK image through
`sim_fwrite` unless it is addressed in double density with 128-byte sectors or the seek fails;
with no file attached, and for the DSK image in double density, the drive is as before. -/
theorem sectWrite_pDrive (E : Env Img) (s : WD179X_INFO Img) (Cyl Head Sector buflen : Nat)
    (hb : WD179X_SECTOR_LEN_BYTES s ≤ buflen) :
    ((pDrive s).fileref = true → (pDrive s).u3 = ImageType.IMD →
      pDrive (wd179x_sectWrite E s Cyl Head Sector buflen) = { pDrive s with
        imd := E.sectWrite (pDrive s).imd Cyl Head Sector
          (bufBytes s.raw (WD179X_SECTOR_LEN_BYTES s)) }) ∧
    ((pDrive s).fileref = true → (pDrive s).u3 = ImageType.DSK →
      ¬ (s.ddens = 1 ∧ s.fdc_sec_len = 0) →
      E.sim_fseek (pDrive s).imd (sec_offset Cyl Sector) = true →
      pDrive (wd179x_sectWrite E s Cyl Head Sector buflen) = { pDrive s with
        imd := E.sim_fwrite (pDrive s).imd (sec_offset Cyl Sector)
          (bufBytes s.raw (WD179X_SECTOR_LEN_BYTES s)) (WD179X_SECTOR_LEN_BYTES s) }) ∧
    (((pDrive s).fileref = false ∨
        ((pDrive s).u3 = ImageType.DSK ∧ s.ddens = 1 ∧ s.fdc_sec_len = 0)) →
      pDrive (wd179x_sectWrite E s Cyl Head Sector buflen) = pDrive s) := by
  have e : ∀ t, pDrive { s with trace := t } = pDrive s := fun _ => rfl
  have e2 : ∀ t, WD179X_SECTOR_LEN_BYTES { s with trace := t } = WD179X_SECTOR_LEN_BYTES s :=
    fun _ => rfl
  unfold wd179x_sectWrite
  simp only [e, e2]
  refine ⟨fun hf hu => ?_, fun hf hu hd hk => ?_, fun h => ?_⟩
  · rw [if_neg (by rw [hf]; decide), if_neg (by omega), hu]
    simp only [pDrive_setDrive]
  · rw [if_neg (by rw [hf]; decide), if_neg (by omega), hu]
    simp only [hd, hk, if_true, if_false, pDrive_setDrive]
  · rcases h with hf | ⟨hu, hd⟩
    · rw [if_pos hf]; rfl
    · by_cases hf : (pDrive s).fileref = false
      · rw [if_pos hf]; rfl
      · rw [if_neg hf, if_neg (by omega), hu]
        simp only [hd, and_self, if_true]
        rfl

/-- The selected drive after `wd179x_trackWrite`: an ImageDisk image with a file attached is
formatted through `trackWrite` with the sector count, the sector length, the sector map, the
mode and the fill byte; with no file attached the drive is as before. -/
theorem trackWrite_pDrive (E : Env Img) (s : WD179X_INFO Img) (Cyl Head fillbyte : Nat) :
    ((pDrive s).fileref = true → (pDrive s).u3 = ImageType.IMD →
      pDrive (wd179x_trackWrite E s Cyl Head fillbyte) = { pDrive s with
        imd := E.trackWrite (pDrive s).imd Cyl Head s.fdc_fmt_sector_count
          (WD179X_SECTOR_LEN_BYTES s) s.fdc_sectormap (if s.ddens ≠ 0 then 3 else 0)
          fillbyte }) ∧
    ((pDrive s).fileref = false →
      pDrive (wd179x_trackWrite E s Cyl Head fillbyte) = pDrive s) := by
  have e : ∀ t, pDrive { s with trace := t } = pDrive s := fun _ => rfl
  have e2 : ∀ t, WD179X_SECTOR_LEN_BYTES { s with trace := t } = WD179X_SECTOR_LEN_BYTES s :=
    fun _ => rfl
  unfold wd179x_trackWrite
  simp only [e, e2]
  refine ⟨fun hf hu => ?_, fun hf => ?_⟩
  · rw [if_neg (by rw [hf]; decide), hu]
    simp only [pDrive_setDrive]
  · rw [if_pos hf]; rfl

/-- The state after the write of the last byte of a sector write transfer. -/
theorem Write_data_last_eq (E : Env Img) (s : WD179X_INFO Img) (b : Nat) (hd : validDrive s)
    (hw : s.fdc_write = TRUE) (ht : s.fdc_write_track = FALSE)
    (hlt : s.fdc_dataindex + 1 = s.fdc_datacount) (hc : s.fdc_datacount < 65536) :
    (WD179X_Write E WD179X_DATA b s).2 = { wd179x_sectWrite E (raiseInterrupt { s with
        raw := fun i => if i = s.fdc_dataindex then b else s.raw i
        fdc_dataindex := s.fdc_dataindex + 1
        fdc_status := s.fdc_status &&& (0xFF - (WD179X_STAT_DRQ ||| WD179X_STAT_BUSY))
        drq := 0
        intrq := 1 }) (pDrive s).track s.fdc_head s.fdc_sector (WD179X_SECTOR_LEN_BYTES s)
      with fdc_write := FALSE, fdc_data := b } := by
  rw [Write_data_eq E s b hd]
  have h1 : WD179X_Write_sector E b s = { wd179x_sectWrite E (raiseInterrupt { s with
      raw := fun i => if i = s.fdc_dataindex then b else s.raw i
      fdc_dataindex := s.fdc_dataindex + 1
      fdc_status := s.fdc_status &&& (0xFF - (WD179X_STAT_DRQ ||| WD179X_STAT_BUSY))
      drq := 0
      intrq := 1 }) (pDrive s).track s.fdc_head s.fdc_sector (WD179X_SECTOR_LEN_BYTES s)
        with fdc_write := FALSE } := by
    unfold WD179X_Write_sector
    rw [if_pos hw, if_pos (by omega)]
    dsimp only
    rw [Nat.mod_eq_of_lt (by omega), if_pos hlt]
    simp [pDrive, WD179X_SECTOR_LEN_BYTES]
  rw [h1]
  obtain ⟨f1, f2, f3, f4, f5⟩ := sectWrite_facts E (raiseInterrupt { s with
      raw := fun i => if i = s.fdc_dataindex then b else s.raw i
      fdc_dataindex := s.fdc_dataindex + 1
      fdc_status := s.fdc_status &&& (0xFF - (WD179X_STAT_DRQ ||| WD179X_STAT_BUSY))
      drq := 0
      intrq := 1 }) (pDrive s).track s.fdc_head s.fdc_sector (WD179X_SECTOR_LEN_BYTES s)
  unfold WD179X_Write_track
  rw [if_neg (by
    dsimp only
    rw [f4, raiseInterrupt_fdc_write_track]
    show ¬ s.fdc_write_track = TRUE
    rw [ht]; decide)]

/-- An accepted WRITE_REC with no external FIFO leaves the selected drive as it was. -/
theorem writeRec_pDrive (E : Env Img) (c : Nat) (s : WD179X_INFO Img)
    (hs : idle s) (hc : c &&& 0xF0 = WD179X_WRITE_REC) (hfifo : s.external_fifo_len = 0) :
    pDrive (Do1793Command E c s).2 = pDrive s ∧ (Do1793Command E c s).2.ddens = s.ddens := by
  have hf : (Do1793Command_setup c
      { s with fdc_status := s.fdc_status &&& (0xFF - WD179X_STAT_NOT_READY) }).external_fifo_len
        = 0 := by
    rw [(setup_frame c _).1]; exact hfifo
  rw [Do1793Command_writeRec_eq E c s hs hc]
  dsimp only
  refine ⟨?_, ?_⟩
  · rw [pDrive_post]
    unfold pDrive
    rw [write_noFifo E _ hf]
    dsimp only
    rw [setup_sel_drive, setup_drive]
  · rw [post_ddens, write_noFifo E _ hf]
    dsimp only
    rw [setup_ddens]

theorem drivesKept_refl (s : WD179X_INFO Img) : drivesKept s s :=
  ⟨List.prefix_refl _, rfl, fun _ => ⟨rfl, rfl⟩, fun _ _ => rfl⟩

theorem drivesKept_trans {s t u : WD179X_INFO Img} (h1 : drivesKept s t)
    (h2 : drivesKept t u) : drivesKept s u := by
  obtain ⟨a1, a2, a3, a4⟩ := h1
  obtain ⟨b1, b2, b3, b4⟩ := h2
  refine ⟨a1.trans b1, b2.trans a2, fun i => ⟨(b3 i).1.trans (a3 i).1, (b3 i).2.trans (a3 i).2⟩,
    fun h i => ?_⟩
  have ht : t.trace = s.trace := by
    rw [h] at b1
    exact (List.IsPrefix.eq_of_length a1 (Nat.le_antisymm a1.length_le b1.length_le)).symm
  exact ((b4 (h.trans ht.symm)) i).trans (a4 ht i)

/-- A state that differs from `s` in fields other than the record of calls, the selected
drive and the drives. -/
theorem drivesKept_of_eq (s t : WD179X_INFO Img) (h1 : t.trace = s.trace)
    (h2 : t.sel_drive = s.sel_drive) (h3 : t.drive = s.drive) : drivesKept s t := by
  refine ⟨by rw [h1], h2, fun i => by rw [h3]; exact ⟨rfl, rfl⟩,
    fun _ i => by rw [h3]⟩

theorem append_singleton_ne {α : Type} (l : List α) (a : α) : l ++ [a] ≠ l := by
  intro h
  have := congrArg List.length h
  simp at this

theorem setDrive_files (s : WD179X_INFO Img) (d : WD179X_DRIVE_INFO Img) (i : Nat)
    (h1 : d.fileref = (pDrive s).fileref) (h2 : d.u3 = (pDrive s).u3) :
    ((setDrive s d).drive i).fileref = (s.drive i).fileref ∧
    ((setDrive s d).drive i).u3 = (s.drive i).u3 := by
  unfold setDrive
  unfold pDrive at h1 h2
  dsimp only
  split_ifs with h
  · subst h; exact ⟨h1, h2⟩
  · exact ⟨rfl, rfl⟩

theorem setDrive_imd (s : WD179X_INFO Img) (d : WD179X_DRIVE_INFO Img) (i : Nat)
    (h1 : d.imd = (pDrive s).imd) :
    ((setDrive s d).drive i).imd = (s.drive i).imd := by
  unfold setDrive
  unfold pDrive at h1
  dsimp only
  split_ifs with h
  · subst h; exact h1
  · rfl

theorem sectWrite_files (E : Env Img) (s : WD179X_INFO Img) (Cyl Head Sector buflen i : Nat) :
    ((wd179x_sectWrite E s Cyl Head Sector buflen).drive i).fileref = (s.drive i).fileref ∧
    ((wd179x_sectWrite E s Cyl Head Sector buflen).drive i).u3 = (s.drive i).u3 := by
  unfold wd179x_sectWrite
  dsimp only
  split_ifs <;>
    first
    | exact ⟨rfl, rfl⟩
    | exact setDrive_files _ _ i rfl rfl
    | (split <;>
        first
        | exact ⟨rfl, rfl⟩
        | exact setDrive_files _ _ i rfl rfl)

theorem trackWrite_files (E : Env Img) (s : WD179X_INFO Img) (Cyl Head fillbyte i : Nat) :
    ((wd179x_trackWrite E s Cyl Head fillbyte).drive i).fileref = (s.drive i).fileref ∧
    ((wd179x_trackWrite E s Cyl Head fillbyte).drive i).u3 = (s.drive i).u3 := by
  unfold wd179x_trackWrite
  dsimp only
  split_ifs <;>
    first
    | exact ⟨rfl, rfl⟩
    | exact setDrive_files _ _ i rfl rfl
    | (split <;>
        first
        | exact ⟨rfl, rfl⟩
        | exact setDrive_files _ _ i rfl rfl)

theorem Write_sector_drives (E : Env Img) (b : Nat) (s : WD179X_INFO Img) :
    drivesKept s (WD179X_Write_sector E b s) := by
  have hp := Write_sector_trace E b s
  refine ⟨hp, Write_sector_sel_drive E b s, ?_, ?_⟩
  · intro i
    unfold WD179X_Write_sector
    dsimp only
    split_ifs
    · dsimp only
      obtain ⟨f1, f2⟩ := sectWrite_files E (raiseInterrupt { s with
          raw := fun i => if i = s.fdc_dataindex then b else s.raw i
          fdc_dataindex := (s.fdc_dataindex + 1) % 65536
          fdc_status := s.fdc_status &&& (0xFF - (WD179X_STAT_DRQ ||| WD179X_STAT_BUSY))
          drq := 0
          intrq := 1 })
        (pDrive (raiseInterrupt { s with
          raw := fun i => if i = s.fdc_dataindex then b else s.raw i
          fdc_dataindex := (s.fdc_dataindex + 1) % 65536
          fdc_status := s.fdc_status &&& (0xFF - (WD179X_STAT_DRQ ||| WD179X_STAT_BUSY))
          drq := 0
          intrq := 1 })).track s.fdc_head s.fdc_sector
        (WD179X_SECTOR_LEN_BYTES (raiseInterrupt { s with
          raw := fun i => if i = s.fdc_dataindex then b else s.raw i
          fdc_dataindex := (s.fdc_dataindex + 1) % 65536
          fdc_status := s.fdc_status &&& (0xFF - (WD179X_STAT_DRQ ||| WD179X_STAT_BUSY))
          drq := 0
          intrq := 1 })) i
      rw [raiseInterrupt_drive] at f1 f2
      simp only [raiseInterrupt_fdc_head, raiseInterrupt_fdc_sector] at f1 f2 ⊢
      exact ⟨f1, f2⟩
    · exact ⟨rfl, rfl⟩
    · exact ⟨rfl, rfl⟩
    · exact ⟨rfl, rfl⟩
  · intro h i
    revert h
    unfold WD179X_Write_sector
    dsimp only
    split_ifs
    · dsimp only
      intro h
      rw [(sectWrite_facts E _ _ _ _ _).2.2.2.2, raiseInterrupt_trace] at h
      exact absurd h (append_singleton_ne _ _)
    · intro _; rfl
    · intro _; rfl
    · intro _; rfl

/-- The statements that follow the call of `wd179x_trackWrite` at the end of a formatted
track keep the files and the kinds of the images. -/
theorem format_tail_files (E : Env Img) (X : WD179X_INFO Img) (i st : Nat) :
    ((setDrive (raiseInterrupt { X with fdc_status := st, drq := 0, intrq := 1 })
        { pDrive (raiseInterrupt { X with fdc_status := st, drq := 0, intrq := 1 }) with
          capac := E.sim_fsize
            (pDrive (raiseInterrupt { X with fdc_status := st, drq := 0, intrq := 1 })).imd
        }).drive i).fileref = (X.drive i).fileref ∧
    ((setDrive (raiseInterrupt { X with fdc_status := st, drq := 0, intrq := 1 })
        { pDrive (raiseInterrupt { X with fdc_status := st, drq := 0, intrq := 1 }) with
          capac := E.sim_fsize
            (pDrive (raiseInterrupt { X with fdc_status := st, drq := 0, intrq := 1 })).imd
        }).drive i).u3 = (X.drive i).u3 := by
  have h := setDrive_files (raiseInterrupt { X with fdc_status := st, drq := 0, intrq := 1 })
    { pDrive (raiseInterrupt { X with fdc_status := st, drq := 0, intrq := 1 }) with
      capac := E.sim_fsize
        (pDrive (raiseInterrupt { X with fdc_status := st, drq := 0, intrq := 1 })).imd }
    i rfl rfl
  rw [raiseInterrupt_drive] at h
  exact h

theorem endSector_drives (E : Env Img) (s : WD179X_INFO Img) :
    drivesKept s (WD179X_Write_endSector E s) := by
  refine ⟨endSector_trace E s, endSector_sel_drive E s, ?_, ?_⟩
  · intro i
    unfold WD179X_Write_endSector
    generalize (floorlog2 s.fdc_dataindex + 256 - 7) % 256 = n
    by_cases c1 : invalidSecLen n <;>
      by_cases c2 : s.fdc_fmt_sector_count ≥ WD179X_MAX_SECTOR <;>
      simp only [c1, if_true, if_false] <;>
      simp only [c2, if_true, if_false] <;>
      simp only [clearGap] <;>
      split_ifs <;>
      first
        | exact ⟨rfl, rfl⟩
        | exact ⟨(format_tail_files E _ i _).1.trans (trackWrite_files E _ _ _ _ i).1,
            (format_tail_files E _ i _).2.trans (trackWrite_files E _ _ _ _ i).2⟩
  · intro h i
    revert h
    unfold WD179X_Write_endSector
    generalize (floorlog2 s.fdc_dataindex + 256 - 7) % 256 = n
    by_cases c1 : invalidSecLen n <;>
      by_cases c2 : s.fdc_fmt_sector_count ≥ WD179X_MAX_SECTOR <;>
      simp only [c1, if_true, if_false] <;>
      simp only [c2, if_true, if_false] <;>
      simp only [clearGap] <;>
      split_ifs <;>
      first
        | (intro _; rfl)
        | (simp only [setDrive, raiseInterrupt_trace, trackWrite_trace]
           intro h
           exact absurd h (append_singleton_ne _ _))

theorem Write_track_drives (E : Env Img) (b : Nat) (s : WD179X_INFO Img) :
    drivesKept s (WD179X_Write_track E b s) := by
  have hset : ∀ t : Nat, drivesKept s (setTrack s t) := fun t =>
    ⟨List.prefix_refl _, rfl, fun i => setDrive_files _ _ i rfl rfl,
      fun _ i => setDrive_imd _ _ i rfl⟩
  unfold WD179X_Write_track
  by_cases h0 : s.fdc_write_track = TRUE
  · rw [if_pos h0]
    by_cases h1 : s.fdc_fmt_state = FMT_GAP1
    · rw [if_pos h1]; split_ifs <;> exact drivesKept_of_eq s _ rfl rfl rfl
    · rw [if_neg h1]
      by_cases h2 : s.fdc_fmt_state = FMT_GAP2
      · rw [if_pos h2]; split_ifs <;> exact drivesKept_of_eq s _ rfl rfl rfl
      · rw [if_neg h2]
        by_cases h3 : s.fdc_fmt_state = FMT_HEADER
        · rw [if_pos h3]
          dsimp only
          split_ifs <;>
            first
              | exact drivesKept_of_eq s _ rfl rfl rfl
              | exact drivesKept_trans (hset b) (drivesKept_of_eq _ _ rfl rfl rfl)
        · rw [if_neg h3]
          by_cases h4 : s.fdc_fmt_state = FMT_GAP3
          · rw [if_pos h4]; split_ifs <;> exact drivesKept_of_eq s _ rfl rfl rfl
          · rw [if_neg h4]
            by_cases h5 : s.fdc_fmt_state = FMT_DATA
            · rw [if_pos h5]
              by_cases h6 : b ≠ 0xF7
              · rw [if_pos h6]; exact drivesKept_of_eq s _ rfl rfl rfl
              · rw [if_neg h6]; exact endSector_drives E s
            · rw [if_neg h5]; exact drivesKept_refl s
  · rw [if_neg h0]; exact drivesKept_refl s

/-- A write to the Data port changes an image only if it records a call. -/
theorem Write_data_drives (E : Env Img) (b : Nat) (s : WD179X_INFO Img) :
    drivesKept s (WD179X_Write E WD179X_DATA b s).2 := by
  by_cases hd : validDrive s
  · rw [Write_data_eq E s b hd]
    exact drivesKept_trans (Write_sector_drives E b s)
      (drivesKept_trans (Write_track_drives E b _) (drivesKept_of_eq _ _ rfl rfl rfl))
  · unfold WD179X_Write
    unfold validDrive at hd
    by_cases h1 : s.sel_drive ≥ WD179X_MAX_DRIVES
    · rw [if_pos h1]; exact drivesKept_refl s
    · rw [if_neg h1, if_pos (by
        have : ¬ (pDrive s).uptr = true := fun h => hd ⟨by omega, h⟩
        simpa using this)]
      exact drivesKept_refl s

theorem dataWrites_drives (E : Env Img) (l : List Nat) :
    ∀ s : WD179X_INFO Img, drivesKept s (dataWrites E l s) := by
  induction l with
  | nil => intro s; exact drivesKept_refl s
  | cons b l ih =>
    intro s
    rw [dataWrites_cons]
    exact drivesKept_trans (Write_data_drives E b s) (ih _)

/-- The selected drive after writes to the Data port that record no call: the file, the kind
of the image and the image are as before. -/
theorem dataWrites_pDrive (E : Env Img) (l : List Nat) (s : WD179X_INFO Img)
    (h : (dataWrites E l s).trace = s.trace) :
    (pDrive (dataWrites E l s)).fileref = (pDrive s).fileref ∧
    (pDrive (dataWrites E l s)).u3 = (pDrive s).u3 ∧
    (pDrive (dataWrites E l s)).imd = (pDrive s).imd := by
  obtain ⟨-, k2, k3, k4⟩ := dataWrites_drives E l s
  unfold pDrive
  rw [k2]
  exact ⟨(k3 _).1, (k3 _).2, k4 h _⟩

/-! ## What a formatted track hands to the image -/

theorem trackWrite_imd (E : Env Img) (s : WD179X_INFO Img) (Cyl Head fillbyte : Nat) :
    ((pDrive s).fileref = true → (pDrive s).u3 = ImageType.IMD →
      (pDrive (wd179x_trackWrite E s Cyl Head fillbyte)).imd
        = E.trackWrite (pDrive s).imd Cyl Head s.fdc_fmt_sector_count
          (WD179X_SECTOR_LEN_BYTES s) s.fdc_sectormap (if s.ddens ≠ 0 then 3 else 0)
          fillbyte) ∧
    ((pDrive s).fileref = false →
      (pDrive (wd179x_trackWrite E s Cyl Head fillbyte)).imd = (pDrive s).imd) := by
  obtain ⟨p1, p2⟩ := trackWrite_pDrive E s Cyl Head fillbyte
  exact ⟨fun hf hu => by rw [p1 hf hu], fun hf => by rw [p2 hf]⟩

/-- The closing 0xF7 of the sector that completes the track, seen from the image: an
ImageDisk image with a file attached is formatted with the sectors counted, the sector length,
the sector map gathered, the mode of the density input and the first byte of the buffer as
fill byte; with no file attached the image is as before. -/
theorem endSector_last_imd (E : Env Img) (N j : Nat) (t : WD179X_INFO Img) (hN : N ≤ 6)
    (hidx : t.fdc_dataindex = 128 <<< N) (hj : t.fdc_fmt_sector_count = j) (hj26 : j < 26)
    (hK : j + 1 = max_sectors_per_track (t.ddens &&& 1) N) :
    ((pDrive t).fileref = true → (pDrive t).u3 = ImageType.IMD →
      (pDrive (WD179X_Write_endSector E t)).imd
        = E.trackWrite (pDrive t).imd (pDrive t).track t.fdc_head (j + 1) (128 <<< N)
            (fun i => if i = j then t.fdc_sector else t.fdc_sectormap i)
            (if t.ddens ≠ 0 then 3 else 0) (t.raw 0)) ∧
    ((pDrive t).fileref = false →
      (pDrive (WD179X_Write_endSector E t)).imd = (pDrive t).imd) := by
  have hinv : ¬ invalidSecLen N := not_invalid_of_le N hN
  have h26 : ¬ j ≥ WD179X_MAX_SECTOR := by unfold WD179X_MAX_SECTOR; exact Nat.not_le.mpr hj26
  have hmod : (j + 1) % 256 = j + 1 :=
    Nat.mod_eq_of_lt (Nat.lt_of_lt_of_le (Nat.succ_lt_succ hj26) (by decide))
  have hfl := floorlog2_shl N hN
  have hlen : (128 <<< N) % 2 ^ 32 = 128 <<< N :=
    Nat.mod_eq_of_lt (Nat.lt_trans (shl_code_lt N hN) (by decide))
  have e : ∀ (X : WD179X_INFO Img) (st : Nat),
      pDrive (raiseInterrupt { X with fdc_status := st, drq := 0, intrq := 1 }) = pDrive X := by
    intro X st
    unfold pDrive
    rw [raiseInterrupt_sel_drive, raiseInterrupt_drive]
  unfold WD179X_Write_endSector
  rw [hidx, hfl]
  simp only [hinv, if_false]
  simp only [hj, h26, if_false, hmod]
  simp only [clearGap]
  rw [if_pos hK]
  simp only [pDrive_setDrive, e]
  obtain ⟨k1, k2⟩ := trackWrite_imd E { t with
      fdc_fmt_state := FMT_GAP2
      fdc_gap := fun i => if i = 1 then 0 else t.fdc_gap i
      fdc_fmt_sector_count := j + 1
      fdc_sectormap := fun i => if i = j then t.fdc_sector else t.fdc_sectormap i
      fdc_dataindex := 128 <<< N
      fdc_sec_len := N } (pDrive t).track t.fdc_head (t.raw 0)
  refine ⟨fun hf hu => ?_, fun hf => ?_⟩
  · refine (k1 hf hu).trans ?_
    show E.trackWrite (pDrive t).imd (pDrive t).track t.fdc_head (j + 1)
      ((128 <<< N) % 2 ^ 32) _ _ _ = _
    rw [hlen]
  · exact k2 hf

/-- The sector that completes the track, seen from the image. -/
theorem fmt_sector_last_imd (E : Env Img) (N dd : Nat) (tr : List Event) (m : List Nat)
    (r : FmtSector) (s : WD179X_INFO Img) (hs : fmtReady dd tr m s) (hwf : r.wf N)
    (hN : N ≤ 6) (hK : m.length + 1 = max_sectors_per_track (dd &&& 1) N) :
    ((pDrive s).fileref = true → (pDrive s).u3 = ImageType.IMD →
      ∃ sm : Nat → Nat, bufBytes sm (m.length + 1) = m ++ [r.sec] ∧
        (pDrive (dataWrites E r.bytes s)).imd
          = E.trackWrite (pDrive s).imd r.cyl r.head (m.length + 1) (128 <<< N) sm
              (if dd ≠ 0 then 3 else 0) (r.data.getD 0 0)) ∧
    ((pDrive s).fileref = false →
      (pDrive (dataWrites E r.bytes s)).imd = (pDrive s).imd) := by
  obtain ⟨hm, hst, hcnt, hmap, htr, hdd⟩ := hs
  obtain ⟨g, d, hb⟩ := fmt_body E N r s hm hst hwf hN
  have h26 := max_sectors_le dd N hN
  have hm2 : fmtMode (setTrack s r.cyl) := fmtMode_setTrack s r.cyl hm
  have hpos : 0 < r.data.length := by
    rw [hwf.2.2.1]
    interval_cases N <;> decide
  have e0 : ∀ (X : WD179X_INFO Img) (b : Nat), pDrive { X with fdc_data := b } = pDrive X :=
    fun _ _ => rfl
  unfold FmtSector.bytes
  rw [dataWrites_app]
  generalize dataWrites E r.body s = T at hb
  have tm : fmtMode T := by rw [hb]; exact hm2
  have tst : T.fdc_fmt_state = FMT_DATA := by rw [hb]
  have tidx : T.fdc_dataindex = 128 <<< N := by rw [hb]; exact hwf.2.2.1
  have tcnt : T.fdc_fmt_sector_count = m.length := by rw [hb]; exact hcnt
  have tdd : T.ddens = dd := by rw [hb]; exact hdd
  have tp : pDrive T = { pDrive s with track := r.cyl } := by
    rw [hb]; simp [pDrive, setTrack, setDrive]
  have thead : T.fdc_head = r.head := by rw [hb]
  have tsec : T.fdc_sector = r.sec := by rw [hb]
  have tmap : T.fdc_sectormap = s.fdc_sectormap := by rw [hb]; rfl
  have traw : T.raw 0 = r.data.getD 0 0 := by
    rw [hb]
    dsimp only
    rw [storeFrom_apply, if_pos ⟨Nat.le_refl 0, by rw [Nat.zero_add]; exact hpos⟩]
  clear hb
  rw [dataWrites_cons, fmt_step_F7 E T tm tst]
  dsimp only [dataWrites, List.foldl]
  simp only [e0]
  obtain ⟨he1, he2⟩ := endSector_last_imd E N m.length T hN tidx tcnt (by omega)
    (by rw [tdd]; exact hK)
  rw [tp] at he1 he2
  dsimp only at he1 he2
  rw [thead, tsec, tmap, traw, tdd] at he1
  refine ⟨fun hf hu => ⟨fun i => if i = m.length then r.sec else s.fdc_sectormap i, ?_, ?_⟩,
    fun hf => ?_⟩
  · rw [bufBytes_update, hmap]
  · rw [he1 hf hu]
  · rw [he2 hf]

/-- The sectors of a stream that do not complete the track leave the format state machine
waiting for the next sector. -/
theorem fmt_stream_ready (E : Env Img) (N dd : Nat) (tr : List Event) (hN : N ≤ 6)
    (recs : List FmtSector) :
    ∀ (m : List Nat) (s : WD179X_INFO Img), fmtReady dd tr m s →
      (∀ x ∈ recs, x.wf N) →
      m.length + recs.length < max_sectors_per_track (dd &&& 1) N →
      fmtReady dd tr (m ++ recs.map FmtSector.sec) (dataWrites E (fmtStream recs) s) := by
  induction recs with
  | nil =>
    intro m s hs _ _
    have e : fmtStream ([] : List FmtSector) = [] := by simp [fmtStream]
    rw [e]
    simpa using hs
  | cons r0 recs ih =>
    intro m s hs hwf hK
    simp only [List.length_cons] at hK
    have h0 := fmt_sector_more E N dd tr m r0 s hs (hwf r0 (by simp)) hN (by omega)
    have h1 := ih (m ++ [r0.sec]) (dataWrites E r0.bytes s) h0
      (fun x hx => hwf x (by simp at hx ⊢; tauto))
      (by simp only [List.length_append, List.length_singleton]; omega)
    rw [fmtStream_cons, dataWrites_app]
    simpa using h1

theorem fmtStream_append_last (recs : List FmtSector) (r : FmtSector) :
    fmtStream (recs ++ [r]) = fmtStream recs ++ r.bytes := by
  simp [fmtStream]

/-- An accepted WRITE_TRACK leaves the selected drive as it was. -/
theorem writeTrack_pDrive (E : Env Img) (c : Nat) (s : WD179X_INFO Img)
    (hs : idle s) (hc : c &&& 0xF0 = WD179X_WRITE_TRACK) :
    pDrive (Do1793Command E c s).2 = pDrive s := by
  obtain ⟨⟨h1, h2⟩, h3⟩ := hs
  obtain ⟨n1, n2, n3⟩ := typeIII_of_writeTrack c hc
  have hsetup : ∀ s : WD179X_INFO Img, Do1793Command_setup c s = { s with cmdtype := 3 } := by
    intro s; unfold Do1793Command_setup; rw [if_neg n1, if_neg n2, if_pos n3]
  have e : Do1793Command E c s = (0, Do1793Command_post E c (Do1793Command_writeTrack
      { s with fdc_status := s.fdc_status &&& (0xFF - WD179X_STAT_NOT_READY), cmdtype := 3 })) := by
    unfold Do1793Command
    rw [if_neg (by omega), if_neg (by simp [h2]), if_neg (by simp [h3])]
    dsimp only
    rw [hsetup, exec_writeTrack E c _ hc]
  rw [e]
  dsimp only
  rw [pDrive_post]
  rfl

/-- C14 (amended): after an accepted WRITE_TRACK, for a sector length code `N ≤ 6` and a
stream of `K = max_sectors_per_track[ddens & 1][N]` sectors, each of the form 0xFC, gap bytes
free of 0xFE, 0xFE, five header bytes, one further byte, gap bytes free of 0xFB, 0xFB, `128 << N`
data bytes free of 0xF7, 0xF7: the command returns 0 and formats nothing, no proper prefix of
the stream records a call or changes the image, and the closing 0xF7 of the last sector enters
`wd179x_trackWrite` once, with the sector count `K`, the sector length `128 << N`, the sector
map equal to the `K` values header[2] in the order supplied, the fill byte equal to the first
data byte of the last sector, and the cylinder and head of the last header.  With an
ImageDisk image and a file attached, the image is then the result of the library
`trackWrite` for that cylinder and head with the sector count `K`, the sector length
`128 << N`, a sector map whose first `K` entries are the values header[2] in the order
supplied, the mode 3 or 0 of the density input and that fill byte; with no file attached the
image is as before. -/
theorem C14_format_track_round_trip (E : Env Img) (s : WD179X_INFO Img) (cCommand N : Nat)
    (recs : List FmtSector) (last : FmtSector)
    (hs : idle s) (hc : cCommand &&& 0xF0 = WD179X_WRITE_TRACK) (hN : N ≤ 6)
    (hK : (recs ++ [last]).length = max_sectors_per_track (s.ddens &&& 1) N)
    (hwf : ∀ r ∈ recs ++ [last], r.wf N) :
    (Do1793Command E cCommand s).1 = 0 ∧
    (Do1793Command E cCommand s).2.trace = s.trace ∧
    pDrive (Do1793Command E cCommand s).2 = pDrive s ∧
    (∀ k, k < (fmtStream (recs ++ [last])).length →
      (dataWrites E ((fmtStream (recs ++ [last])).take k)
        (Do1793Command E cCommand s).2).trace = s.trace ∧
      (pDrive (dataWrites E ((fmtStream (recs ++ [last])).take k)
        (Do1793Command E cCommand s).2)).imd = (pDrive s).imd) ∧
    (dataWrites E (fmtStream (recs ++ [last])) (Do1793Command E cCommand s).2).trace
      = s.trace ++ [Event.trackWrite last.cyl last.head (last.data.getD 0 0)
          (recs ++ [last]).length (128 <<< N) ((recs ++ [last]).map FmtSector.sec)] ∧
    ((pDrive s).fileref = true → (pDrive s).u3 = ImageType.IMD →
      ∃ sm : Nat → Nat,
        bufBytes sm (recs ++ [last]).length = (recs ++ [last]).map FmtSector.sec ∧
        (pDrive (dataWrites E (fmtStream (recs ++ [last]))
          (Do1793Command E cCommand s).2)).imd
          = E.trackWrite (pDrive s).imd last.cyl last.head (recs ++ [last]).length (128 <<< N)
              sm (if s.ddens ≠ 0 then 3 else 0) (last.data.getD 0 0)) ∧
    ((pDrive s).fileref = false →
      (pDrive (dataWrites E (fmtStream (recs ++ [last]))
        (Do1793Command E cCommand s).2)).imd = (pDrive s).imd) := by
  obtain ⟨a1, hready⟩ := writeTrack_ready E cCommand s hs hc
  have hp := writeTrack_pDrive E cCommand s hs hc
  have htr : (Do1793Command E cCommand s).2.trace = s.trace := hready.2.2.2.2.1
  have h := fmt_records E N s.ddens s.trace hN last recs [] _ hready hwf
    (by rw [List.length_nil, Nat.zero_add]; exact hK)
  generalize (Do1793Command E cCommand s).2 = s1 at hready hp htr h ⊢
  have hlenK : recs.length + 1 = max_sectors_per_track (s.ddens &&& 1) N := by
    rw [← hK, List.length_append, List.length_singleton]
  -- the state before the last sector
  have hready2 := fmt_stream_ready E N s.ddens s.trace hN recs [] s1 hready
    (fun x hx => hwf x (List.mem_append_left _ hx))
    (by rw [List.length_nil, Nat.zero_add]; omega)
  rw [List.nil_append] at hready2
  have htr2 : (dataWrites E (fmtStream recs) s1).trace = s1.trace :=
    hready2.2.2.2.2.1.trans htr.symm
  obtain ⟨d1, d2, d3⟩ := dataWrites_pDrive E (fmtStream recs) s1 htr2
  rw [hp] at d1 d2 d3
  obtain ⟨i1, i2⟩ := fmt_sector_last_imd E N s.ddens s.trace (recs.map FmtSector.sec) last
    (dataWrites E (fmtStream recs) s1) hready2 (hwf last (by simp)) hN
    (by rw [List.length_map]; exact hlenK)
  rw [d1, d2, d3, ← dataWrites_app, ← fmtStream_append_last] at i1
  rw [d1, d3, ← dataWrites_app, ← fmtStream_append_last] at i2
  refine ⟨a1, htr, hp, ?_, ?_, ?_, i2⟩
  · intro k hk
    rw [fmtStream_concat] at hk ⊢
    rw [List.length_append, List.length_singleton] at hk
    rw [List.take_append_of_le_length (by omega)]
    have := dataWrites_take_trace E (fmtStream recs ++ last.body) _ (h.1.trans htr.symm) k
    refine ⟨this.trans htr, ?_⟩
    rw [(dataWrites_pDrive E _ s1 this).2.2, hp]
  · rw [h.2, hK]
    rfl
  · intro hf hu
    obtain ⟨sm, q1, q2⟩ := i1 hf hu
    refine ⟨sm, ?_, ?_⟩
    · rw [List.length_append, List.length_singleton, List.map_append, List.map_singleton,
        ← q1, List.length_map]
    · rw [q2, List.length_map, List.length_append, List.length_singleton]

/-- Instance of C14 on an ImageDisk image over the recording store in single density: two
sectors of 2048 bytes (code 4) numbered 2 and 1 format cylinder 3, side 0; the adapter is
entered once with the sector map [2, 1] and the fill byte 0xE5, and the image records the
sector map [2, 1]. -/
theorem C14_witness :
    (dataWrites logEnv (fmtStream ([demoSector 2] ++ [demoSector 1]))
      (Do1793Command logEnv 0xF0 (logState ImageType.IMD 0)).2).trace
        = [Event.trackWrite 3 0 0xE5 2 2048 [2, 1]] ∧
    (pDrive (dataWrites logEnv (fmtStream ([demoSector 2] ++ [demoSector 1]))
      (Do1793Command logEnv 0xF0 (logState ImageType.IMD 0)).2)).imd = [[2, 1]] := by
  have h := C14_format_track_round_trip logEnv (logState ImageType.IMD 0) 0xF0 4
    [demoSector 2] (demoSector 1) (by decide) (by decide) (by decide) (by decide)
    (by
      intro r hr
      simp only [List.singleton_append, List.mem_cons, List.mem_singleton, List.not_mem_nil,
        or_false] at hr
      rcases hr with rfl | rfl <;>
        exact ⟨by decide, by decide, List.length_replicate _ _,
          fun b hb => by rw [List.eq_of_mem_replicate hb]; decide⟩)
  refine ⟨h.2.2.2.2.1.trans (by rfl), ?_⟩
  obtain ⟨sm, q1, q2⟩ := h.2.2.2.2.2.1 (by decide) (by decide)
  rw [q2]
  show [] ++ [bufBytes sm ([demoSector 2] ++ [demoSector 1]).length] = _
  rw [q1]
  rfl

/-! ## Stores into the sector buffer stay inside it -/

theorem raiseInterrupt_overrun (s : WD179X_INFO Img) :
    (raiseInterrupt s).overrun = s.overrun := by
  unfold raiseInterrupt; split <;> rfl

theorem setup_overrun (c : Nat) (s : WD179X_INFO Img) :
    (Do1793Command_setup c s).overrun = s.overrun := by
  obtain ⟨_, _, _, _, _, _, h⟩ := setup_frame_ex c s; rw [h]

theorem post_overrun (E : Env Img) (c : Nat) (s : WD179X_INFO Img) :
    (Do1793Command_post E c s).overrun = s.overrun := by
  obtain ⟨_, _, _, _, _, h⟩ := post_frame_ex E c s; rw [h]

theorem sectWrite_overrun (E : Env Img) (s : WD179X_INFO Img) (Cyl Head Sector buflen : Nat) :
    (wd179x_sectWrite E s Cyl Head Sector buflen).overrun = s.overrun := by
  obtain ⟨_, h, _⟩ := sectWrite_frame E s Cyl Head Sector buflen; rw [h]

theorem trackWrite_overrun (E : Env Img) (s : WD179X_INFO Img) (Cyl Head fillbyte : Nat) :
    (wd179x_trackWrite E s Cyl Head fillbyte).overrun = s.overrun := by
  obtain ⟨_, h, _⟩ := trackWrite_frame E s Cyl Head fillbyte; rw [h]

theorem safeKeeps_refl (s : WD179X_INFO Img) : safeKeeps s s :=
  ⟨fun h => h, fun _ h => h⟩

theorem safeKeeps_trans {s t u : WD179X_INFO Img} (h1 : safeKeeps s t) (h2 : safeKeeps t u) :
    safeKeeps s u := by
  refine ⟨fun h => h2.1 (h1.1 h), fun hu hs => ?_⟩
  have ht : t.overrun = false := by
    cases h : t.overrun
    · rfl
    · rw [h2.1 h] at hu; cases hu
  exact h2.2 hu (h1.2 ht hs)

/-- An operation that leaves the interrupt vector and the flag `overrun` as they were, keeps
the cursor invariant and leaves the index at most where it was, or at most the count. -/
theorem safeKeeps_of (s t : WD179X_INFO Img) (hv : t.intvector = s.intvector)
    (ho : t.overrun = s.overrun) (hc : cursorInv s → cursorInv t)
    (hi : t.fdc_dataindex ≤ s.fdc_dataindex ∨ t.fdc_dataindex ≤ s.fdc_datacount) :
    safeKeeps s t := by
  refine ⟨fun h => by rw [ho]; exact h, fun _ hs => ⟨hc hs.1, ?_, by rw [hv]; exact hs.2.2⟩⟩
  rcases hi with h | h
  · exact le_trans h hs.2.1
  · exact le_trans h (le_trans hs.1.2.1 (by decide))

theorem sectRead_safe (E : Env Img) (s : WD179X_INFO Img) (Cyl Head Sector buflen : Nat) :
    safeKeeps s (wd179x_sectRead E s Cyl Head Sector buflen) := by
  have hc := sectRead_cursor E s Cyl Head Sector buflen
  rcases sectRead_cases E s Cyl Head Sector buflen with ⟨buf, ef, h⟩ | ⟨buf, h⟩
  · rw [h] at hc ⊢
    exact safeKeeps_of s _ rfl rfl hc (Or.inl (Nat.zero_le _))
  · rw [h] at hc ⊢
    exact safeKeeps_of s _ rfl rfl hc (Or.inl (Nat.le_refl _))

theorem Read_data_safe (E : Env Img) (s : WD179X_INFO Img) :
    safeKeeps s (WD179X_Read_data E s).2 := by
  unfold WD179X_Read_data
  by_cases hr : s.fdc_read = TRUE
  · rw [if_pos hr]
    by_cases hlt : s.fdc_dataindex < s.fdc_datacount
    · rw [if_pos hlt]
      dsimp only
      have hle : (s.fdc_dataindex + 1) % 65536 ≤ s.fdc_datacount :=
        le_trans (Nat.mod_le _ _) hlt
      by_cases hl : (s.fdc_dataindex + 1) % 65536 = s.fdc_datacount
      · rw [if_pos hl]
        by_cases hm : s.fdc_multiple = FALSE
        · rw [if_pos hm]
          exact safeKeeps_of s _ rfl rfl (fun hs => ⟨hs.1, hs.2.1, fun _ => hle⟩) (Or.inr hle)
        · rw [if_neg hm]
          have e1 : ∀ a b, computeSectorSize E { s with fdc_status := a, fdc_dataindex := b }
              = computeSectorSize E s := fun _ _ => rfl
          rw [e1]
          by_cases hn : invalidSecLen (computeSectorSize E s)
          · rw [if_pos hn]
            exact safeKeeps_of s _ rfl rfl (fun hs => ⟨Nat.zero_le _, hs.2.1, fun _ => hle⟩)
              (Or.inr hle)
          · rw [if_neg hn]
            split_ifs
            · exact safeKeeps_of s _ rfl rfl
                (fun hs => ⟨le_of_not_invalid _ hn, hs.2.1, fun _ => hle⟩) (Or.inr hle)
            · refine safeKeeps_trans ?_ (sectRead_safe E _ _ _ _ _)
              exact safeKeeps_of s _ rfl rfl
                (fun hs => ⟨le_of_not_invalid _ hn, hs.2.1, fun _ => hle⟩) (Or.inr hle)
      · rw [if_neg hl]
        exact safeKeeps_of s _ rfl rfl (fun hs => ⟨hs.1, hs.2.1, fun _ => hle⟩) (Or.inr hle)
    · rw [if_neg hlt]; exact safeKeeps_refl s
  · rw [if_neg hr]; exact safeKeeps_refl s

theorem Read_safe (E : Env Img) (Addr : Nat) (s : WD179X_INFO Img) :
    safeKeeps s (WD179X_Read E Addr s).2 := by
  by_cases hsel : s.sel_drive < WD179X_MAX_DRIVES
  · by_cases h0 : Addr &&& 0x3 = WD179X_STATUS
    · obtain ⟨st, v, h, -⟩ := Read_status_eq E s Addr hsel h0
      rw [h]
      exact safeKeeps_of s _ rfl rfl (fun hs => cursorInv_of_eq s _ rfl rfl rfl rfl hs)
        (Or.inl (Nat.le_refl _))
    · unfold WD179X_Read
      rw [if_neg (by omega), if_neg h0]
      by_cases h1 : Addr &&& 0x3 = WD179X_TRACK
      · rw [if_pos h1]; exact safeKeeps_refl s
      · rw [if_neg h1]
        by_cases h2 : Addr &&& 0x3 = WD179X_SECTOR
        · rw [if_pos h2]; exact safeKeeps_refl s
        · rw [if_neg h2]
          by_cases h3 : Addr &&& 0x3 = WD179X_DATA
          · rw [if_pos h3]; exact Read_data_safe E s
          · rw [if_neg h3]; exact safeKeeps_refl s
  · unfold WD179X_Read
    rw [if_pos (by omega)]
    exact safeKeeps_refl s

theorem Write_sector_safe (E : Env Img) (b : Nat) (s : WD179X_INFO Img) :
    safeKeeps s (WD179X_Write_sector E b s) := by
  have hc := Write_sector_cursor E b s
  have f : (WD179X_Write_sector E b s).intvector = s.intvector ∧
      (WD179X_Write_sector E b s).overrun = s.overrun ∧
      ((WD179X_Write_sector E b s).fdc_dataindex ≤ s.fdc_dataindex ∨
        (WD179X_Write_sector E b s).fdc_dataindex ≤ s.fdc_datacount) := by
    unfold WD179X_Write_sector
    by_cases hw : s.fdc_write = TRUE
    · rw [if_pos hw]
      by_cases hlt : s.fdc_dataindex < s.fdc_datacount
      · rw [if_pos hlt]
        dsimp only
        have hle : (s.fdc_dataindex + 1) % 65536 ≤ s.fdc_datacount :=
          le_trans (Nat.mod_le _ _) hlt
        by_cases hl : (s.fdc_dataindex + 1) % 65536 = s.fdc_datacount
        · rw [if_pos hl]
          dsimp only
          simp only [sectWrite_intvector, sectWrite_overrun, sectWrite_fdc_dataindex,
            raiseInterrupt_intvector, raiseInterrupt_overrun, raiseInterrupt_fdc_dataindex]
          first
            | exact ⟨rfl, rfl, Or.inr hle⟩
            | exact ⟨trivial, trivial, Or.inr hle⟩
        · rw [if_neg hl]
          exact ⟨rfl, rfl, Or.inr hle⟩
      · rw [if_neg hlt]; exact ⟨rfl, rfl, Or.inl (Nat.le_refl _)⟩
    · rw [if_neg hw]; exact ⟨rfl, rfl, Or.inl (Nat.le_refl _)⟩
  exact safeKeeps_of s _ f.1 f.2.1 hc f.2.2

theorem endSector_safe_fields (E : Env Img) (s : WD179X_INFO Img) :
    (WD179X_Write_endSector E s).intvector = s.intvector ∧
    (WD179X_Write_endSector E s).overrun = s.overrun ∧
    (WD179X_Write_endSector E s).fdc_dataindex = s.fdc_dataindex := by
  unfold WD179X_Write_endSector
  generalize (floorlog2 s.fdc_dataindex + 256 - 7) % 256 = n
  by_cases c1 : invalidSecLen n <;>
    by_cases c2 : s.fdc_fmt_sector_count ≥ WD179X_MAX_SECTOR <;>
    simp only [c1, if_true, if_false] <;>
    simp only [c2, if_true, if_false] <;>
    simp only [clearGap] <;>
    split_ifs <;>
    (try simp only [setDrive, raiseInterrupt_intvector, raiseInterrupt_overrun,
      raiseInterrupt_fdc_dataindex, trackWrite_intvector, trackWrite_overrun,
      trackWrite_fdc_dataindex]) <;>
    first
      | exact ⟨rfl, rfl, rfl⟩
      | exact ⟨trivial, trivial, trivial⟩

/-- The format state machine: in the state DATA a byte other than 0xF7 is stored at the index
and the index advances; the flag `overrun` stays clear only if the index was inside the
buffer. -/
theorem Write_track_safe (E : Env Img) (b : Nat) (s : WD179X_INFO Img) :
    safeKeeps s (WD179X_Write_track E b s) := by
  have hc := Write_track_cursor E b s
  unfold WD179X_Write_track at hc ⊢
  by_cases h0 : s.fdc_write_track = TRUE
  · rw [if_pos h0] at hc ⊢
    by_cases h1 : s.fdc_fmt_state = FMT_GAP1
    · rw [if_pos h1] at hc ⊢
      split_ifs at hc ⊢ <;> exact safeKeeps_of s _ rfl rfl hc (Or.inl (Nat.le_refl _))
    · rw [if_neg h1] at hc ⊢
      by_cases h2 : s.fdc_fmt_state = FMT_GAP2
      · rw [if_pos h2] at hc ⊢
        split_ifs at hc ⊢ <;> exact safeKeeps_of s _ rfl rfl hc (Or.inl (Nat.le_refl _))
      · rw [if_neg h2] at hc ⊢
        by_cases h3 : s.fdc_fmt_state = FMT_HEADER
        · rw [if_pos h3] at hc ⊢
          dsimp only at hc ⊢
          split_ifs at hc ⊢ <;> exact safeKeeps_of s _ rfl rfl hc (Or.inl (Nat.le_refl _))
        · rw [if_neg h3] at hc ⊢
          by_cases h4 : s.fdc_fmt_state = FMT_GAP3
          · rw [if_pos h4] at hc ⊢
            split_ifs at hc ⊢
            · exact safeKeeps_of s _ rfl rfl hc (Or.inl (Nat.le_refl _))
            · exact safeKeeps_of s _ rfl rfl hc (Or.inl (Nat.zero_le _))
          · rw [if_neg h4] at hc ⊢
            by_cases h5 : s.fdc_fmt_state = FMT_DATA
            · rw [if_pos h5] at hc ⊢
              by_cases h6 : b ≠ 0xF7
              · rw [if_pos h6] at hc ⊢
                refine ⟨fun h => ?_, fun ht hs => ⟨hc hs.1, ?_, hs.2.2⟩⟩
                · show (s.overrun || decide (WD179X_SECTOR_LEN ≤ s.fdc_dataindex)) = true
                  rw [h]; rfl
                · have ht2 : (s.overrun || decide (WD179X_SECTOR_LEN ≤ s.fdc_dataindex))
                      = false := ht
                  rw [Bool.or_eq_false_iff] at ht2
                  have hlt : ¬ WD179X_SECTOR_LEN ≤ s.fdc_dataindex := of_decide_eq_false ht2.2
                  show (s.fdc_dataindex + 1) % 65536 ≤ WD179X_SECTOR_LEN
                  unfold WD179X_SECTOR_LEN at hlt ⊢
                  omega
              · rw [if_neg h6] at hc ⊢
                obtain ⟨f1, f2, f3⟩ := endSector_safe_fields E s
                exact safeKeeps_of s _ f1 f2 hc (Or.inl (le_of_eq f3))
            · rw [if_neg h5] at hc ⊢; exact safeKeeps_refl s
  · rw [if_neg h0] at hc ⊢; exact safeKeeps_refl s

theorem exec_typeI_intvector (E : Env Img) (c : Nat) (s : WD179X_INFO Img)
    (hc : isTypeI c) : (Do1793Command_exec E c s).2.intvector = s.intvector := by
  unfold isTypeI at hc
  unfold Do1793Command_exec
  rcases hc with h | h | h | h | h | h | h | h <;>
    (rw [h]; simp [WD179X_RESTORE, WD179X_SEEK, WD179X_STEP, WD179X_STEP_U, WD179X_STEP_IN,
      WD179X_STEP_IN_U, WD179X_STEP_OUT, WD179X_STEP_OUT_U, setTrack, setDrive];
     all_goals (split_ifs <;> rfl))

theorem exec_typeI_overrun (E : Env Img) (c : Nat) (s : WD179X_INFO Img)
    (hc : isTypeI c) : (Do1793Command_exec E c s).2.overrun = s.overrun := by
  unfold isTypeI at hc
  unfold Do1793Command_exec
  rcases hc with h | h | h | h | h | h | h | h <;>
    (rw [h]; simp [WD179X_RESTORE, WD179X_SEEK, WD179X_STEP, WD179X_STEP_U, WD179X_STEP_IN,
      WD179X_STEP_IN_U, WD179X_STEP_OUT, WD179X_STEP_OUT_U, setTrack, setDrive];
     all_goals (split_ifs <;> rfl))

theorem read_safe (E : Env Img) (c : Nat) (s : WD179X_INFO Img) :
    safeKeeps s (Do1793Command_read E c s).2 := by
  by_cases hn : invalidSecLen (computeSectorSize E s)
  · rw [read_invalid E c s hn]
    exact safeKeeps_of s _ rfl rfl (fun hs => ⟨Nat.zero_le _, hs.2.1, hs.2.2⟩)
      (Or.inl (Nat.le_refl _))
  by_cases hm : testMode E s ≠ 0
  · rw [read_mismatch E c s hn hm]
    exact safeKeeps_of s _ rfl rfl (fun hs => ⟨le_of_not_invalid _ hn, hs.2.1, hs.2.2⟩)
      (Or.inl (Nat.le_refl _))
  · rw [read_fetch E c s hn (not_not.mp hm)]
    refine safeKeeps_trans ?_ (sectRead_safe E _ _ _ _ _)
    exact safeKeeps_of s _ rfl rfl (fun hs => ⟨le_of_not_invalid _ hn, hs.2.1, hs.2.2⟩)
      (Or.inl (Nat.le_refl _))

theorem write_safe (E : Env Img) (s : WD179X_INFO Img) :
    safeKeeps s (Do1793Command_write E s) := by
  have hc := write_cursor E s
  by_cases h : s.external_fifo_len = 0
  · rw [write_noFifo E s h] at hc ⊢
    exact safeKeeps_of s _ rfl rfl (fun _ => hc) (Or.inl (Nat.zero_le _))
  · have f : (Do1793Command_write E s).intvector = s.intvector ∧
        (Do1793Command_write E s).overrun = s.overrun ∧
        (Do1793Command_write E s).fdc_dataindex = 0 := by
      unfold Do1793Command_write
      dsimp only
      by_cases hn : invalidSecLen (computeSectorSize E s)
      · simp only [if_pos hn, if_pos h]
        simp only [sectWrite_intvector, sectWrite_overrun, sectWrite_fdc_dataindex,
          raiseInterrupt_intvector, raiseInterrupt_overrun, raiseInterrupt_fdc_dataindex]
        first
          | exact ⟨rfl, rfl, rfl⟩
          | exact ⟨trivial, trivial, trivial⟩
      · simp only [if_neg hn, if_pos h]
        simp only [sectWrite_intvector, sectWrite_overrun, sectWrite_fdc_dataindex,
          raiseInterrupt_intvector, raiseInterrupt_overrun, raiseInterrupt_fdc_dataindex]
        first
          | exact ⟨rfl, rfl, rfl⟩
          | exact ⟨trivial, trivial, trivial⟩
    exact safeKeeps_of s _ f.1 f.2.1 (fun _ => hc) (Or.inl (by rw [f.2.2]; exact Nat.zero_le _))

theorem readAddr_safe (E : Env Img) (s : WD179X_INFO Img) :
    safeKeeps s (Do1793Command_readAddr E s) := by
  have hc := readAddr_cursor E s
  have f : (Do1793Command_readAddr E s).intvector = s.intvector ∧
      (Do1793Command_readAddr E s).overrun = s.overrun := by
    unfold Do1793Command_readAddr
    generalize hg : (if (pDrive s).track = 0xFF then setTrack s 0 else s) = s1
    have g1 : s1.intvector = s.intvector := by rw [← hg]; split_ifs <;> rfl
    have g2 : s1.overrun = s.overrun := by rw [← hg]; split_ifs <;> rfl
    clear hg
    dsimp only
    by_cases hn : invalidSecLen (computeSectorSize E s1)
    · rw [if_pos hn]
      split_ifs <;> exact ⟨g1, g2⟩
    · rw [if_neg hn]
      split_ifs <;> exact ⟨g1, g2⟩
  obtain ⟨-, -, -, f4⟩ := readAddr_fields E s
  refine safeKeeps_of s _ f.1 f.2 hc ?_
  rcases f4 with ⟨-, b⟩ | ⟨-, b⟩
  · exact Or.inl (le_of_eq b)
  · exact Or.inl (by rw [b]; exact Nat.zero_le _)

theorem forceIntr_safe (E : Env Img) (c : Nat) (s : WD179X_INFO Img) :
    safeKeeps s (Do1793Command_forceIntr E c s) := by
  have hc := forceIntr_cursor E c s
  unfold Do1793Command_forceIntr at hc ⊢
  by_cases h0 : c &&& 0x0F = 0
  · rw [if_pos h0] at hc ⊢
    exact safeKeeps_of s _ rfl rfl hc (Or.inl (Nat.zero_le _))
  · rw [if_neg h0] at hc ⊢
    dsimp only at hc ⊢
    split_ifs at hc ⊢ <;>
      first
        | exact safeKeeps_of s _ rfl rfl hc (Or.inl (Nat.le_refl _))
        | exact safeKeeps_of s _ (raiseInterrupt_intvector _) (raiseInterrupt_overrun _) hc
            (Or.inl (le_of_eq (raiseInterrupt_fdc_dataindex _)))

/-- The execution stage of a command. -/
theorem exec_safe (E : Env Img) (c : Nat) (s : WD179X_INFO Img) :
    safeKeeps s (Do1793Command_exec E c s).2 := by
  by_cases h1 : isTypeI c
  · exact safeKeeps_of s _ (exec_typeI_intvector E c s h1) (exec_typeI_overrun E c s h1)
      (fun hs => cursorInv_of_eq s _ (exec_typeI_fdc_sec_len E c s h1)
        (exec_typeI_fdc_datacount E c s h1) (exec_typeI_fdc_dataindex E c s h1)
        (exec_typeI_fdc_write_track E c s h1) hs)
      (Or.inl (le_of_eq (exec_typeI_fdc_dataindex E c s h1)))
  by_cases hr : c &&& 0xF0 = WD179X_READ_REC ∨ c &&& 0xF0 = WD179X_READ_RECS
  · rw [exec_read E c s hr]; exact read_safe E c s
  by_cases hw : c &&& 0xF0 = WD179X_WRITE_REC
  · rw [exec_writeRec E c s hw]; exact write_safe E s
  by_cases hu : c &&& 0xF0 = WD179X_WRITE_RECS ∨ c &&& 0xF0 = WD179X_READ_TRACK
  · rw [exec_unimplemented E c s hu]; exact safeKeeps_refl s
  by_cases ha : c &&& 0xF0 = WD179X_READ_ADDR
  · rw [exec_readAddr E c s ha]; exact readAddr_safe E s
  by_cases ht : c &&& 0xF0 = WD179X_WRITE_TRACK
  · rw [exec_writeTrack E c s ht]
    exact safeKeeps_of s _ rfl rfl (writeTrack_cursor s) (Or.inl (Nat.zero_le _))
  by_cases hf : c &&& 0xF0 = WD179X_FORCE_INTR
  · rw [exec_forceIntr E c s hf]; exact forceIntr_safe E c s
  rw [exec_other E c s h1 (by unfold isTypeII; tauto) (by unfold isTypeIII; tauto) hf]
  exact safeKeeps_refl s

/-- The command handler. -/
theorem Do1793Command_safe (E : Env Img) (c : Nat) (s : WD179X_INFO Img) :
    safeKeeps s (Do1793Command E c s).2 := by
  by_cases hi : idle s
  · rw [Do1793Command_idle E c s hi]
    have h1 : safeKeeps s (Do1793Command_setup c
        { s with fdc_status := s.fdc_status &&& (0xFF - WD179X_STAT_NOT_READY) }) :=
      safeKeeps_of s _ (setup_intvector c _) (setup_overrun c _)
        (fun hs => cursorInv_of_eq s _ (setup_fdc_sec_len c _) (setup_fdc_datacount c _)
          (setup_fdc_dataindex c _) (setup_fdc_write_track c _) hs)
        (Or.inl (le_of_eq (setup_fdc_dataindex c _)))
    have hx := safeKeeps_trans h1 (exec_safe E c _)
    split_ifs
    · exact safeKeeps_trans hx (safeKeeps_of _ _ (post_intvector E c _) (post_overrun E c _)
        (fun hs => cursorInv_of_eq _ _ (post_fdc_sec_len E c _) (post_fdc_datacount E c _)
          (post_fdc_dataindex E c _) (post_fdc_write_track E c _) hs)
        (Or.inl (le_of_eq (post_fdc_dataindex E c _))))
    · exact hx
  · unfold Do1793Command
    by_cases h1 : s.sel_drive ≥ WD179X_MAX_DRIVES
    · rw [if_pos h1]; exact safeKeeps_refl s
    rw [if_neg h1]
    by_cases h2 : (pDrive s).uptr = false
    · rw [if_pos h2]; exact safeKeeps_refl s
    rw [if_neg h2]
    by_cases h3 : s.fdc_status &&& WD179X_STAT_BUSY ≠ 0
    · rw [if_pos h3]; exact safeKeeps_refl s
    exact absurd ⟨⟨by omega, by simpa using h2⟩, not_not.mp h3⟩ hi

theorem Write_clear_safe (s : WD179X_INFO Img) : safeKeeps s (WD179X_Write_clear s) := by
  obtain ⟨_, _, f3, _, _, _, _, _⟩ := Write_clear_fields s
  refine safeKeeps_of s _ ?_ ?_ (Write_clear_cursor s) (Or.inl (by rw [f3]; exact Nat.zero_le _))
  · unfold WD179X_Write_clear; rw [raiseInterrupt_intvector]
  · unfold WD179X_Write_clear; rw [raiseInterrupt_overrun]

theorem Write_safe (E : Env Img) (Addr cData : Nat) (s : WD179X_INFO Img) :
    safeKeeps s (WD179X_Write E Addr cData s).2 := by
  unfold WD179X_Write
  by_cases hsel : s.sel_drive ≥ WD179X_MAX_DRIVES
  · rw [if_pos hsel]; exact safeKeeps_refl s
  rw [if_neg hsel]
  by_cases hu : (pDrive s).uptr = false
  · rw [if_pos hu]; exact safeKeeps_refl s
  rw [if_neg hu]
  by_cases h0 : Addr &&& 0x3 = WD179X_STATUS
  · rw [if_pos h0]
    exact safeKeeps_trans (Write_clear_safe s) (Do1793Command_safe E cData _)
  rw [if_neg h0]
  by_cases h1 : Addr &&& 0x3 = WD179X_TRACK
  · rw [if_pos h1]
    exact safeKeeps_of s _ rfl rfl (fun hs => cursorInv_of_eq s _ rfl rfl rfl rfl hs)
      (Or.inl (Nat.le_refl _))
  rw [if_neg h1]
  by_cases h2 : Addr &&& 0x3 = WD179X_SECTOR
  · rw [if_pos h2]
    exact safeKeeps_of s _ rfl rfl (fun hs => cursorInv_of_eq s _ rfl rfl rfl rfl hs)
      (Or.inl (Nat.le_refl _))
  rw [if_neg h2]
  by_cases h3 : Addr &&& 0x3 = WD179X_DATA
  · rw [if_pos h3]
    exact safeKeeps_trans (Write_sector_safe E cData s)
      (safeKeeps_trans (Write_track_safe E cData _)
        (safeKeeps_of _ _ rfl rfl (fun hs => cursorInv_of_eq _ _ rfl rfl rfl rfl hs)
          (Or.inl (Nat.le_refl _))))
  · rw [if_neg h3]; exact safeKeeps_refl s

theorem portStep_safe (E : Env Img) (op : PortOp) (s : WD179X_INFO Img) :
    safeKeeps s (portStep E op s) := by
  cases op with
  | read Addr => exact Read_safe E Addr s
  | write Addr cData => exact Write_safe E Addr cData s

/-- Every sequence of port operations: a store past the end of the sector buffer stays
recorded, and unless one is recorded at the end the invariant `safeInv` is kept. -/
theorem runPorts_safe (E : Env Img) (ops : List PortOp) (s : WD179X_INFO Img) :
    safeKeeps s (runPorts E ops s) := by
  induction ops generalizing s with
  | nil => exact safeKeeps_refl s
  | cons op ops ih => exact safeKeeps_trans (portStep_safe E op s) (ih _)

/-- A format data byte written when the index stands at the end of the sector buffer, or
beyond it, is stored outside the buffer. -/
theorem fmt_step_overrun (E : Env Img) (b : Nat) (s : WD179X_INFO Img) (h : fmtMode s)
    (hst : s.fdc_fmt_state = FMT_DATA) (hb : b ≠ 0xF7)
    (hi : WD179X_SECTOR_LEN ≤ s.fdc_dataindex) :
    (WD179X_Write E WD179X_DATA b s).2.overrun = true := by
  rw [fmt_step E _ s h]
  unfold WD179X_Write_track
  rw [if_pos h.2.2, if_neg (by rw [hst]; decide), if_neg (by rw [hst]; decide),
    if_neg (by rw [hst]; decide), if_neg (by rw [hst]; decide), if_pos hst, if_pos hb]
  show (s.overrun || decide (WD179X_SECTOR_LEN ≤ s.fdc_dataindex)) = true
  rw [decide_eq_true hi, Bool.or_true]

/-- The store past the buffer can be reached from the port interface: on the demo machine in
the format state DATA (after WRITE_TRACK, 0xFC, 0xFE, the ID field, a gap byte and 0xFB), the
last of 8193 data bytes is stored outside the buffer. -/
theorem format_overrun_reachable :
    (dataWrites demoEnv (List.replicate 8192 0xE5 ++ [0xE5]) (fmtDataState 0)).overrun
      = true := by
  have hm : fmtMode (fmtDataState 0) := by decide
  have hst : (fmtDataState 0).fdc_fmt_state = FMT_DATA := by decide
  have hidx : (fmtDataState 0).fdc_dataindex = 0 := by decide
  obtain ⟨d, h⟩ := fmt_data demoEnv (List.replicate 8192 0xE5) (fmtDataState 0) hm hst
    (fun b hb => by rw [List.eq_of_mem_replicate hb]; decide)
    (by rw [hidx, List.length_replicate]; decide)
  rw [dataWrites_app, h]
  exact fmt_step_overrun demoEnv 0xE5 _ hm hst (by decide)
    (by
      show WD179X_SECTOR_LEN ≤ (fmtDataState 0).fdc_dataindex + (List.replicate 8192 0xE5).length
      rw [hidx, List.length_replicate]; decide)

/-- A run of port operations that starts in a state satisfying `safeInv` and ends with no
store past the sector buffer recorded: the invariant holds at the end, together with what
every port operation keeps. -/
theorem runPorts_defined (E : Env Img) (ops : List PortOp) (s0 : WD179X_INFO Img)
    (h0 : safeInv s0) (hr : (runPorts E ops s0).overrun = false) :
    safeInv (runPorts E ops s0) ∧ portKeeps s0 (runPorts E ops s0) :=
  ⟨(runPorts_safe E ops s0).2 hr h0, runPorts_keeps E ops s0⟩

/-- C24 (amended): in every state reached from a state that satisfies the invariant (the
initial controller state does) by a sequence of port reads and writes in which no format data
byte was stored past the end of the sector buffer, the sector-length code is at most 6,
`data_count` is at most 8192, the size of the sector buffer, `data_index` is at most 8192,
and outside format mode (`fdc_write_track` not set) `data_index <= data_count`; the interrupt
vector, which no port operation assigns, is below 31 as at the start. -/
theorem C24_cursor_invariant (E : Env Img) (s0 : WD179X_INFO Img) (ops : List PortOp)
    (h0 : safeInv s0) (hr : (runPorts E ops s0).overrun = false) :
    (runPorts E ops s0).fdc_sec_len ≤ WD179X_MAX_SEC_LEN ∧
    (runPorts E ops s0).fdc_datacount ≤ WD179X_SECTOR_LEN ∧
    (runPorts E ops s0).fdc_dataindex ≤ WD179X_SECTOR_LEN ∧
    ((runPorts E ops s0).fdc_write_track ≠ TRUE →
      (runPorts E ops s0).fdc_dataindex ≤ (runPorts E ops s0).fdc_datacount) ∧
    (runPorts E ops s0).intvector < 31 := by
  obtain ⟨⟨c1, c2, c3⟩, c4, c5⟩ := (runPorts_defined E ops s0 h0 hr).1
  exact ⟨c1, le_trans c2 (by decide), c4, c3, c5⟩

/-- C24 on the demo machine: READ_REC of sector 1 followed by a read of the Status port and
two reads of the Data port, and the first 40 port writes of the format of a sector, which
leave the controller in format mode with 30 data bytes stored. -/
theorem C24_witness :
    safeInv wd179x_info_data ∧ safeInv demoState ∧
    (runPorts demoEnv [PortOp.write WD179X_SECTOR 1, PortOp.write WD179X_STATUS 0x80,
        PortOp.read WD179X_STATUS, PortOp.read WD179X_DATA, PortOp.read WD179X_DATA]
      demoState).fdc_dataindex ≤
    (runPorts demoEnv [PortOp.write WD179X_SECTOR 1, PortOp.write WD179X_STATUS 0x80,
        PortOp.read WD179X_STATUS, PortOp.read WD179X_DATA, PortOp.read WD179X_DATA]
      demoState).fdc_datacount ∧
    (runPorts demoEnv (formatOps.take 40) demoState).fdc_write_track = TRUE ∧
    (runPorts demoEnv (formatOps.take 40) demoState).overrun = false ∧
    (runPorts demoEnv (formatOps.take 40) demoState).fdc_dataindex ≤ WD179X_SECTOR_LEN :=
  ⟨by decide, by decide,
   (C24_cursor_invariant demoEnv demoState [PortOp.write WD179X_SECTOR 1,
      PortOp.write WD179X_STATUS 0x80, PortOp.read WD179X_STATUS, PortOp.read WD179X_DATA,
      PortOp.read WD179X_DATA] (by decide) (by decide)).2.2.2.1 (by decide),
   by decide, by decide,
   (C24_cursor_invariant demoEnv demoState (formatOps.take 40) (by decide)
      (by decide)).2.2.1⟩

end WD179X

namespace RP15

/-! ## The disk address written back by `rp_svc` -/

theorem pack_eq (cyl surf sect : Nat) (h1 : surf < 32) (h2 : sect < 32) :
    (cyl <<< 10) ||| (surf <<< 5) ||| (sect <<< 0) = cyl * 1024 + surf * 32 + sect := by
  have e1 : 2 ^ 5 * surf + sect = 2 ^ 5 * surf ||| sect := Nat.mul_add_lt_is_or h2 surf
  have e2 : 2 ^ 10 * cyl + (2 ^ 5 * surf + sect) = 2 ^ 10 * cyl ||| (2 ^ 5 * surf + sect) :=
    Nat.mul_add_lt_is_or (by omega) cyl
  rw [Nat.shiftLeft_zero, Nat.or_assoc, Nat.shiftLeft_eq, Nat.shiftLeft_eq,
    Nat.mul_comm cyl, Nat.mul_comm surf, ← e1, ← e2]
  omega

theorem unpack (cyl surf sect : Nat) (h0 : cyl < 256) (h1 : surf < 32) (h2 : sect < 16) :
    GET_SECT (cyl * 1024 + surf * 32 + sect) = sect ∧
    GET_SURF (cyl * 1024 + surf * 32 + sect) = surf ∧
    GET_CYL (cyl * 1024 + surf * 32 + sect) = cyl := by
  unfold GET_SECT GET_SURF GET_CYL DA_V_SECT DA_V_SURF DA_V_CYL DA_M_SECT DA_M_SURF DA_M_CYL
  have m4 : ∀ x : Nat, x &&& 0o17 = x % 2 ^ 4 := fun x => Nat.and_pow_two_sub_one_eq_mod x 4
  have m5 : ∀ x : Nat, x &&& 0o37 = x % 2 ^ 5 := fun x => Nat.and_pow_two_sub_one_eq_mod x 5
  have m8 : ∀ x : Nat, x &&& 0o377 = x % 2 ^ 8 := fun x => Nat.and_pow_two_sub_one_eq_mod x 8
  rw [m4, m5, m8]
  simp only [Nat.shiftRight_eq_div_pow, Nat.reducePow, Nat.pow_zero, Nat.div_one]
  omega

/-- The fields that `rp_svc` encodes for the final sector number `d`. -/
theorem rp_svc_fields (d : Nat) :
    GET_SECT (rp_svc_rp_da d) = d % 10 ∧
    GET_SURF (rp_svc_rp_da d) = d % 200 / 10 ∧
    GET_CYL (rp_svc_rp_da d) = (if d / 200 ≥ 203 then 202 else d / 200) := by
  have hs : d % 200 / 10 < 32 := by omega
  have ht : d % 200 % 10 < 16 := by omega
  have hc : (if d / 200 ≥ 203 then 202 else d / 200) < 256 := by split_ifs <;> omega
  have e : rp_svc_rp_da d
      = (if d / 200 ≥ 203 then 202 else d / 200) * 1024 + d % 200 / 10 * 32 + d % 200 % 10 := by
    unfold rp_svc_rp_da RP_NUMSC RP_NUMSF RP_NUMCY DA_V_CYL DA_V_SURF DA_V_SECT
    exact pack_eq _ _ _ hs (by omega)
  obtain ⟨u1, u2, u3⟩ := unpack _ _ _ hc hs ht
  rw [e, u1, u2, u3]
  exact ⟨by omega, rfl, rfl⟩

/-- C39: the disk address written back by `rp_svc` at the end of a data transfer is valid for
every final sector number `d`: sector < 10, surface < 20 and cylinder <= 202, so that none of
the tests for NXS, NXF, NXC fires on it; and for `d < 203*20*10` the macro `GET_DA` gives `d`
back. -/
theorem C39_rp_da_round_trip (d : Nat) :
    GET_SECT (rp_svc_rp_da d) < RP_NUMSC ∧
    GET_SURF (rp_svc_rp_da d) < RP_NUMSF ∧
    GET_CYL (rp_svc_rp_da d) ≤ 202 ∧
    ¬ GET_SECT (rp_svc_rp_da d) ≥ RP_NUMSC ∧
    ¬ GET_SURF (rp_svc_rp_da d) ≥ RP_NUMSF ∧
    ¬ GET_CYL (rp_svc_rp_da d) ≥ RP_NUMCY ∧
    (d < RP_NUMCY * RP_NUMSF * RP_NUMSC → GET_DA (rp_svc_rp_da d) = d) := by
  obtain ⟨f1, f2, f3⟩ := rp_svc_fields d
  unfold GET_DA
  rw [f1, f2, f3]
  unfold RP_NUMSC RP_NUMSF RP_NUMCY
  have hc : (if d / 200 ≥ 203 then 202 else d / 200) ≤ 202 := by split_ifs <;> omega
  refine ⟨by omega, by omega, hc, by omega, by omega, by omega, fun hd => ?_⟩
  rw [if_neg (by omega)]
  omega

/-- Instance of C39: the sector number 12345 (cylinder 61, surface 14, sector 5) is encoded
as a valid address that decodes to 12345 again. -/
theorem C39_witness :
    GET_CYL (rp_svc_rp_da 12345) ≤ 202 ∧ GET_DA (rp_svc_rp_da 12345) = 12345 :=
  ⟨(C39_rp_da_round_trip 12345).2.2.1, (C39_rp_da_round_trip 12345).2.2.2.2.2.2 (by decide)⟩

end RP15
